import Mathlib

/-!
# Verification of the kmeans-gpu color quantization engine

Shallow embedding of the CPU-side code of the `kmeans-gpu` repository
(octree palette reducer, resize dimension computation, bytes-per-row
padding, CLI validation and palette parsing, image pixel addressing, and
the host-side Lloyd-loop orchestration of `ChooseCentroidModule::compute`),
together with proofs and refutations of the specification claims.

Machine integers are modelled as `Nat`, with an explicit `% 2^w` at the
places where the source can overflow (`u32` pixel indexing) and truncated
`Nat` subtraction where the source cannot underflow on the inputs of
interest; each such spot is noted next to its definition.
-/

namespace KmeansGpu

/-- An RGBA pixel: four 8-bit channels, as in `rgb::RGBA8` / `[u8; 4]`. -/
structure Pixel where
  r : Nat
  g : Nat
  b : Nat
  a : Nat
  deriving DecidableEq, Repr

/-! ## `src/core/src/utils.rs` -/

/-- Embeds `padded_bytes_per_row` (src/core/src/utils.rs):
`let padding = (256 - bytes_per_row % 256) % 256; bytes_per_row + padding`.
The source computes in `u64`; on every input reachable from a `u32` width
(`bytes_per_row = 4·W ≤ 2^34`) no overflow occurs, so plain `Nat`
arithmetic coincides.  `256 - bytes_per_row % 256` never underflows since
`bytes_per_row % 256 < 256`. -/
def padded_bytes_per_row (bytes_per_row : Nat) : Nat :=
  let padding := (256 - bytes_per_row % 256) % 256
  bytes_per_row + padding

/-! ## `src/core/src/image.rs` -/

/-- Embeds `Image::get_pixel` (src/core/src/image.rs):
`let index = (x + y * self.dimensions.0) as usize; &self.rgba[index]`.
`x`, `y` and the width are `u32`, so the index expression is computed
modulo `2^32` (release-mode wrapping semantics) before the `usize` cast.
The slice indexing panics when the index is out of range; we model the
panic as `none`. -/
def get_pixel (width : Nat) (rgba : List Pixel) (x y : Nat) : Option Pixel :=
  let index := (x + y * width) % 2 ^ 32
  rgba.get? index

/-! ## `src/core/src/structures.rs` : resize dimensions -/

/-- `const MAX_IMAGE_DIMENSION: u32 = 256;` (src/core/src/structures.rs). -/
def MAX_IMAGE_DIMENSION : Nat := 256

/-- Embeds the dimension computation of `InputTexture::resized`
(src/core/src/structures.rs):
```
let (new_width, new_height) = if width > height {
    (max_size, ((height as f32 * max_size as f32 / width as f32) as u32).max(1))
} else {
    (((width as f32 * max_size as f32 / height as f32) as u32).max(1), max_size)
};
```
The source truncates an `f32` quotient; we model the truncation as the
rational floor `(side * max_size) / larger`.  For dimensions up to 4096
the two coincide: the product is exact in `f32` and the correctly rounded
quotient lies within half an ulp (< 1/larger) of the rational value, so
truncation cannot cross an integer. -/
def resizedDims (maxSize width height : Nat) : Nat × Nat :=
  if width > height then
    (maxSize, max (height * maxSize / width) 1)
  else
    (max (width * maxSize / height) 1, maxSize)

/-- Embeds `InputTexture::shrunk` (src/core/src/structures.rs):
returns the resized dimensions when either side exceeds
`MAX_IMAGE_DIMENSION = 256`, and `none` (no shrink) otherwise. -/
def shrunkDims (width height : Nat) : Option (Nat × Nat) :=
  if width > MAX_IMAGE_DIMENSION ∨ height > MAX_IMAGE_DIMENSION then
    some (resizedDims MAX_IMAGE_DIMENSION width height)
  else
    none

/-- Modelled from the spec: the octree palette operation of the latest
library revision (its `lib.rs` is not present under `src/`; only
`extract_palette_octree` in src/core/src/operations.rs is, which receives
already-downsampled pixels).  Spec §4.4 and §4.11: "forced downsample to
128×128 for octree ingest" / "`algo=Octree` → Resize to 128px if needed →
OctreePalette"; the resize itself is `InputTexture::resized` with max
size 128. -/
def octreeIngestDims (width height : Nat) : Nat × Nat :=
  if width > 128 ∨ height > 128 then resizedDims 128 width height
  else (width, height)

/-! ## `src/core/src/octree.rs` : the CPU octree palette reducer

The Rust code keeps the nodes in an arena `Vec<Rc<RefCell<Node>>>` and
lets the work queue share the arena's cells.  We model the arena as its
length together with an index-to-node map (a functional heap), and the
queue as a list of node ids; every queue access goes through the current
arena, which models the `Rc<RefCell<_>>` sharing. -/

/-- `const MAX_DEPTH: u8 = 8;` -/
def MAX_DEPTH : Nat := 8

/-- Embeds `get_color_index`: one bit per channel at `mask = 0x80 >> level`. -/
def get_color_index (color : Pixel) (level : Nat) : Nat :=
  let mask := 128 >>> level
  (if color.r &&& mask > 0 then 4 else 0) |||
    ((if color.g &&& mask > 0 then 2 else 0) |||
      (if color.b &&& mask > 0 then 1 else 0))

/-- Embeds `ColorAccumulator { pixel_count, r, g, b }` (all `u64`; no
overflow is reachable: at most `2^32` pixels of value `≤ 255`). -/
structure ColorAccumulator where
  pixelCount : Nat
  r : Nat
  g : Nat
  b : Nat
  deriving DecidableEq, Repr

/-- `ColorAccumulator::new()`. -/
def ColorAccumulator.new : ColorAccumulator := ⟨0, 0, 0, 0⟩

/-- `AddAssign<&[u8; 4]>`: add one pixel. -/
def ColorAccumulator.addPixel (acc : ColorAccumulator) (p : Pixel) : ColorAccumulator :=
  ⟨acc.pixelCount + 1, acc.r + p.r, acc.g + p.g, acc.b + p.b⟩

/-- `AddAssign` of two accumulators. -/
def ColorAccumulator.add (a b : ColorAccumulator) : ColorAccumulator :=
  ⟨a.pixelCount + b.pixelCount, a.r + b.r, a.g + b.g, a.b + b.b⟩

/-- `output_color`: channel-wise `sum / count` plus opaque alpha.  Rust's
`as u8` truncation is the `% 256`; `u64` division by a zero count would
panic, while `Nat` division yields `0` — unreachable for palette output,
every emitted node having `pixel_count > 0`. -/
def ColorAccumulator.output_color (acc : ColorAccumulator) : Pixel :=
  ⟨acc.r / acc.pixelCount % 256, acc.g / acc.pixelCount % 256,
    acc.b / acc.pixelCount % 256, 255⟩

/-- Embeds `Node` (arena ids instead of `Rc` pointers; `NodeId` is `Nat`). -/
structure Node where
  level : Nat
  nodeId : Nat
  colorIndex : Nat
  parent : Option Nat
  children : List (Option Nat)
  childCount : Nat
  accumulator : ColorAccumulator
  deriving DecidableEq, Repr

/-- `Node::root(node_id)`. -/
def Node.root (nodeId : Nat) : Node :=
  ⟨0, nodeId, 0, none, List.replicate 8 none, 0, ColorAccumulator.new⟩

/-- `Node::with_parent(node_id, parent_node_id, color_index, level)`. -/
def Node.with_parent (nodeId parentNodeId colorIndex level : Nat) : Node :=
  ⟨level, nodeId, colorIndex, some parentNodeId, List.replicate 8 none, 0,
    ColorAccumulator.new⟩

/-- A persistent binary trie over `Nat` keys (key `0` at the root, key
`k+1` descending left for even `k` and right for odd `k`, with the
remaining key `k/2`).  It backs the node arena as a functional heap. -/
inductive NodeMap where
  | leaf
  | branch (l : NodeMap) (v : Option Node) (r : NodeMap)
  deriving DecidableEq

/-- Trie lookup; the structural fuel only needs to exceed the key (the
path has logarithmic length), so the wrapper `NodeMap.get` below is
total and fuel-independent. -/
def NodeMap.getOAux : Nat → NodeMap → Nat → Option Node
  | 0, _, _ => none
  | _ + 1, .leaf, _ => none
  | _ + 1, .branch _ v _, 0 => v
  | fuel + 1, .branch l _ r, k + 1 =>
      if k % 2 = 0 then NodeMap.getOAux fuel l (k / 2)
      else NodeMap.getOAux fuel r (k / 2)

/-- Trie update (see `NodeMap.getOAux` for the fuel convention). -/
def NodeMap.setOAux : Nat → NodeMap → Nat → Node → NodeMap
  | 0, t, _, _ => t
  | _ + 1, .leaf, 0, n => .branch .leaf (some n) .leaf
  | fuel + 1, .leaf, k + 1, n =>
      if k % 2 = 0 then .branch (NodeMap.setOAux fuel .leaf (k / 2) n) none .leaf
      else .branch .leaf none (NodeMap.setOAux fuel .leaf (k / 2) n)
  | _ + 1, .branch l _ r, 0, n => .branch l (some n) r
  | fuel + 1, .branch l v r, k + 1, n =>
      if k % 2 = 0 then .branch (NodeMap.setOAux fuel l (k / 2) n) v r
      else .branch l v (NodeMap.setOAux fuel r (k / 2) n)

/-- Total trie lookup. -/
def NodeMap.get (t : NodeMap) (k : Nat) : Option Node := NodeMap.getOAux (k + 1) t k

/-- Total trie update. -/
def NodeMap.set (t : NodeMap) (k : Nat) (n : Node) : NodeMap := NodeMap.setOAux (k + 1) t k n

/-- The node arena `Vec<Rc<RefCell<Node>>>`: a length and the cell
contents at each index below it, kept in a persistent trie. -/
structure NodeArena where
  length : Nat
  map : NodeMap
  deriving DecidableEq

/-- Arena read `self.nodes[i]`; the out-of-range default is unreachable
(all indices used by the code are in range, Rust would panic). -/
def getNode (a : NodeArena) (i : Nat) : Node :=
  if i < a.length then (a.map.get i).getD (Node.root 0) else Node.root 0

/-- Arena write through a `RefCell::borrow_mut`.  The cell is updated
unconditionally; an out-of-range write (which would panic in Rust and
never happens) is invisible through `getNode`, which masks indices
beyond `length`. -/
def modifyNode (a : NodeArena) (i : Nat) (f : Node → Node) : NodeArena :=
  ⟨a.length, a.map.set i (f (getNode a i))⟩

/-- `self.nodes.push(…)`. -/
def pushNode (a : NodeArena) (n : Node) : NodeArena :=
  ⟨a.length + 1, a.map.set a.length n⟩

/-- Child slot read `node.children[color_index]`. -/
def childSlot (a : NodeArena) (i ci : Nat) : Option Nat :=
  ((getNode a i).children.get? ci).getD none

/-- Embeds `ColorTree { nodes }`. -/
structure ColorTree where
  nodes : NodeArena
  deriving DecidableEq

/-- `ColorTree::new()`: a single root node. -/
def ColorTree.new : ColorTree := ⟨⟨1, NodeMap.set .leaf 0 (Node.root 0)⟩⟩

/-- One level of the `add_color` descent: create and link the child when
the slot is empty, then step into the slot's node. -/
def addColorStep (a : NodeArena) (rootId : Nat) (color : Pixel) (level : Nat) :
    NodeArena × Nat :=
  let colorIndex := get_color_index color level
  match childSlot a rootId colorIndex with
  | none =>
      let newNodeId := a.length
      let child := Node.with_parent newNodeId rootId colorIndex level
      let a :=
        modifyNode a rootId fun node =>
          { node with
            children := node.children.set colorIndex (some newNodeId)
            childCount := node.childCount + 1 }
      (pushNode a child, newNodeId)
  | some c => (a, c)

/-- The `while level < MAX_DEPTH` descent, as a recursion over the list
of remaining levels. -/
def addColorGo (a : NodeArena) (rootId : Nat) (color : Pixel) :
    List Nat → NodeArena × Nat
  | [] => (a, rootId)
  | level :: rest =>
      let next := addColorStep a rootId color level
      addColorGo next.1 next.2 color rest

/-- Embeds `ColorTree::add_color`: descend levels `0..8`, then
`accumulator += color` at the reached depth-8 node. -/
def ColorTree.add_color (t : ColorTree) (color : Pixel) : ColorTree :=
  let st := addColorGo t.nodes 0 color (List.range MAX_DEPTH)
  ⟨modifyNode st.1 st.2 fun node =>
      { node with accumulator := node.accumulator.addPixel color }⟩

/-- Builds a tree by inserting a pixel list in order (`for pixel in pixels`). -/
def buildTree (ps : List Pixel) : ColorTree :=
  ps.foldl ColorTree.add_color ColorTree.new

/-- Embeds `Node::partial_cmp` / `Ord::cmp` (`partial_cmp` never returns
`None`, so `unwrap_or(Equal)` is the inner value): equal node ids compare
`Equal`; otherwise `child_count`, then `pixel_count >> level`, then
`node_id`. -/
def cmpNode (a b : Node) : Ordering :=
  if a.nodeId = b.nodeId then .eq
  else
    match compare a.childCount b.childCount with
    | .eq =>
        match compare (a.accumulator.pixelCount >>> a.level)
            (b.accumulator.pixelCount >>> b.level) with
        | .eq => compare a.nodeId b.nodeId
        | ord => ord
    | ord => ord

/-- Stable insertion into a descending-sorted id list. -/
def insertDesc (a : NodeArena) (i : Nat) : List Nat → List Nat
  | [] => [i]
  | j :: js =>
      if cmpNode (getNode a i) (getNode a j) = .gt then i :: j :: js
      else j :: insertDesc a i js

/-- Stable sort of ids, descending under `cmpNode` through the arena.
The source uses `Vec::sort_by` (a stable mergesort); on inputs whose
elements are pairwise non-`Equal` — the case here, node ids being
distinct — every stable sort produces the same unique ordering, so a
stable insertion sort is observationally identical. -/
def sortDesc (a : NodeArena) : List Nat → List Nat
  | [] => []
  | i :: is => insertDesc a i (sortDesc a is)

/-- Result of `binary_search_by`: `Ok(i)` or `Err(i)`. -/
inductive SearchResult where
  | found (i : Nat)
  | notFound (i : Nat)
  deriving DecidableEq, Repr

/-- Embeds the slice `binary_search_by` loop (left/right bisection with
`mid = left + (right - left) / 2`).  The loop runs on the shrinking
interval `[left, right)`; the structural fuel bounds the interval length
(`right - left ≤ fuel` is invariant, so the fuel never runs out and the
recursion matches the source's `while` loop exactly).
`VecDeque::binary_search_by` delegates to this on its two internal
slices; on the sorted deques arising here the two are observationally
equal, the `Ok`/`Err` indices being unique. -/
def bsGo (q : List Nat) (f : Nat → Ordering) : Nat → Nat → Nat → SearchResult
  | 0, left, _ => .notFound left
  | fuel + 1, left, right =>
      if left < right then
        let mid := left + (right - left) / 2
        match f ((q.get? mid).getD 0) with
        | .lt => bsGo q f fuel (mid + 1) right
        | .gt => bsGo q f fuel left mid
        | .eq => .found mid
      else .notFound left

/-- `leaves.binary_search_by(f)`. -/
def binarySearchBy (q : List Nat) (f : Nat → Ordering) : SearchResult :=
  bsGo q f q.length 0 q.length

/-- `if let Ok(position) = … { leaves.remove(position) }`. -/
def eraseFound (q : List Nat) (r : SearchResult) : List Nat :=
  match r with
  | .found pos => q.eraseIdx pos
  | .notFound _ => q

/-- `if let Err(position) = … { leaves.insert(position, parent) }`. -/
def insertNotFound (q : List Nat) (r : SearchResult) (a : Nat) : List Nat :=
  match r with
  | .found _ => q
  | .notFound pos => q.insertIdx pos a

/-- The arena mutation of one merge: `parent.accumulator +=
node.accumulator; parent.child_count -= 1; parent.children[ci] = None;
node.parent = None`.  `child_count` is `u32` in the source; the
decrement cannot underflow in reachable states (the popped node is still
linked), so truncated `Nat` subtraction coincides. -/
def foldIntoParent (a : NodeArena) (nid parentId : Nat) : NodeArena :=
  let node := getNode a nid
  let a1 :=
    modifyNode a parentId fun p =>
      { p with
        accumulator := p.accumulator.add node.accumulator
        childCount := p.childCount - 1
        children := p.children.set node.colorIndex none }
  modifyNode a1 nid fun n => { n with parent := none }

/-- One iteration of the merging loop of `ColorTree::reduce`: pop the
back of the queue; if the popped node has a parent, remove the parent
from the queue when the first binary search finds it, apply
`foldIntoParent`, then re-insert the parent at the second binary
search's `Err` position.  (If the popped node were its own parent the
source would panic on a `RefCell` double borrow; that state is
unreachable, and the model just applies both writes in order.) -/
def reduceStep (a : NodeArena) (queue : List Nat) : NodeArena × List Nat :=
  let nid := (queue.getLast?).getD 0
  let q1 := queue.dropLast
  match (getNode a nid).parent with
  | none => (a, q1)
  | some parentId =>
      let q2 :=
        eraseFound q1
          (binarySearchBy q1 fun probe =>
            cmpNode (getNode a parentId) (getNode a probe))
      let a2 := foldIntoParent a nid parentId
      let q3 :=
        insertNotFound q2
          (binarySearchBy q2 fun probe =>
            cmpNode (getNode a2 parentId) (getNode a2 probe))
          parentId
      (a2, q3)

/-- The `while leaves.len() > color_count` loop, driven by fuel.  The
caller passes fuel `queue.length + countParents nodes`, which is shown
below to dominate the number of iterations, so the fuel never runs out
and the recursion matches the source's loop exactly. -/
def reduceLoopGo (colorCount : Nat) : Nat → NodeArena × List Nat → NodeArena × List Nat
  | 0, st => st
  | fuel + 1, st =>
      if colorCount < st.2.length then reduceLoopGo colorCount fuel (reduceStep st.1 st.2)
      else st

/-- Number of arena nodes below `n` still holding a parent link. -/
def countParentsAux (a : NodeArena) : Nat → Nat
  | 0 => 0
  | n + 1 => countParentsAux a n + (if (getNode a n).parent.isSome then 1 else 0)

/-- Number of arena nodes still holding a parent link. -/
def countParents (a : NodeArena) : Nat :=
  countParentsAux a a.length

/-- The initial work queue: ids of the nodes with `pixel_count > 0`, in
arena order, sorted descending (`sort_by(a.cmp(b).reverse())`). -/
def initQueue (a : NodeArena) : List Nat :=
  sortDesc a
    ((List.range a.length).filter fun i =>
      0 < (getNode a i).accumulator.pixelCount)

/-- Lexicographic `≤` on `[u8; 4]` (the derived `Ord` of the palette
entries sorted by `Vec::sort`). -/
def pixelLe (p q : Pixel) : Bool :=
  if p.r ≠ q.r then decide (p.r < q.r)
  else if p.g ≠ q.g then decide (p.g < q.g)
  else if p.b ≠ q.b then decide (p.b < q.b)
  else decide (p.a ≤ q.a)

/-- Stable insertion for `sortPixels`. -/
def insertPix (p : Pixel) : List Pixel → List Pixel
  | [] => [p]
  | q :: qs => if pixelLe p q then p :: q :: qs else q :: insertPix p qs

/-- `palette.sort()`: stable ascending sort under the derived `[u8; 4]`
order (as with `sortDesc`, any stable sort gives the same list). -/
def sortPixels : List Pixel → List Pixel
  | [] => []
  | p :: ps => insertPix p (sortPixels ps)

/-- Helper for `dedupPixels`, walking with the last kept element. -/
def dedupGo (prev : Pixel) : List Pixel → List Pixel
  | [] => []
  | q :: qs => if q = prev then dedupGo prev qs else q :: dedupGo q qs

/-- `palette.dedup()`: drop consecutive duplicates, keeping the first. -/
def dedupPixels : List Pixel → List Pixel
  | [] => []
  | p :: ps => p :: dedupGo p ps

/-- Embeds `ColorTree::reduce`: early-return for `color_count == 0`;
collect and sort the positive-count nodes; run the merging loop; map the
surviving queue through `output_color`; `sort()` and `dedup()`. -/
def ColorTree.reduce (t : ColorTree) (colorCount : Nat) : List Pixel :=
  if colorCount = 0 then []
  else
    let queue := initQueue t.nodes
    let fuel := queue.length + countParents t.nodes
    let st := reduceLoopGo colorCount fuel (t.nodes, queue)
    let palette := st.2.map fun i => (getNode st.1 i).accumulator.output_color
    dedupPixels (sortPixels palette)

/-! ## `src/cli/src/args.rs` : K validation -/

/-- Reduce modes, as in `ReduceMode` (src/cli/src/args.rs). -/
inductive ReduceMode where
  | replace
  | dither
  | meld
  deriving DecidableEq, Repr

/-- Embeds `validate_k` (src/cli/src/args.rs): the string is parsed as a
`u32` and accepted iff the parsed value is `k >= 1`.  We model the
already-parsed numeric value (`k < 2^32`); a parse failure yields the
same error as `k = 0`. -/
def validate_k (k : Nat) : Except String Nat :=
  if k ≥ 1 then .ok k
  else .error "k must be an integer higher than 0."

/-- Modelled from the spec: the `reduce` operation's K validation for the
mixing modes.  The latest library revision (`color_quantization_gpu`'s
`lib.rs`, absent from `src/`) is specified in §6 as "`reduce(K: u32≥1,
image, algo, mode)` — for Dither/Meld require K ≥ 2" and §7 lists
"K<1, K<2 for dither" as `InputError`.  The CLI layer itself
(src/cli/src/args.rs) only checks `k ≥ 1`. -/
def reduceValidateK (k : Nat) (mode : ReduceMode) : Except String Nat :=
  match validate_k k with
  | .error e => .error e
  | .ok k =>
    match mode with
    | .dither | .meld => if k ≥ 2 then .ok k else .error "k must be at least 2 for dither and meld."
    | .replace => .ok k

end KmeansGpu

namespace KmeansGpu

/-! ## Basic arena and list lemmas -/

theorem NodeMap.getOAux_fuel : ∀ (f1 : Nat), ∀ {f2 : Nat} (t : NodeMap) (k : Nat),
    k < f1 → k < f2 → NodeMap.getOAux f1 t k = NodeMap.getOAux f2 t k := by
  intro f1
  induction f1 with
  | zero => intro f2 t k h1 _; omega
  | succ f ih =>
      intro f2 t k h1 h2
      match f2, h2 with
      | f2 + 1, _ =>
        cases t with
        | leaf => rw [NodeMap.getOAux, NodeMap.getOAux]
        | branch l v r =>
            cases k with
            | zero => rw [NodeMap.getOAux, NodeMap.getOAux]
            | succ m =>
                rw [NodeMap.getOAux, NodeMap.getOAux]
                have hm : m / 2 < f := by omega
                have hm2 : m / 2 < f2 := by omega
                by_cases hp : m % 2 = 0
                · rw [if_pos hp, if_pos hp, ih l (m / 2) hm hm2]
                · rw [if_neg hp, if_neg hp, ih r (m / 2) hm hm2]

theorem NodeMap.getOAux_set_self : ∀ (f1 : Nat), ∀ {f2 : Nat} (t : NodeMap) (k : Nat)
    (n : Node), k < f1 → k < f2 →
    NodeMap.getOAux f1 (NodeMap.setOAux f2 t k n) k = some n := by
  intro f1
  induction f1 with
  | zero => intro f2 t k n h1 _; omega
  | succ f ih =>
      intro f2 t k n h1 h2
      match f2, h2 with
      | f2 + 1, _ =>
        cases k with
        | zero =>
            cases t <;> rw [NodeMap.setOAux, NodeMap.getOAux]
        | succ m =>
            have hm : m / 2 < f := by omega
            have hm2 : m / 2 < f2 := by omega
            cases t with
            | leaf =>
                rw [NodeMap.setOAux]
                by_cases hp : m % 2 = 0
                · rw [if_pos hp, NodeMap.getOAux, if_pos hp, ih _ _ _ hm hm2]
                · rw [if_neg hp, NodeMap.getOAux, if_neg hp, ih _ _ _ hm hm2]
            | branch l v r =>
                rw [NodeMap.setOAux]
                by_cases hp : m % 2 = 0
                · rw [if_pos hp, NodeMap.getOAux, if_pos hp, ih _ _ _ hm hm2]
                · rw [if_neg hp, NodeMap.getOAux, if_neg hp, ih _ _ _ hm hm2]

theorem NodeMap.getOAux_leaf : ∀ (f : Nat) (k : Nat),
    NodeMap.getOAux f NodeMap.leaf k = none
  | 0, _ => rfl
  | _ + 1, _ => rfl

theorem NodeMap.getOAux_set_ne : ∀ (f1 : Nat), ∀ {f2 : Nat} (t : NodeMap) (k j : Nat)
    (n : Node), j < f1 → k < f2 → j ≠ k →
    NodeMap.getOAux f1 (NodeMap.setOAux f2 t k n) j = NodeMap.getOAux f1 t j := by
  intro f1
  induction f1 with
  | zero => intro f2 t k j n h1 _ _; omega
  | succ f ih =>
      intro f2 t k j n h1 h2 hne
      match f2, h2 with
      | f2 + 1, _ =>
        cases k with
        | zero =>
            cases j with
            | zero => omega
            | succ p =>
                cases t with
                | leaf =>
                    rw [NodeMap.setOAux]
                    by_cases hp : p % 2 = 0 <;>
                      simp [NodeMap.getOAux, hp, NodeMap.getOAux_leaf]
                | branch l v r =>
                    rw [NodeMap.setOAux, NodeMap.getOAux, NodeMap.getOAux]
        | succ m =>
            cases j with
            | zero =>
                cases t with
                | leaf =>
                    rw [NodeMap.setOAux, NodeMap.getOAux_leaf]
                    by_cases hp : m % 2 = 0 <;> simp [hp, NodeMap.getOAux]
                | branch l v r =>
                    rw [NodeMap.setOAux]
                    by_cases hp : m % 2 = 0 <;> simp [hp, NodeMap.getOAux]
            | succ p =>
                have hmf : m / 2 < f2 := by omega
                have hpf : p / 2 < f := by omega
                cases t with
                | leaf =>
                    rw [NodeMap.setOAux, NodeMap.getOAux_leaf]
                    by_cases hm : m % 2 = 0 <;> by_cases hp : p % 2 = 0
                    · rw [if_pos hm, NodeMap.getOAux, if_pos hp,
                        ih _ _ _ _ hpf hmf (by omega), NodeMap.getOAux_leaf]
                    · rw [if_pos hm, NodeMap.getOAux, if_neg hp, NodeMap.getOAux_leaf]
                    · rw [if_neg hm, NodeMap.getOAux, if_pos hp, NodeMap.getOAux_leaf]
                    · rw [if_neg hm, NodeMap.getOAux, if_neg hp,
                        ih _ _ _ _ hpf hmf (by omega), NodeMap.getOAux_leaf]
                | branch l v r =>
                    rw [NodeMap.setOAux]
                    by_cases hm : m % 2 = 0 <;> by_cases hp : p % 2 = 0
                    · rw [if_pos hm, NodeMap.getOAux, if_pos hp,
                        ih _ _ _ _ hpf hmf (by omega), NodeMap.getOAux, if_pos hp]
                    · rw [if_pos hm, NodeMap.getOAux, if_neg hp, NodeMap.getOAux, if_neg hp]
                    · rw [if_neg hm, NodeMap.getOAux, if_pos hp, NodeMap.getOAux, if_pos hp]
                    · rw [if_neg hm, NodeMap.getOAux, if_neg hp,
                        ih _ _ _ _ hpf hmf (by omega), NodeMap.getOAux, if_neg hp]

theorem NodeMap.get_set_self (t : NodeMap) (k : Nat) (n : Node) :
    NodeMap.get (NodeMap.set t k n) k = some n :=
  NodeMap.getOAux_set_self (k + 1) t k n (by omega) (by omega)

theorem NodeMap.get_set_ne (t : NodeMap) {k j : Nat} (n : Node) (h : j ≠ k) :
    NodeMap.get (NodeMap.set t k n) j = NodeMap.get t j :=
  NodeMap.getOAux_set_ne (j + 1) t k j n (by omega) (by omega) h

theorem getNode_of_ge {a : NodeArena} {i : Nat} (h : a.length ≤ i) :
    getNode a i = Node.root 0 := by
  rw [getNode, if_neg (by omega)]

theorem getNode_lt_of_parent_isSome {a : NodeArena} {i : Nat}
    (h : (getNode a i).parent.isSome) : i < a.length := by
  by_contra hge
  rw [getNode_of_ge (by omega)] at h
  simp [Node.root] at h

theorem length_modifyNode (a : NodeArena) (i : Nat) (f : Node → Node) :
    (modifyNode a i f).length = a.length := rfl

theorem length_pushNode (a : NodeArena) (n : Node) :
    (pushNode a n).length = a.length + 1 := rfl

theorem getNode_modify_ne {a : NodeArena} {i j : Nat} {f : Node → Node}
    (h : i ≠ j) : getNode (modifyNode a i f) j = getNode a j := by
  rw [getNode, getNode]
  have hlen : (modifyNode a i f).length = a.length := rfl
  rw [hlen]
  by_cases hj : j < a.length
  · rw [if_pos hj, if_pos hj]
    show ((a.map.set i _).get j).getD _ = _
    rw [NodeMap.get_set_ne _ _ (fun hc => h hc.symm)]
  · rw [if_neg hj, if_neg hj]

theorem getNode_modify_self {a : NodeArena} {i : Nat} {f : Node → Node}
    (h : i < a.length) : getNode (modifyNode a i f) i = f (getNode a i) := by
  rw [getNode, getNode]
  have hlen : (modifyNode a i f).length = a.length := rfl
  rw [hlen, if_pos h, if_pos h]
  show ((a.map.set i (f (getNode a i))).get i).getD _ = _
  rw [NodeMap.get_set_self]
  show f (getNode a i) = f ((a.map.get i).getD (Node.root 0))
  rw [getNode, if_pos h]

theorem getNode_modify_of_ge {a : NodeArena} {i : Nat} {f : Node → Node}
    (h : a.length ≤ i) : ∀ j, getNode (modifyNode a i f) j = getNode a j := by
  intro j
  by_cases hij : i = j
  · subst hij
    rw [getNode_of_ge h, getNode_of_ge (show (modifyNode a i f).length ≤ i from h)]
  · exact getNode_modify_ne hij

theorem getNode_push_lt {a : NodeArena} {n : Node} {j : Nat} (h : j < a.length) :
    getNode (pushNode a n) j = getNode a j := by
  rw [getNode, getNode]
  have hlen : (pushNode a n).length = a.length + 1 := rfl
  rw [hlen, if_pos (by omega), if_pos h]
  show ((a.map.set a.length n).get j).getD _ = _
  rw [NodeMap.get_set_ne _ _ (by omega)]

theorem getNode_push_self (a : NodeArena) (n : Node) :
    getNode (pushNode a n) a.length = n := by
  rw [getNode]
  have hlen : (pushNode a n).length = a.length + 1 := rfl
  rw [hlen, if_pos (by omega)]
  show ((a.map.set a.length n).get a.length).getD _ = _
  rw [NodeMap.get_set_self]
  rfl

theorem length_eraseIdx_le : ∀ (l : List Nat) (i : Nat), (l.eraseIdx i).length ≤ l.length
  | [], _ => by simp
  | _ :: t, 0 => by simp [List.eraseIdx]
  | a :: t, i + 1 => by
      simp only [List.eraseIdx, List.length_cons]
      exact Nat.succ_le_succ (length_eraseIdx_le t i)

theorem length_insertIdx_le (l : List Nat) (a : Nat) (i : Nat) :
    (l.insertIdx i a).length ≤ l.length + 1 :=
  List.length_insertIdx_le_succ l a i

/-! ## C3: the merging loop always terminates with at most K survivors -/

/-- The step potential: queue length plus live parent links.  Every
iteration of the merging loop strictly decreases it. -/
def phi (st : NodeArena × List Nat) : Nat :=
  st.2.length + countParents st.1

theorem countParentsAux_congr {a b : NodeArena}
    (h : ∀ j, (getNode a j).parent.isSome = (getNode b j).parent.isSome) :
    ∀ n, countParentsAux a n = countParentsAux b n
  | 0 => rfl
  | n + 1 => by
      rw [countParentsAux, countParentsAux, countParentsAux_congr h n, h n]

theorem countParents_modify_preserve {a : NodeArena} {i : Nat} {f : Node → Node}
    (hf : ∀ n, (f n).parent = n.parent) :
    countParents (modifyNode a i f) = countParents a := by
  unfold countParents
  rw [length_modifyNode]
  apply countParentsAux_congr
  intro j
  by_cases hij : i = j
  · subst hij
    by_cases hlt : i < a.length
    · rw [getNode_modify_self hlt, hf]
    · rw [getNode_modify_of_ge (by omega)]
  · rw [getNode_modify_ne hij]

theorem countParentsAux_clear {a : NodeArena} {i : Nat}
    (h : i < a.length) (hs : (getNode a i).parent.isSome) :
    ∀ n, countParentsAux (modifyNode a i fun nd => { nd with parent := none }) n
        + (if i < n then 1 else 0) = countParentsAux a n := by
  intro n
  induction n with
  | zero =>
      rw [countParentsAux, countParentsAux]
      simp
  | succ n ih =>
      rw [countParentsAux, countParentsAux]
      by_cases hin : i = n
      · subst hin
        rw [getNode_modify_self h]
        have hfalse : ((fun nd : Node => { nd with parent := none }) (getNode a i)).parent
            = (none : Option Nat) := rfl
        rw [hfalse, hs]
        rw [if_neg (by omega : ¬ i < i)] at ih
        rw [if_neg (by simp : ¬ (none : Option Nat).isSome = true),
          if_pos (rfl : (true : Bool) = true), if_pos (by omega : i < i + 1)]
        omega
      · rw [getNode_modify_ne hin]
        by_cases hi : i < n
        · rw [if_pos hi] at ih
          rw [if_pos (by omega : i < n + 1)]
          by_cases hn : (getNode a n).parent.isSome = true
          · rw [if_pos hn]; omega
          · rw [if_neg hn]; omega
        · rw [if_neg hi] at ih
          rw [if_neg (by omega : ¬ i < n + 1)]
          by_cases hn : (getNode a n).parent.isSome = true
          · rw [if_pos hn]; omega
          · rw [if_neg hn]; omega

theorem countParents_clear {a : NodeArena} {i : Nat}
    (h : i < a.length) (hs : (getNode a i).parent.isSome) :
    countParents (modifyNode a i fun nd => { nd with parent := none }) + 1 =
      countParents a := by
  have h1 := countParentsAux_clear h hs a.length
  rw [if_pos h] at h1
  unfold countParents
  rw [length_modifyNode]
  exact h1

theorem length_eraseFound_le (q : List Nat) (r : SearchResult) :
    (eraseFound q r).length ≤ q.length := by
  cases r with
  | found pos => exact length_eraseIdx_le q pos
  | notFound _ => exact Nat.le_refl _

theorem length_insertNotFound_le (q : List Nat) (r : SearchResult) (a : Nat) :
    (insertNotFound q r a).length ≤ q.length + 1 := by
  cases r with
  | found _ => rw [insertNotFound]; omega
  | notFound pos => exact length_insertIdx_le q a pos

theorem length_foldIntoParent (a : NodeArena) (nid parentId : Nat) :
    (foldIntoParent a nid parentId).length = a.length := rfl

theorem countParents_foldIntoParent {a : NodeArena} {nid parentId : Nat}
    (hp : (getNode a nid).parent = some parentId) :
    countParents (foldIntoParent a nid parentId) + 1 = countParents a := by
  have hnid : nid < a.length :=
    getNode_lt_of_parent_isSome (by rw [hp]; rfl)
  rw [foldIntoParent]
  set a1 := modifyNode a parentId fun p =>
      { p with
        accumulator := p.accumulator.add (getNode a nid).accumulator
        childCount := p.childCount - 1
        children := p.children.set (getNode a nid).colorIndex none } with ha1
  have hstep1 : countParents a1 = countParents a :=
    countParents_modify_preserve (fun n => rfl)
  have ha1len : a1.length = a.length := rfl
  have hparent1 : (getNode a1 nid).parent = some parentId := by
    by_cases hpe : parentId = nid
    · subst hpe
      rw [ha1, getNode_modify_self (by omega)]
      exact hp
    · rw [ha1, getNode_modify_ne hpe]
      exact hp
  have hstep2 := countParents_clear (i := nid) (a := a1) (by omega)
    (by rw [hparent1]; rfl)
  omega

theorem reduceStep_phi {a : NodeArena} {queue : List Nat} (hne : queue ≠ []) :
    phi (reduceStep a queue) + 1 ≤ phi (a, queue) := by
  have hql : queue.dropLast.length + 1 = queue.length := by
    rw [List.length_dropLast]
    have : 0 < queue.length := List.length_pos.mpr hne
    omega
  rw [reduceStep]
  cases hp : (getNode a ((queue.getLast?).getD 0)).parent with
  | none =>
      simp only [phi]
      omega
  | some parentId =>
      simp only [phi]
      have h2 := length_eraseFound_le queue.dropLast
        (binarySearchBy queue.dropLast fun probe =>
          cmpNode (getNode a parentId) (getNode a probe))
      have h3 := length_insertNotFound_le
        (eraseFound queue.dropLast
          (binarySearchBy queue.dropLast fun probe =>
            cmpNode (getNode a parentId) (getNode a probe)))
        (binarySearchBy
          (eraseFound queue.dropLast
            (binarySearchBy queue.dropLast fun probe =>
              cmpNode (getNode a parentId) (getNode a probe)))
          fun probe =>
            cmpNode (getNode (foldIntoParent a ((queue.getLast?).getD 0) parentId) parentId)
              (getNode (foldIntoParent a ((queue.getLast?).getD 0) parentId) probe))
        parentId
      have h4 := countParents_foldIntoParent hp
      omega

theorem reduceLoopGo_length (cc : Nat) :
    ∀ (fuel : Nat) (st : NodeArena × List Nat), phi st ≤ fuel →
      (reduceLoopGo cc fuel st).2.length ≤ cc := by
  intro fuel
  induction fuel with
  | zero =>
      intro st hst
      have : st.2.length = 0 := by
        unfold phi at hst
        omega
      rw [reduceLoopGo]
      omega
  | succ n ih =>
      rintro ⟨ns, q⟩ hst
      rw [reduceLoopGo]
      by_cases hcond : cc < q.length
      · rw [if_pos hcond]
        apply ih
        dsimp only
        have hne : q ≠ [] := by
          intro hnil
          rw [hnil] at hcond
          simp at hcond
        have := reduceStep_phi (a := ns) hne
        omega
      · rw [if_neg hcond]
        dsimp only
        omega

/-- Splitting the merging loop's fuel: running `f1 + f2` steps is
running `f1` steps and then `f2` more. -/
theorem reduceLoopGo_add (cc : Nat) : ∀ (f1 f2 : Nat) (st : NodeArena × List Nat),
    reduceLoopGo cc (f1 + f2) st = reduceLoopGo cc f2 (reduceLoopGo cc f1 st) := by
  intro f1
  induction f1 with
  | zero =>
      intro f2 st
      rw [Nat.zero_add, reduceLoopGo]
  | succ n ih =>
      intro f2 st
      have hshift : n + 1 + f2 = (n + f2) + 1 := by omega
      rw [hshift, reduceLoopGo, reduceLoopGo]
      by_cases hcond : cc < st.2.length
      · rw [if_pos hcond, if_pos hcond, ih]
      · rw [if_neg hcond, if_neg hcond]
        cases f2 with
        | zero => rw [reduceLoopGo]
        | succ m =>
            rw [reduceLoopGo, if_neg hcond]

/-- `ColorTree::reduce` unfolded for a nonzero color count. -/
theorem reduce_eq (t : ColorTree) (K : Nat) (hK : ¬ K = 0) :
    t.reduce K = dedupPixels (sortPixels
      ((reduceLoopGo K ((initQueue t.nodes).length + countParents t.nodes)
          (t.nodes, initQueue t.nodes)).2.map fun i =>
        (getNode (reduceLoopGo K ((initQueue t.nodes).length + countParents t.nodes)
          (t.nodes, initQueue t.nodes)).1 i).accumulator.output_color)) := by
  rw [ColorTree.reduce, if_neg hK]

theorem length_insertPix (p : Pixel) : ∀ l : List Pixel,
    (insertPix p l).length = l.length + 1
  | [] => rfl
  | q :: qs => by
      rw [insertPix]
      by_cases h : pixelLe p q
      · rw [if_pos h]; rfl
      · rw [if_neg h]
        simp only [List.length_cons]
        rw [length_insertPix p qs]

theorem length_sortPixels : ∀ l : List Pixel, (sortPixels l).length = l.length
  | [] => rfl
  | p :: ps => by
      rw [sortPixels, length_insertPix, length_sortPixels ps]
      rfl

theorem length_dedupGo (p : Pixel) : ∀ l : List Pixel,
    (dedupGo p l).length ≤ l.length
  | [] => Nat.le_refl _
  | q :: qs => by
      rw [dedupGo]
      by_cases h : q = p
      · rw [if_pos h]
        exact le_trans (length_dedupGo p qs) (by simp)
      · rw [if_neg h]
        simpa using length_dedupGo q qs

theorem length_dedupPixels : ∀ l : List Pixel, (dedupPixels l).length ≤ l.length
  | [] => Nat.le_refl _
  | p :: ps => by
      rw [dedupPixels]
      simpa using length_dedupGo p ps

/-! ## The 46-pixel fixture of the octree test (src/core/src/octree.rs,
`test_add_color`), and checkpointed evaluation of its build and reduce.
The checkpoint values were computed by evaluating the definitions above;
each checkpoint equality is proved by `decide`, and the checkpoints are
glued by `List.foldl_append` and `reduceLoopGo_add`, so the final result
is exactly `(buildTree fixturePixels).reduce 8`. -/

/-- The 46 distinct pixels of the source's octree unit test. -/
def fixturePixels : List Pixel :=
  [⟨9,10,20,255⟩, ⟨16,20,31,255⟩, ⟨21,29,40,255⟩, ⟨23,32,56,255⟩,
   ⟨25,51,45,255⟩, ⟨30,29,57,255⟩, ⟨32,46,55,255⟩, ⟨36,21,39,255⟩,
   ⟨37,58,94,255⟩, ⟨37,86,46,255⟩, ⟨52,28,39,255⟩, ⟨57,74,80,255⟩,
   ⟨60,94,139,255⟩, ⟨64,39,81,255⟩, ⟨65,29,49,255⟩, ⟨70,130,50,255⟩,
   ⟨77,43,50,255⟩, ⟨79,143,186,255⟩, ⟨87,114,119,255⟩, ⟨96,44,44,255⟩,
   ⟨115,190,211,255⟩, ⟨117,36,56,255⟩, ⟨117,167,67,255⟩, ⟨122,54,123,255⟩,
   ⟨122,72,65,255⟩, ⟨129,151,150,255⟩, ⟨136,75,43,255⟩, ⟨162,62,140,255⟩,
   ⟨164,221,219,255⟩, ⟨165,48,48,255⟩, ⟨168,181,178,255⟩, ⟨168,202,88,255⟩,
   ⟨173,119,87,255⟩, ⟨190,119,43,255⟩, ⟨192,148,115,255⟩, ⟨198,81,151,255⟩,
   ⟨199,207,204,255⟩, ⟨207,87,60,255⟩, ⟨208,218,145,255⟩, ⟨215,181,148,255⟩,
   ⟨218,134,62,255⟩, ⟨222,158,65,255⟩, ⟨223,132,165,255⟩, ⟨231,213,179,255⟩,
   ⟨232,193,112,255⟩, ⟨235,237,233,255⟩]

/-- Checkpoint: the tree after the first 16 fixture pixels. -/
def fixtureT1 : ColorTree := ⟨⟨104, (.branch (.branch (.branch (.branch (.branch (.branch (.branch .leaf (some ⟨4, 63, 2, some 62, [none, none, none, none, none, none, none, some 64], 1, ⟨0, 0, 0, 0⟩⟩) .leaf) (some ⟨3, 31, 7, some 14, [none, none, none, none, none, none, none, some 32], 1, ⟨0, 0, 0, 0⟩⟩) (.branch .leaf (some ⟨7, 95, 7, some 94, [none, none, none, none, none, none, none, none], 0, ⟨1, 65, 29, 49⟩⟩) .leaf)) (some ⟨3, 15, 6, some 14, [none, none, none, some 16, none, none, none, none], 1, ⟨0, 0, 0, 0⟩⟩) (.branch (.branch .leaf (some ⟨5, 79, 6, some 78, [none, none, none, some 80, none, none, none, none], 1, ⟨0, 0, 0, 0⟩⟩) .leaf) (some ⟨7, 47, 3, some 46, [none, none, none, none, none, none, none, none], 0, ⟨1, 36, 21, 39⟩⟩) .leaf)) (some ⟨6, 7, 2, some 6, [none, none, none, none, some 8, none, none, none], 1, ⟨0, 0, 0, 0⟩⟩) (.branch (.branch (.branch .leaf (some ⟨5, 71, 0, some 70, [none, none, some 72, none, none, none, none, none], 1, ⟨0, 0, 0, 0⟩⟩) .leaf) (some ⟨5, 39, 3, some 38, [none, none, none, some 40, none, none, none, none], 1, ⟨0, 0, 0, 0⟩⟩) (.branch .leaf (some ⟨7, 103, 0, some 102, [none, none, none, none, none, none, none, none], 0, ⟨1, 70, 130, 50⟩⟩) .leaf)) (some ⟨5, 23, 4, some 22, [none, none, none, none, some 24, none, none, none], 1, ⟨0, 0, 0, 0⟩⟩) (.branch (.branch .leaf (some ⟨6, 87, 2, some 86, [none, none, none, some 88, none, none, none, none], 1, ⟨0, 0, 0, 0⟩⟩) .leaf) (some ⟨1, 55, 2, some 1, [none, none, none, none, none, some 56, none, none], 1, ⟨0, 0, 0, 0⟩⟩) .leaf))) (some ⟨2, 3, 0, some 2, [none, some 4, none, none, none, none, none, some 9], 2, ⟨0, 0, 0, 0⟩⟩) (.branch (.branch (.branch (.branch .leaf (some ⟨1, 67, 3, some 1, [none, none, none, none, some 68, none, none, none], 1, ⟨0, 0, 0, 0⟩⟩) .leaf) (some ⟨7, 35, 3, some 34, [none, none, none, none, none, none, none, none], 0, ⟨1, 30, 29, 57⟩⟩) (.branch .leaf (some ⟨3, 99, 1, some 98, [some 100, none, none, none, none, none, none, none], 1, ⟨0, 0, 0, 0⟩⟩) .leaf)) (some ⟨7, 19, 6, some 18, [none, none, none, none, none, none, none, none], 0, ⟨1, 21, 29, 40⟩⟩) (.branch (.branch .leaf (some ⟨2, 83, 2, some 82, [none, some 84, none, none, none, none, none, none], 1, ⟨0, 0, 0, 0⟩⟩) .leaf) (some ⟨4, 51, 3, some 50, [none, none, none, none, none, some 52, none, none], 1, ⟨0, 0, 0, 0⟩⟩) .leaf)) (some ⟨5, 11, 3, some 10, [none, some 12, none, none, none, none, none, none], 1, ⟨0, 0, 0, 0⟩⟩) (.branch (.branch (.branch .leaf (some ⟨1, 75, 2, some 74, [none, none, none, none, some 76, none, none, none], 1, ⟨0, 0, 0, 0⟩⟩) .leaf) (some ⟨3, 43, 2, some 42, [some 44, none, none, none, none, none, none, none], 1, ⟨0, 0, 0, 0⟩⟩) .leaf) (some ⟨4, 27, 5, some 26, [none, some 28, none, none, none, none, none, none], 1, ⟨0, 0, 0, 0⟩⟩) (.branch (.branch .leaf (some ⟨3, 91, 3, some 90, [none, none, some 92, none, none, none, none, none], 1, ⟨0, 0, 0, 0⟩⟩) .leaf) (some ⟨5, 59, 7, some 58, [none, none, none, some 60, none, none, none, none], 1, ⟨0, 0, 0, 0⟩⟩) .leaf)))) (some ⟨0, 1, 0, some 0, [some 2, some 48, some 55, some 67, some 89, some 82, none, none], 6, ⟨0, 0, 0, 0⟩⟩) (.branch (.branch (.branch (.branch (.branch .leaf (some ⟨6, 65, 1, some 64, [none, some 66, none, none, none, none, none, none], 1, ⟨0, 0, 0, 0⟩⟩) .leaf) (some ⟨5, 33, 6, some 32, [none, none, none, none, some 34, none, none, none], 1, ⟨0, 0, 0, 0⟩⟩) (.branch .leaf (some ⟨1, 97, 4, some 96, [none, some 98, none, none, none, none, none, none], 1, ⟨0, 0, 0, 0⟩⟩) .leaf)) (some ⟨5, 17, 6, some 16, [some 18, none, none, none, none, none, none, none], 1, ⟨0, 0, 0, 0⟩⟩) (.branch (.branch .leaf (some ⟨7, 81, 1, some 80, [none, none, none, none, none, none, none, none], 0, ⟨1, 60, 94, 139⟩⟩) .leaf) (some ⟨2, 49, 6, some 48, [none, none, none, some 50, none, none, none, none], 1, ⟨0, 0, 0, 0⟩⟩) .leaf)) (some ⟨3, 9, 7, some 3, [none, some 10, none, none, none, none, none, none], 1, ⟨0, 0, 0, 0⟩⟩) (.branch (.branch (.branch .leaf (some ⟨7, 73, 4, some 72, [none, none, none, none, none, none, none, none], 0, ⟨1, 57, 74, 80⟩⟩) .leaf) (some ⟨7, 41, 1, some 40, [none, none, none, none, none, none, none, none], 0, ⟨1, 32, 46, 55⟩⟩) .leaf) (some ⟨7, 25, 4, some 24, [none, none, none, none, none, none, none, none], 0, ⟨1, 23, 32, 56⟩⟩) (.branch (.branch .leaf (some ⟨1, 89, 4, some 1, [none, some 90, none, none, none, none, none, none], 1, ⟨0, 0, 0, 0⟩⟩) .leaf) (some ⟨3, 57, 2, some 56, [none, some 58, none, none, none, none, none, none], 1, ⟨0, 0, 0, 0⟩⟩) .leaf))) (some ⟨4, 5, 6, some 4, [none, some 6, none, none, none, none, none, none], 1, ⟨0, 0, 0, 0⟩⟩) (.branch (.branch (.branch (.branch .leaf (some ⟨3, 69, 5, some 68, [none, none, none, none, none, none, some 70, none], 1, ⟨0, 0, 0, 0⟩⟩) .leaf) (some ⟨3, 37, 1, some 36, [none, none, some 38, none, none, none, none, none], 1, ⟨0, 0, 0, 0⟩⟩) (.branch .leaf (some ⟨5, 101, 4, some 100, [none, none, none, none, none, none, none, some 102], 1, ⟨0, 0, 0, 0⟩⟩) .leaf)) (some ⟨3, 21, 5, some 20, [none, some 22, none, none, none, none, none, none], 1, ⟨0, 0, 0, 0⟩⟩) (.branch (.branch .leaf (some ⟨4, 85, 0, some 84, [none, none, some 86, none, none, none, none, none], 1, ⟨0, 0, 0, 0⟩⟩) .leaf) (some ⟨6, 53, 3, some 52, [none, none, none, none, some 54, none, none, none], 1, ⟨0, 0, 0, 0⟩⟩) .leaf)) (some ⟨7, 13, 1, some 12, [none, none, none, none, none, none, none, none], 0, ⟨1, 16, 20, 31⟩⟩) (.branch (.branch (.branch .leaf (some ⟨3, 77, 6, some 76, [none, none, none, none, none, none, none, some 78], 1, ⟨0, 0, 0, 0⟩⟩) .leaf) (some ⟨5, 45, 7, some 44, [none, some 46, none, none, none, none, none, none], 1, ⟨0, 0, 0, 0⟩⟩) .leaf) (some ⟨6, 29, 2, some 28, [none, none, none, none, none, none, none, some 30], 1, ⟨0, 0, 0, 0⟩⟩) (.branch (.branch .leaf (some ⟨5, 93, 2, some 92, [some 94, none, none, none, none, none, none, none], 1, ⟨0, 0, 0, 0⟩⟩) .leaf) (some ⟨7, 61, 4, some 60, [none, none, none, none, none, none, none, none], 0, ⟨1, 37, 86, 46⟩⟩) .leaf))))) (some ⟨0, 0, 0, none, [some 1, some 74, some 96, none, none, none, none, none], 3, ⟨0, 0, 0, 0⟩⟩) (.branch (.branch (.branch (.branch (.branch (.branch .leaf (some ⟨5, 64, 7, some 63, [none, some 65, none, none, none, none, none, none], 1, ⟨0, 0, 0, 0⟩⟩) .leaf) (some ⟨4, 32, 7, some 31, [none, none, none, none, none, none, some 33, none], 1, ⟨0, 0, 0, 0⟩⟩) (.branch .leaf (some ⟨0, 96, 2, some 0, [none, none, none, none, some 97, none, none, none], 1, ⟨0, 0, 0, 0⟩⟩) .leaf)) (some ⟨4, 16, 3, some 15, [none, none, none, none, none, none, some 17, none], 1, ⟨0, 0, 0, 0⟩⟩) (.branch (.branch .leaf (some ⟨6, 80, 3, some 79, [none, some 81, none, none, none, none, none, none], 1, ⟨0, 0, 0, 0⟩⟩) .leaf) (some ⟨1, 48, 1, some 1, [none, none, none, none, none, none, some 49, none], 1, ⟨0, 0, 0, 0⟩⟩) .leaf)) (some ⟨7, 8, 4, some 7, [none, none, none, none, none, none, none, none], 0, ⟨1, 9, 10, 20⟩⟩) (.branch (.branch (.branch .leaf (some ⟨6, 72, 2, some 71, [none, none, none, none, some 73, none, none, none], 1, ⟨0, 0, 0, 0⟩⟩) .leaf) (some ⟨6, 40, 3, some 39, [none, some 41, none, none, none, none, none, none], 1, ⟨0, 0, 0, 0⟩⟩) .leaf) (some ⟨6, 24, 4, some 23, [none, none, none, none, some 25, none, none, none], 1, ⟨0, 0, 0, 0⟩⟩) (.branch (.branch .leaf (some ⟨7, 88, 3, some 87, [none, none, none, none, none, none, none, none], 0, ⟨1, 64, 39, 81⟩⟩) .leaf) (some ⟨2, 56, 5, some 55, [none, none, some 57, none, none, none, none, none], 1, ⟨0, 0, 0, 0⟩⟩) .leaf))) (some ⟨3, 4, 1, some 3, [none, none, none, none, none, none, some 5, none], 1, ⟨0, 0, 0, 0⟩⟩) (.branch (.branch (.branch (.branch .leaf (some ⟨2, 68, 4, some 67, [none, none, none, none, none, some 69, none, none], 1, ⟨0, 0, 0, 0⟩⟩) .leaf) (some ⟨2, 36, 7, some 2, [none, some 37, none, none, none, none, none, none], 1, ⟨0, 0, 0, 0⟩⟩) (.branch .leaf (some ⟨4, 100, 0, some 99, [none, none, none, none, some 101, none, none, none], 1, ⟨0, 0, 0, 0⟩⟩) .leaf)) (some ⟨2, 20, 3, some 2, [none, none, none, none, none, some 21, some 26, none], 2, ⟨0, 0, 0, 0⟩⟩) (.branch (.branch .leaf (some ⟨3, 84, 1, some 83, [some 85, none, none, none, none, none, none, none], 1, ⟨0, 0, 0, 0⟩⟩) .leaf) (some ⟨5, 52, 5, some 51, [none, none, none, some 53, none, none, none, none], 1, ⟨0, 0, 0, 0⟩⟩) .leaf)) (some ⟨6, 12, 1, some 11, [none, some 13, none, none, none, none, none, none], 1, ⟨0, 0, 0, 0⟩⟩) (.branch (.branch (.branch .leaf (some ⟨2, 76, 4, some 75, [none, none, none, none, none, none, some 77, none], 1, ⟨0, 0, 0, 0⟩⟩) .leaf) (some ⟨4, 44, 0, some 43, [none, none, none, none, none, none, none, some 45], 1, ⟨0, 0, 0, 0⟩⟩) .leaf) (some ⟨5, 28, 1, some 27, [none, none, some 29, none, none, none, none, none], 1, ⟨0, 0, 0, 0⟩⟩) (.branch (.branch .leaf (some ⟨4, 92, 2, some 91, [none, none, some 93, none, none, none, none, none], 1, ⟨0, 0, 0, 0⟩⟩) .leaf) (some ⟨6, 60, 3, some 59, [none, none, none, none, some 61, none, none, none], 1, ⟨0, 0, 0, 0⟩⟩) .leaf)))) (some ⟨1, 2, 0, some 1, [some 3, some 14, none, some 20, none, some 42, none, some 36], 5, ⟨0, 0, 0, 0⟩⟩) (.branch (.branch (.branch (.branch (.branch .leaf (some ⟨7, 66, 1, some 65, [none, none, none, none, none, none, none, none], 0, ⟨1, 52, 28, 39⟩⟩) .leaf) (some ⟨6, 34, 4, some 33, [none, none, none, some 35, none, none, none, none], 1, ⟨0, 0, 0, 0⟩⟩) (.branch .leaf (some ⟨2, 98, 1, some 97, [none, some 99, none, none, none, none, none, none], 1, ⟨0, 0, 0, 0⟩⟩) .leaf)) (some ⟨6, 18, 0, some 17, [none, none, none, none, none, none, some 19, none], 1, ⟨0, 0, 0, 0⟩⟩) (.branch (.branch .leaf (some ⟨1, 82, 5, some 1, [none, none, some 83, none, none, none, none, none], 1, ⟨0, 0, 0, 0⟩⟩) .leaf) (some ⟨3, 50, 3, some 49, [none, none, none, some 51, none, none, none, none], 1, ⟨0, 0, 0, 0⟩⟩) .leaf)) (some ⟨4, 10, 1, some 9, [none, none, none, some 11, none, none, none, none], 1, ⟨0, 0, 0, 0⟩⟩) (.branch (.branch (.branch .leaf (some ⟨0, 74, 1, some 0, [none, none, some 75, none, none, none, none, none], 1, ⟨0, 0, 0, 0⟩⟩) .leaf) (some ⟨2, 42, 5, some 2, [none, none, some 43, none, none, none, some 62, none], 2, ⟨0, 0, 0, 0⟩⟩) .leaf) (some ⟨3, 26, 6, some 20, [none, none, none, none, none, some 27, none, none], 1, ⟨0, 0, 0, 0⟩⟩) (.branch (.branch .leaf (some ⟨2, 90, 1, some 89, [none, none, none, some 91, none, none, none, none], 1, ⟨0, 0, 0, 0⟩⟩) .leaf) (some ⟨4, 58, 1, some 57, [none, none, none, none, none, none, none, some 59], 1, ⟨0, 0, 0, 0⟩⟩) .leaf))) (some ⟨5, 6, 1, some 5, [none, none, some 7, none, none, none, none, none], 1, ⟨0, 0, 0, 0⟩⟩) (.branch (.branch (.branch (.branch .leaf (some ⟨4, 70, 6, some 69, [some 71, none, none, none, none, none, none, none], 1, ⟨0, 0, 0, 0⟩⟩) .leaf) (some ⟨4, 38, 2, some 37, [none, none, none, some 39, none, none, none, none], 1, ⟨0, 0, 0, 0⟩⟩) (.branch .leaf (some ⟨6, 102, 7, some 101, [some 103, none, none, none, none, none, none, none], 1, ⟨0, 0, 0, 0⟩⟩) .leaf)) (some ⟨4, 22, 1, some 21, [none, none, none, none, some 23, none, none, none], 1, ⟨0, 0, 0, 0⟩⟩) (.branch (.branch .leaf (some ⟨5, 86, 2, some 85, [none, none, some 87, none, none, none, none, none], 1, ⟨0, 0, 0, 0⟩⟩) .leaf) (some ⟨7, 54, 4, some 53, [none, none, none, none, none, none, none, none], 0, ⟨1, 37, 58, 94⟩⟩) .leaf)) (some ⟨2, 14, 1, some 2, [none, none, none, none, none, none, some 15, some 31], 2, ⟨0, 0, 0, 0⟩⟩) (.branch (.branch (.branch .leaf (some ⟨4, 78, 7, some 77, [none, none, none, none, none, none, some 79, none], 1, ⟨0, 0, 0, 0⟩⟩) .leaf) (some ⟨6, 46, 1, some 45, [none, none, none, some 47, none, none, none, none], 1, ⟨0, 0, 0, 0⟩⟩) .leaf) (some ⟨7, 30, 7, some 29, [none, none, none, none, none, none, none, none], 0, ⟨1, 25, 51, 45⟩⟩) (.branch (.branch .leaf (some ⟨6, 94, 0, some 93, [none, none, none, none, none, none, none, some 95], 1, ⟨0, 0, 0, 0⟩⟩) .leaf) (some ⟨3, 62, 6, some 42, [none, none, some 63, none, none, none, none, none], 1, ⟨0, 0, 0, 0⟩⟩) .leaf))))))⟩⟩

/-- Checkpoint: the tree after the first 32 fixture pixels. -/
def fixtureT2 : ColorTree := ⟨⟨214, (.branch (.branch (.branch (.branch (.branch (.branch (.branch (.branch .leaf (some ⟨4, 127, 3, some 126, [none, none, none, some 128, none, none, none, none], 1, ⟨0, 0, 0, 0⟩⟩) .leaf) (some ⟨4, 63, 2, some 62, [none, none, none, none, none, none, none, some 64], 1, ⟨0, 0, 0, 0⟩⟩) (.branch .leaf (some ⟨6, 191, 1, some 190, [none, none, none, some 192, none, none, none, none], 1, ⟨0, 0, 0, 0⟩⟩) .leaf)) (some ⟨3, 31, 7, some 14, [none, none, none, none, none, none, none, some 32], 1, ⟨0, 0, 0, 0⟩⟩) (.branch (.branch .leaf (some ⟨5, 159, 0, some 158, [none, none, none, none, some 160, none, none, none], 1, ⟨0, 0, 0, 0⟩⟩) .leaf) (some ⟨7, 95, 7, some 94, [none, none, none, none, none, none, none, none], 0, ⟨1, 65, 29, 49⟩⟩) .leaf)) (some ⟨3, 15, 6, some 14, [none, none, none, some 16, none, none, none, none], 1, ⟨0, 0, 0, 0⟩⟩) (.branch (.branch (.branch .leaf (some ⟨1, 143, 5, some 96, [none, none, none, none, none, none, some 144, none], 1, ⟨0, 0, 0, 0⟩⟩) .leaf) (some ⟨5, 79, 6, some 78, [none, none, none, some 80, none, none, none, none], 1, ⟨0, 0, 0, 0⟩⟩) (.branch .leaf (some ⟨1, 207, 3, some 206, [none, none, none, none, some 208, none, none, none], 1, ⟨0, 0, 0, 0⟩⟩) .leaf)) (some ⟨7, 47, 3, some 46, [none, none, none, none, none, none, none, none], 0, ⟨1, 36, 21, 39⟩⟩) (.branch (.branch .leaf (some ⟨5, 175, 0, some 174, [none, none, none, some 176, none, none, none, none], 1, ⟨0, 0, 0, 0⟩⟩) .leaf) (some ⟨1, 111, 4, some 110, [none, some 112, none, none, none, none, none, none], 1, ⟨0, 0, 0, 0⟩⟩) .leaf))) (some ⟨6, 7, 2, some 6, [none, none, none, none, some 8, none, none, none], 1, ⟨0, 0, 0, 0⟩⟩) (.branch (.branch (.branch (.branch .leaf (some ⟨5, 135, 2, some 134, [none, none, none, none, none, none, none, some 136], 1, ⟨0, 0, 0, 0⟩⟩) .leaf) (some ⟨5, 71, 0, some 70, [none, none, some 72, none, none, none, none, none], 1, ⟨0, 0, 0, 0⟩⟩) (.branch .leaf (some ⟨7, 199, 4, some 198, [none, none, none, none, none, none, none, none], 0, ⟨1, 165, 48, 48⟩⟩) .leaf)) (some ⟨5, 39, 3, some 38, [none, none, none, some 40, none, none, none, none], 1, ⟨0, 0, 0, 0⟩⟩) (.branch (.branch .leaf (some ⟨5, 167, 3, some 166, [none, none, none, some 168, none, none, none, none], 1, ⟨0, 0, 0, 0⟩⟩) .leaf) (some ⟨7, 103, 0, some 102, [none, none, none, none, none, none, none, none], 0, ⟨1, 70, 130, 50⟩⟩) .leaf)) (some ⟨5, 23, 4, some 22, [none, none, none, none, some 24, none, none, none], 1, ⟨0, 0, 0, 0⟩⟩) (.branch (.branch (.branch .leaf (some ⟨3, 151, 7, some 150, [none, none, none, none, none, some 152, none, none], 1, ⟨0, 0, 0, 0⟩⟩) .leaf) (some ⟨6, 87, 2, some 86, [none, none, none, some 88, none, none, none, none], 1, ⟨0, 0, 0, 0⟩⟩) .leaf) (some ⟨1, 55, 2, some 1, [none, none, none, none, none, some 56, none, none], 1, ⟨0, 0, 0, 0⟩⟩) (.branch (.branch .leaf (some ⟨5, 183, 3, some 182, [none, none, none, none, none, none, some 184, none], 1, ⟨0, 0, 0, 0⟩⟩) .leaf) (some ⟨2, 119, 3, some 118, [none, none, none, none, none, none, none, some 120], 1, ⟨0, 0, 0, 0⟩⟩) .leaf)))) (some ⟨2, 3, 0, some 2, [none, some 4, none, none, none, none, none, some 9], 2, ⟨0, 0, 0, 0⟩⟩) (.branch (.branch (.branch (.branch (.branch .leaf (some ⟨1, 131, 5, some 110, [none, none, none, none, none, none, some 132, none], 1, ⟨0, 0, 0, 0⟩⟩) .leaf) (some ⟨1, 67, 3, some 1, [none, none, none, none, some 68, none, none, none], 1, ⟨0, 0, 0, 0⟩⟩) (.branch .leaf (some ⟨3, 195, 3, some 194, [some 196, none, none, none, none, none, none, none], 1, ⟨0, 0, 0, 0⟩⟩) .leaf)) (some ⟨7, 35, 3, some 34, [none, none, none, none, none, none, none, none], 0, ⟨1, 30, 29, 57⟩⟩) (.branch (.branch .leaf (some ⟨1, 163, 0, some 162, [some 164, none, none, none, none, none, none, some 200], 2, ⟨0, 0, 0, 0⟩⟩) .leaf) (some ⟨3, 99, 1, some 98, [some 100, none, none, none, none, none, none, none], 1, ⟨0, 0, 0, 0⟩⟩) .leaf)) (some ⟨7, 19, 6, some 18, [none, none, none, none, none, none, none, none], 0, ⟨1, 21, 29, 40⟩⟩) (.branch (.branch (.branch .leaf (some ⟨5, 147, 6, some 146, [none, none, none, some 148, none, none, none, none], 1, ⟨0, 0, 0, 0⟩⟩) .leaf) (some ⟨2, 83, 2, some 82, [none, some 84, none, none, none, none, none, none], 1, ⟨0, 0, 0, 0⟩⟩) (.branch .leaf (some ⟨5, 211, 0, some 210, [none, none, some 212, none, none, none, none, none], 1, ⟨0, 0, 0, 0⟩⟩) .leaf)) (some ⟨4, 51, 3, some 50, [none, none, none, none, none, some 52, none, none], 1, ⟨0, 0, 0, 0⟩⟩) (.branch (.branch .leaf (some ⟨1, 179, 0, some 178, [none, none, none, none, none, none, some 180, none], 1, ⟨0, 0, 0, 0⟩⟩) .leaf) (some ⟨5, 115, 6, some 114, [none, none, none, none, none, none, none, some 116], 1, ⟨0, 0, 0, 0⟩⟩) .leaf))) (some ⟨5, 11, 3, some 10, [none, some 12, none, none, none, none, none, none], 1, ⟨0, 0, 0, 0⟩⟩) (.branch (.branch (.branch (.branch .leaf (some ⟨4, 139, 1, some 138, [none, none, none, none, none, none, some 140, none], 1, ⟨0, 0, 0, 0⟩⟩) .leaf) (some ⟨1, 75, 2, some 74, [none, none, none, none, some 76, none, none, none], 1, ⟨0, 0, 0, 0⟩⟩) (.branch .leaf (some ⟨5, 203, 2, some 202, [none, some 204, none, none, none, none, none, none], 1, ⟨0, 0, 0, 0⟩⟩) .leaf)) (some ⟨3, 43, 2, some 42, [some 44, none, none, none, none, none, none, none], 1, ⟨0, 0, 0, 0⟩⟩) (.branch (.branch .leaf (some ⟨1, 171, 2, some 170, [none, some 172, none, none, none, none, none, none], 1, ⟨0, 0, 0, 0⟩⟩) .leaf) (some ⟨5, 107, 4, some 106, [none, none, none, some 108, none, none, none, none], 1, ⟨0, 0, 0, 0⟩⟩) .leaf)) (some ⟨4, 27, 5, some 26, [none, some 28, none, none, none, none, none, none], 1, ⟨0, 0, 0, 0⟩⟩) (.branch (.branch (.branch .leaf (some ⟨7, 155, 1, some 154, [none, none, none, none, none, none, none, none], 0, ⟨1, 122, 54, 123⟩⟩) .leaf) (some ⟨3, 91, 3, some 90, [none, none, some 92, none, none, none, none, none], 1, ⟨0, 0, 0, 0⟩⟩) .leaf) (some ⟨5, 59, 7, some 58, [none, none, none, some 60, none, none, none, none], 1, ⟨0, 0, 0, 0⟩⟩) (.branch (.branch .leaf (some ⟨2, 187, 4, some 186, [none, none, none, some 188, none, none, none, none], 1, ⟨0, 0, 0, 0⟩⟩) .leaf) (some ⟨6, 123, 7, some 122, [none, none, none, none, none, some 124, none, none], 1, ⟨0, 0, 0, 0⟩⟩) .leaf))))) (some ⟨0, 1, 0, some 0, [some 2, some 48, some 55, some 67, some 89, some 82, none, some 118], 7, ⟨0, 0, 0, 0⟩⟩) (.branch (.branch (.branch (.branch (.branch (.branch .leaf (some ⟨6, 129, 0, some 128, [some 130, none, none, none, none, none, none, none], 1, ⟨0, 0, 0, 0⟩⟩) .leaf) (some ⟨6, 65, 1, some 64, [none, some 66, none, none, none, none, none, none], 1, ⟨0, 0, 0, 0⟩⟩) (.branch .leaf (some ⟨1, 193, 0, some 170, [none, none, none, none, none, none, none, some 194], 1, ⟨0, 0, 0, 0⟩⟩) .leaf)) (some ⟨5, 33, 6, some 32, [none, none, none, none, some 34, none, none, none], 1, ⟨0, 0, 0, 0⟩⟩) (.branch (.branch .leaf (some ⟨7, 161, 1, some 160, [none, none, none, none, none, none, none, none], 0, ⟨1, 122, 72, 65⟩⟩) .leaf) (some ⟨1, 97, 4, some 96, [none, some 98, none, none, none, none, none, none], 1, ⟨0, 0, 0, 0⟩⟩) .leaf)) (some ⟨5, 17, 6, some 16, [some 18, none, none, none, none, none, none, none], 1, ⟨0, 0, 0, 0⟩⟩) (.branch (.branch (.branch .leaf (some ⟨3, 145, 4, some 144, [some 146, none, none, none, none, none, none, none], 1, ⟨0, 0, 0, 0⟩⟩) .leaf) (some ⟨7, 81, 1, some 80, [none, none, none, none, none, none, none, none], 0, ⟨1, 60, 94, 139⟩⟩) (.branch .leaf (some ⟨3, 209, 1, some 208, [none, none, none, none, none, none, none, some 210], 1, ⟨0, 0, 0, 0⟩⟩) .leaf)) (some ⟨2, 49, 6, some 48, [none, none, none, some 50, none, none, none, none], 1, ⟨0, 0, 0, 0⟩⟩) (.branch (.branch .leaf (some ⟨7, 177, 3, some 176, [none, none, none, none, none, none, none, none], 0, ⟨1, 136, 75, 43⟩⟩) .leaf) (some ⟨3, 113, 1, some 112, [none, none, none, none, none, none, none, some 114], 1, ⟨0, 0, 0, 0⟩⟩) .leaf))) (some ⟨3, 9, 7, some 3, [none, some 10, none, none, none, none, none, none], 1, ⟨0, 0, 0, 0⟩⟩) (.branch (.branch (.branch (.branch .leaf (some ⟨7, 137, 5, some 136, [none, none, none, none, none, none, none, none], 0, ⟨1, 115, 190, 211⟩⟩) .leaf) (some ⟨7, 73, 4, some 72, [none, none, none, none, none, none, none, none], 0, ⟨1, 57, 74, 80⟩⟩) (.branch .leaf (some ⟨3, 201, 3, some 200, [none, none, none, none, some 202, none, none, none], 1, ⟨0, 0, 0, 0⟩⟩) .leaf)) (some ⟨7, 41, 1, some 40, [none, none, none, none, none, none, none, none], 0, ⟨1, 32, 46, 55⟩⟩) (.branch (.branch .leaf (some ⟨7, 169, 6, some 168, [none, none, none, none, none, none, none, none], 0, ⟨1, 129, 151, 150⟩⟩) .leaf) (some ⟨3, 105, 1, some 104, [none, none, none, none, none, none, some 106, none], 1, ⟨0, 0, 0, 0⟩⟩) .leaf)) (some ⟨7, 25, 4, some 24, [none, none, none, none, none, none, none, none], 0, ⟨1, 23, 32, 56⟩⟩) (.branch (.branch (.branch .leaf (some ⟨5, 153, 2, some 152, [none, none, none, none, none, none, none, some 154], 1, ⟨0, 0, 0, 0⟩⟩) .leaf) (some ⟨1, 89, 4, some 1, [none, some 90, none, some 104, none, none, none, some 125], 3, ⟨0, 0, 0, 0⟩⟩) .leaf) (some ⟨3, 57, 2, some 56, [none, some 58, none, none, none, none, none, none], 1, ⟨0, 0, 0, 0⟩⟩) (.branch (.branch .leaf (some ⟨7, 185, 0, some 184, [none, none, none, none, none, none, none, none], 0, ⟨1, 162, 62, 140⟩⟩) .leaf) (some ⟨4, 121, 0, some 120, [none, none, none, none, none, some 122, none, none], 1, ⟨0, 0, 0, 0⟩⟩) .leaf)))) (some ⟨4, 5, 6, some 4, [none, some 6, none, none, none, none, none, none], 1, ⟨0, 0, 0, 0⟩⟩) (.branch (.branch (.branch (.branch (.branch .leaf (some ⟨3, 133, 7, some 132, [none, none, some 134, none, none, none, none, none], 1, ⟨0, 0, 0, 0⟩⟩) .leaf) (some ⟨3, 69, 5, some 68, [none, none, none, none, none, none, some 70, none], 1, ⟨0, 0, 0, 0⟩⟩) (.branch .leaf (some ⟨5, 197, 4, some 196, [some 198, none, none, none, none, none, none, none], 1, ⟨0, 0, 0, 0⟩⟩) .leaf)) (some ⟨3, 37, 1, some 36, [none, none, some 38, none, none, none, none, none], 1, ⟨0, 0, 0, 0⟩⟩) (.branch (.branch .leaf (some ⟨3, 165, 3, some 164, [some 166, none, none, none, none, none, none, none], 1, ⟨0, 0, 0, 0⟩⟩) .leaf) (some ⟨5, 101, 4, some 100, [none, none, none, none, none, none, none, some 102], 1, ⟨0, 0, 0, 0⟩⟩) .leaf)) (some ⟨3, 21, 5, some 20, [none, some 22, none, none, none, none, none, none], 1, ⟨0, 0, 0, 0⟩⟩) (.branch (.branch (.branch .leaf (some ⟨7, 149, 7, some 148, [none, none, none, none, none, none, none, none], 0, ⟨1, 117, 167, 67⟩⟩) .leaf) (some ⟨4, 85, 0, some 84, [none, none, some 86, none, none, none, none, none], 1, ⟨0, 0, 0, 0⟩⟩) (.branch .leaf (some ⟨7, 213, 0, some 212, [none, none, none, none, none, none, none, none], 0, ⟨1, 168, 202, 88⟩⟩) .leaf)) (some ⟨6, 53, 3, some 52, [none, none, none, none, some 54, none, none, none], 1, ⟨0, 0, 0, 0⟩⟩) (.branch (.branch .leaf (some ⟨3, 181, 2, some 180, [none, none, none, some 182, none, none, none, none], 1, ⟨0, 0, 0, 0⟩⟩) .leaf) (some ⟨7, 117, 6, some 116, [none, none, none, none, none, none, none, none], 0, ⟨1, 79, 143, 186⟩⟩) .leaf))) (some ⟨7, 13, 1, some 12, [none, none, none, none, none, none, none, none], 0, ⟨1, 16, 20, 31⟩⟩) (.branch (.branch (.branch (.branch .leaf (some ⟨6, 141, 0, some 140, [none, none, none, none, some 142, none, none, none], 1, ⟨0, 0, 0, 0⟩⟩) .leaf) (some ⟨3, 77, 6, some 76, [none, none, none, none, none, none, none, some 78], 1, ⟨0, 0, 0, 0⟩⟩) (.branch .leaf (some ⟨7, 205, 2, some 204, [none, none, none, none, none, none, none, none], 0, ⟨1, 168, 181, 178⟩⟩) .leaf)) (some ⟨5, 45, 7, some 44, [none, some 46, none, none, none, none, none, none], 1, ⟨0, 0, 0, 0⟩⟩) (.branch (.branch .leaf (some ⟨3, 173, 0, some 172, [none, none, none, none, none, none, none, some 174], 1, ⟨0, 0, 0, 0⟩⟩) .leaf) (some ⟨7, 109, 6, some 108, [none, none, none, none, none, none, none, none], 0, ⟨1, 77, 43, 50⟩⟩) .leaf)) (some ⟨6, 29, 2, some 28, [none, none, none, none, none, none, none, some 30], 1, ⟨0, 0, 0, 0⟩⟩) (.branch (.branch (.branch .leaf (some ⟨3, 157, 4, some 156, [none, none, none, none, none, none, some 158, none], 1, ⟨0, 0, 0, 0⟩⟩) .leaf) (some ⟨5, 93, 2, some 92, [some 94, none, none, none, none, none, none, none], 1, ⟨0, 0, 0, 0⟩⟩) .leaf) (some ⟨7, 61, 4, some 60, [none, none, none, none, none, none, none, none], 0, ⟨1, 37, 86, 46⟩⟩) (.branch (.branch .leaf (some ⟨4, 189, 3, some 188, [none, none, none, none, none, none, some 190, none], 1, ⟨0, 0, 0, 0⟩⟩) .leaf) (some ⟨2, 125, 7, some 89, [some 126, none, none, none, none, some 138, none, none], 2, ⟨0, 0, 0, 0⟩⟩) .leaf)))))) (some ⟨0, 0, 0, none, [some 1, some 74, some 96, some 110, some 170, some 178, some 206, some 162], 8, ⟨0, 0, 0, 0⟩⟩) (.branch (.branch (.branch (.branch (.branch (.branch (.branch .leaf (some ⟨5, 128, 3, some 127, [some 129, none, none, none, none, none, none, none], 1, ⟨0, 0, 0, 0⟩⟩) .leaf) (some ⟨5, 64, 7, some 63, [none, some 65, none, none, none, none, none, none], 1, ⟨0, 0, 0, 0⟩⟩) (.branch .leaf (some ⟨7, 192, 3, some 191, [none, none, none, none, none, none, none, none], 0, ⟨1, 164, 221, 219⟩⟩) .leaf)) (some ⟨4, 32, 7, some 31, [none, none, none, none, none, none, some 33, none], 1, ⟨0, 0, 0, 0⟩⟩) (.branch (.branch .leaf (some ⟨6, 160, 4, some 159, [none, some 161, none, none, none, none, none, none], 1, ⟨0, 0, 0, 0⟩⟩) .leaf) (some ⟨0, 96, 2, some 0, [none, none, none, none, some 97, some 143, none, none], 2, ⟨0, 0, 0, 0⟩⟩) .leaf)) (some ⟨4, 16, 3, some 15, [none, none, none, none, none, none, some 17, none], 1, ⟨0, 0, 0, 0⟩⟩) (.branch (.branch (.branch .leaf (some ⟨2, 144, 6, some 143, [none, none, none, none, some 145, none, none, none], 1, ⟨0, 0, 0, 0⟩⟩) .leaf) (some ⟨6, 80, 3, some 79, [none, some 81, none, none, none, none, none, none], 1, ⟨0, 0, 0, 0⟩⟩) (.branch .leaf (some ⟨2, 208, 4, some 207, [none, some 209, none, none, none, none, none, none], 1, ⟨0, 0, 0, 0⟩⟩) .leaf)) (some ⟨1, 48, 1, some 1, [none, none, none, none, none, none, some 49, none], 1, ⟨0, 0, 0, 0⟩⟩) (.branch (.branch .leaf (some ⟨6, 176, 3, some 175, [none, none, none, some 177, none, none, none, none], 1, ⟨0, 0, 0, 0⟩⟩) .leaf) (some ⟨2, 112, 1, some 111, [none, some 113, none, none, none, none, none, none], 1, ⟨0, 0, 0, 0⟩⟩) .leaf))) (some ⟨7, 8, 4, some 7, [none, none, none, none, none, none, none, none], 0, ⟨1, 9, 10, 20⟩⟩) (.branch (.branch (.branch (.branch .leaf (some ⟨6, 136, 7, some 135, [none, none, none, none, none, some 137, none, none], 1, ⟨0, 0, 0, 0⟩⟩) .leaf) (some ⟨6, 72, 2, some 71, [none, none, none, none, some 73, none, none, none], 1, ⟨0, 0, 0, 0⟩⟩) (.branch .leaf (some ⟨2, 200, 7, some 163, [none, none, none, some 201, none, none, none, none], 1, ⟨0, 0, 0, 0⟩⟩) .leaf)) (some ⟨6, 40, 3, some 39, [none, some 41, none, none, none, none, none, none], 1, ⟨0, 0, 0, 0⟩⟩) (.branch (.branch .leaf (some ⟨6, 168, 3, some 167, [none, none, none, none, none, none, some 169, none], 1, ⟨0, 0, 0, 0⟩⟩) .leaf) (some ⟨2, 104, 3, some 89, [none, some 105, none, none, none, none, none, none], 1, ⟨0, 0, 0, 0⟩⟩) .leaf)) (some ⟨6, 24, 4, some 23, [none, none, none, none, some 25, none, none, none], 1, ⟨0, 0, 0, 0⟩⟩) (.branch (.branch (.branch .leaf (some ⟨4, 152, 5, some 151, [none, none, some 153, none, none, none, none, none], 1, ⟨0, 0, 0, 0⟩⟩) .leaf) (some ⟨7, 88, 3, some 87, [none, none, none, none, none, none, none, none], 0, ⟨1, 64, 39, 81⟩⟩) .leaf) (some ⟨2, 56, 5, some 55, [none, none, some 57, none, none, none, none, none], 1, ⟨0, 0, 0, 0⟩⟩) (.branch (.branch .leaf (some ⟨6, 184, 6, some 183, [some 185, none, none, none, none, none, none, none], 1, ⟨0, 0, 0, 0⟩⟩) .leaf) (some ⟨3, 120, 7, some 119, [some 121, none, none, none, none, none, none, none], 1, ⟨0, 0, 0, 0⟩⟩) .leaf)))) (some ⟨3, 4, 1, some 3, [none, none, none, none, none, none, some 5, none], 1, ⟨0, 0, 0, 0⟩⟩) (.branch (.branch (.branch (.branch (.branch .leaf (some ⟨2, 132, 6, some 131, [none, none, none, none, none, none, none, some 133], 1, ⟨0, 0, 0, 0⟩⟩) .leaf) (some ⟨2, 68, 4, some 67, [none, none, none, none, none, some 69, none, none], 1, ⟨0, 0, 0, 0⟩⟩) (.branch .leaf (some ⟨4, 196, 0, some 195, [none, none, none, none, some 197, none, none, none], 1, ⟨0, 0, 0, 0⟩⟩) .leaf)) (some ⟨2, 36, 7, some 2, [none, some 37, none, none, none, none, none, none], 1, ⟨0, 0, 0, 0⟩⟩) (.branch (.branch .leaf (some ⟨2, 164, 0, some 163, [none, none, none, some 165, none, none, none, none], 1, ⟨0, 0, 0, 0⟩⟩) .leaf) (some ⟨4, 100, 0, some 99, [none, none, none, none, some 101, none, none, none], 1, ⟨0, 0, 0, 0⟩⟩) .leaf)) (some ⟨2, 20, 3, some 2, [none, none, none, none, none, some 21, some 26, none], 2, ⟨0, 0, 0, 0⟩⟩) (.branch (.branch (.branch .leaf (some ⟨6, 148, 3, some 147, [none, none, none, none, none, none, none, some 149], 1, ⟨0, 0, 0, 0⟩⟩) .leaf) (some ⟨3, 84, 1, some 83, [some 85, none, none, none, none, none, none, none], 1, ⟨0, 0, 0, 0⟩⟩) (.branch .leaf (some ⟨6, 212, 2, some 211, [some 213, none, none, none, none, none, none, none], 1, ⟨0, 0, 0, 0⟩⟩) .leaf)) (some ⟨5, 52, 5, some 51, [none, none, none, some 53, none, none, none, none], 1, ⟨0, 0, 0, 0⟩⟩) (.branch (.branch .leaf (some ⟨2, 180, 6, some 179, [none, none, some 181, none, none, none, none, none], 1, ⟨0, 0, 0, 0⟩⟩) .leaf) (some ⟨6, 116, 7, some 115, [none, none, none, none, none, none, some 117, none], 1, ⟨0, 0, 0, 0⟩⟩) .leaf))) (some ⟨6, 12, 1, some 11, [none, some 13, none, none, none, none, none, none], 1, ⟨0, 0, 0, 0⟩⟩) (.branch (.branch (.branch (.branch .leaf (some ⟨5, 140, 6, some 139, [some 141, none, none, none, none, none, none, none], 1, ⟨0, 0, 0, 0⟩⟩) .leaf) (some ⟨2, 76, 4, some 75, [none, none, none, none, none, none, some 77, none], 1, ⟨0, 0, 0, 0⟩⟩) (.branch .leaf (some ⟨6, 204, 1, some 203, [none, none, some 205, none, none, none, none, none], 1, ⟨0, 0, 0, 0⟩⟩) .leaf)) (some ⟨4, 44, 0, some 43, [none, none, none, none, none, none, none, some 45], 1, ⟨0, 0, 0, 0⟩⟩) (.branch (.branch .leaf (some ⟨2, 172, 1, some 171, [some 173, none, none, none, none, none, none, none], 1, ⟨0, 0, 0, 0⟩⟩) .leaf) (some ⟨6, 108, 3, some 107, [none, none, none, none, none, none, some 109, none], 1, ⟨0, 0, 0, 0⟩⟩) .leaf)) (some ⟨5, 28, 1, some 27, [none, none, some 29, none, none, none, none, none], 1, ⟨0, 0, 0, 0⟩⟩) (.branch (.branch (.branch .leaf (some ⟨2, 156, 4, some 118, [none, none, none, none, some 157, none, none, none], 1, ⟨0, 0, 0, 0⟩⟩) .leaf) (some ⟨4, 92, 2, some 91, [none, none, some 93, none, none, none, none, none], 1, ⟨0, 0, 0, 0⟩⟩) .leaf) (some ⟨6, 60, 3, some 59, [none, none, none, none, some 61, none, none, none], 1, ⟨0, 0, 0, 0⟩⟩) (.branch (.branch .leaf (some ⟨3, 188, 3, some 187, [none, none, none, some 189, none, none, none, none], 1, ⟨0, 0, 0, 0⟩⟩) .leaf) (some ⟨7, 124, 5, some 123, [none, none, none, none, none, none, none, none], 0, ⟨1, 87, 114, 119⟩⟩) .leaf))))) (some ⟨1, 2, 0, some 1, [some 3, some 14, none, some 20, none, some 42, none, some 36], 5, ⟨0, 0, 0, 0⟩⟩) (.branch (.branch (.branch (.branch (.branch (.branch .leaf (some ⟨7, 130, 0, some 129, [none, none, none, none, none, none, none, none], 0, ⟨1, 96, 44, 44⟩⟩) .leaf) (some ⟨7, 66, 1, some 65, [none, none, none, none, none, none, none, none], 0, ⟨1, 52, 28, 39⟩⟩) (.branch .leaf (some ⟨2, 194, 7, some 193, [none, none, none, some 195, none, none, none, none], 1, ⟨0, 0, 0, 0⟩⟩) .leaf)) (some ⟨6, 34, 4, some 33, [none, none, none, some 35, none, none, none, none], 1, ⟨0, 0, 0, 0⟩⟩) (.branch (.branch .leaf (some ⟨0, 162, 7, some 0, [some 163, none, none, some 186, none, none, none, none], 2, ⟨0, 0, 0, 0⟩⟩) .leaf) (some ⟨2, 98, 1, some 97, [none, some 99, none, none, none, none, none, none], 1, ⟨0, 0, 0, 0⟩⟩) .leaf)) (some ⟨6, 18, 0, some 17, [none, none, none, none, none, none, some 19, none], 1, ⟨0, 0, 0, 0⟩⟩) (.branch (.branch (.branch .leaf (some ⟨4, 146, 0, some 145, [none, none, none, none, none, none, some 147, none], 1, ⟨0, 0, 0, 0⟩⟩) .leaf) (some ⟨1, 82, 5, some 1, [none, none, some 83, none, none, none, none, some 150], 2, ⟨0, 0, 0, 0⟩⟩) (.branch .leaf (some ⟨4, 210, 7, some 209, [some 211, none, none, none, none, none, none, none], 1, ⟨0, 0, 0, 0⟩⟩) .leaf)) (some ⟨3, 50, 3, some 49, [none, none, none, some 51, none, none, none, none], 1, ⟨0, 0, 0, 0⟩⟩) (.branch (.branch .leaf (some ⟨0, 178, 5, some 0, [some 179, none, none, none, none, none, none, none], 1, ⟨0, 0, 0, 0⟩⟩) .leaf) (some ⟨4, 114, 7, some 113, [none, none, none, none, none, none, some 115, none], 1, ⟨0, 0, 0, 0⟩⟩) .leaf))) (some ⟨4, 10, 1, some 9, [none, none, none, some 11, none, none, none, none], 1, ⟨0, 0, 0, 0⟩⟩) (.branch (.branch (.branch (.branch .leaf (some ⟨3, 138, 5, some 125, [none, some 139, none, none, none, none, none, none], 1, ⟨0, 0, 0, 0⟩⟩) .leaf) (some ⟨0, 74, 1, some 0, [none, none, some 75, none, none, none, none, none], 1, ⟨0, 0, 0, 0⟩⟩) (.branch .leaf (some ⟨4, 202, 4, some 201, [none, none, some 203, none, none, none, none, none], 1, ⟨0, 0, 0, 0⟩⟩) .leaf)) (some ⟨2, 42, 5, some 2, [none, none, some 43, none, none, none, some 62, none], 2, ⟨0, 0, 0, 0⟩⟩) (.branch (.branch .leaf (some ⟨0, 170, 4, some 0, [some 193, none, some 171, none, none, none, none, none], 2, ⟨0, 0, 0, 0⟩⟩) .leaf) (some ⟨4, 106, 6, some 105, [none, none, none, none, some 107, none, none, none], 1, ⟨0, 0, 0, 0⟩⟩) .leaf)) (some ⟨3, 26, 6, some 20, [none, none, none, none, none, some 27, none, none], 1, ⟨0, 0, 0, 0⟩⟩) (.branch (.branch (.branch .leaf (some ⟨6, 154, 7, some 153, [none, some 155, none, none, none, none, none, none], 1, ⟨0, 0, 0, 0⟩⟩) .leaf) (some ⟨2, 90, 1, some 89, [none, none, none, some 91, none, none, none, none], 1, ⟨0, 0, 0, 0⟩⟩) .leaf) (some ⟨4, 58, 1, some 57, [none, none, none, none, none, none, none, some 59], 1, ⟨0, 0, 0, 0⟩⟩) (.branch (.branch .leaf (some ⟨1, 186, 3, some 162, [none, none, none, none, some 187, none, none, none], 1, ⟨0, 0, 0, 0⟩⟩) .leaf) (some ⟨5, 122, 5, some 121, [none, none, none, none, none, none, none, some 123], 1, ⟨0, 0, 0, 0⟩⟩) .leaf)))) (some ⟨5, 6, 1, some 5, [none, none, some 7, none, none, none, none, none], 1, ⟨0, 0, 0, 0⟩⟩) (.branch (.branch (.branch (.branch (.branch .leaf (some ⟨4, 134, 2, some 133, [none, none, some 135, none, none, none, none, none], 1, ⟨0, 0, 0, 0⟩⟩) .leaf) (some ⟨4, 70, 6, some 69, [some 71, none, none, none, none, none, none, none], 1, ⟨0, 0, 0, 0⟩⟩) (.branch .leaf (some ⟨6, 198, 0, some 197, [none, none, none, none, some 199, none, none, none], 1, ⟨0, 0, 0, 0⟩⟩) .leaf)) (some ⟨4, 38, 2, some 37, [none, none, none, some 39, none, none, none, none], 1, ⟨0, 0, 0, 0⟩⟩) (.branch (.branch .leaf (some ⟨4, 166, 0, some 165, [none, none, none, some 167, none, none, none, none], 1, ⟨0, 0, 0, 0⟩⟩) .leaf) (some ⟨6, 102, 7, some 101, [some 103, none, none, none, none, none, none, none], 1, ⟨0, 0, 0, 0⟩⟩) .leaf)) (some ⟨4, 22, 1, some 21, [none, none, none, none, some 23, none, none, none], 1, ⟨0, 0, 0, 0⟩⟩) (.branch (.branch (.branch .leaf (some ⟨2, 150, 7, some 82, [none, none, none, none, none, none, none, some 151], 1, ⟨0, 0, 0, 0⟩⟩) .leaf) (some ⟨5, 86, 2, some 85, [none, none, some 87, none, none, none, none, none], 1, ⟨0, 0, 0, 0⟩⟩) .leaf) (some ⟨7, 54, 4, some 53, [none, none, none, none, none, none, none, none], 0, ⟨1, 37, 58, 94⟩⟩) (.branch (.branch .leaf (some ⟨4, 182, 3, some 181, [none, none, none, some 183, none, none, none, none], 1, ⟨0, 0, 0, 0⟩⟩) .leaf) (some ⟨1, 118, 7, some 1, [none, none, none, some 119, some 156, none, none, none], 2, ⟨0, 0, 0, 0⟩⟩) .leaf))) (some ⟨2, 14, 1, some 2, [none, none, none, none, none, none, some 15, some 31], 2, ⟨0, 0, 0, 0⟩⟩) (.branch (.branch (.branch (.branch .leaf (some ⟨7, 142, 4, some 141, [none, none, none, none, none, none, none, none], 0, ⟨1, 117, 36, 56⟩⟩) .leaf) (some ⟨4, 78, 7, some 77, [none, none, none, none, none, none, some 79, none], 1, ⟨0, 0, 0, 0⟩⟩) (.branch .leaf (some ⟨0, 206, 6, some 0, [none, none, none, some 207, none, none, none, none], 1, ⟨0, 0, 0, 0⟩⟩) .leaf)) (some ⟨6, 46, 1, some 45, [none, none, none, some 47, none, none, none, none], 1, ⟨0, 0, 0, 0⟩⟩) (.branch (.branch .leaf (some ⟨4, 174, 7, some 173, [some 175, none, none, none, none, none, none, none], 1, ⟨0, 0, 0, 0⟩⟩) .leaf) (some ⟨0, 110, 3, some 0, [none, none, none, none, some 111, some 131, none, none], 2, ⟨0, 0, 0, 0⟩⟩) .leaf)) (some ⟨7, 30, 7, some 29, [none, none, none, none, none, none, none, none], 0, ⟨1, 25, 51, 45⟩⟩) (.branch (.branch (.branch .leaf (some ⟨4, 158, 6, some 157, [some 159, none, none, none, none, none, none, none], 1, ⟨0, 0, 0, 0⟩⟩) .leaf) (some ⟨6, 94, 0, some 93, [none, none, none, none, none, none, none, some 95], 1, ⟨0, 0, 0, 0⟩⟩) .leaf) (some ⟨3, 62, 6, some 42, [none, none, some 63, none, none, none, none, none], 1, ⟨0, 0, 0, 0⟩⟩) (.branch (.branch .leaf (some ⟨5, 190, 6, some 189, [none, some 191, none, none, none, none, none, none], 1, ⟨0, 0, 0, 0⟩⟩) .leaf) (some ⟨3, 126, 0, some 125, [none, none, none, some 127, none, none, none, none], 1, ⟨0, 0, 0, 0⟩⟩) .leaf)))))))⟩⟩

/-- Checkpoint: the tree after all 46 fixture pixels. -/
def fixtureT3 : ColorTree := ⟨⟨307, (.branch (.branch (.branch (.branch (.branch (.branch (.branch (.branch (.branch .leaf (some ⟨1, 255, 6, some 162, [some 256, none, none, none, none, some 288, none, none], 2, ⟨0, 0, 0, 0⟩⟩) .leaf) (some ⟨4, 127, 3, some 126, [none, none, none, some 128, none, none, none, none], 1, ⟨0, 0, 0, 0⟩⟩) .leaf) (some ⟨4, 63, 2, some 62, [none, none, none, none, none, none, none, some 64], 1, ⟨0, 0, 0, 0⟩⟩) (.branch .leaf (some ⟨6, 191, 1, some 190, [none, none, none, some 192, none, none, none, none], 1, ⟨0, 0, 0, 0⟩⟩) .leaf)) (some ⟨3, 31, 7, some 14, [none, none, none, none, none, none, none, some 32], 1, ⟨0, 0, 0, 0⟩⟩) (.branch (.branch (.branch .leaf (some ⟨7, 287, 5, some 286, [none, none, none, none, none, none, none, none], 0, ⟨1, 223, 132, 165⟩⟩) .leaf) (some ⟨5, 159, 0, some 158, [none, none, none, none, some 160, none, none, none], 1, ⟨0, 0, 0, 0⟩⟩) .leaf) (some ⟨7, 95, 7, some 94, [none, none, none, none, none, none, none, none], 0, ⟨1, 65, 29, 49⟩⟩) (.branch .leaf (some ⟨4, 223, 5, some 222, [none, none, none, none, none, none, some 224, none], 1, ⟨0, 0, 0, 0⟩⟩) .leaf))) (some ⟨3, 15, 6, some 14, [none, none, none, some 16, none, none, none, none], 1, ⟨0, 0, 0, 0⟩⟩) (.branch (.branch (.branch (.branch .leaf (some ⟨3, 271, 5, some 270, [none, none, none, none, none, some 272, none, none], 1, ⟨0, 0, 0, 0⟩⟩) .leaf) (some ⟨1, 143, 5, some 96, [none, none, none, none, none, none, some 144, none], 1, ⟨0, 0, 0, 0⟩⟩) .leaf) (some ⟨5, 79, 6, some 78, [none, none, none, some 80, none, none, none, none], 1, ⟨0, 0, 0, 0⟩⟩) (.branch .leaf (some ⟨1, 207, 3, some 206, [none, none, none, none, some 208, none, none, none], 1, ⟨0, 0, 0, 0⟩⟩) .leaf)) (some ⟨7, 47, 3, some 46, [none, none, none, none, none, none, none, none], 0, ⟨1, 36, 21, 39⟩⟩) (.branch (.branch (.branch .leaf (some ⟨4, 303, 7, some 302, [none, none, some 304, none, none, none, none, none], 1, ⟨0, 0, 0, 0⟩⟩) .leaf) (some ⟨5, 175, 0, some 174, [none, none, none, some 176, none, none, none, none], 1, ⟨0, 0, 0, 0⟩⟩) .leaf) (some ⟨1, 111, 4, some 110, [none, some 112, none, none, none, none, none, none], 1, ⟨0, 0, 0, 0⟩⟩) (.branch .leaf (some ⟨6, 239, 5, some 238, [none, none, none, some 240, none, none, none, none], 1, ⟨0, 0, 0, 0⟩⟩) .leaf)))) (some ⟨6, 7, 2, some 6, [none, none, none, none, some 8, none, none, none], 1, ⟨0, 0, 0, 0⟩⟩) (.branch (.branch (.branch (.branch (.branch .leaf (some ⟨2, 263, 2, some 262, [none, none, none, none, none, none, none, some 264], 1, ⟨0, 0, 0, 0⟩⟩) .leaf) (some ⟨5, 135, 2, some 134, [none, none, none, none, none, none, none, some 136], 1, ⟨0, 0, 0, 0⟩⟩) .leaf) (some ⟨5, 71, 0, some 70, [none, none, some 72, none, none, none, none, none], 1, ⟨0, 0, 0, 0⟩⟩) (.branch .leaf (some ⟨7, 199, 4, some 198, [none, none, none, none, none, none, none, none], 0, ⟨1, 165, 48, 48⟩⟩) .leaf)) (some ⟨5, 39, 3, some 38, [none, none, none, some 40, none, none, none, none], 1, ⟨0, 0, 0, 0⟩⟩) (.branch (.branch (.branch .leaf (some ⟨2, 295, 5, some 294, [none, some 296, none, none, none, none, none, none], 1, ⟨0, 0, 0, 0⟩⟩) .leaf) (some ⟨5, 167, 3, some 166, [none, none, none, some 168, none, none, none, none], 1, ⟨0, 0, 0, 0⟩⟩) .leaf) (some ⟨7, 103, 0, some 102, [none, none, none, none, none, none, none, none], 0, ⟨1, 70, 130, 50⟩⟩) (.branch .leaf (some ⟨5, 231, 2, some 230, [none, some 232, none, none, none, none, none, none], 1, ⟨0, 0, 0, 0⟩⟩) .leaf))) (some ⟨5, 23, 4, some 22, [none, none, none, none, some 24, none, none, none], 1, ⟨0, 0, 0, 0⟩⟩) (.branch (.branch (.branch (.branch .leaf (some ⟨5, 279, 6, some 278, [none, none, none, none, none, none, some 280, none], 1, ⟨0, 0, 0, 0⟩⟩) .leaf) (some ⟨3, 151, 7, some 150, [none, none, none, none, none, some 152, none, none], 1, ⟨0, 0, 0, 0⟩⟩) .leaf) (some ⟨6, 87, 2, some 86, [none, none, none, some 88, none, none, none, none], 1, ⟨0, 0, 0, 0⟩⟩) (.branch .leaf (some ⟨2, 215, 6, some 214, [none, none, none, some 216, none, none, none, none], 1, ⟨0, 0, 0, 0⟩⟩) .leaf)) (some ⟨1, 55, 2, some 1, [none, none, none, none, none, some 56, none, none], 1, ⟨0, 0, 0, 0⟩⟩) (.branch (.branch .leaf (some ⟨5, 183, 3, some 182, [none, none, none, none, none, none, some 184, none], 1, ⟨0, 0, 0, 0⟩⟩) .leaf) (some ⟨2, 119, 3, some 118, [none, none, none, none, none, none, none, some 120], 1, ⟨0, 0, 0, 0⟩⟩) (.branch .leaf (some ⟨7, 247, 6, some 246, [none, none, none, none, none, none, none, none], 0, ⟨1, 199, 207, 204⟩⟩) .leaf))))) (some ⟨2, 3, 0, some 2, [none, some 4, none, none, none, none, none, some 9], 2, ⟨0, 0, 0, 0⟩⟩) (.branch (.branch (.branch (.branch (.branch (.branch .leaf (some ⟨5, 259, 0, some 258, [none, none, some 260, none, none, none, none, none], 1, ⟨0, 0, 0, 0⟩⟩) .leaf) (some ⟨1, 131, 5, some 110, [none, none, none, none, none, none, some 132, none], 1, ⟨0, 0, 0, 0⟩⟩) .leaf) (some ⟨1, 67, 3, some 1, [none, none, none, none, some 68, none, none, none], 1, ⟨0, 0, 0, 0⟩⟩) (.branch .leaf (some ⟨3, 195, 3, some 194, [some 196, none, none, none, none, none, none, none], 1, ⟨0, 0, 0, 0⟩⟩) .leaf)) (some ⟨7, 35, 3, some 34, [none, none, none, none, none, none, none, none], 0, ⟨1, 30, 29, 57⟩⟩) (.branch (.branch (.branch .leaf (some ⟨5, 291, 6, some 290, [none, none, none, none, none, some 292, none, none], 1, ⟨0, 0, 0, 0⟩⟩) .leaf) (some ⟨1, 163, 0, some 162, [some 164, none, none, none, none, none, none, some 200], 2, ⟨0, 0, 0, 0⟩⟩) .leaf) (some ⟨3, 99, 1, some 98, [some 100, none, none, none, none, none, none, none], 1, ⟨0, 0, 0, 0⟩⟩) (.branch .leaf (some ⟨1, 227, 5, some 206, [some 276, some 228, none, none, none, none, none, none], 2, ⟨0, 0, 0, 0⟩⟩) .leaf))) (some ⟨7, 19, 6, some 18, [none, none, none, none, none, none, none, none], 0, ⟨1, 21, 29, 40⟩⟩) (.branch (.branch (.branch (.branch .leaf (some ⟨7, 275, 0, some 274, [none, none, none, none, none, none, none, none], 0, ⟨1, 218, 134, 62⟩⟩) .leaf) (some ⟨5, 147, 6, some 146, [none, none, none, some 148, none, none, none, none], 1, ⟨0, 0, 0, 0⟩⟩) .leaf) (some ⟨2, 83, 2, some 82, [none, some 84, none, none, none, none, none, none], 1, ⟨0, 0, 0, 0⟩⟩) (.branch .leaf (some ⟨5, 211, 0, some 210, [none, none, some 212, none, none, none, none, none], 1, ⟨0, 0, 0, 0⟩⟩) .leaf)) (some ⟨4, 51, 3, some 50, [none, none, none, none, none, some 52, none, none], 1, ⟨0, 0, 0, 0⟩⟩) (.branch (.branch .leaf (some ⟨1, 179, 0, some 178, [none, none, none, none, none, none, some 180, none], 1, ⟨0, 0, 0, 0⟩⟩) .leaf) (some ⟨5, 115, 6, some 114, [none, none, none, none, none, none, none, some 116], 1, ⟨0, 0, 0, 0⟩⟩) (.branch .leaf (some ⟨3, 243, 0, some 242, [none, none, none, some 244, none, none, none, none], 1, ⟨0, 0, 0, 0⟩⟩) .leaf)))) (some ⟨5, 11, 3, some 10, [none, some 12, none, none, none, none, none, none], 1, ⟨0, 0, 0, 0⟩⟩) (.branch (.branch (.branch (.branch (.branch .leaf (some ⟨6, 267, 4, some 266, [none, none, none, none, none, none, some 268, none], 1, ⟨0, 0, 0, 0⟩⟩) .leaf) (some ⟨4, 139, 1, some 138, [none, none, none, none, none, none, some 140, none], 1, ⟨0, 0, 0, 0⟩⟩) .leaf) (some ⟨1, 75, 2, some 74, [none, none, none, none, some 76, none, none, none], 1, ⟨0, 0, 0, 0⟩⟩) (.branch .leaf (some ⟨5, 203, 2, some 202, [none, some 204, none, none, none, none, none, none], 1, ⟨0, 0, 0, 0⟩⟩) .leaf)) (some ⟨3, 43, 2, some 42, [some 44, none, none, none, none, none, none, none], 1, ⟨0, 0, 0, 0⟩⟩) (.branch (.branch (.branch .leaf (some ⟨6, 299, 0, some 298, [none, none, some 300, none, none, none, none, none], 1, ⟨0, 0, 0, 0⟩⟩) .leaf) (some ⟨1, 171, 2, some 170, [none, some 172, none, none, none, none, none, some 221], 2, ⟨0, 0, 0, 0⟩⟩) .leaf) (some ⟨5, 107, 4, some 106, [none, none, none, some 108, none, none, none, none], 1, ⟨0, 0, 0, 0⟩⟩) (.branch .leaf (some ⟨2, 235, 0, some 234, [none, none, none, some 236, none, none, none, none], 1, ⟨0, 0, 0, 0⟩⟩) .leaf))) (some ⟨4, 27, 5, some 26, [none, some 28, none, none, none, none, none, none], 1, ⟨0, 0, 0, 0⟩⟩) (.branch (.branch (.branch (.branch .leaf (some ⟨3, 283, 4, some 282, [none, none, none, none, some 284, none, none, none], 1, ⟨0, 0, 0, 0⟩⟩) .leaf) (some ⟨7, 155, 1, some 154, [none, none, none, none, none, none, none, none], 0, ⟨1, 122, 54, 123⟩⟩) .leaf) (some ⟨3, 91, 3, some 90, [none, none, some 92, none, none, none, none, none], 1, ⟨0, 0, 0, 0⟩⟩) (.branch .leaf (some ⟨6, 219, 3, some 218, [none, none, none, none, none, none, none, some 220], 1, ⟨0, 0, 0, 0⟩⟩) .leaf)) (some ⟨5, 59, 7, some 58, [none, none, none, some 60, none, none, none, none], 1, ⟨0, 0, 0, 0⟩⟩) (.branch (.branch .leaf (some ⟨2, 187, 4, some 186, [none, none, none, some 188, none, none, none, none], 1, ⟨0, 0, 0, 0⟩⟩) .leaf) (some ⟨6, 123, 7, some 122, [none, none, none, none, none, some 124, none, none], 1, ⟨0, 0, 0, 0⟩⟩) (.branch .leaf (some ⟨4, 251, 5, some 250, [none, none, none, none, none, none, none, some 252], 1, ⟨0, 0, 0, 0⟩⟩) .leaf)))))) (some ⟨0, 1, 0, some 0, [some 2, some 48, some 55, some 67, some 89, some 82, none, some 118], 7, ⟨0, 0, 0, 0⟩⟩) (.branch (.branch (.branch (.branch (.branch (.branch (.branch .leaf (some ⟨3, 257, 7, some 256, [none, none, some 258, none, none, none, none, none], 1, ⟨0, 0, 0, 0⟩⟩) .leaf) (some ⟨6, 129, 0, some 128, [some 130, none, none, none, none, none, none, none], 1, ⟨0, 0, 0, 0⟩⟩) .leaf) (some ⟨6, 65, 1, some 64, [none, some 66, none, none, none, none, none, none], 1, ⟨0, 0, 0, 0⟩⟩) (.branch .leaf (some ⟨1, 193, 0, some 170, [none, none, none, none, none, none, none, some 194], 1, ⟨0, 0, 0, 0⟩⟩) .leaf)) (some ⟨5, 33, 6, some 32, [none, none, none, none, some 34, none, none, none], 1, ⟨0, 0, 0, 0⟩⟩) (.branch (.branch (.branch .leaf (some ⟨3, 289, 3, some 288, [some 290, none, none, none, none, none, none, none], 1, ⟨0, 0, 0, 0⟩⟩) .leaf) (some ⟨7, 161, 1, some 160, [none, none, none, none, none, none, none, none], 0, ⟨1, 122, 72, 65⟩⟩) .leaf) (some ⟨1, 97, 4, some 96, [none, some 98, none, none, none, none, none, none], 1, ⟨0, 0, 0, 0⟩⟩) (.branch .leaf (some ⟨6, 225, 7, some 224, [none, none, none, some 226, none, none, none, none], 1, ⟨0, 0, 0, 0⟩⟩) .leaf))) (some ⟨5, 17, 6, some 16, [some 18, none, none, none, none, none, none, none], 1, ⟨0, 0, 0, 0⟩⟩) (.branch (.branch (.branch (.branch .leaf (some ⟨5, 273, 3, some 272, [none, none, none, none, none, none, none, some 274], 1, ⟨0, 0, 0, 0⟩⟩) .leaf) (some ⟨3, 145, 4, some 144, [some 146, none, none, none, none, none, none, none], 1, ⟨0, 0, 0, 0⟩⟩) .leaf) (some ⟨7, 81, 1, some 80, [none, none, none, none, none, none, none, none], 0, ⟨1, 60, 94, 139⟩⟩) (.branch .leaf (some ⟨3, 209, 1, some 208, [none, none, none, none, none, none, none, some 210], 1, ⟨0, 0, 0, 0⟩⟩) .leaf)) (some ⟨2, 49, 6, some 48, [none, none, none, some 50, none, none, none, none], 1, ⟨0, 0, 0, 0⟩⟩) (.branch (.branch (.branch .leaf (some ⟨6, 305, 4, some 304, [none, none, none, none, none, none, none, some 306], 1, ⟨0, 0, 0, 0⟩⟩) .leaf) (some ⟨7, 177, 3, some 176, [none, none, none, none, none, none, none, none], 0, ⟨1, 136, 75, 43⟩⟩) .leaf) (some ⟨3, 113, 1, some 112, [none, none, none, none, none, none, none, some 114], 1, ⟨0, 0, 0, 0⟩⟩) (.branch .leaf (some ⟨1, 241, 7, some 162, [some 242, none, none, none, none, none, none, some 301], 2, ⟨0, 0, 0, 0⟩⟩) .leaf)))) (some ⟨3, 9, 7, some 3, [none, some 10, none, none, none, none, none, none], 1, ⟨0, 0, 0, 0⟩⟩) (.branch (.branch (.branch (.branch (.branch .leaf (some ⟨4, 265, 0, some 264, [none, none, none, none, none, none, none, some 266], 1, ⟨0, 0, 0, 0⟩⟩) .leaf) (some ⟨7, 137, 5, some 136, [none, none, none, none, none, none, none, none], 0, ⟨1, 115, 190, 211⟩⟩) .leaf) (some ⟨7, 73, 4, some 72, [none, none, none, none, none, none, none, none], 0, ⟨1, 57, 74, 80⟩⟩) (.branch .leaf (some ⟨3, 201, 3, some 200, [none, none, none, none, some 202, none, none, none], 1, ⟨0, 0, 0, 0⟩⟩) .leaf)) (some ⟨7, 41, 1, some 40, [none, none, none, none, none, none, none, none], 0, ⟨1, 32, 46, 55⟩⟩) (.branch (.branch (.branch .leaf (some ⟨4, 297, 4, some 296, [some 298, none, none, none, none, none, none, none], 1, ⟨0, 0, 0, 0⟩⟩) .leaf) (some ⟨7, 169, 6, some 168, [none, none, none, none, none, none, none, none], 0, ⟨1, 129, 151, 150⟩⟩) .leaf) (some ⟨3, 105, 1, some 104, [none, none, none, none, none, none, some 106, none], 1, ⟨0, 0, 0, 0⟩⟩) (.branch .leaf (some ⟨7, 233, 1, some 232, [none, none, none, none, none, none, none, none], 0, ⟨1, 192, 148, 115⟩⟩) .leaf))) (some ⟨7, 25, 4, some 24, [none, none, none, none, none, none, none, none], 0, ⟨1, 23, 32, 56⟩⟩) (.branch (.branch (.branch (.branch .leaf (some ⟨7, 281, 1, some 280, [none, none, none, none, none, none, none, none], 0, ⟨1, 222, 158, 65⟩⟩) .leaf) (some ⟨5, 153, 2, some 152, [none, none, none, none, none, none, none, some 154], 1, ⟨0, 0, 0, 0⟩⟩) .leaf) (some ⟨1, 89, 4, some 1, [none, some 90, none, some 104, none, none, none, some 125], 3, ⟨0, 0, 0, 0⟩⟩) (.branch .leaf (some ⟨4, 217, 4, some 216, [none, none, none, none, none, none, none, some 218], 1, ⟨0, 0, 0, 0⟩⟩) .leaf)) (some ⟨3, 57, 2, some 56, [none, some 58, none, none, none, none, none, none], 1, ⟨0, 0, 0, 0⟩⟩) (.branch (.branch .leaf (some ⟨7, 185, 0, some 184, [none, none, none, none, none, none, none, none], 0, ⟨1, 162, 62, 140⟩⟩) .leaf) (some ⟨4, 121, 0, some 120, [none, none, none, none, none, some 122, none, none], 1, ⟨0, 0, 0, 0⟩⟩) (.branch .leaf (some ⟨2, 249, 1, some 248, [none, none, none, some 250, none, none, none, none], 1, ⟨0, 0, 0, 0⟩⟩) .leaf))))) (some ⟨4, 5, 6, some 4, [none, some 6, none, none, none, none, none, none], 1, ⟨0, 0, 0, 0⟩⟩) (.branch (.branch (.branch (.branch (.branch (.branch .leaf (some ⟨7, 261, 1, some 260, [none, none, none, none, none, none, none, none], 0, ⟨1, 208, 218, 145⟩⟩) .leaf) (some ⟨3, 133, 7, some 132, [none, none, some 134, none, none, none, none, none], 1, ⟨0, 0, 0, 0⟩⟩) .leaf) (some ⟨3, 69, 5, some 68, [none, none, none, none, none, none, some 70, none], 1, ⟨0, 0, 0, 0⟩⟩) (.branch .leaf (some ⟨5, 197, 4, some 196, [some 198, none, none, none, none, none, none, none], 1, ⟨0, 0, 0, 0⟩⟩) .leaf)) (some ⟨3, 37, 1, some 36, [none, none, some 38, none, none, none, none, none], 1, ⟨0, 0, 0, 0⟩⟩) (.branch (.branch (.branch .leaf (some ⟨7, 293, 7, some 292, [none, none, none, none, none, none, none, none], 0, ⟨1, 231, 213, 179⟩⟩) .leaf) (some ⟨3, 165, 3, some 164, [some 166, none, none, none, none, none, none, none], 1, ⟨0, 0, 0, 0⟩⟩) .leaf) (some ⟨5, 101, 4, some 100, [none, none, none, none, none, none, none, some 102], 1, ⟨0, 0, 0, 0⟩⟩) (.branch .leaf (some ⟨3, 229, 3, some 228, [some 230, none, none, none, none, none, none, none], 1, ⟨0, 0, 0, 0⟩⟩) .leaf))) (some ⟨3, 21, 5, some 20, [none, some 22, none, none, none, none, none, none], 1, ⟨0, 0, 0, 0⟩⟩) (.branch (.branch (.branch (.branch .leaf (some ⟨3, 277, 6, some 276, [none, none, none, none, none, none, some 278, none], 1, ⟨0, 0, 0, 0⟩⟩) .leaf) (some ⟨7, 149, 7, some 148, [none, none, none, none, none, none, none, none], 0, ⟨1, 117, 167, 67⟩⟩) .leaf) (some ⟨4, 85, 0, some 84, [none, none, some 86, none, none, none, none, none], 1, ⟨0, 0, 0, 0⟩⟩) (.branch .leaf (some ⟨7, 213, 0, some 212, [none, none, none, none, none, none, none, none], 0, ⟨1, 168, 202, 88⟩⟩) .leaf)) (some ⟨6, 53, 3, some 52, [none, none, none, none, some 54, none, none, none], 1, ⟨0, 0, 0, 0⟩⟩) (.branch (.branch .leaf (some ⟨3, 181, 2, some 180, [none, none, none, some 182, none, none, none, none], 1, ⟨0, 0, 0, 0⟩⟩) .leaf) (some ⟨7, 117, 6, some 116, [none, none, none, none, none, none, none, none], 0, ⟨1, 79, 143, 186⟩⟩) (.branch .leaf (some ⟨5, 245, 7, some 244, [none, none, none, none, none, none, some 246, none], 1, ⟨0, 0, 0, 0⟩⟩) .leaf)))) (some ⟨7, 13, 1, some 12, [none, none, none, none, none, none, none, none], 0, ⟨1, 16, 20, 31⟩⟩) (.branch (.branch (.branch (.branch (.branch .leaf (some ⟨1, 269, 4, some 206, [none, some 270, none, none, none, none, none, none], 1, ⟨0, 0, 0, 0⟩⟩) .leaf) (some ⟨6, 141, 0, some 140, [none, none, none, none, some 142, none, none, none], 1, ⟨0, 0, 0, 0⟩⟩) .leaf) (some ⟨3, 77, 6, some 76, [none, none, none, none, none, none, none, some 78], 1, ⟨0, 0, 0, 0⟩⟩) (.branch .leaf (some ⟨7, 205, 2, some 204, [none, none, none, none, none, none, none, none], 0, ⟨1, 168, 181, 178⟩⟩) .leaf)) (some ⟨5, 45, 7, some 44, [none, some 46, none, none, none, none, none, none], 1, ⟨0, 0, 0, 0⟩⟩) (.branch (.branch (.branch .leaf (some ⟨2, 301, 7, some 241, [some 302, none, none, none, none, none, none, none], 1, ⟨0, 0, 0, 0⟩⟩) .leaf) (some ⟨3, 173, 0, some 172, [none, none, none, none, none, none, none, some 174], 1, ⟨0, 0, 0, 0⟩⟩) .leaf) (some ⟨7, 109, 6, some 108, [none, none, none, none, none, none, none, none], 0, ⟨1, 77, 43, 50⟩⟩) (.branch .leaf (some ⟨4, 237, 0, some 236, [none, none, none, none, none, some 238, none, none], 1, ⟨0, 0, 0, 0⟩⟩) .leaf))) (some ⟨6, 29, 2, some 28, [none, none, none, none, none, none, none, some 30], 1, ⟨0, 0, 0, 0⟩⟩) (.branch (.branch (.branch (.branch .leaf (some ⟨5, 285, 7, some 284, [none, none, none, none, some 286, none, none, none], 1, ⟨0, 0, 0, 0⟩⟩) .leaf) (some ⟨3, 157, 4, some 156, [none, none, none, none, none, none, some 158, none], 1, ⟨0, 0, 0, 0⟩⟩) .leaf) (some ⟨5, 93, 2, some 92, [some 94, none, none, none, none, none, none, none], 1, ⟨0, 0, 0, 0⟩⟩) (.branch .leaf (some ⟨2, 221, 7, some 171, [none, none, none, none, none, none, some 222, none], 1, ⟨0, 0, 0, 0⟩⟩) .leaf)) (some ⟨7, 61, 4, some 60, [none, none, none, none, none, none, none, none], 0, ⟨1, 37, 86, 46⟩⟩) (.branch (.branch .leaf (some ⟨4, 189, 3, some 188, [none, none, none, none, none, none, some 190, none], 1, ⟨0, 0, 0, 0⟩⟩) .leaf) (some ⟨2, 125, 7, some 89, [some 126, none, none, none, none, some 138, none, none], 2, ⟨0, 0, 0, 0⟩⟩) (.branch .leaf (some ⟨6, 253, 6, some 252, [none, none, none, none, none, none, some 254, none], 1, ⟨0, 0, 0, 0⟩⟩) .leaf))))))) (some ⟨0, 0, 0, none, [some 1, some 74, some 96, some 110, some 170, some 178, some 206, some 162], 8, ⟨0, 0, 0, 0⟩⟩) (.branch (.branch (.branch (.branch (.branch (.branch (.branch (.branch .leaf (some ⟨2, 256, 0, some 255, [none, none, none, none, none, none, none, some 257], 1, ⟨0, 0, 0, 0⟩⟩) .leaf) (some ⟨5, 128, 3, some 127, [some 129, none, none, none, none, none, none, none], 1, ⟨0, 0, 0, 0⟩⟩) .leaf) (some ⟨5, 64, 7, some 63, [none, some 65, none, none, none, none, none, none], 1, ⟨0, 0, 0, 0⟩⟩) (.branch .leaf (some ⟨7, 192, 3, some 191, [none, none, none, none, none, none, none, none], 0, ⟨1, 164, 221, 219⟩⟩) .leaf)) (some ⟨4, 32, 7, some 31, [none, none, none, none, none, none, some 33, none], 1, ⟨0, 0, 0, 0⟩⟩) (.branch (.branch (.branch .leaf (some ⟨2, 288, 5, some 255, [none, none, none, some 289, none, none, none, none], 1, ⟨0, 0, 0, 0⟩⟩) .leaf) (some ⟨6, 160, 4, some 159, [none, some 161, none, none, none, none, none, none], 1, ⟨0, 0, 0, 0⟩⟩) .leaf) (some ⟨0, 96, 2, some 0, [none, none, none, none, some 97, some 143, none, none], 2, ⟨0, 0, 0, 0⟩⟩) (.branch .leaf (some ⟨5, 224, 6, some 223, [none, none, none, none, none, none, none, some 225], 1, ⟨0, 0, 0, 0⟩⟩) .leaf))) (some ⟨4, 16, 3, some 15, [none, none, none, none, none, none, some 17, none], 1, ⟨0, 0, 0, 0⟩⟩) (.branch (.branch (.branch (.branch .leaf (some ⟨4, 272, 5, some 271, [none, none, none, some 273, none, none, none, none], 1, ⟨0, 0, 0, 0⟩⟩) .leaf) (some ⟨2, 144, 6, some 143, [none, none, none, none, some 145, none, none, none], 1, ⟨0, 0, 0, 0⟩⟩) .leaf) (some ⟨6, 80, 3, some 79, [none, some 81, none, none, none, none, none, none], 1, ⟨0, 0, 0, 0⟩⟩) (.branch .leaf (some ⟨2, 208, 4, some 207, [none, some 209, none, none, none, none, none, none], 1, ⟨0, 0, 0, 0⟩⟩) .leaf)) (some ⟨1, 48, 1, some 1, [none, none, none, none, none, none, some 49, none], 1, ⟨0, 0, 0, 0⟩⟩) (.branch (.branch (.branch .leaf (some ⟨5, 304, 2, some 303, [none, none, none, none, some 305, none, none, none], 1, ⟨0, 0, 0, 0⟩⟩) .leaf) (some ⟨6, 176, 3, some 175, [none, none, none, some 177, none, none, none, none], 1, ⟨0, 0, 0, 0⟩⟩) .leaf) (some ⟨2, 112, 1, some 111, [none, some 113, none, none, none, none, none, none], 1, ⟨0, 0, 0, 0⟩⟩) (.branch .leaf (some ⟨7, 240, 3, some 239, [none, none, none, none, none, none, none, none], 0, ⟨1, 198, 81, 151⟩⟩) .leaf)))) (some ⟨7, 8, 4, some 7, [none, none, none, none, none, none, none, none], 0, ⟨1, 9, 10, 20⟩⟩) (.branch (.branch (.branch (.branch (.branch .leaf (some ⟨3, 264, 7, some 263, [some 265, none, none, none, none, none, none, none], 1, ⟨0, 0, 0, 0⟩⟩) .leaf) (some ⟨6, 136, 7, some 135, [none, none, none, none, none, some 137, none, none], 1, ⟨0, 0, 0, 0⟩⟩) .leaf) (some ⟨6, 72, 2, some 71, [none, none, none, none, some 73, none, none, none], 1, ⟨0, 0, 0, 0⟩⟩) (.branch .leaf (some ⟨2, 200, 7, some 163, [none, none, none, some 201, none, none, none, none], 1, ⟨0, 0, 0, 0⟩⟩) .leaf)) (some ⟨6, 40, 3, some 39, [none, some 41, none, none, none, none, none, none], 1, ⟨0, 0, 0, 0⟩⟩) (.branch (.branch (.branch .leaf (some ⟨3, 296, 1, some 295, [none, none, none, none, some 297, none, none, none], 1, ⟨0, 0, 0, 0⟩⟩) .leaf) (some ⟨6, 168, 3, some 167, [none, none, none, none, none, none, some 169, none], 1, ⟨0, 0, 0, 0⟩⟩) .leaf) (some ⟨2, 104, 3, some 89, [none, some 105, none, none, none, none, none, none], 1, ⟨0, 0, 0, 0⟩⟩) (.branch .leaf (some ⟨6, 232, 1, some 231, [none, some 233, none, none, none, none, none, none], 1, ⟨0, 0, 0, 0⟩⟩) .leaf))) (some ⟨6, 24, 4, some 23, [none, none, none, none, some 25, none, none, none], 1, ⟨0, 0, 0, 0⟩⟩) (.branch (.branch (.branch (.branch .leaf (some ⟨6, 280, 6, some 279, [none, some 281, none, none, none, none, none, none], 1, ⟨0, 0, 0, 0⟩⟩) .leaf) (some ⟨4, 152, 5, some 151, [none, none, some 153, none, none, none, none, none], 1, ⟨0, 0, 0, 0⟩⟩) .leaf) (some ⟨7, 88, 3, some 87, [none, none, none, none, none, none, none, none], 0, ⟨1, 64, 39, 81⟩⟩) (.branch .leaf (some ⟨3, 216, 3, some 215, [none, none, none, none, some 217, none, none, none], 1, ⟨0, 0, 0, 0⟩⟩) .leaf)) (some ⟨2, 56, 5, some 55, [none, none, some 57, none, none, none, none, none], 1, ⟨0, 0, 0, 0⟩⟩) (.branch (.branch .leaf (some ⟨6, 184, 6, some 183, [some 185, none, none, none, none, none, none, none], 1, ⟨0, 0, 0, 0⟩⟩) .leaf) (some ⟨3, 120, 7, some 119, [some 121, none, none, none, none, none, none, none], 1, ⟨0, 0, 0, 0⟩⟩) (.branch .leaf (some ⟨1, 248, 6, some 170, [none, some 249, none, none, none, none, none, none], 1, ⟨0, 0, 0, 0⟩⟩) .leaf))))) (some ⟨3, 4, 1, some 3, [none, none, none, none, none, none, some 5, none], 1, ⟨0, 0, 0, 0⟩⟩) (.branch (.branch (.branch (.branch (.branch (.branch .leaf (some ⟨6, 260, 2, some 259, [none, some 261, none, none, none, none, none, none], 1, ⟨0, 0, 0, 0⟩⟩) .leaf) (some ⟨2, 132, 6, some 131, [none, none, none, none, none, none, none, some 133], 1, ⟨0, 0, 0, 0⟩⟩) .leaf) (some ⟨2, 68, 4, some 67, [none, none, none, none, none, some 69, none, none], 1, ⟨0, 0, 0, 0⟩⟩) (.branch .leaf (some ⟨4, 196, 0, some 195, [none, none, none, none, some 197, none, none, none], 1, ⟨0, 0, 0, 0⟩⟩) .leaf)) (some ⟨2, 36, 7, some 2, [none, some 37, none, none, none, none, none, none], 1, ⟨0, 0, 0, 0⟩⟩) (.branch (.branch (.branch .leaf (some ⟨6, 292, 5, some 291, [none, none, none, none, none, none, none, some 293], 1, ⟨0, 0, 0, 0⟩⟩) .leaf) (some ⟨2, 164, 0, some 163, [none, none, none, some 165, none, none, none, none], 1, ⟨0, 0, 0, 0⟩⟩) .leaf) (some ⟨4, 100, 0, some 99, [none, none, none, none, some 101, none, none, none], 1, ⟨0, 0, 0, 0⟩⟩) (.branch .leaf (some ⟨2, 228, 1, some 227, [none, none, none, some 229, none, none, none, none], 1, ⟨0, 0, 0, 0⟩⟩) .leaf))) (some ⟨2, 20, 3, some 2, [none, none, none, none, none, some 21, some 26, none], 2, ⟨0, 0, 0, 0⟩⟩) (.branch (.branch (.branch (.branch .leaf (some ⟨2, 276, 0, some 227, [none, none, none, none, none, none, some 277, none], 1, ⟨0, 0, 0, 0⟩⟩) .leaf) (some ⟨6, 148, 3, some 147, [none, none, none, none, none, none, none, some 149], 1, ⟨0, 0, 0, 0⟩⟩) .leaf) (some ⟨3, 84, 1, some 83, [some 85, none, none, none, none, none, none, none], 1, ⟨0, 0, 0, 0⟩⟩) (.branch .leaf (some ⟨6, 212, 2, some 211, [some 213, none, none, none, none, none, none, none], 1, ⟨0, 0, 0, 0⟩⟩) .leaf)) (some ⟨5, 52, 5, some 51, [none, none, none, some 53, none, none, none, none], 1, ⟨0, 0, 0, 0⟩⟩) (.branch (.branch .leaf (some ⟨2, 180, 6, some 179, [none, none, some 181, none, none, none, none, none], 1, ⟨0, 0, 0, 0⟩⟩) .leaf) (some ⟨6, 116, 7, some 115, [none, none, none, none, none, none, some 117, none], 1, ⟨0, 0, 0, 0⟩⟩) (.branch .leaf (some ⟨4, 244, 3, some 243, [none, none, none, none, none, none, none, some 245], 1, ⟨0, 0, 0, 0⟩⟩) .leaf)))) (some ⟨6, 12, 1, some 11, [none, some 13, none, none, none, none, none, none], 1, ⟨0, 0, 0, 0⟩⟩) (.branch (.branch (.branch (.branch (.branch .leaf (some ⟨7, 268, 6, some 267, [none, none, none, none, none, none, none, none], 0, ⟨1, 215, 181, 148⟩⟩) .leaf) (some ⟨5, 140, 6, some 139, [some 141, none, none, none, none, none, none, none], 1, ⟨0, 0, 0, 0⟩⟩) .leaf) (some ⟨2, 76, 4, some 75, [none, none, none, none, none, none, some 77, none], 1, ⟨0, 0, 0, 0⟩⟩) (.branch .leaf (some ⟨6, 204, 1, some 203, [none, none, some 205, none, none, none, none, none], 1, ⟨0, 0, 0, 0⟩⟩) .leaf)) (some ⟨4, 44, 0, some 43, [none, none, none, none, none, none, none, some 45], 1, ⟨0, 0, 0, 0⟩⟩) (.branch (.branch (.branch .leaf (some ⟨7, 300, 2, some 299, [none, none, none, none, none, none, none, none], 0, ⟨1, 232, 193, 112⟩⟩) .leaf) (some ⟨2, 172, 1, some 171, [some 173, none, none, none, none, none, none, none], 1, ⟨0, 0, 0, 0⟩⟩) .leaf) (some ⟨6, 108, 3, some 107, [none, none, none, none, none, none, some 109, none], 1, ⟨0, 0, 0, 0⟩⟩) (.branch .leaf (some ⟨3, 236, 3, some 235, [some 237, none, none, none, none, none, none, none], 1, ⟨0, 0, 0, 0⟩⟩) .leaf))) (some ⟨5, 28, 1, some 27, [none, none, some 29, none, none, none, none, none], 1, ⟨0, 0, 0, 0⟩⟩) (.branch (.branch (.branch (.branch .leaf (some ⟨4, 284, 4, some 283, [none, none, none, none, none, none, none, some 285], 1, ⟨0, 0, 0, 0⟩⟩) .leaf) (some ⟨2, 156, 4, some 118, [none, none, none, none, some 157, none, none, none], 1, ⟨0, 0, 0, 0⟩⟩) .leaf) (some ⟨4, 92, 2, some 91, [none, none, some 93, none, none, none, none, none], 1, ⟨0, 0, 0, 0⟩⟩) (.branch .leaf (some ⟨7, 220, 7, some 219, [none, none, none, none, none, none, none, none], 0, ⟨1, 173, 119, 87⟩⟩) .leaf)) (some ⟨6, 60, 3, some 59, [none, none, none, none, some 61, none, none, none], 1, ⟨0, 0, 0, 0⟩⟩) (.branch (.branch .leaf (some ⟨3, 188, 3, some 187, [none, none, none, some 189, none, none, none, none], 1, ⟨0, 0, 0, 0⟩⟩) .leaf) (some ⟨7, 124, 5, some 123, [none, none, none, none, none, none, none, none], 0, ⟨1, 87, 114, 119⟩⟩) (.branch .leaf (some ⟨5, 252, 7, some 251, [none, none, none, none, none, none, some 253, none], 1, ⟨0, 0, 0, 0⟩⟩) .leaf)))))) (some ⟨1, 2, 0, some 1, [some 3, some 14, none, some 20, none, some 42, none, some 36], 5, ⟨0, 0, 0, 0⟩⟩) (.branch (.branch (.branch (.branch (.branch (.branch (.branch .leaf (some ⟨4, 258, 2, some 257, [some 259, none, none, none, none, none, none, none], 1, ⟨0, 0, 0, 0⟩⟩) .leaf) (some ⟨7, 130, 0, some 129, [none, none, none, none, none, none, none, none], 0, ⟨1, 96, 44, 44⟩⟩) .leaf) (some ⟨7, 66, 1, some 65, [none, none, none, none, none, none, none, none], 0, ⟨1, 52, 28, 39⟩⟩) (.branch .leaf (some ⟨2, 194, 7, some 193, [none, none, none, some 195, none, none, none, none], 1, ⟨0, 0, 0, 0⟩⟩) .leaf)) (some ⟨6, 34, 4, some 33, [none, none, none, some 35, none, none, none, none], 1, ⟨0, 0, 0, 0⟩⟩) (.branch (.branch (.branch .leaf (some ⟨4, 290, 0, some 289, [none, none, none, none, none, none, some 291, none], 1, ⟨0, 0, 0, 0⟩⟩) .leaf) (some ⟨0, 162, 7, some 0, [some 163, none, none, some 186, some 262, none, some 255, some 241], 5, ⟨0, 0, 0, 0⟩⟩) .leaf) (some ⟨2, 98, 1, some 97, [none, some 99, none, none, none, none, none, none], 1, ⟨0, 0, 0, 0⟩⟩) (.branch .leaf (some ⟨7, 226, 3, some 225, [none, none, none, none, none, none, none, none], 0, ⟨1, 190, 119, 43⟩⟩) .leaf))) (some ⟨6, 18, 0, some 17, [none, none, none, none, none, none, some 19, none], 1, ⟨0, 0, 0, 0⟩⟩) (.branch (.branch (.branch (.branch .leaf (some ⟨6, 274, 7, some 273, [some 275, none, none, none, none, none, none, none], 1, ⟨0, 0, 0, 0⟩⟩) .leaf) (some ⟨4, 146, 0, some 145, [none, none, none, none, none, none, some 147, none], 1, ⟨0, 0, 0, 0⟩⟩) .leaf) (some ⟨1, 82, 5, some 1, [none, none, some 83, none, none, none, none, some 150], 2, ⟨0, 0, 0, 0⟩⟩) (.branch .leaf (some ⟨4, 210, 7, some 209, [some 211, none, none, none, none, none, none, none], 1, ⟨0, 0, 0, 0⟩⟩) .leaf)) (some ⟨3, 50, 3, some 49, [none, none, none, some 51, none, none, none, none], 1, ⟨0, 0, 0, 0⟩⟩) (.branch (.branch (.branch .leaf (some ⟨7, 306, 7, some 305, [none, none, none, none, none, none, none, none], 0, ⟨1, 235, 237, 233⟩⟩) .leaf) (some ⟨0, 178, 5, some 0, [some 179, none, none, none, none, none, some 234, none], 2, ⟨0, 0, 0, 0⟩⟩) .leaf) (some ⟨4, 114, 7, some 113, [none, none, none, none, none, none, some 115, none], 1, ⟨0, 0, 0, 0⟩⟩) (.branch .leaf (some ⟨2, 242, 0, some 241, [some 243, none, none, none, none, none, none, none], 1, ⟨0, 0, 0, 0⟩⟩) .leaf)))) (some ⟨4, 10, 1, some 9, [none, none, none, some 11, none, none, none, none], 1, ⟨0, 0, 0, 0⟩⟩) (.branch (.branch (.branch (.branch (.branch .leaf (some ⟨5, 266, 7, some 265, [none, none, none, none, some 267, none, none, none], 1, ⟨0, 0, 0, 0⟩⟩) .leaf) (some ⟨3, 138, 5, some 125, [none, some 139, none, none, none, none, none, none], 1, ⟨0, 0, 0, 0⟩⟩) .leaf) (some ⟨0, 74, 1, some 0, [none, none, some 75, none, none, none, none, none], 1, ⟨0, 0, 0, 0⟩⟩) (.branch .leaf (some ⟨4, 202, 4, some 201, [none, none, some 203, none, none, none, none, none], 1, ⟨0, 0, 0, 0⟩⟩) .leaf)) (some ⟨2, 42, 5, some 2, [none, none, some 43, none, none, none, some 62, none], 2, ⟨0, 0, 0, 0⟩⟩) (.branch (.branch (.branch .leaf (some ⟨5, 298, 0, some 297, [some 299, none, none, none, none, none, none, none], 1, ⟨0, 0, 0, 0⟩⟩) .leaf) (some ⟨0, 170, 4, some 0, [some 193, none, some 171, some 214, none, none, some 248, none], 4, ⟨0, 0, 0, 0⟩⟩) .leaf) (some ⟨4, 106, 6, some 105, [none, none, none, none, some 107, none, none, none], 1, ⟨0, 0, 0, 0⟩⟩) (.branch .leaf (some ⟨1, 234, 6, some 178, [some 235, none, none, none, none, none, none, none], 1, ⟨0, 0, 0, 0⟩⟩) .leaf))) (some ⟨3, 26, 6, some 20, [none, none, none, none, none, some 27, none, none], 1, ⟨0, 0, 0, 0⟩⟩) (.branch (.branch (.branch (.branch .leaf (some ⟨2, 282, 1, some 262, [none, none, none, none, some 283, none, none, none], 1, ⟨0, 0, 0, 0⟩⟩) .leaf) (some ⟨6, 154, 7, some 153, [none, some 155, none, none, none, none, none, none], 1, ⟨0, 0, 0, 0⟩⟩) .leaf) (some ⟨2, 90, 1, some 89, [none, none, none, some 91, none, none, none, none], 1, ⟨0, 0, 0, 0⟩⟩) (.branch .leaf (some ⟨5, 218, 7, some 217, [none, none, none, some 219, none, none, none, none], 1, ⟨0, 0, 0, 0⟩⟩) .leaf)) (some ⟨4, 58, 1, some 57, [none, none, none, none, none, none, none, some 59], 1, ⟨0, 0, 0, 0⟩⟩) (.branch (.branch .leaf (some ⟨1, 186, 3, some 162, [none, none, none, none, some 187, none, none, none], 1, ⟨0, 0, 0, 0⟩⟩) .leaf) (some ⟨5, 122, 5, some 121, [none, none, none, none, none, none, none, some 123], 1, ⟨0, 0, 0, 0⟩⟩) (.branch .leaf (some ⟨3, 250, 3, some 249, [none, none, none, none, none, some 251, none, none], 1, ⟨0, 0, 0, 0⟩⟩) .leaf))))) (some ⟨5, 6, 1, some 5, [none, none, some 7, none, none, none, none, none], 1, ⟨0, 0, 0, 0⟩⟩) (.branch (.branch (.branch (.branch (.branch (.branch .leaf (some ⟨1, 262, 4, some 162, [none, some 282, some 263, none, none, none, none, none], 2, ⟨0, 0, 0, 0⟩⟩) .leaf) (some ⟨4, 134, 2, some 133, [none, none, some 135, none, none, none, none, none], 1, ⟨0, 0, 0, 0⟩⟩) .leaf) (some ⟨4, 70, 6, some 69, [some 71, none, none, none, none, none, none, none], 1, ⟨0, 0, 0, 0⟩⟩) (.branch .leaf (some ⟨6, 198, 0, some 197, [none, none, none, none, some 199, none, none, none], 1, ⟨0, 0, 0, 0⟩⟩) .leaf)) (some ⟨4, 38, 2, some 37, [none, none, none, some 39, none, none, none, none], 1, ⟨0, 0, 0, 0⟩⟩) (.branch (.branch (.branch .leaf (some ⟨1, 294, 7, some 206, [none, none, none, none, none, some 295, none, none], 1, ⟨0, 0, 0, 0⟩⟩) .leaf) (some ⟨4, 166, 0, some 165, [none, none, none, some 167, none, none, none, none], 1, ⟨0, 0, 0, 0⟩⟩) .leaf) (some ⟨6, 102, 7, some 101, [some 103, none, none, none, none, none, none, none], 1, ⟨0, 0, 0, 0⟩⟩) (.branch .leaf (some ⟨4, 230, 0, some 229, [none, none, some 231, none, none, none, none, none], 1, ⟨0, 0, 0, 0⟩⟩) .leaf))) (some ⟨4, 22, 1, some 21, [none, none, none, none, some 23, none, none, none], 1, ⟨0, 0, 0, 0⟩⟩) (.branch (.branch (.branch (.branch .leaf (some ⟨4, 278, 6, some 277, [none, none, none, none, none, none, some 279, none], 1, ⟨0, 0, 0, 0⟩⟩) .leaf) (some ⟨2, 150, 7, some 82, [none, none, none, none, none, none, none, some 151], 1, ⟨0, 0, 0, 0⟩⟩) .leaf) (some ⟨5, 86, 2, some 85, [none, none, some 87, none, none, none, none, none], 1, ⟨0, 0, 0, 0⟩⟩) (.branch .leaf (some ⟨1, 214, 3, some 170, [none, none, none, none, none, none, some 215, none], 1, ⟨0, 0, 0, 0⟩⟩) .leaf)) (some ⟨7, 54, 4, some 53, [none, none, none, none, none, none, none, none], 0, ⟨1, 37, 58, 94⟩⟩) (.branch (.branch .leaf (some ⟨4, 182, 3, some 181, [none, none, none, some 183, none, none, none, none], 1, ⟨0, 0, 0, 0⟩⟩) .leaf) (some ⟨1, 118, 7, some 1, [none, none, none, some 119, some 156, none, none, none], 2, ⟨0, 0, 0, 0⟩⟩) (.branch .leaf (some ⟨6, 246, 6, some 245, [none, none, none, none, none, none, some 247, none], 1, ⟨0, 0, 0, 0⟩⟩) .leaf)))) (some ⟨2, 14, 1, some 2, [none, none, none, none, none, none, some 15, some 31], 2, ⟨0, 0, 0, 0⟩⟩) (.branch (.branch (.branch (.branch (.branch .leaf (some ⟨2, 270, 1, some 269, [none, none, none, none, none, some 271, none, none], 1, ⟨0, 0, 0, 0⟩⟩) .leaf) (some ⟨7, 142, 4, some 141, [none, none, none, none, none, none, none, none], 0, ⟨1, 117, 36, 56⟩⟩) .leaf) (some ⟨4, 78, 7, some 77, [none, none, none, none, none, none, some 79, none], 1, ⟨0, 0, 0, 0⟩⟩) (.branch .leaf (some ⟨0, 206, 6, some 0, [none, none, none, some 207, some 269, some 227, none, some 294], 4, ⟨0, 0, 0, 0⟩⟩) .leaf)) (some ⟨6, 46, 1, some 45, [none, none, none, some 47, none, none, none, none], 1, ⟨0, 0, 0, 0⟩⟩) (.branch (.branch (.branch .leaf (some ⟨3, 302, 0, some 301, [none, none, none, none, none, none, none, some 303], 1, ⟨0, 0, 0, 0⟩⟩) .leaf) (some ⟨4, 174, 7, some 173, [some 175, none, none, none, none, none, none, none], 1, ⟨0, 0, 0, 0⟩⟩) .leaf) (some ⟨0, 110, 3, some 0, [none, none, none, none, some 111, some 131, none, none], 2, ⟨0, 0, 0, 0⟩⟩) (.branch .leaf (some ⟨5, 238, 5, some 237, [none, none, none, none, none, some 239, none, none], 1, ⟨0, 0, 0, 0⟩⟩) .leaf))) (some ⟨7, 30, 7, some 29, [none, none, none, none, none, none, none, none], 0, ⟨1, 25, 51, 45⟩⟩) (.branch (.branch (.branch (.branch .leaf (some ⟨6, 286, 4, some 285, [none, none, none, none, none, some 287, none, none], 1, ⟨0, 0, 0, 0⟩⟩) .leaf) (some ⟨4, 158, 6, some 157, [some 159, none, none, none, none, none, none, none], 1, ⟨0, 0, 0, 0⟩⟩) .leaf) (some ⟨6, 94, 0, some 93, [none, none, none, none, none, none, none, some 95], 1, ⟨0, 0, 0, 0⟩⟩) (.branch .leaf (some ⟨3, 222, 6, some 221, [none, none, none, none, none, some 223, none, none], 1, ⟨0, 0, 0, 0⟩⟩) .leaf)) (some ⟨3, 62, 6, some 42, [none, none, some 63, none, none, none, none, none], 1, ⟨0, 0, 0, 0⟩⟩) (.branch (.branch .leaf (some ⟨5, 190, 6, some 189, [none, some 191, none, none, none, none, none, none], 1, ⟨0, 0, 0, 0⟩⟩) .leaf) (some ⟨3, 126, 0, some 125, [none, none, none, some 127, none, none, none, none], 1, ⟨0, 0, 0, 0⟩⟩) (.branch .leaf (some ⟨7, 254, 6, some 253, [none, none, none, none, none, none, none, none], 0, ⟨1, 207, 87, 60⟩⟩) .leaf))))))))⟩⟩

/-- Checkpoint: the initial merging queue of the built fixture tree. -/
def fixtureQ0 : List Nat := [306, 300, 293, 287, 281, 275, 268, 261, 254, 247, 240, 233, 226, 220, 213, 205, 199, 192, 185, 177, 169, 161, 155, 149, 142, 137, 130, 124, 117, 109, 103, 95, 88, 81, 73, 66, 61, 54, 47, 41, 35, 30, 25, 19, 13, 8]

/-- Checkpoint: the merge state after 176 fuel steps. -/
def fixtureA176 : NodeArena := ⟨307, (.branch (.branch (.branch (.branch (.branch (.branch (.branch (.branch (.branch .leaf (some ⟨1, 255, 6, some 162, [some 256, none, none, none, none, some 288, none, none], 2, ⟨0, 0, 0, 0⟩⟩) .leaf) (some ⟨4, 127, 3, none, [none, none, none, none, none, none, none, none], 0, ⟨1, 96, 44, 44⟩⟩) .leaf) (some ⟨4, 63, 2, none, [none, none, none, none, none, none, none, none], 0, ⟨1, 52, 28, 39⟩⟩) (.branch .leaf (some ⟨6, 191, 1, none, [none, none, none, none, none, none, none, none], 0, ⟨1, 164, 221, 219⟩⟩) .leaf)) (some ⟨3, 31, 7, none, [none, none, none, none, none, none, none, none], 0, ⟨1, 30, 29, 57⟩⟩) (.branch (.branch (.branch .leaf (some ⟨7, 287, 5, some 286, [none, none, none, none, none, none, none, none], 0, ⟨1, 223, 132, 165⟩⟩) .leaf) (some ⟨5, 159, 0, none, [none, none, none, none, none, none, none, none], 0, ⟨1, 122, 72, 65⟩⟩) .leaf) (some ⟨7, 95, 7, none, [none, none, none, none, none, none, none, none], 0, ⟨1, 65, 29, 49⟩⟩) (.branch .leaf (some ⟨4, 223, 5, some 222, [none, none, none, none, none, none, some 224, none], 1, ⟨0, 0, 0, 0⟩⟩) .leaf))) (some ⟨3, 15, 6, none, [none, none, none, none, none, none, none, none], 0, ⟨1, 21, 29, 40⟩⟩) (.branch (.branch (.branch (.branch .leaf (some ⟨3, 271, 5, some 270, [none, none, none, none, none, some 272, none, none], 1, ⟨0, 0, 0, 0⟩⟩) .leaf) (some ⟨1, 143, 5, none, [none, none, none, none, none, none, none, none], 0, ⟨1, 117, 167, 67⟩⟩) .leaf) (some ⟨5, 79, 6, none, [none, none, none, none, none, none, none, none], 0, ⟨1, 60, 94, 139⟩⟩) (.branch .leaf (some ⟨1, 207, 3, some 206, [none, none, none, none, some 208, none, none, none], 1, ⟨0, 0, 0, 0⟩⟩) .leaf)) (some ⟨7, 47, 3, none, [none, none, none, none, none, none, none, none], 0, ⟨1, 36, 21, 39⟩⟩) (.branch (.branch (.branch .leaf (some ⟨4, 303, 7, some 302, [none, none, some 304, none, none, none, none, none], 1, ⟨0, 0, 0, 0⟩⟩) .leaf) (some ⟨5, 175, 0, none, [none, none, none, none, none, none, none, none], 0, ⟨1, 136, 75, 43⟩⟩) .leaf) (some ⟨1, 111, 4, none, [none, none, none, none, none, none, none, none], 0, ⟨1, 79, 143, 186⟩⟩) (.branch .leaf (some ⟨6, 239, 5, some 238, [none, none, none, some 240, none, none, none, none], 1, ⟨0, 0, 0, 0⟩⟩) .leaf)))) (some ⟨6, 7, 2, none, [none, none, none, none, none, none, none, none], 0, ⟨1, 9, 10, 20⟩⟩) (.branch (.branch (.branch (.branch (.branch .leaf (some ⟨2, 263, 2, some 262, [none, none, none, none, none, none, none, some 264], 1, ⟨0, 0, 0, 0⟩⟩) .leaf) (some ⟨5, 135, 2, none, [none, none, none, none, none, none, none, none], 0, ⟨1, 115, 190, 211⟩⟩) .leaf) (some ⟨5, 71, 0, none, [none, none, none, none, none, none, none, none], 0, ⟨1, 57, 74, 80⟩⟩) (.branch .leaf (some ⟨7, 199, 4, some 198, [none, none, none, none, none, none, none, none], 0, ⟨1, 165, 48, 48⟩⟩) .leaf)) (some ⟨5, 39, 3, none, [none, none, none, none, none, none, none, none], 0, ⟨1, 32, 46, 55⟩⟩) (.branch (.branch (.branch .leaf (some ⟨2, 295, 5, some 294, [none, some 296, none, none, none, none, none, none], 1, ⟨0, 0, 0, 0⟩⟩) .leaf) (some ⟨5, 167, 3, none, [none, none, none, none, none, none, none, none], 0, ⟨1, 129, 151, 150⟩⟩) .leaf) (some ⟨7, 103, 0, none, [none, none, none, none, none, none, none, none], 0, ⟨1, 70, 130, 50⟩⟩) (.branch .leaf (some ⟨5, 231, 2, some 230, [none, some 232, none, none, none, none, none, none], 1, ⟨0, 0, 0, 0⟩⟩) .leaf))) (some ⟨5, 23, 4, none, [none, none, none, none, none, none, none, none], 0, ⟨1, 23, 32, 56⟩⟩) (.branch (.branch (.branch (.branch .leaf (some ⟨5, 279, 6, some 278, [none, none, none, none, none, none, some 280, none], 1, ⟨0, 0, 0, 0⟩⟩) .leaf) (some ⟨3, 151, 7, none, [none, none, none, none, none, none, none, none], 0, ⟨1, 122, 54, 123⟩⟩) .leaf) (some ⟨6, 87, 2, none, [none, none, none, none, none, none, none, none], 0, ⟨1, 64, 39, 81⟩⟩) (.branch .leaf (some ⟨2, 215, 6, some 214, [none, none, none, some 216, none, none, none, none], 1, ⟨0, 0, 0, 0⟩⟩) .leaf)) (some ⟨1, 55, 2, none, [none, none, none, none, none, none, none, none], 0, ⟨1, 37, 86, 46⟩⟩) (.branch (.branch .leaf (some ⟨5, 183, 3, none, [none, none, none, none, none, none, none, none], 0, ⟨1, 162, 62, 140⟩⟩) .leaf) (some ⟨2, 119, 3, none, [none, none, none, none, none, none, none, none], 0, ⟨1, 87, 114, 119⟩⟩) (.branch .leaf (some ⟨7, 247, 6, some 246, [none, none, none, none, none, none, none, none], 0, ⟨1, 199, 207, 204⟩⟩) .leaf))))) (some ⟨2, 3, 0, none, [none, none, none, none, none, none, none, none], 0, ⟨2, 25, 30, 51⟩⟩) (.branch (.branch (.branch (.branch (.branch (.branch .leaf (some ⟨5, 259, 0, some 258, [none, none, some 260, none, none, none, none, none], 1, ⟨0, 0, 0, 0⟩⟩) .leaf) (some ⟨1, 131, 5, none, [none, none, none, none, none, none, none, none], 0, ⟨1, 115, 190, 211⟩⟩) .leaf) (some ⟨1, 67, 3, none, [none, none, none, none, none, none, none, none], 0, ⟨1, 57, 74, 80⟩⟩) (.branch .leaf (some ⟨3, 195, 3, some 194, [some 196, none, none, none, none, none, none, none], 1, ⟨0, 0, 0, 0⟩⟩) .leaf)) (some ⟨7, 35, 3, none, [none, none, none, none, none, none, none, none], 0, ⟨1, 30, 29, 57⟩⟩) (.branch (.branch (.branch .leaf (some ⟨5, 291, 6, some 290, [none, none, none, none, none, some 292, none, none], 1, ⟨0, 0, 0, 0⟩⟩) .leaf) (some ⟨1, 163, 0, some 162, [none, none, none, none, none, none, none, some 200], 1, ⟨1, 129, 151, 150⟩⟩) .leaf) (some ⟨3, 99, 1, none, [none, none, none, none, none, none, none, none], 0, ⟨1, 70, 130, 50⟩⟩) (.branch .leaf (some ⟨1, 227, 5, some 206, [some 276, some 228, none, none, none, none, none, none], 2, ⟨0, 0, 0, 0⟩⟩) .leaf))) (some ⟨7, 19, 6, none, [none, none, none, none, none, none, none, none], 0, ⟨1, 21, 29, 40⟩⟩) (.branch (.branch (.branch (.branch .leaf (some ⟨7, 275, 0, some 274, [none, none, none, none, none, none, none, none], 0, ⟨1, 218, 134, 62⟩⟩) .leaf) (some ⟨5, 147, 6, none, [none, none, none, none, none, none, none, none], 0, ⟨1, 117, 167, 67⟩⟩) .leaf) (some ⟨2, 83, 2, none, [none, none, none, none, none, none, none, none], 0, ⟨1, 64, 39, 81⟩⟩) (.branch .leaf (some ⟨5, 211, 0, some 210, [none, none, some 212, none, none, none, none, none], 1, ⟨0, 0, 0, 0⟩⟩) .leaf)) (some ⟨4, 51, 3, none, [none, none, none, none, none, none, none, none], 0, ⟨1, 37, 58, 94⟩⟩) (.branch (.branch .leaf (some ⟨1, 179, 0, none, [none, none, none, none, none, none, none, none], 0, ⟨1, 162, 62, 140⟩⟩) .leaf) (some ⟨5, 115, 6, none, [none, none, none, none, none, none, none, none], 0, ⟨1, 79, 143, 186⟩⟩) (.branch .leaf (some ⟨3, 243, 0, some 242, [none, none, none, some 244, none, none, none, none], 1, ⟨0, 0, 0, 0⟩⟩) .leaf)))) (some ⟨5, 11, 3, none, [none, none, none, none, none, none, none, none], 0, ⟨1, 16, 20, 31⟩⟩) (.branch (.branch (.branch (.branch (.branch .leaf (some ⟨6, 267, 4, some 266, [none, none, none, none, none, none, some 268, none], 1, ⟨0, 0, 0, 0⟩⟩) .leaf) (some ⟨4, 139, 1, none, [none, none, none, none, none, none, none, none], 0, ⟨1, 117, 36, 56⟩⟩) .leaf) (some ⟨1, 75, 2, none, [none, none, none, none, none, none, none, none], 0, ⟨1, 60, 94, 139⟩⟩) (.branch .leaf (some ⟨5, 203, 2, some 202, [none, some 204, none, none, none, none, none, none], 1, ⟨0, 0, 0, 0⟩⟩) .leaf)) (some ⟨3, 43, 2, none, [none, none, none, none, none, none, none, none], 0, ⟨1, 36, 21, 39⟩⟩) (.branch (.branch (.branch .leaf (some ⟨6, 299, 0, some 298, [none, none, some 300, none, none, none, none, none], 1, ⟨0, 0, 0, 0⟩⟩) .leaf) (some ⟨1, 171, 2, some 170, [none, none, none, none, none, none, none, some 221], 1, ⟨1, 136, 75, 43⟩⟩) .leaf) (some ⟨5, 107, 4, none, [none, none, none, none, none, none, none, none], 0, ⟨1, 77, 43, 50⟩⟩) (.branch .leaf (some ⟨2, 235, 0, some 234, [none, none, none, some 236, none, none, none, none], 1, ⟨0, 0, 0, 0⟩⟩) .leaf))) (some ⟨4, 27, 5, none, [none, none, none, none, none, none, none, none], 0, ⟨1, 25, 51, 45⟩⟩) (.branch (.branch (.branch (.branch .leaf (some ⟨3, 283, 4, some 282, [none, none, none, none, some 284, none, none, none], 1, ⟨0, 0, 0, 0⟩⟩) .leaf) (some ⟨7, 155, 1, none, [none, none, none, none, none, none, none, none], 0, ⟨1, 122, 54, 123⟩⟩) .leaf) (some ⟨3, 91, 3, none, [none, none, none, none, none, none, none, none], 0, ⟨1, 65, 29, 49⟩⟩) (.branch .leaf (some ⟨6, 219, 3, some 218, [none, none, none, none, none, none, none, some 220], 1, ⟨0, 0, 0, 0⟩⟩) .leaf)) (some ⟨5, 59, 7, none, [none, none, none, none, none, none, none, none], 0, ⟨1, 37, 86, 46⟩⟩) (.branch (.branch .leaf (some ⟨2, 187, 4, some 186, [none, none, none, some 188, none, none, none, none], 1, ⟨0, 0, 0, 0⟩⟩) .leaf) (some ⟨6, 123, 7, none, [none, none, none, none, none, none, none, none], 0, ⟨1, 87, 114, 119⟩⟩) (.branch .leaf (some ⟨4, 251, 5, some 250, [none, none, none, none, none, none, none, some 252], 1, ⟨0, 0, 0, 0⟩⟩) .leaf)))))) (some ⟨0, 1, 0, some 0, [some 2, none, none, none, some 89, some 82, none, some 118], 4, ⟨3, 131, 218, 220⟩⟩) (.branch (.branch (.branch (.branch (.branch (.branch (.branch .leaf (some ⟨3, 257, 7, some 256, [none, none, some 258, none, none, none, none, none], 1, ⟨0, 0, 0, 0⟩⟩) .leaf) (some ⟨6, 129, 0, none, [none, none, none, none, none, none, none, none], 0, ⟨1, 96, 44, 44⟩⟩) .leaf) (some ⟨6, 65, 1, none, [none, none, none, none, none, none, none, none], 0, ⟨1, 52, 28, 39⟩⟩) (.branch .leaf (some ⟨1, 193, 0, some 170, [none, none, none, none, none, none, none, some 194], 1, ⟨0, 0, 0, 0⟩⟩) .leaf)) (some ⟨5, 33, 6, none, [none, none, none, none, none, none, none, none], 0, ⟨1, 30, 29, 57⟩⟩) (.branch (.branch (.branch .leaf (some ⟨3, 289, 3, some 288, [some 290, none, none, none, none, none, none, none], 1, ⟨0, 0, 0, 0⟩⟩) .leaf) (some ⟨7, 161, 1, none, [none, none, none, none, none, none, none, none], 0, ⟨1, 122, 72, 65⟩⟩) .leaf) (some ⟨1, 97, 4, none, [none, none, none, none, none, none, none, none], 0, ⟨1, 70, 130, 50⟩⟩) (.branch .leaf (some ⟨6, 225, 7, some 224, [none, none, none, some 226, none, none, none, none], 1, ⟨0, 0, 0, 0⟩⟩) .leaf))) (some ⟨5, 17, 6, none, [none, none, none, none, none, none, none, none], 0, ⟨1, 21, 29, 40⟩⟩) (.branch (.branch (.branch (.branch .leaf (some ⟨5, 273, 3, some 272, [none, none, none, none, none, none, none, some 274], 1, ⟨0, 0, 0, 0⟩⟩) .leaf) (some ⟨3, 145, 4, none, [none, none, none, none, none, none, none, none], 0, ⟨1, 117, 167, 67⟩⟩) .leaf) (some ⟨7, 81, 1, none, [none, none, none, none, none, none, none, none], 0, ⟨1, 60, 94, 139⟩⟩) (.branch .leaf (some ⟨3, 209, 1, some 208, [none, none, none, none, none, none, none, some 210], 1, ⟨0, 0, 0, 0⟩⟩) .leaf)) (some ⟨2, 49, 6, none, [none, none, none, none, none, none, none, none], 0, ⟨1, 37, 58, 94⟩⟩) (.branch (.branch (.branch .leaf (some ⟨6, 305, 4, some 304, [none, none, none, none, none, none, none, some 306], 1, ⟨0, 0, 0, 0⟩⟩) .leaf) (some ⟨7, 177, 3, none, [none, none, none, none, none, none, none, none], 0, ⟨1, 136, 75, 43⟩⟩) .leaf) (some ⟨3, 113, 1, none, [none, none, none, none, none, none, none, none], 0, ⟨1, 79, 143, 186⟩⟩) (.branch .leaf (some ⟨1, 241, 7, some 162, [some 242, none, none, none, none, none, none, some 301], 2, ⟨0, 0, 0, 0⟩⟩) .leaf)))) (some ⟨3, 9, 7, none, [none, none, none, none, none, none, none, none], 0, ⟨1, 16, 20, 31⟩⟩) (.branch (.branch (.branch (.branch (.branch .leaf (some ⟨4, 265, 0, some 264, [none, none, none, none, none, none, none, some 266], 1, ⟨0, 0, 0, 0⟩⟩) .leaf) (some ⟨7, 137, 5, none, [none, none, none, none, none, none, none, none], 0, ⟨1, 115, 190, 211⟩⟩) .leaf) (some ⟨7, 73, 4, none, [none, none, none, none, none, none, none, none], 0, ⟨1, 57, 74, 80⟩⟩) (.branch .leaf (some ⟨3, 201, 3, some 200, [none, none, none, none, some 202, none, none, none], 1, ⟨0, 0, 0, 0⟩⟩) .leaf)) (some ⟨7, 41, 1, none, [none, none, none, none, none, none, none, none], 0, ⟨1, 32, 46, 55⟩⟩) (.branch (.branch (.branch .leaf (some ⟨4, 297, 4, some 296, [some 298, none, none, none, none, none, none, none], 1, ⟨0, 0, 0, 0⟩⟩) .leaf) (some ⟨7, 169, 6, none, [none, none, none, none, none, none, none, none], 0, ⟨1, 129, 151, 150⟩⟩) .leaf) (some ⟨3, 105, 1, none, [none, none, none, none, none, none, none, none], 0, ⟨1, 77, 43, 50⟩⟩) (.branch .leaf (some ⟨7, 233, 1, some 232, [none, none, none, none, none, none, none, none], 0, ⟨1, 192, 148, 115⟩⟩) .leaf))) (some ⟨7, 25, 4, none, [none, none, none, none, none, none, none, none], 0, ⟨1, 23, 32, 56⟩⟩) (.branch (.branch (.branch (.branch .leaf (some ⟨7, 281, 1, some 280, [none, none, none, none, none, none, none, none], 0, ⟨1, 222, 158, 65⟩⟩) .leaf) (some ⟨5, 153, 2, none, [none, none, none, none, none, none, none, none], 0, ⟨1, 122, 54, 123⟩⟩) .leaf) (some ⟨1, 89, 4, some 1, [none, none, none, none, none, none, none, none], 0, ⟨4, 355, 152, 199⟩⟩) (.branch .leaf (some ⟨4, 217, 4, some 216, [none, none, none, none, none, none, none, some 218], 1, ⟨0, 0, 0, 0⟩⟩) .leaf)) (some ⟨3, 57, 2, none, [none, none, none, none, none, none, none, none], 0, ⟨1, 37, 86, 46⟩⟩) (.branch (.branch .leaf (some ⟨7, 185, 0, none, [none, none, none, none, none, none, none, none], 0, ⟨1, 162, 62, 140⟩⟩) .leaf) (some ⟨4, 121, 0, none, [none, none, none, none, none, none, none, none], 0, ⟨1, 87, 114, 119⟩⟩) (.branch .leaf (some ⟨2, 249, 1, some 248, [none, none, none, some 250, none, none, none, none], 1, ⟨0, 0, 0, 0⟩⟩) .leaf))))) (some ⟨4, 5, 6, none, [none, none, none, none, none, none, none, none], 0, ⟨1, 9, 10, 20⟩⟩) (.branch (.branch (.branch (.branch (.branch (.branch .leaf (some ⟨7, 261, 1, some 260, [none, none, none, none, none, none, none, none], 0, ⟨1, 208, 218, 145⟩⟩) .leaf) (some ⟨3, 133, 7, none, [none, none, none, none, none, none, none, none], 0, ⟨1, 115, 190, 211⟩⟩) .leaf) (some ⟨3, 69, 5, none, [none, none, none, none, none, none, none, none], 0, ⟨1, 57, 74, 80⟩⟩) (.branch .leaf (some ⟨5, 197, 4, some 196, [some 198, none, none, none, none, none, none, none], 1, ⟨0, 0, 0, 0⟩⟩) .leaf)) (some ⟨3, 37, 1, none, [none, none, none, none, none, none, none, none], 0, ⟨1, 32, 46, 55⟩⟩) (.branch (.branch (.branch .leaf (some ⟨7, 293, 7, some 292, [none, none, none, none, none, none, none, none], 0, ⟨1, 231, 213, 179⟩⟩) .leaf) (some ⟨3, 165, 3, none, [none, none, none, none, none, none, none, none], 0, ⟨1, 129, 151, 150⟩⟩) .leaf) (some ⟨5, 101, 4, none, [none, none, none, none, none, none, none, none], 0, ⟨1, 70, 130, 50⟩⟩) (.branch .leaf (some ⟨3, 229, 3, some 228, [some 230, none, none, none, none, none, none, none], 1, ⟨0, 0, 0, 0⟩⟩) .leaf))) (some ⟨3, 21, 5, none, [none, none, none, none, none, none, none, none], 0, ⟨1, 23, 32, 56⟩⟩) (.branch (.branch (.branch (.branch .leaf (some ⟨3, 277, 6, some 276, [none, none, none, none, none, none, some 278, none], 1, ⟨0, 0, 0, 0⟩⟩) .leaf) (some ⟨7, 149, 7, none, [none, none, none, none, none, none, none, none], 0, ⟨1, 117, 167, 67⟩⟩) .leaf) (some ⟨4, 85, 0, none, [none, none, none, none, none, none, none, none], 0, ⟨1, 64, 39, 81⟩⟩) (.branch .leaf (some ⟨7, 213, 0, some 212, [none, none, none, none, none, none, none, none], 0, ⟨1, 168, 202, 88⟩⟩) .leaf)) (some ⟨6, 53, 3, none, [none, none, none, none, none, none, none, none], 0, ⟨1, 37, 58, 94⟩⟩) (.branch (.branch .leaf (some ⟨3, 181, 2, none, [none, none, none, none, none, none, none, none], 0, ⟨1, 162, 62, 140⟩⟩) .leaf) (some ⟨7, 117, 6, none, [none, none, none, none, none, none, none, none], 0, ⟨1, 79, 143, 186⟩⟩) (.branch .leaf (some ⟨5, 245, 7, some 244, [none, none, none, none, none, none, some 246, none], 1, ⟨0, 0, 0, 0⟩⟩) .leaf)))) (some ⟨7, 13, 1, none, [none, none, none, none, none, none, none, none], 0, ⟨1, 16, 20, 31⟩⟩) (.branch (.branch (.branch (.branch (.branch .leaf (some ⟨1, 269, 4, some 206, [none, some 270, none, none, none, none, none, none], 1, ⟨0, 0, 0, 0⟩⟩) .leaf) (some ⟨6, 141, 0, none, [none, none, none, none, none, none, none, none], 0, ⟨1, 117, 36, 56⟩⟩) .leaf) (some ⟨3, 77, 6, none, [none, none, none, none, none, none, none, none], 0, ⟨1, 60, 94, 139⟩⟩) (.branch .leaf (some ⟨7, 205, 2, some 204, [none, none, none, none, none, none, none, none], 0, ⟨1, 168, 181, 178⟩⟩) .leaf)) (some ⟨5, 45, 7, none, [none, none, none, none, none, none, none, none], 0, ⟨1, 36, 21, 39⟩⟩) (.branch (.branch (.branch .leaf (some ⟨2, 301, 7, some 241, [some 302, none, none, none, none, none, none, none], 1, ⟨0, 0, 0, 0⟩⟩) .leaf) (some ⟨3, 173, 0, none, [none, none, none, none, none, none, none, none], 0, ⟨1, 136, 75, 43⟩⟩) .leaf) (some ⟨7, 109, 6, none, [none, none, none, none, none, none, none, none], 0, ⟨1, 77, 43, 50⟩⟩) (.branch .leaf (some ⟨4, 237, 0, some 236, [none, none, none, none, none, some 238, none, none], 1, ⟨0, 0, 0, 0⟩⟩) .leaf))) (some ⟨6, 29, 2, none, [none, none, none, none, none, none, none, none], 0, ⟨1, 25, 51, 45⟩⟩) (.branch (.branch (.branch (.branch .leaf (some ⟨5, 285, 7, some 284, [none, none, none, none, some 286, none, none, none], 1, ⟨0, 0, 0, 0⟩⟩) .leaf) (some ⟨3, 157, 4, none, [none, none, none, none, none, none, none, none], 0, ⟨1, 122, 72, 65⟩⟩) .leaf) (some ⟨5, 93, 2, none, [none, none, none, none, none, none, none, none], 0, ⟨1, 65, 29, 49⟩⟩) (.branch .leaf (some ⟨2, 221, 7, some 171, [none, none, none, none, none, none, some 222, none], 1, ⟨0, 0, 0, 0⟩⟩) .leaf)) (some ⟨7, 61, 4, none, [none, none, none, none, none, none, none, none], 0, ⟨1, 37, 86, 46⟩⟩) (.branch (.branch .leaf (some ⟨4, 189, 3, none, [none, none, none, none, none, none, none, none], 0, ⟨1, 164, 221, 219⟩⟩) .leaf) (some ⟨2, 125, 7, none, [none, none, none, none, none, none, none, none], 0, ⟨2, 213, 80, 100⟩⟩) (.branch .leaf (some ⟨6, 253, 6, some 252, [none, none, none, none, none, none, some 254, none], 1, ⟨0, 0, 0, 0⟩⟩) .leaf))))))) (some ⟨0, 0, 0, none, [some 1, some 74, some 96, some 110, some 170, some 178, some 206, some 162], 8, ⟨0, 0, 0, 0⟩⟩) (.branch (.branch (.branch (.branch (.branch (.branch (.branch (.branch .leaf (some ⟨2, 256, 0, some 255, [none, none, none, none, none, none, none, some 257], 1, ⟨0, 0, 0, 0⟩⟩) .leaf) (some ⟨5, 128, 3, none, [none, none, none, none, none, none, none, none], 0, ⟨1, 96, 44, 44⟩⟩) .leaf) (some ⟨5, 64, 7, none, [none, none, none, none, none, none, none, none], 0, ⟨1, 52, 28, 39⟩⟩) (.branch .leaf (some ⟨7, 192, 3, none, [none, none, none, none, none, none, none, none], 0, ⟨1, 164, 221, 219⟩⟩) .leaf)) (some ⟨4, 32, 7, none, [none, none, none, none, none, none, none, none], 0, ⟨1, 30, 29, 57⟩⟩) (.branch (.branch (.branch .leaf (some ⟨2, 288, 5, some 255, [none, none, none, some 289, none, none, none, none], 1, ⟨0, 0, 0, 0⟩⟩) .leaf) (some ⟨6, 160, 4, none, [none, none, none, none, none, none, none, none], 0, ⟨1, 122, 72, 65⟩⟩) .leaf) (some ⟨0, 96, 2, some 0, [none, none, none, none, none, none, none, none], 0, ⟨2, 187, 297, 117⟩⟩) (.branch .leaf (some ⟨5, 224, 6, some 223, [none, none, none, none, none, none, none, some 225], 1, ⟨0, 0, 0, 0⟩⟩) .leaf))) (some ⟨4, 16, 3, none, [none, none, none, none, none, none, none, none], 0, ⟨1, 21, 29, 40⟩⟩) (.branch (.branch (.branch (.branch .leaf (some ⟨4, 272, 5, some 271, [none, none, none, some 273, none, none, none, none], 1, ⟨0, 0, 0, 0⟩⟩) .leaf) (some ⟨2, 144, 6, none, [none, none, none, none, none, none, none, none], 0, ⟨1, 117, 167, 67⟩⟩) .leaf) (some ⟨6, 80, 3, none, [none, none, none, none, none, none, none, none], 0, ⟨1, 60, 94, 139⟩⟩) (.branch .leaf (some ⟨2, 208, 4, some 207, [none, some 209, none, none, none, none, none, none], 1, ⟨0, 0, 0, 0⟩⟩) .leaf)) (some ⟨1, 48, 1, none, [none, none, none, none, none, none, none, none], 0, ⟨1, 37, 58, 94⟩⟩) (.branch (.branch (.branch .leaf (some ⟨5, 304, 2, some 303, [none, none, none, none, some 305, none, none, none], 1, ⟨0, 0, 0, 0⟩⟩) .leaf) (some ⟨6, 176, 3, none, [none, none, none, none, none, none, none, none], 0, ⟨1, 136, 75, 43⟩⟩) .leaf) (some ⟨2, 112, 1, none, [none, none, none, none, none, none, none, none], 0, ⟨1, 79, 143, 186⟩⟩) (.branch .leaf (some ⟨7, 240, 3, some 239, [none, none, none, none, none, none, none, none], 0, ⟨1, 198, 81, 151⟩⟩) .leaf)))) (some ⟨7, 8, 4, none, [none, none, none, none, none, none, none, none], 0, ⟨1, 9, 10, 20⟩⟩) (.branch (.branch (.branch (.branch (.branch .leaf (some ⟨3, 264, 7, some 263, [some 265, none, none, none, none, none, none, none], 1, ⟨0, 0, 0, 0⟩⟩) .leaf) (some ⟨6, 136, 7, none, [none, none, none, none, none, none, none, none], 0, ⟨1, 115, 190, 211⟩⟩) .leaf) (some ⟨6, 72, 2, none, [none, none, none, none, none, none, none, none], 0, ⟨1, 57, 74, 80⟩⟩) (.branch .leaf (some ⟨2, 200, 7, some 163, [none, none, none, some 201, none, none, none, none], 1, ⟨0, 0, 0, 0⟩⟩) .leaf)) (some ⟨6, 40, 3, none, [none, none, none, none, none, none, none, none], 0, ⟨1, 32, 46, 55⟩⟩) (.branch (.branch (.branch .leaf (some ⟨3, 296, 1, some 295, [none, none, none, none, some 297, none, none, none], 1, ⟨0, 0, 0, 0⟩⟩) .leaf) (some ⟨6, 168, 3, none, [none, none, none, none, none, none, none, none], 0, ⟨1, 129, 151, 150⟩⟩) .leaf) (some ⟨2, 104, 3, none, [none, none, none, none, none, none, none, none], 0, ⟨1, 77, 43, 50⟩⟩) (.branch .leaf (some ⟨6, 232, 1, some 231, [none, some 233, none, none, none, none, none, none], 1, ⟨0, 0, 0, 0⟩⟩) .leaf))) (some ⟨6, 24, 4, none, [none, none, none, none, none, none, none, none], 0, ⟨1, 23, 32, 56⟩⟩) (.branch (.branch (.branch (.branch .leaf (some ⟨6, 280, 6, some 279, [none, some 281, none, none, none, none, none, none], 1, ⟨0, 0, 0, 0⟩⟩) .leaf) (some ⟨4, 152, 5, none, [none, none, none, none, none, none, none, none], 0, ⟨1, 122, 54, 123⟩⟩) .leaf) (some ⟨7, 88, 3, none, [none, none, none, none, none, none, none, none], 0, ⟨1, 64, 39, 81⟩⟩) (.branch .leaf (some ⟨3, 216, 3, some 215, [none, none, none, none, some 217, none, none, none], 1, ⟨0, 0, 0, 0⟩⟩) .leaf)) (some ⟨2, 56, 5, none, [none, none, none, none, none, none, none, none], 0, ⟨1, 37, 86, 46⟩⟩) (.branch (.branch .leaf (some ⟨6, 184, 6, none, [none, none, none, none, none, none, none, none], 0, ⟨1, 162, 62, 140⟩⟩) .leaf) (some ⟨3, 120, 7, none, [none, none, none, none, none, none, none, none], 0, ⟨1, 87, 114, 119⟩⟩) (.branch .leaf (some ⟨1, 248, 6, some 170, [none, some 249, none, none, none, none, none, none], 1, ⟨0, 0, 0, 0⟩⟩) .leaf))))) (some ⟨3, 4, 1, none, [none, none, none, none, none, none, none, none], 0, ⟨1, 9, 10, 20⟩⟩) (.branch (.branch (.branch (.branch (.branch (.branch .leaf (some ⟨6, 260, 2, some 259, [none, some 261, none, none, none, none, none, none], 1, ⟨0, 0, 0, 0⟩⟩) .leaf) (some ⟨2, 132, 6, none, [none, none, none, none, none, none, none, none], 0, ⟨1, 115, 190, 211⟩⟩) .leaf) (some ⟨2, 68, 4, none, [none, none, none, none, none, none, none, none], 0, ⟨1, 57, 74, 80⟩⟩) (.branch .leaf (some ⟨4, 196, 0, some 195, [none, none, none, none, some 197, none, none, none], 1, ⟨0, 0, 0, 0⟩⟩) .leaf)) (some ⟨2, 36, 7, none, [none, none, none, none, none, none, none, none], 0, ⟨1, 32, 46, 55⟩⟩) (.branch (.branch (.branch .leaf (some ⟨6, 292, 5, some 291, [none, none, none, none, none, none, none, some 293], 1, ⟨0, 0, 0, 0⟩⟩) .leaf) (some ⟨2, 164, 0, none, [none, none, none, none, none, none, none, none], 0, ⟨1, 129, 151, 150⟩⟩) .leaf) (some ⟨4, 100, 0, none, [none, none, none, none, none, none, none, none], 0, ⟨1, 70, 130, 50⟩⟩) (.branch .leaf (some ⟨2, 228, 1, some 227, [none, none, none, some 229, none, none, none, none], 1, ⟨0, 0, 0, 0⟩⟩) .leaf))) (some ⟨2, 20, 3, none, [none, none, none, none, none, none, none, none], 0, ⟨2, 48, 83, 101⟩⟩) (.branch (.branch (.branch (.branch .leaf (some ⟨2, 276, 0, some 227, [none, none, none, none, none, none, some 277, none], 1, ⟨0, 0, 0, 0⟩⟩) .leaf) (some ⟨6, 148, 3, none, [none, none, none, none, none, none, none, none], 0, ⟨1, 117, 167, 67⟩⟩) .leaf) (some ⟨3, 84, 1, none, [none, none, none, none, none, none, none, none], 0, ⟨1, 64, 39, 81⟩⟩) (.branch .leaf (some ⟨6, 212, 2, some 211, [some 213, none, none, none, none, none, none, none], 1, ⟨0, 0, 0, 0⟩⟩) .leaf)) (some ⟨5, 52, 5, none, [none, none, none, none, none, none, none, none], 0, ⟨1, 37, 58, 94⟩⟩) (.branch (.branch .leaf (some ⟨2, 180, 6, none, [none, none, none, none, none, none, none, none], 0, ⟨1, 162, 62, 140⟩⟩) .leaf) (some ⟨6, 116, 7, none, [none, none, none, none, none, none, none, none], 0, ⟨1, 79, 143, 186⟩⟩) (.branch .leaf (some ⟨4, 244, 3, some 243, [none, none, none, none, none, none, none, some 245], 1, ⟨0, 0, 0, 0⟩⟩) .leaf)))) (some ⟨6, 12, 1, none, [none, none, none, none, none, none, none, none], 0, ⟨1, 16, 20, 31⟩⟩) (.branch (.branch (.branch (.branch (.branch .leaf (some ⟨7, 268, 6, some 267, [none, none, none, none, none, none, none, none], 0, ⟨1, 215, 181, 148⟩⟩) .leaf) (some ⟨5, 140, 6, none, [none, none, none, none, none, none, none, none], 0, ⟨1, 117, 36, 56⟩⟩) .leaf) (some ⟨2, 76, 4, none, [none, none, none, none, none, none, none, none], 0, ⟨1, 60, 94, 139⟩⟩) (.branch .leaf (some ⟨6, 204, 1, some 203, [none, none, some 205, none, none, none, none, none], 1, ⟨0, 0, 0, 0⟩⟩) .leaf)) (some ⟨4, 44, 0, none, [none, none, none, none, none, none, none, none], 0, ⟨1, 36, 21, 39⟩⟩) (.branch (.branch (.branch .leaf (some ⟨7, 300, 2, some 299, [none, none, none, none, none, none, none, none], 0, ⟨1, 232, 193, 112⟩⟩) .leaf) (some ⟨2, 172, 1, none, [none, none, none, none, none, none, none, none], 0, ⟨1, 136, 75, 43⟩⟩) .leaf) (some ⟨6, 108, 3, none, [none, none, none, none, none, none, none, none], 0, ⟨1, 77, 43, 50⟩⟩) (.branch .leaf (some ⟨3, 236, 3, some 235, [some 237, none, none, none, none, none, none, none], 1, ⟨0, 0, 0, 0⟩⟩) .leaf))) (some ⟨5, 28, 1, none, [none, none, none, none, none, none, none, none], 0, ⟨1, 25, 51, 45⟩⟩) (.branch (.branch (.branch (.branch .leaf (some ⟨4, 284, 4, some 283, [none, none, none, none, none, none, none, some 285], 1, ⟨0, 0, 0, 0⟩⟩) .leaf) (some ⟨2, 156, 4, none, [none, none, none, none, none, none, none, none], 0, ⟨1, 122, 72, 65⟩⟩) .leaf) (some ⟨4, 92, 2, none, [none, none, none, none, none, none, none, none], 0, ⟨1, 65, 29, 49⟩⟩) (.branch .leaf (some ⟨7, 220, 7, some 219, [none, none, none, none, none, none, none, none], 0, ⟨1, 173, 119, 87⟩⟩) .leaf)) (some ⟨6, 60, 3, none, [none, none, none, none, none, none, none, none], 0, ⟨1, 37, 86, 46⟩⟩) (.branch (.branch .leaf (some ⟨3, 188, 3, some 187, [none, none, none, none, none, none, none, none], 0, ⟨1, 164, 221, 219⟩⟩) .leaf) (some ⟨7, 124, 5, none, [none, none, none, none, none, none, none, none], 0, ⟨1, 87, 114, 119⟩⟩) (.branch .leaf (some ⟨5, 252, 7, some 251, [none, none, none, none, none, none, some 253, none], 1, ⟨0, 0, 0, 0⟩⟩) .leaf)))))) (some ⟨1, 2, 0, some 1, [none, none, none, none, none, none, none, none], 0, ⟨9, 244, 266, 382⟩⟩) (.branch (.branch (.branch (.branch (.branch (.branch (.branch .leaf (some ⟨4, 258, 2, some 257, [some 259, none, none, none, none, none, none, none], 1, ⟨0, 0, 0, 0⟩⟩) .leaf) (some ⟨7, 130, 0, none, [none, none, none, none, none, none, none, none], 0, ⟨1, 96, 44, 44⟩⟩) .leaf) (some ⟨7, 66, 1, none, [none, none, none, none, none, none, none, none], 0, ⟨1, 52, 28, 39⟩⟩) (.branch .leaf (some ⟨2, 194, 7, some 193, [none, none, none, some 195, none, none, none, none], 1, ⟨0, 0, 0, 0⟩⟩) .leaf)) (some ⟨6, 34, 4, none, [none, none, none, none, none, none, none, none], 0, ⟨1, 30, 29, 57⟩⟩) (.branch (.branch (.branch .leaf (some ⟨4, 290, 0, some 289, [none, none, none, none, none, none, some 291, none], 1, ⟨0, 0, 0, 0⟩⟩) .leaf) (some ⟨0, 162, 7, some 0, [some 163, none, none, some 186, some 262, none, some 255, some 241], 5, ⟨0, 0, 0, 0⟩⟩) .leaf) (some ⟨2, 98, 1, none, [none, none, none, none, none, none, none, none], 0, ⟨1, 70, 130, 50⟩⟩) (.branch .leaf (some ⟨7, 226, 3, some 225, [none, none, none, none, none, none, none, none], 0, ⟨1, 190, 119, 43⟩⟩) .leaf))) (some ⟨6, 18, 0, none, [none, none, none, none, none, none, none, none], 0, ⟨1, 21, 29, 40⟩⟩) (.branch (.branch (.branch (.branch .leaf (some ⟨6, 274, 7, some 273, [some 275, none, none, none, none, none, none, none], 1, ⟨0, 0, 0, 0⟩⟩) .leaf) (some ⟨4, 146, 0, none, [none, none, none, none, none, none, none, none], 0, ⟨1, 117, 167, 67⟩⟩) .leaf) (some ⟨1, 82, 5, some 1, [none, none, none, none, none, none, none, none], 0, ⟨2, 186, 93, 204⟩⟩) (.branch .leaf (some ⟨4, 210, 7, some 209, [some 211, none, none, none, none, none, none, none], 1, ⟨0, 0, 0, 0⟩⟩) .leaf)) (some ⟨3, 50, 3, none, [none, none, none, none, none, none, none, none], 0, ⟨1, 37, 58, 94⟩⟩) (.branch (.branch (.branch .leaf (some ⟨7, 306, 7, some 305, [none, none, none, none, none, none, none, none], 0, ⟨1, 235, 237, 233⟩⟩) .leaf) (some ⟨0, 178, 5, some 0, [none, none, none, none, none, none, some 234, none], 1, ⟨1, 162, 62, 140⟩⟩) .leaf) (some ⟨4, 114, 7, none, [none, none, none, none, none, none, none, none], 0, ⟨1, 79, 143, 186⟩⟩) (.branch .leaf (some ⟨2, 242, 0, some 241, [some 243, none, none, none, none, none, none, none], 1, ⟨0, 0, 0, 0⟩⟩) .leaf)))) (some ⟨4, 10, 1, none, [none, none, none, none, none, none, none, none], 0, ⟨1, 16, 20, 31⟩⟩) (.branch (.branch (.branch (.branch (.branch .leaf (some ⟨5, 266, 7, some 265, [none, none, none, none, some 267, none, none, none], 1, ⟨0, 0, 0, 0⟩⟩) .leaf) (some ⟨3, 138, 5, none, [none, none, none, none, none, none, none, none], 0, ⟨1, 117, 36, 56⟩⟩) .leaf) (some ⟨0, 74, 1, some 0, [none, none, none, none, none, none, none, none], 0, ⟨1, 60, 94, 139⟩⟩) (.branch .leaf (some ⟨4, 202, 4, some 201, [none, none, some 203, none, none, none, none, none], 1, ⟨0, 0, 0, 0⟩⟩) .leaf)) (some ⟨2, 42, 5, none, [none, none, none, none, none, none, none, none], 0, ⟨2, 88, 49, 78⟩⟩) (.branch (.branch (.branch .leaf (some ⟨5, 298, 0, some 297, [some 299, none, none, none, none, none, none, none], 1, ⟨0, 0, 0, 0⟩⟩) .leaf) (some ⟨0, 170, 4, some 0, [some 193, none, some 171, some 214, none, none, some 248, none], 4, ⟨0, 0, 0, 0⟩⟩) .leaf) (some ⟨4, 106, 6, none, [none, none, none, none, none, none, none, none], 0, ⟨1, 77, 43, 50⟩⟩) (.branch .leaf (some ⟨1, 234, 6, some 178, [some 235, none, none, none, none, none, none, none], 1, ⟨0, 0, 0, 0⟩⟩) .leaf))) (some ⟨3, 26, 6, none, [none, none, none, none, none, none, none, none], 0, ⟨1, 25, 51, 45⟩⟩) (.branch (.branch (.branch (.branch .leaf (some ⟨2, 282, 1, some 262, [none, none, none, none, some 283, none, none, none], 1, ⟨0, 0, 0, 0⟩⟩) .leaf) (some ⟨6, 154, 7, none, [none, none, none, none, none, none, none, none], 0, ⟨1, 122, 54, 123⟩⟩) .leaf) (some ⟨2, 90, 1, none, [none, none, none, none, none, none, none, none], 0, ⟨1, 65, 29, 49⟩⟩) (.branch .leaf (some ⟨5, 218, 7, some 217, [none, none, none, some 219, none, none, none, none], 1, ⟨0, 0, 0, 0⟩⟩) .leaf)) (some ⟨4, 58, 1, none, [none, none, none, none, none, none, none, none], 0, ⟨1, 37, 86, 46⟩⟩) (.branch (.branch .leaf (some ⟨1, 186, 3, some 162, [none, none, none, none, some 187, none, none, none], 1, ⟨0, 0, 0, 0⟩⟩) .leaf) (some ⟨5, 122, 5, none, [none, none, none, none, none, none, none, none], 0, ⟨1, 87, 114, 119⟩⟩) (.branch .leaf (some ⟨3, 250, 3, some 249, [none, none, none, none, none, some 251, none, none], 1, ⟨0, 0, 0, 0⟩⟩) .leaf))))) (some ⟨5, 6, 1, none, [none, none, none, none, none, none, none, none], 0, ⟨1, 9, 10, 20⟩⟩) (.branch (.branch (.branch (.branch (.branch (.branch .leaf (some ⟨1, 262, 4, some 162, [none, some 282, some 263, none, none, none, none, none], 2, ⟨0, 0, 0, 0⟩⟩) .leaf) (some ⟨4, 134, 2, none, [none, none, none, none, none, none, none, none], 0, ⟨1, 115, 190, 211⟩⟩) .leaf) (some ⟨4, 70, 6, none, [none, none, none, none, none, none, none, none], 0, ⟨1, 57, 74, 80⟩⟩) (.branch .leaf (some ⟨6, 198, 0, some 197, [none, none, none, none, some 199, none, none, none], 1, ⟨0, 0, 0, 0⟩⟩) .leaf)) (some ⟨4, 38, 2, none, [none, none, none, none, none, none, none, none], 0, ⟨1, 32, 46, 55⟩⟩) (.branch (.branch (.branch .leaf (some ⟨1, 294, 7, some 206, [none, none, none, none, none, some 295, none, none], 1, ⟨0, 0, 0, 0⟩⟩) .leaf) (some ⟨4, 166, 0, none, [none, none, none, none, none, none, none, none], 0, ⟨1, 129, 151, 150⟩⟩) .leaf) (some ⟨6, 102, 7, none, [none, none, none, none, none, none, none, none], 0, ⟨1, 70, 130, 50⟩⟩) (.branch .leaf (some ⟨4, 230, 0, some 229, [none, none, some 231, none, none, none, none, none], 1, ⟨0, 0, 0, 0⟩⟩) .leaf))) (some ⟨4, 22, 1, none, [none, none, none, none, none, none, none, none], 0, ⟨1, 23, 32, 56⟩⟩) (.branch (.branch (.branch (.branch .leaf (some ⟨4, 278, 6, some 277, [none, none, none, none, none, none, some 279, none], 1, ⟨0, 0, 0, 0⟩⟩) .leaf) (some ⟨2, 150, 7, none, [none, none, none, none, none, none, none, none], 0, ⟨1, 122, 54, 123⟩⟩) .leaf) (some ⟨5, 86, 2, none, [none, none, none, none, none, none, none, none], 0, ⟨1, 64, 39, 81⟩⟩) (.branch .leaf (some ⟨1, 214, 3, some 170, [none, none, none, none, none, none, some 215, none], 1, ⟨0, 0, 0, 0⟩⟩) .leaf)) (some ⟨7, 54, 4, none, [none, none, none, none, none, none, none, none], 0, ⟨1, 37, 58, 94⟩⟩) (.branch (.branch .leaf (some ⟨4, 182, 3, none, [none, none, none, none, none, none, none, none], 0, ⟨1, 162, 62, 140⟩⟩) .leaf) (some ⟨1, 118, 7, some 1, [none, none, none, none, none, none, none, none], 0, ⟨2, 209, 186, 184⟩⟩) (.branch .leaf (some ⟨6, 246, 6, some 245, [none, none, none, none, none, none, some 247, none], 1, ⟨0, 0, 0, 0⟩⟩) .leaf)))) (some ⟨2, 14, 1, none, [none, none, none, none, none, none, none, none], 0, ⟨2, 51, 58, 97⟩⟩) (.branch (.branch (.branch (.branch (.branch .leaf (some ⟨2, 270, 1, some 269, [none, none, none, none, none, some 271, none, none], 1, ⟨0, 0, 0, 0⟩⟩) .leaf) (some ⟨7, 142, 4, none, [none, none, none, none, none, none, none, none], 0, ⟨1, 117, 36, 56⟩⟩) .leaf) (some ⟨4, 78, 7, none, [none, none, none, none, none, none, none, none], 0, ⟨1, 60, 94, 139⟩⟩) (.branch .leaf (some ⟨0, 206, 6, some 0, [none, none, none, some 207, some 269, some 227, none, some 294], 4, ⟨0, 0, 0, 0⟩⟩) .leaf)) (some ⟨6, 46, 1, none, [none, none, none, none, none, none, none, none], 0, ⟨1, 36, 21, 39⟩⟩) (.branch (.branch (.branch .leaf (some ⟨3, 302, 0, some 301, [none, none, none, none, none, none, none, some 303], 1, ⟨0, 0, 0, 0⟩⟩) .leaf) (some ⟨4, 174, 7, none, [none, none, none, none, none, none, none, none], 0, ⟨1, 136, 75, 43⟩⟩) .leaf) (some ⟨0, 110, 3, some 0, [none, none, none, none, none, none, none, none], 0, ⟨2, 194, 333, 397⟩⟩) (.branch .leaf (some ⟨5, 238, 5, some 237, [none, none, none, none, none, some 239, none, none], 1, ⟨0, 0, 0, 0⟩⟩) .leaf))) (some ⟨7, 30, 7, none, [none, none, none, none, none, none, none, none], 0, ⟨1, 25, 51, 45⟩⟩) (.branch (.branch (.branch (.branch .leaf (some ⟨6, 286, 4, some 285, [none, none, none, none, none, some 287, none, none], 1, ⟨0, 0, 0, 0⟩⟩) .leaf) (some ⟨4, 158, 6, none, [none, none, none, none, none, none, none, none], 0, ⟨1, 122, 72, 65⟩⟩) .leaf) (some ⟨6, 94, 0, none, [none, none, none, none, none, none, none, none], 0, ⟨1, 65, 29, 49⟩⟩) (.branch .leaf (some ⟨3, 222, 6, some 221, [none, none, none, none, none, some 223, none, none], 1, ⟨0, 0, 0, 0⟩⟩) .leaf)) (some ⟨3, 62, 6, none, [none, none, none, none, none, none, none, none], 0, ⟨1, 52, 28, 39⟩⟩) (.branch (.branch .leaf (some ⟨5, 190, 6, none, [none, none, none, none, none, none, none, none], 0, ⟨1, 164, 221, 219⟩⟩) .leaf) (some ⟨3, 126, 0, none, [none, none, none, none, none, none, none, none], 0, ⟨1, 96, 44, 44⟩⟩) (.branch .leaf (some ⟨7, 254, 6, some 253, [none, none, none, none, none, none, none, none], 0, ⟨1, 207, 87, 60⟩⟩) .leaf))))))))⟩

/-- Checkpoint: the queue after 176 fuel steps. -/
def fixtureQ176 : List Nat := [1, 178, 171, 163, 2, 110, 96, 89, 118, 82, 74, 306, 300, 293, 287, 281, 275, 268, 261, 254, 247, 240, 233, 226, 220, 213, 205, 199, 188]

/-- Checkpoint: the merge state after 352 fuel steps (loop finished). -/
def fixtureA352 : NodeArena := ⟨307, (.branch (.branch (.branch (.branch (.branch (.branch (.branch (.branch (.branch .leaf (some ⟨1, 255, 6, none, [none, none, none, none, none, none, none, none], 0, ⟨2, 439, 431, 324⟩⟩) .leaf) (some ⟨4, 127, 3, none, [none, none, none, none, none, none, none, none], 0, ⟨1, 96, 44, 44⟩⟩) .leaf) (some ⟨4, 63, 2, none, [none, none, none, none, none, none, none, none], 0, ⟨1, 52, 28, 39⟩⟩) (.branch .leaf (some ⟨6, 191, 1, none, [none, none, none, none, none, none, none, none], 0, ⟨1, 164, 221, 219⟩⟩) .leaf)) (some ⟨3, 31, 7, none, [none, none, none, none, none, none, none, none], 0, ⟨1, 30, 29, 57⟩⟩) (.branch (.branch (.branch .leaf (some ⟨7, 287, 5, none, [none, none, none, none, none, none, none, none], 0, ⟨1, 223, 132, 165⟩⟩) .leaf) (some ⟨5, 159, 0, none, [none, none, none, none, none, none, none, none], 0, ⟨1, 122, 72, 65⟩⟩) .leaf) (some ⟨7, 95, 7, none, [none, none, none, none, none, none, none, none], 0, ⟨1, 65, 29, 49⟩⟩) (.branch .leaf (some ⟨4, 223, 5, none, [none, none, none, none, none, none, none, none], 0, ⟨1, 190, 119, 43⟩⟩) .leaf))) (some ⟨3, 15, 6, none, [none, none, none, none, none, none, none, none], 0, ⟨1, 21, 29, 40⟩⟩) (.branch (.branch (.branch (.branch .leaf (some ⟨3, 271, 5, none, [none, none, none, none, none, none, none, none], 0, ⟨1, 218, 134, 62⟩⟩) .leaf) (some ⟨1, 143, 5, none, [none, none, none, none, none, none, none, none], 0, ⟨1, 117, 167, 67⟩⟩) .leaf) (some ⟨5, 79, 6, none, [none, none, none, none, none, none, none, none], 0, ⟨1, 60, 94, 139⟩⟩) (.branch .leaf (some ⟨1, 207, 3, none, [none, none, none, none, none, none, none, none], 0, ⟨1, 168, 202, 88⟩⟩) .leaf)) (some ⟨7, 47, 3, none, [none, none, none, none, none, none, none, none], 0, ⟨1, 36, 21, 39⟩⟩) (.branch (.branch (.branch .leaf (some ⟨4, 303, 7, none, [none, none, none, none, none, none, none, none], 0, ⟨1, 235, 237, 233⟩⟩) .leaf) (some ⟨5, 175, 0, none, [none, none, none, none, none, none, none, none], 0, ⟨1, 136, 75, 43⟩⟩) .leaf) (some ⟨1, 111, 4, none, [none, none, none, none, none, none, none, none], 0, ⟨1, 79, 143, 186⟩⟩) (.branch .leaf (some ⟨6, 239, 5, none, [none, none, none, none, none, none, none, none], 0, ⟨1, 198, 81, 151⟩⟩) .leaf)))) (some ⟨6, 7, 2, none, [none, none, none, none, none, none, none, none], 0, ⟨1, 9, 10, 20⟩⟩) (.branch (.branch (.branch (.branch (.branch .leaf (some ⟨2, 263, 2, none, [none, none, none, none, none, none, none, none], 0, ⟨1, 215, 181, 148⟩⟩) .leaf) (some ⟨5, 135, 2, none, [none, none, none, none, none, none, none, none], 0, ⟨1, 115, 190, 211⟩⟩) .leaf) (some ⟨5, 71, 0, none, [none, none, none, none, none, none, none, none], 0, ⟨1, 57, 74, 80⟩⟩) (.branch .leaf (some ⟨7, 199, 4, none, [none, none, none, none, none, none, none, none], 0, ⟨1, 165, 48, 48⟩⟩) .leaf)) (some ⟨5, 39, 3, none, [none, none, none, none, none, none, none, none], 0, ⟨1, 32, 46, 55⟩⟩) (.branch (.branch (.branch .leaf (some ⟨2, 295, 5, none, [none, none, none, none, none, none, none, none], 0, ⟨1, 232, 193, 112⟩⟩) .leaf) (some ⟨5, 167, 3, none, [none, none, none, none, none, none, none, none], 0, ⟨1, 129, 151, 150⟩⟩) .leaf) (some ⟨7, 103, 0, none, [none, none, none, none, none, none, none, none], 0, ⟨1, 70, 130, 50⟩⟩) (.branch .leaf (some ⟨5, 231, 2, none, [none, none, none, none, none, none, none, none], 0, ⟨1, 192, 148, 115⟩⟩) .leaf))) (some ⟨5, 23, 4, none, [none, none, none, none, none, none, none, none], 0, ⟨1, 23, 32, 56⟩⟩) (.branch (.branch (.branch (.branch .leaf (some ⟨5, 279, 6, none, [none, none, none, none, none, none, none, none], 0, ⟨1, 222, 158, 65⟩⟩) .leaf) (some ⟨3, 151, 7, none, [none, none, none, none, none, none, none, none], 0, ⟨1, 122, 54, 123⟩⟩) .leaf) (some ⟨6, 87, 2, none, [none, none, none, none, none, none, none, none], 0, ⟨1, 64, 39, 81⟩⟩) (.branch .leaf (some ⟨2, 215, 6, none, [none, none, none, none, none, none, none, none], 0, ⟨1, 173, 119, 87⟩⟩) .leaf)) (some ⟨1, 55, 2, none, [none, none, none, none, none, none, none, none], 0, ⟨1, 37, 86, 46⟩⟩) (.branch (.branch .leaf (some ⟨5, 183, 3, none, [none, none, none, none, none, none, none, none], 0, ⟨1, 162, 62, 140⟩⟩) .leaf) (some ⟨2, 119, 3, none, [none, none, none, none, none, none, none, none], 0, ⟨1, 87, 114, 119⟩⟩) (.branch .leaf (some ⟨7, 247, 6, none, [none, none, none, none, none, none, none, none], 0, ⟨1, 199, 207, 204⟩⟩) .leaf))))) (some ⟨2, 3, 0, none, [none, none, none, none, none, none, none, none], 0, ⟨2, 25, 30, 51⟩⟩) (.branch (.branch (.branch (.branch (.branch (.branch .leaf (some ⟨5, 259, 0, none, [none, none, none, none, none, none, none, none], 0, ⟨1, 208, 218, 145⟩⟩) .leaf) (some ⟨1, 131, 5, none, [none, none, none, none, none, none, none, none], 0, ⟨1, 115, 190, 211⟩⟩) .leaf) (some ⟨1, 67, 3, none, [none, none, none, none, none, none, none, none], 0, ⟨1, 57, 74, 80⟩⟩) (.branch .leaf (some ⟨3, 195, 3, none, [none, none, none, none, none, none, none, none], 0, ⟨1, 165, 48, 48⟩⟩) .leaf)) (some ⟨7, 35, 3, none, [none, none, none, none, none, none, none, none], 0, ⟨1, 30, 29, 57⟩⟩) (.branch (.branch (.branch .leaf (some ⟨5, 291, 6, none, [none, none, none, none, none, none, none, none], 0, ⟨1, 231, 213, 179⟩⟩) .leaf) (some ⟨1, 163, 0, none, [none, none, none, none, none, none, none, none], 0, ⟨2, 297, 332, 328⟩⟩) .leaf) (some ⟨3, 99, 1, none, [none, none, none, none, none, none, none, none], 0, ⟨1, 70, 130, 50⟩⟩) (.branch .leaf (some ⟨1, 227, 5, none, [none, none, none, none, none, none, none, none], 0, ⟨2, 414, 306, 180⟩⟩) .leaf))) (some ⟨7, 19, 6, none, [none, none, none, none, none, none, none, none], 0, ⟨1, 21, 29, 40⟩⟩) (.branch (.branch (.branch (.branch .leaf (some ⟨7, 275, 0, none, [none, none, none, none, none, none, none, none], 0, ⟨1, 218, 134, 62⟩⟩) .leaf) (some ⟨5, 147, 6, none, [none, none, none, none, none, none, none, none], 0, ⟨1, 117, 167, 67⟩⟩) .leaf) (some ⟨2, 83, 2, none, [none, none, none, none, none, none, none, none], 0, ⟨1, 64, 39, 81⟩⟩) (.branch .leaf (some ⟨5, 211, 0, none, [none, none, none, none, none, none, none, none], 0, ⟨1, 168, 202, 88⟩⟩) .leaf)) (some ⟨4, 51, 3, none, [none, none, none, none, none, none, none, none], 0, ⟨1, 37, 58, 94⟩⟩) (.branch (.branch .leaf (some ⟨1, 179, 0, none, [none, none, none, none, none, none, none, none], 0, ⟨1, 162, 62, 140⟩⟩) .leaf) (some ⟨5, 115, 6, none, [none, none, none, none, none, none, none, none], 0, ⟨1, 79, 143, 186⟩⟩) (.branch .leaf (some ⟨3, 243, 0, none, [none, none, none, none, none, none, none, none], 0, ⟨1, 199, 207, 204⟩⟩) .leaf)))) (some ⟨5, 11, 3, none, [none, none, none, none, none, none, none, none], 0, ⟨1, 16, 20, 31⟩⟩) (.branch (.branch (.branch (.branch (.branch .leaf (some ⟨6, 267, 4, none, [none, none, none, none, none, none, none, none], 0, ⟨1, 215, 181, 148⟩⟩) .leaf) (some ⟨4, 139, 1, none, [none, none, none, none, none, none, none, none], 0, ⟨1, 117, 36, 56⟩⟩) .leaf) (some ⟨1, 75, 2, none, [none, none, none, none, none, none, none, none], 0, ⟨1, 60, 94, 139⟩⟩) (.branch .leaf (some ⟨5, 203, 2, none, [none, none, none, none, none, none, none, none], 0, ⟨1, 168, 181, 178⟩⟩) .leaf)) (some ⟨3, 43, 2, none, [none, none, none, none, none, none, none, none], 0, ⟨1, 36, 21, 39⟩⟩) (.branch (.branch (.branch .leaf (some ⟨6, 299, 0, none, [none, none, none, none, none, none, none, none], 0, ⟨1, 232, 193, 112⟩⟩) .leaf) (some ⟨1, 171, 2, none, [none, none, none, none, none, none, none, none], 0, ⟨2, 326, 194, 86⟩⟩) .leaf) (some ⟨5, 107, 4, none, [none, none, none, none, none, none, none, none], 0, ⟨1, 77, 43, 50⟩⟩) (.branch .leaf (some ⟨2, 235, 0, none, [none, none, none, none, none, none, none, none], 0, ⟨1, 198, 81, 151⟩⟩) .leaf))) (some ⟨4, 27, 5, none, [none, none, none, none, none, none, none, none], 0, ⟨1, 25, 51, 45⟩⟩) (.branch (.branch (.branch (.branch .leaf (some ⟨3, 283, 4, none, [none, none, none, none, none, none, none, none], 0, ⟨1, 223, 132, 165⟩⟩) .leaf) (some ⟨7, 155, 1, none, [none, none, none, none, none, none, none, none], 0, ⟨1, 122, 54, 123⟩⟩) .leaf) (some ⟨3, 91, 3, none, [none, none, none, none, none, none, none, none], 0, ⟨1, 65, 29, 49⟩⟩) (.branch .leaf (some ⟨6, 219, 3, none, [none, none, none, none, none, none, none, none], 0, ⟨1, 173, 119, 87⟩⟩) .leaf)) (some ⟨5, 59, 7, none, [none, none, none, none, none, none, none, none], 0, ⟨1, 37, 86, 46⟩⟩) (.branch (.branch .leaf (some ⟨2, 187, 4, none, [none, none, none, none, none, none, none, none], 0, ⟨1, 164, 221, 219⟩⟩) .leaf) (some ⟨6, 123, 7, none, [none, none, none, none, none, none, none, none], 0, ⟨1, 87, 114, 119⟩⟩) (.branch .leaf (some ⟨4, 251, 5, none, [none, none, none, none, none, none, none, none], 0, ⟨1, 207, 87, 60⟩⟩) .leaf)))))) (some ⟨0, 1, 0, some 0, [some 2, none, none, none, none, none, none, none], 1, ⟨11, 881, 649, 807⟩⟩) (.branch (.branch (.branch (.branch (.branch (.branch (.branch .leaf (some ⟨3, 257, 7, none, [none, none, none, none, none, none, none, none], 0, ⟨1, 208, 218, 145⟩⟩) .leaf) (some ⟨6, 129, 0, none, [none, none, none, none, none, none, none, none], 0, ⟨1, 96, 44, 44⟩⟩) .leaf) (some ⟨6, 65, 1, none, [none, none, none, none, none, none, none, none], 0, ⟨1, 52, 28, 39⟩⟩) (.branch .leaf (some ⟨1, 193, 0, none, [none, none, none, none, none, none, none, none], 0, ⟨1, 165, 48, 48⟩⟩) .leaf)) (some ⟨5, 33, 6, none, [none, none, none, none, none, none, none, none], 0, ⟨1, 30, 29, 57⟩⟩) (.branch (.branch (.branch .leaf (some ⟨3, 289, 3, none, [none, none, none, none, none, none, none, none], 0, ⟨1, 231, 213, 179⟩⟩) .leaf) (some ⟨7, 161, 1, none, [none, none, none, none, none, none, none, none], 0, ⟨1, 122, 72, 65⟩⟩) .leaf) (some ⟨1, 97, 4, none, [none, none, none, none, none, none, none, none], 0, ⟨1, 70, 130, 50⟩⟩) (.branch .leaf (some ⟨6, 225, 7, none, [none, none, none, none, none, none, none, none], 0, ⟨1, 190, 119, 43⟩⟩) .leaf))) (some ⟨5, 17, 6, none, [none, none, none, none, none, none, none, none], 0, ⟨1, 21, 29, 40⟩⟩) (.branch (.branch (.branch (.branch .leaf (some ⟨5, 273, 3, none, [none, none, none, none, none, none, none, none], 0, ⟨1, 218, 134, 62⟩⟩) .leaf) (some ⟨3, 145, 4, none, [none, none, none, none, none, none, none, none], 0, ⟨1, 117, 167, 67⟩⟩) .leaf) (some ⟨7, 81, 1, none, [none, none, none, none, none, none, none, none], 0, ⟨1, 60, 94, 139⟩⟩) (.branch .leaf (some ⟨3, 209, 1, none, [none, none, none, none, none, none, none, none], 0, ⟨1, 168, 202, 88⟩⟩) .leaf)) (some ⟨2, 49, 6, none, [none, none, none, none, none, none, none, none], 0, ⟨1, 37, 58, 94⟩⟩) (.branch (.branch (.branch .leaf (some ⟨6, 305, 4, none, [none, none, none, none, none, none, none, none], 0, ⟨1, 235, 237, 233⟩⟩) .leaf) (some ⟨7, 177, 3, none, [none, none, none, none, none, none, none, none], 0, ⟨1, 136, 75, 43⟩⟩) .leaf) (some ⟨3, 113, 1, none, [none, none, none, none, none, none, none, none], 0, ⟨1, 79, 143, 186⟩⟩) (.branch .leaf (some ⟨1, 241, 7, none, [none, none, none, none, none, none, none, none], 0, ⟨2, 434, 444, 437⟩⟩) .leaf)))) (some ⟨3, 9, 7, none, [none, none, none, none, none, none, none, none], 0, ⟨1, 16, 20, 31⟩⟩) (.branch (.branch (.branch (.branch (.branch .leaf (some ⟨4, 265, 0, none, [none, none, none, none, none, none, none, none], 0, ⟨1, 215, 181, 148⟩⟩) .leaf) (some ⟨7, 137, 5, none, [none, none, none, none, none, none, none, none], 0, ⟨1, 115, 190, 211⟩⟩) .leaf) (some ⟨7, 73, 4, none, [none, none, none, none, none, none, none, none], 0, ⟨1, 57, 74, 80⟩⟩) (.branch .leaf (some ⟨3, 201, 3, none, [none, none, none, none, none, none, none, none], 0, ⟨1, 168, 181, 178⟩⟩) .leaf)) (some ⟨7, 41, 1, none, [none, none, none, none, none, none, none, none], 0, ⟨1, 32, 46, 55⟩⟩) (.branch (.branch (.branch .leaf (some ⟨4, 297, 4, none, [none, none, none, none, none, none, none, none], 0, ⟨1, 232, 193, 112⟩⟩) .leaf) (some ⟨7, 169, 6, none, [none, none, none, none, none, none, none, none], 0, ⟨1, 129, 151, 150⟩⟩) .leaf) (some ⟨3, 105, 1, none, [none, none, none, none, none, none, none, none], 0, ⟨1, 77, 43, 50⟩⟩) (.branch .leaf (some ⟨7, 233, 1, none, [none, none, none, none, none, none, none, none], 0, ⟨1, 192, 148, 115⟩⟩) .leaf))) (some ⟨7, 25, 4, none, [none, none, none, none, none, none, none, none], 0, ⟨1, 23, 32, 56⟩⟩) (.branch (.branch (.branch (.branch .leaf (some ⟨7, 281, 1, none, [none, none, none, none, none, none, none, none], 0, ⟨1, 222, 158, 65⟩⟩) .leaf) (some ⟨5, 153, 2, none, [none, none, none, none, none, none, none, none], 0, ⟨1, 122, 54, 123⟩⟩) .leaf) (some ⟨1, 89, 4, none, [none, none, none, none, none, none, none, none], 0, ⟨4, 355, 152, 199⟩⟩) (.branch .leaf (some ⟨4, 217, 4, none, [none, none, none, none, none, none, none, none], 0, ⟨1, 173, 119, 87⟩⟩) .leaf)) (some ⟨3, 57, 2, none, [none, none, none, none, none, none, none, none], 0, ⟨1, 37, 86, 46⟩⟩) (.branch (.branch .leaf (some ⟨7, 185, 0, none, [none, none, none, none, none, none, none, none], 0, ⟨1, 162, 62, 140⟩⟩) .leaf) (some ⟨4, 121, 0, none, [none, none, none, none, none, none, none, none], 0, ⟨1, 87, 114, 119⟩⟩) (.branch .leaf (some ⟨2, 249, 1, none, [none, none, none, none, none, none, none, none], 0, ⟨1, 207, 87, 60⟩⟩) .leaf))))) (some ⟨4, 5, 6, none, [none, none, none, none, none, none, none, none], 0, ⟨1, 9, 10, 20⟩⟩) (.branch (.branch (.branch (.branch (.branch (.branch .leaf (some ⟨7, 261, 1, none, [none, none, none, none, none, none, none, none], 0, ⟨1, 208, 218, 145⟩⟩) .leaf) (some ⟨3, 133, 7, none, [none, none, none, none, none, none, none, none], 0, ⟨1, 115, 190, 211⟩⟩) .leaf) (some ⟨3, 69, 5, none, [none, none, none, none, none, none, none, none], 0, ⟨1, 57, 74, 80⟩⟩) (.branch .leaf (some ⟨5, 197, 4, none, [none, none, none, none, none, none, none, none], 0, ⟨1, 165, 48, 48⟩⟩) .leaf)) (some ⟨3, 37, 1, none, [none, none, none, none, none, none, none, none], 0, ⟨1, 32, 46, 55⟩⟩) (.branch (.branch (.branch .leaf (some ⟨7, 293, 7, none, [none, none, none, none, none, none, none, none], 0, ⟨1, 231, 213, 179⟩⟩) .leaf) (some ⟨3, 165, 3, none, [none, none, none, none, none, none, none, none], 0, ⟨1, 129, 151, 150⟩⟩) .leaf) (some ⟨5, 101, 4, none, [none, none, none, none, none, none, none, none], 0, ⟨1, 70, 130, 50⟩⟩) (.branch .leaf (some ⟨3, 229, 3, none, [none, none, none, none, none, none, none, none], 0, ⟨1, 192, 148, 115⟩⟩) .leaf))) (some ⟨3, 21, 5, none, [none, none, none, none, none, none, none, none], 0, ⟨1, 23, 32, 56⟩⟩) (.branch (.branch (.branch (.branch .leaf (some ⟨3, 277, 6, none, [none, none, none, none, none, none, none, none], 0, ⟨1, 222, 158, 65⟩⟩) .leaf) (some ⟨7, 149, 7, none, [none, none, none, none, none, none, none, none], 0, ⟨1, 117, 167, 67⟩⟩) .leaf) (some ⟨4, 85, 0, none, [none, none, none, none, none, none, none, none], 0, ⟨1, 64, 39, 81⟩⟩) (.branch .leaf (some ⟨7, 213, 0, none, [none, none, none, none, none, none, none, none], 0, ⟨1, 168, 202, 88⟩⟩) .leaf)) (some ⟨6, 53, 3, none, [none, none, none, none, none, none, none, none], 0, ⟨1, 37, 58, 94⟩⟩) (.branch (.branch .leaf (some ⟨3, 181, 2, none, [none, none, none, none, none, none, none, none], 0, ⟨1, 162, 62, 140⟩⟩) .leaf) (some ⟨7, 117, 6, none, [none, none, none, none, none, none, none, none], 0, ⟨1, 79, 143, 186⟩⟩) (.branch .leaf (some ⟨5, 245, 7, none, [none, none, none, none, none, none, none, none], 0, ⟨1, 199, 207, 204⟩⟩) .leaf)))) (some ⟨7, 13, 1, none, [none, none, none, none, none, none, none, none], 0, ⟨1, 16, 20, 31⟩⟩) (.branch (.branch (.branch (.branch (.branch .leaf (some ⟨1, 269, 4, none, [none, none, none, none, none, none, none, none], 0, ⟨1, 218, 134, 62⟩⟩) .leaf) (some ⟨6, 141, 0, none, [none, none, none, none, none, none, none, none], 0, ⟨1, 117, 36, 56⟩⟩) .leaf) (some ⟨3, 77, 6, none, [none, none, none, none, none, none, none, none], 0, ⟨1, 60, 94, 139⟩⟩) (.branch .leaf (some ⟨7, 205, 2, none, [none, none, none, none, none, none, none, none], 0, ⟨1, 168, 181, 178⟩⟩) .leaf)) (some ⟨5, 45, 7, none, [none, none, none, none, none, none, none, none], 0, ⟨1, 36, 21, 39⟩⟩) (.branch (.branch (.branch .leaf (some ⟨2, 301, 7, none, [none, none, none, none, none, none, none, none], 0, ⟨1, 235, 237, 233⟩⟩) .leaf) (some ⟨3, 173, 0, none, [none, none, none, none, none, none, none, none], 0, ⟨1, 136, 75, 43⟩⟩) .leaf) (some ⟨7, 109, 6, none, [none, none, none, none, none, none, none, none], 0, ⟨1, 77, 43, 50⟩⟩) (.branch .leaf (some ⟨4, 237, 0, none, [none, none, none, none, none, none, none, none], 0, ⟨1, 198, 81, 151⟩⟩) .leaf))) (some ⟨6, 29, 2, none, [none, none, none, none, none, none, none, none], 0, ⟨1, 25, 51, 45⟩⟩) (.branch (.branch (.branch (.branch .leaf (some ⟨5, 285, 7, none, [none, none, none, none, none, none, none, none], 0, ⟨1, 223, 132, 165⟩⟩) .leaf) (some ⟨3, 157, 4, none, [none, none, none, none, none, none, none, none], 0, ⟨1, 122, 72, 65⟩⟩) .leaf) (some ⟨5, 93, 2, none, [none, none, none, none, none, none, none, none], 0, ⟨1, 65, 29, 49⟩⟩) (.branch .leaf (some ⟨2, 221, 7, none, [none, none, none, none, none, none, none, none], 0, ⟨1, 190, 119, 43⟩⟩) .leaf)) (some ⟨7, 61, 4, none, [none, none, none, none, none, none, none, none], 0, ⟨1, 37, 86, 46⟩⟩) (.branch (.branch .leaf (some ⟨4, 189, 3, none, [none, none, none, none, none, none, none, none], 0, ⟨1, 164, 221, 219⟩⟩) .leaf) (some ⟨2, 125, 7, none, [none, none, none, none, none, none, none, none], 0, ⟨2, 213, 80, 100⟩⟩) (.branch .leaf (some ⟨6, 253, 6, none, [none, none, none, none, none, none, none, none], 0, ⟨1, 207, 87, 60⟩⟩) .leaf))))))) (some ⟨0, 0, 0, none, [some 1, none, none, some 110, some 170, some 178, some 206, some 162], 6, ⟨3, 247, 391, 256⟩⟩) (.branch (.branch (.branch (.branch (.branch (.branch (.branch (.branch .leaf (some ⟨2, 256, 0, none, [none, none, none, none, none, none, none, none], 0, ⟨1, 208, 218, 145⟩⟩) .leaf) (some ⟨5, 128, 3, none, [none, none, none, none, none, none, none, none], 0, ⟨1, 96, 44, 44⟩⟩) .leaf) (some ⟨5, 64, 7, none, [none, none, none, none, none, none, none, none], 0, ⟨1, 52, 28, 39⟩⟩) (.branch .leaf (some ⟨7, 192, 3, none, [none, none, none, none, none, none, none, none], 0, ⟨1, 164, 221, 219⟩⟩) .leaf)) (some ⟨4, 32, 7, none, [none, none, none, none, none, none, none, none], 0, ⟨1, 30, 29, 57⟩⟩) (.branch (.branch (.branch .leaf (some ⟨2, 288, 5, none, [none, none, none, none, none, none, none, none], 0, ⟨1, 231, 213, 179⟩⟩) .leaf) (some ⟨6, 160, 4, none, [none, none, none, none, none, none, none, none], 0, ⟨1, 122, 72, 65⟩⟩) .leaf) (some ⟨0, 96, 2, none, [none, none, none, none, none, none, none, none], 0, ⟨2, 187, 297, 117⟩⟩) (.branch .leaf (some ⟨5, 224, 6, none, [none, none, none, none, none, none, none, none], 0, ⟨1, 190, 119, 43⟩⟩) .leaf))) (some ⟨4, 16, 3, none, [none, none, none, none, none, none, none, none], 0, ⟨1, 21, 29, 40⟩⟩) (.branch (.branch (.branch (.branch .leaf (some ⟨4, 272, 5, none, [none, none, none, none, none, none, none, none], 0, ⟨1, 218, 134, 62⟩⟩) .leaf) (some ⟨2, 144, 6, none, [none, none, none, none, none, none, none, none], 0, ⟨1, 117, 167, 67⟩⟩) .leaf) (some ⟨6, 80, 3, none, [none, none, none, none, none, none, none, none], 0, ⟨1, 60, 94, 139⟩⟩) (.branch .leaf (some ⟨2, 208, 4, none, [none, none, none, none, none, none, none, none], 0, ⟨1, 168, 202, 88⟩⟩) .leaf)) (some ⟨1, 48, 1, none, [none, none, none, none, none, none, none, none], 0, ⟨1, 37, 58, 94⟩⟩) (.branch (.branch (.branch .leaf (some ⟨5, 304, 2, none, [none, none, none, none, none, none, none, none], 0, ⟨1, 235, 237, 233⟩⟩) .leaf) (some ⟨6, 176, 3, none, [none, none, none, none, none, none, none, none], 0, ⟨1, 136, 75, 43⟩⟩) .leaf) (some ⟨2, 112, 1, none, [none, none, none, none, none, none, none, none], 0, ⟨1, 79, 143, 186⟩⟩) (.branch .leaf (some ⟨7, 240, 3, none, [none, none, none, none, none, none, none, none], 0, ⟨1, 198, 81, 151⟩⟩) .leaf)))) (some ⟨7, 8, 4, none, [none, none, none, none, none, none, none, none], 0, ⟨1, 9, 10, 20⟩⟩) (.branch (.branch (.branch (.branch (.branch .leaf (some ⟨3, 264, 7, none, [none, none, none, none, none, none, none, none], 0, ⟨1, 215, 181, 148⟩⟩) .leaf) (some ⟨6, 136, 7, none, [none, none, none, none, none, none, none, none], 0, ⟨1, 115, 190, 211⟩⟩) .leaf) (some ⟨6, 72, 2, none, [none, none, none, none, none, none, none, none], 0, ⟨1, 57, 74, 80⟩⟩) (.branch .leaf (some ⟨2, 200, 7, none, [none, none, none, none, none, none, none, none], 0, ⟨1, 168, 181, 178⟩⟩) .leaf)) (some ⟨6, 40, 3, none, [none, none, none, none, none, none, none, none], 0, ⟨1, 32, 46, 55⟩⟩) (.branch (.branch (.branch .leaf (some ⟨3, 296, 1, none, [none, none, none, none, none, none, none, none], 0, ⟨1, 232, 193, 112⟩⟩) .leaf) (some ⟨6, 168, 3, none, [none, none, none, none, none, none, none, none], 0, ⟨1, 129, 151, 150⟩⟩) .leaf) (some ⟨2, 104, 3, none, [none, none, none, none, none, none, none, none], 0, ⟨1, 77, 43, 50⟩⟩) (.branch .leaf (some ⟨6, 232, 1, none, [none, none, none, none, none, none, none, none], 0, ⟨1, 192, 148, 115⟩⟩) .leaf))) (some ⟨6, 24, 4, none, [none, none, none, none, none, none, none, none], 0, ⟨1, 23, 32, 56⟩⟩) (.branch (.branch (.branch (.branch .leaf (some ⟨6, 280, 6, none, [none, none, none, none, none, none, none, none], 0, ⟨1, 222, 158, 65⟩⟩) .leaf) (some ⟨4, 152, 5, none, [none, none, none, none, none, none, none, none], 0, ⟨1, 122, 54, 123⟩⟩) .leaf) (some ⟨7, 88, 3, none, [none, none, none, none, none, none, none, none], 0, ⟨1, 64, 39, 81⟩⟩) (.branch .leaf (some ⟨3, 216, 3, none, [none, none, none, none, none, none, none, none], 0, ⟨1, 173, 119, 87⟩⟩) .leaf)) (some ⟨2, 56, 5, none, [none, none, none, none, none, none, none, none], 0, ⟨1, 37, 86, 46⟩⟩) (.branch (.branch .leaf (some ⟨6, 184, 6, none, [none, none, none, none, none, none, none, none], 0, ⟨1, 162, 62, 140⟩⟩) .leaf) (some ⟨3, 120, 7, none, [none, none, none, none, none, none, none, none], 0, ⟨1, 87, 114, 119⟩⟩) (.branch .leaf (some ⟨1, 248, 6, none, [none, none, none, none, none, none, none, none], 0, ⟨1, 207, 87, 60⟩⟩) .leaf))))) (some ⟨3, 4, 1, none, [none, none, none, none, none, none, none, none], 0, ⟨1, 9, 10, 20⟩⟩) (.branch (.branch (.branch (.branch (.branch (.branch .leaf (some ⟨6, 260, 2, none, [none, none, none, none, none, none, none, none], 0, ⟨1, 208, 218, 145⟩⟩) .leaf) (some ⟨2, 132, 6, none, [none, none, none, none, none, none, none, none], 0, ⟨1, 115, 190, 211⟩⟩) .leaf) (some ⟨2, 68, 4, none, [none, none, none, none, none, none, none, none], 0, ⟨1, 57, 74, 80⟩⟩) (.branch .leaf (some ⟨4, 196, 0, none, [none, none, none, none, none, none, none, none], 0, ⟨1, 165, 48, 48⟩⟩) .leaf)) (some ⟨2, 36, 7, none, [none, none, none, none, none, none, none, none], 0, ⟨1, 32, 46, 55⟩⟩) (.branch (.branch (.branch .leaf (some ⟨6, 292, 5, none, [none, none, none, none, none, none, none, none], 0, ⟨1, 231, 213, 179⟩⟩) .leaf) (some ⟨2, 164, 0, none, [none, none, none, none, none, none, none, none], 0, ⟨1, 129, 151, 150⟩⟩) .leaf) (some ⟨4, 100, 0, none, [none, none, none, none, none, none, none, none], 0, ⟨1, 70, 130, 50⟩⟩) (.branch .leaf (some ⟨2, 228, 1, none, [none, none, none, none, none, none, none, none], 0, ⟨1, 192, 148, 115⟩⟩) .leaf))) (some ⟨2, 20, 3, none, [none, none, none, none, none, none, none, none], 0, ⟨2, 48, 83, 101⟩⟩) (.branch (.branch (.branch (.branch .leaf (some ⟨2, 276, 0, none, [none, none, none, none, none, none, none, none], 0, ⟨1, 222, 158, 65⟩⟩) .leaf) (some ⟨6, 148, 3, none, [none, none, none, none, none, none, none, none], 0, ⟨1, 117, 167, 67⟩⟩) .leaf) (some ⟨3, 84, 1, none, [none, none, none, none, none, none, none, none], 0, ⟨1, 64, 39, 81⟩⟩) (.branch .leaf (some ⟨6, 212, 2, none, [none, none, none, none, none, none, none, none], 0, ⟨1, 168, 202, 88⟩⟩) .leaf)) (some ⟨5, 52, 5, none, [none, none, none, none, none, none, none, none], 0, ⟨1, 37, 58, 94⟩⟩) (.branch (.branch .leaf (some ⟨2, 180, 6, none, [none, none, none, none, none, none, none, none], 0, ⟨1, 162, 62, 140⟩⟩) .leaf) (some ⟨6, 116, 7, none, [none, none, none, none, none, none, none, none], 0, ⟨1, 79, 143, 186⟩⟩) (.branch .leaf (some ⟨4, 244, 3, none, [none, none, none, none, none, none, none, none], 0, ⟨1, 199, 207, 204⟩⟩) .leaf)))) (some ⟨6, 12, 1, none, [none, none, none, none, none, none, none, none], 0, ⟨1, 16, 20, 31⟩⟩) (.branch (.branch (.branch (.branch (.branch .leaf (some ⟨7, 268, 6, none, [none, none, none, none, none, none, none, none], 0, ⟨1, 215, 181, 148⟩⟩) .leaf) (some ⟨5, 140, 6, none, [none, none, none, none, none, none, none, none], 0, ⟨1, 117, 36, 56⟩⟩) .leaf) (some ⟨2, 76, 4, none, [none, none, none, none, none, none, none, none], 0, ⟨1, 60, 94, 139⟩⟩) (.branch .leaf (some ⟨6, 204, 1, none, [none, none, none, none, none, none, none, none], 0, ⟨1, 168, 181, 178⟩⟩) .leaf)) (some ⟨4, 44, 0, none, [none, none, none, none, none, none, none, none], 0, ⟨1, 36, 21, 39⟩⟩) (.branch (.branch (.branch .leaf (some ⟨7, 300, 2, none, [none, none, none, none, none, none, none, none], 0, ⟨1, 232, 193, 112⟩⟩) .leaf) (some ⟨2, 172, 1, none, [none, none, none, none, none, none, none, none], 0, ⟨1, 136, 75, 43⟩⟩) .leaf) (some ⟨6, 108, 3, none, [none, none, none, none, none, none, none, none], 0, ⟨1, 77, 43, 50⟩⟩) (.branch .leaf (some ⟨3, 236, 3, none, [none, none, none, none, none, none, none, none], 0, ⟨1, 198, 81, 151⟩⟩) .leaf))) (some ⟨5, 28, 1, none, [none, none, none, none, none, none, none, none], 0, ⟨1, 25, 51, 45⟩⟩) (.branch (.branch (.branch (.branch .leaf (some ⟨4, 284, 4, none, [none, none, none, none, none, none, none, none], 0, ⟨1, 223, 132, 165⟩⟩) .leaf) (some ⟨2, 156, 4, none, [none, none, none, none, none, none, none, none], 0, ⟨1, 122, 72, 65⟩⟩) .leaf) (some ⟨4, 92, 2, none, [none, none, none, none, none, none, none, none], 0, ⟨1, 65, 29, 49⟩⟩) (.branch .leaf (some ⟨7, 220, 7, none, [none, none, none, none, none, none, none, none], 0, ⟨1, 173, 119, 87⟩⟩) .leaf)) (some ⟨6, 60, 3, none, [none, none, none, none, none, none, none, none], 0, ⟨1, 37, 86, 46⟩⟩) (.branch (.branch .leaf (some ⟨3, 188, 3, none, [none, none, none, none, none, none, none, none], 0, ⟨1, 164, 221, 219⟩⟩) .leaf) (some ⟨7, 124, 5, none, [none, none, none, none, none, none, none, none], 0, ⟨1, 87, 114, 119⟩⟩) (.branch .leaf (some ⟨5, 252, 7, none, [none, none, none, none, none, none, none, none], 0, ⟨1, 207, 87, 60⟩⟩) .leaf)))))) (some ⟨1, 2, 0, some 1, [none, none, none, none, none, none, none, none], 0, ⟨9, 244, 266, 382⟩⟩) (.branch (.branch (.branch (.branch (.branch (.branch (.branch .leaf (some ⟨4, 258, 2, none, [none, none, none, none, none, none, none, none], 0, ⟨1, 208, 218, 145⟩⟩) .leaf) (some ⟨7, 130, 0, none, [none, none, none, none, none, none, none, none], 0, ⟨1, 96, 44, 44⟩⟩) .leaf) (some ⟨7, 66, 1, none, [none, none, none, none, none, none, none, none], 0, ⟨1, 52, 28, 39⟩⟩) (.branch .leaf (some ⟨2, 194, 7, none, [none, none, none, none, none, none, none, none], 0, ⟨1, 165, 48, 48⟩⟩) .leaf)) (some ⟨6, 34, 4, none, [none, none, none, none, none, none, none, none], 0, ⟨1, 30, 29, 57⟩⟩) (.branch (.branch (.branch .leaf (some ⟨4, 290, 0, none, [none, none, none, none, none, none, none, none], 0, ⟨1, 231, 213, 179⟩⟩) .leaf) (some ⟨0, 162, 7, some 0, [none, none, none, none, none, none, none, none], 0, ⟨9, 1772, 1741, 1621⟩⟩) .leaf) (some ⟨2, 98, 1, none, [none, none, none, none, none, none, none, none], 0, ⟨1, 70, 130, 50⟩⟩) (.branch .leaf (some ⟨7, 226, 3, none, [none, none, none, none, none, none, none, none], 0, ⟨1, 190, 119, 43⟩⟩) .leaf))) (some ⟨6, 18, 0, none, [none, none, none, none, none, none, none, none], 0, ⟨1, 21, 29, 40⟩⟩) (.branch (.branch (.branch (.branch .leaf (some ⟨6, 274, 7, none, [none, none, none, none, none, none, none, none], 0, ⟨1, 218, 134, 62⟩⟩) .leaf) (some ⟨4, 146, 0, none, [none, none, none, none, none, none, none, none], 0, ⟨1, 117, 167, 67⟩⟩) .leaf) (some ⟨1, 82, 5, none, [none, none, none, none, none, none, none, none], 0, ⟨2, 186, 93, 204⟩⟩) (.branch .leaf (some ⟨4, 210, 7, none, [none, none, none, none, none, none, none, none], 0, ⟨1, 168, 202, 88⟩⟩) .leaf)) (some ⟨3, 50, 3, none, [none, none, none, none, none, none, none, none], 0, ⟨1, 37, 58, 94⟩⟩) (.branch (.branch (.branch .leaf (some ⟨7, 306, 7, none, [none, none, none, none, none, none, none, none], 0, ⟨1, 235, 237, 233⟩⟩) .leaf) (some ⟨0, 178, 5, some 0, [none, none, none, none, none, none, none, none], 0, ⟨2, 360, 143, 291⟩⟩) .leaf) (some ⟨4, 114, 7, none, [none, none, none, none, none, none, none, none], 0, ⟨1, 79, 143, 186⟩⟩) (.branch .leaf (some ⟨2, 242, 0, none, [none, none, none, none, none, none, none, none], 0, ⟨1, 199, 207, 204⟩⟩) .leaf)))) (some ⟨4, 10, 1, none, [none, none, none, none, none, none, none, none], 0, ⟨1, 16, 20, 31⟩⟩) (.branch (.branch (.branch (.branch (.branch .leaf (some ⟨5, 266, 7, none, [none, none, none, none, none, none, none, none], 0, ⟨1, 215, 181, 148⟩⟩) .leaf) (some ⟨3, 138, 5, none, [none, none, none, none, none, none, none, none], 0, ⟨1, 117, 36, 56⟩⟩) .leaf) (some ⟨0, 74, 1, none, [none, none, none, none, none, none, none, none], 0, ⟨1, 60, 94, 139⟩⟩) (.branch .leaf (some ⟨4, 202, 4, none, [none, none, none, none, none, none, none, none], 0, ⟨1, 168, 181, 178⟩⟩) .leaf)) (some ⟨2, 42, 5, none, [none, none, none, none, none, none, none, none], 0, ⟨2, 88, 49, 78⟩⟩) (.branch (.branch (.branch .leaf (some ⟨5, 298, 0, none, [none, none, none, none, none, none, none, none], 0, ⟨1, 232, 193, 112⟩⟩) .leaf) (some ⟨0, 170, 4, some 0, [none, none, none, none, none, none, none, none], 0, ⟨5, 871, 448, 281⟩⟩) .leaf) (some ⟨4, 106, 6, none, [none, none, none, none, none, none, none, none], 0, ⟨1, 77, 43, 50⟩⟩) (.branch .leaf (some ⟨1, 234, 6, none, [none, none, none, none, none, none, none, none], 0, ⟨1, 198, 81, 151⟩⟩) .leaf))) (some ⟨3, 26, 6, none, [none, none, none, none, none, none, none, none], 0, ⟨1, 25, 51, 45⟩⟩) (.branch (.branch (.branch (.branch .leaf (some ⟨2, 282, 1, none, [none, none, none, none, none, none, none, none], 0, ⟨1, 223, 132, 165⟩⟩) .leaf) (some ⟨6, 154, 7, none, [none, none, none, none, none, none, none, none], 0, ⟨1, 122, 54, 123⟩⟩) .leaf) (some ⟨2, 90, 1, none, [none, none, none, none, none, none, none, none], 0, ⟨1, 65, 29, 49⟩⟩) (.branch .leaf (some ⟨5, 218, 7, none, [none, none, none, none, none, none, none, none], 0, ⟨1, 173, 119, 87⟩⟩) .leaf)) (some ⟨4, 58, 1, none, [none, none, none, none, none, none, none, none], 0, ⟨1, 37, 86, 46⟩⟩) (.branch (.branch .leaf (some ⟨1, 186, 3, none, [none, none, none, none, none, none, none, none], 0, ⟨1, 164, 221, 219⟩⟩) .leaf) (some ⟨5, 122, 5, none, [none, none, none, none, none, none, none, none], 0, ⟨1, 87, 114, 119⟩⟩) (.branch .leaf (some ⟨3, 250, 3, none, [none, none, none, none, none, none, none, none], 0, ⟨1, 207, 87, 60⟩⟩) .leaf))))) (some ⟨5, 6, 1, none, [none, none, none, none, none, none, none, none], 0, ⟨1, 9, 10, 20⟩⟩) (.branch (.branch (.branch (.branch (.branch (.branch .leaf (some ⟨1, 262, 4, none, [none, none, none, none, none, none, none, none], 0, ⟨2, 438, 313, 313⟩⟩) .leaf) (some ⟨4, 134, 2, none, [none, none, none, none, none, none, none, none], 0, ⟨1, 115, 190, 211⟩⟩) .leaf) (some ⟨4, 70, 6, none, [none, none, none, none, none, none, none, none], 0, ⟨1, 57, 74, 80⟩⟩) (.branch .leaf (some ⟨6, 198, 0, none, [none, none, none, none, none, none, none, none], 0, ⟨1, 165, 48, 48⟩⟩) .leaf)) (some ⟨4, 38, 2, none, [none, none, none, none, none, none, none, none], 0, ⟨1, 32, 46, 55⟩⟩) (.branch (.branch (.branch .leaf (some ⟨1, 294, 7, none, [none, none, none, none, none, none, none, none], 0, ⟨1, 232, 193, 112⟩⟩) .leaf) (some ⟨4, 166, 0, none, [none, none, none, none, none, none, none, none], 0, ⟨1, 129, 151, 150⟩⟩) .leaf) (some ⟨6, 102, 7, none, [none, none, none, none, none, none, none, none], 0, ⟨1, 70, 130, 50⟩⟩) (.branch .leaf (some ⟨4, 230, 0, none, [none, none, none, none, none, none, none, none], 0, ⟨1, 192, 148, 115⟩⟩) .leaf))) (some ⟨4, 22, 1, none, [none, none, none, none, none, none, none, none], 0, ⟨1, 23, 32, 56⟩⟩) (.branch (.branch (.branch (.branch .leaf (some ⟨4, 278, 6, none, [none, none, none, none, none, none, none, none], 0, ⟨1, 222, 158, 65⟩⟩) .leaf) (some ⟨2, 150, 7, none, [none, none, none, none, none, none, none, none], 0, ⟨1, 122, 54, 123⟩⟩) .leaf) (some ⟨5, 86, 2, none, [none, none, none, none, none, none, none, none], 0, ⟨1, 64, 39, 81⟩⟩) (.branch .leaf (some ⟨1, 214, 3, none, [none, none, none, none, none, none, none, none], 0, ⟨1, 173, 119, 87⟩⟩) .leaf)) (some ⟨7, 54, 4, none, [none, none, none, none, none, none, none, none], 0, ⟨1, 37, 58, 94⟩⟩) (.branch (.branch .leaf (some ⟨4, 182, 3, none, [none, none, none, none, none, none, none, none], 0, ⟨1, 162, 62, 140⟩⟩) .leaf) (some ⟨1, 118, 7, none, [none, none, none, none, none, none, none, none], 0, ⟨2, 209, 186, 184⟩⟩) (.branch .leaf (some ⟨6, 246, 6, none, [none, none, none, none, none, none, none, none], 0, ⟨1, 199, 207, 204⟩⟩) .leaf)))) (some ⟨2, 14, 1, none, [none, none, none, none, none, none, none, none], 0, ⟨2, 51, 58, 97⟩⟩) (.branch (.branch (.branch (.branch (.branch .leaf (some ⟨2, 270, 1, none, [none, none, none, none, none, none, none, none], 0, ⟨1, 218, 134, 62⟩⟩) .leaf) (some ⟨7, 142, 4, none, [none, none, none, none, none, none, none, none], 0, ⟨1, 117, 36, 56⟩⟩) .leaf) (some ⟨4, 78, 7, none, [none, none, none, none, none, none, none, none], 0, ⟨1, 60, 94, 139⟩⟩) (.branch .leaf (some ⟨0, 206, 6, some 0, [none, none, none, none, none, none, none, none], 0, ⟨5, 1032, 835, 442⟩⟩) .leaf)) (some ⟨6, 46, 1, none, [none, none, none, none, none, none, none, none], 0, ⟨1, 36, 21, 39⟩⟩) (.branch (.branch (.branch .leaf (some ⟨3, 302, 0, none, [none, none, none, none, none, none, none, none], 0, ⟨1, 235, 237, 233⟩⟩) .leaf) (some ⟨4, 174, 7, none, [none, none, none, none, none, none, none, none], 0, ⟨1, 136, 75, 43⟩⟩) .leaf) (some ⟨0, 110, 3, some 0, [none, none, none, none, none, none, none, none], 0, ⟨2, 194, 333, 397⟩⟩) (.branch .leaf (some ⟨5, 238, 5, none, [none, none, none, none, none, none, none, none], 0, ⟨1, 198, 81, 151⟩⟩) .leaf))) (some ⟨7, 30, 7, none, [none, none, none, none, none, none, none, none], 0, ⟨1, 25, 51, 45⟩⟩) (.branch (.branch (.branch (.branch .leaf (some ⟨6, 286, 4, none, [none, none, none, none, none, none, none, none], 0, ⟨1, 223, 132, 165⟩⟩) .leaf) (some ⟨4, 158, 6, none, [none, none, none, none, none, none, none, none], 0, ⟨1, 122, 72, 65⟩⟩) .leaf) (some ⟨6, 94, 0, none, [none, none, none, none, none, none, none, none], 0, ⟨1, 65, 29, 49⟩⟩) (.branch .leaf (some ⟨3, 222, 6, none, [none, none, none, none, none, none, none, none], 0, ⟨1, 190, 119, 43⟩⟩) .leaf)) (some ⟨3, 62, 6, none, [none, none, none, none, none, none, none, none], 0, ⟨1, 52, 28, 39⟩⟩) (.branch (.branch .leaf (some ⟨5, 190, 6, none, [none, none, none, none, none, none, none, none], 0, ⟨1, 164, 221, 219⟩⟩) .leaf) (some ⟨3, 126, 0, none, [none, none, none, none, none, none, none, none], 0, ⟨1, 96, 44, 44⟩⟩) (.branch .leaf (some ⟨7, 254, 6, none, [none, none, none, none, none, none, none, none], 0, ⟨1, 207, 87, 60⟩⟩) .leaf))))))))⟩

/-- Checkpoint: the queue after 352 fuel steps (8 survivors). -/
def fixtureQ352 : List Nat := [0, 1, 162, 206, 170, 2, 178, 110]

set_option maxRecDepth 6000 in
theorem fixture_build1 :
    List.foldl ColorTree.add_color ColorTree.new (fixturePixels.take 16) = fixtureT1 := by
  decide

set_option maxRecDepth 6000 in
theorem fixture_build2 :
    List.foldl ColorTree.add_color fixtureT1 ((fixturePixels.drop 16).take 16) = fixtureT2 := by
  decide

set_option maxRecDepth 6000 in
theorem fixture_build3 :
    List.foldl ColorTree.add_color fixtureT2 (fixturePixels.drop 32) = fixtureT3 := by
  decide

set_option maxRecDepth 6000 in
theorem fixture_queue0 : initQueue fixtureT3.nodes = fixtureQ0 := by
  decide

set_option maxRecDepth 6000 in
theorem fixture_countParents : countParents fixtureT3.nodes = 306 := by
  decide

set_option maxRecDepth 6000 in
theorem fixture_loop1 :
    reduceLoopGo 8 176 (fixtureT3.nodes, fixtureQ0) = (fixtureA176, fixtureQ176) := by
  decide

set_option maxRecDepth 6000 in
theorem fixture_loop2 :
    reduceLoopGo 8 176 (fixtureA176, fixtureQ176) = (fixtureA352, fixtureQ352) := by
  decide

theorem fixture_buildTree : buildTree fixturePixels = fixtureT3 := by
  have hsplit : fixturePixels =
      fixturePixels.take 16 ++ ((fixturePixels.drop 16).take 16 ++ fixturePixels.drop 32) := by
    decide
  rw [buildTree, hsplit, List.foldl_append, List.foldl_append,
    fixture_build1, fixture_build2, fixture_build3]

theorem fixture_reduce_length : ((buildTree fixturePixels).reduce 8).length = 8 := by
  rw [fixture_buildTree, reduce_eq fixtureT3 8 (by omega), fixture_queue0,
    fixture_countParents]
  have hfuel : fixtureQ0.length + 306 = 176 + 176 := by decide
  rw [hfuel, reduceLoopGo_add, fixture_loop1, fixture_loop2]
  decide

/-- C3: for every tree state and every K, `ColorTree::reduce` returns at
most K palette colors (the merging loop stops only once at most K queue
entries remain, and sorting preserves and dedup can only shrink the
count); on the 46-distinct-pixel fixture with K = 8 it returns exactly
8 colors. -/
theorem reduce_card_spec :
    (∀ (t : ColorTree) (K : Nat), (t.reduce K).length ≤ K) ∧
    ((buildTree fixturePixels).reduce 8).length = 8 := by
  constructor
  · intro t K
    by_cases hK : K = 0
    · subst hK
      rw [ColorTree.reduce, if_pos rfl]
      exact Nat.le_refl 0
    · rw [reduce_eq t K hK]
      refine le_trans (length_dedupPixels _) ?_
      rw [length_sortPixels, List.length_map]
      exact reduceLoopGo_length K _ _ (Nat.le_refl _)
  · exact fixture_reduce_length

/-! ## C2: order and distinctness of the palette returned by `reduce` -/

theorem pixelLe_iff (p q : Pixel) : pixelLe p q = true ↔
    (p.r < q.r ∨ (p.r = q.r ∧ (p.g < q.g ∨ (p.g = q.g ∧
      (p.b < q.b ∨ (p.b = q.b ∧ p.a ≤ q.a)))))) := by
  unfold pixelLe
  by_cases h1 : p.r = q.r <;> by_cases h2 : p.g = q.g <;> by_cases h3 : p.b = q.b <;>
    simp [h1, h2, h3] <;> omega

theorem pixelLe_total (p q : Pixel) : pixelLe p q = true ∨ pixelLe q p = true := by
  rw [pixelLe_iff, pixelLe_iff]
  omega

theorem pixelLe_trans {p q r : Pixel} (h1 : pixelLe p q = true)
    (h2 : pixelLe q r = true) : pixelLe p r = true := by
  rw [pixelLe_iff] at *
  omega

theorem pixelLe_antisymm {p q : Pixel} (h1 : pixelLe p q = true)
    (h2 : pixelLe q p = true) : p = q := by
  cases p with
  | mk pr pg pb pa =>
      cases q with
      | mk qr qg qb qa =>
          rw [pixelLe_iff] at h1 h2
          simp only [] at h1 h2
          have : pr = qr ∧ pg = qg ∧ pb = qb ∧ pa = qa := by omega
          simp [this.1, this.2.1, this.2.2.1, this.2.2.2]

theorem mem_insertPix {x p : Pixel} : ∀ {l : List Pixel},
    x ∈ insertPix p l → x = p ∨ x ∈ l := by
  intro l
  induction l with
  | nil =>
      intro h
      rw [insertPix] at h
      simp at h
      exact Or.inl h
  | cons q qs ih =>
      intro h
      rw [insertPix] at h
      by_cases hle : pixelLe p q
      · rw [if_pos hle] at h
        rw [List.mem_cons] at h
        rcases h with h | h
        · exact Or.inl h
        · exact Or.inr h
      · rw [if_neg hle] at h
        rw [List.mem_cons] at h
        rcases h with h | h
        · exact Or.inr (by simp [h])
        · rcases ih h with h | h
          · exact Or.inl h
          · exact Or.inr (by simp [h])

theorem sorted_insertPix (p : Pixel) : ∀ (l : List Pixel),
    List.Pairwise (fun x y => pixelLe x y = true) l →
    List.Pairwise (fun x y => pixelLe x y = true) (insertPix p l) := by
  intro l
  induction l with
  | nil =>
      intro _
      simp [insertPix]
  | cons q qs ih =>
      intro h
      rw [insertPix]
      by_cases hle : pixelLe p q
      · rw [if_pos hle]
        refine List.Pairwise.cons ?_ h
        intro x hx
        rw [List.mem_cons] at hx
        rcases hx with hx | hx
        · rw [hx]; exact hle
        · exact pixelLe_trans hle (List.rel_of_pairwise_cons h hx)
      · rw [if_neg hle]
        have hqp : pixelLe q p = true := by
          rcases pixelLe_total p q with h1 | h1
          · exact absurd h1 hle
          · exact h1
        refine List.Pairwise.cons ?_ (ih (List.Pairwise.sublist (List.sublist_cons_self q qs) h))
        intro x hx
        rcases mem_insertPix hx with hx | hx
        · rw [hx]; exact hqp
        · exact List.rel_of_pairwise_cons h hx

theorem sorted_sortPixels : ∀ (l : List Pixel),
    List.Pairwise (fun x y => pixelLe x y = true) (sortPixels l)
  | [] => List.Pairwise.nil
  | p :: ps => by
      rw [sortPixels]
      exact sorted_insertPix p (sortPixels ps) (sorted_sortPixels ps)

theorem mem_dedupGo {x prev : Pixel} : ∀ {l : List Pixel}, x ∈ dedupGo prev l → x ∈ l := by
  intro l
  induction l generalizing prev with
  | nil => intro h; simp [dedupGo] at h
  | cons q qs ih =>
      intro h
      rw [dedupGo] at h
      by_cases hq : q = prev
      · rw [if_pos hq] at h
        exact List.mem_cons_of_mem q (ih h)
      · rw [if_neg hq] at h
        rw [List.mem_cons] at h
        rcases h with h | h
        · simp [h]
        · exact List.mem_cons_of_mem q (ih h)

theorem pairwise_dedupGo : ∀ (l : List Pixel) (prev : Pixel),
    List.Pairwise (fun x y => pixelLe x y = true) (prev :: l) →
    List.Pairwise (fun x y => pixelLe x y = true ∧ x ≠ y) (prev :: dedupGo prev l) := by
  intro l
  induction l with
  | nil =>
      intro prev _
      simp [dedupGo]
  | cons q qs ih =>
      intro prev h
      rw [dedupGo]
      by_cases hq : q = prev
      · rw [if_pos hq]
        apply ih prev
        refine List.Pairwise.cons ?_ ((h.tail).tail)
        intro x hx
        exact List.rel_of_pairwise_cons h (List.mem_cons_of_mem q hx)
      · rw [if_neg hq]
        have hpq : pixelLe prev q = true :=
          List.rel_of_pairwise_cons h (by simp)
        refine List.Pairwise.cons ?_ (ih q h.tail)
        intro x hx
        rw [List.mem_cons] at hx
        rcases hx with hx | hx
        · subst hx
          exact ⟨hpq, fun he => hq he.symm⟩
        · have hx' : x ∈ qs := mem_dedupGo hx
          have hqx : pixelLe q x = true :=
            List.rel_of_pairwise_cons h.tail hx'
          refine ⟨pixelLe_trans hpq hqx, ?_⟩
          intro he
          subst he
          exact hq (pixelLe_antisymm hqx hpq)

theorem pairwise_dedupPixels : ∀ (l : List Pixel),
    List.Pairwise (fun x y => pixelLe x y = true) l →
    List.Pairwise (fun x y => pixelLe x y = true ∧ x ≠ y) (dedupPixels l)
  | [], _ => List.Pairwise.nil
  | p :: ps, h => by
      rw [dedupPixels]
      exact pairwise_dedupGo ps p h

/-- C2 (amended): every palette returned by `ColorTree::reduce` is
strictly ascending in the lexicographic `[u8; 4]` byte order — in
particular it contains no two equal colors.  (The sort key is the
derived byte order of `Vec::sort`, not Lab lightness; see the
counterexample.) -/
theorem reduce_sorted_spec (t : ColorTree) (K : Nat) :
    List.Pairwise (fun p q => pixelLe p q = true ∧ p ≠ q) (t.reduce K) := by
  by_cases hK : K = 0
  · rw [ColorTree.reduce, if_pos hK]
    exact List.Pairwise.nil
  · rw [reduce_eq t K hK]
    exact pairwise_dedupPixels _ (sorted_sortPixels _)

/-! ## C2 counterexample: the octree palette is not sorted by Lab L.
The Lab conversion lives in the external `palette` crate (not part of
this repository's sources); it is modelled from the spec below. -/

/-- Modelled from the spec: the sRGB channel linearization of the
standard sRGB→XYZ(D65)→Lab chain used by the external `palette` crate
(spec §4.3: "Lab conversion matches the standard sRGB→XYZ(D65)→Lab
chain"). -/
noncomputable def srgbToLinear (c : ℝ) : ℝ :=
  if c ≤ 0.04045 then c / 12.92 else ((c + 0.055) / 1.055) ^ (2.4 : ℝ)

/-- Modelled from the spec: the D65 relative luminance `Y` of a pixel
(the `XYZ` row that determines Lab lightness). -/
noncomputable def relativeLuminance (p : Pixel) : ℝ :=
  0.2126 * srgbToLinear ((p.r : ℝ) / 255) + 0.7152 * srgbToLinear ((p.g : ℝ) / 255) +
    0.0722 * srgbToLinear ((p.b : ℝ) / 255)

/-- Modelled from the spec: the CIE `f` function of the Lab transform. -/
noncomputable def labF (t : ℝ) : ℝ :=
  if ((6 : ℝ) / 29) ^ (3 : ℕ) < t then t ^ ((1 : ℝ) / 3)
  else t / (3 * ((6 : ℝ) / 29) ^ (2 : ℕ)) + 4 / 29

/-- Modelled from the spec: Lab lightness `L = 116 f(Y/Yn) − 16` with
`Yn = 1` (D65-normalized). -/
noncomputable def labL (p : Pixel) : ℝ := 116 * labF (relativeLuminance p) - 16

theorem srgbToLinear_zero : srgbToLinear 0 = 0 := by
  rw [srgbToLinear, if_pos (by norm_num)]
  norm_num

theorem srgbToLinear_one : srgbToLinear 1 = 1 := by
  rw [srgbToLinear, if_neg (by norm_num)]
  have h : ((1 : ℝ) + 0.055) / 1.055 = 1 := by norm_num
  rw [h, Real.one_rpow]

theorem relativeLuminance_green : relativeLuminance (Pixel.mk 0 255 0 255) = 0.7152 := by
  rw [relativeLuminance]
  norm_num [srgbToLinear_zero, srgbToLinear_one]

theorem relativeLuminance_red : relativeLuminance (Pixel.mk 255 0 0 255) = 0.2126 := by
  rw [relativeLuminance]
  norm_num [srgbToLinear_zero, srgbToLinear_one]

theorem labL_red_lt_green :
    labL (Pixel.mk 255 0 0 255) < labL (Pixel.mk 0 255 0 255) := by
  rw [labL, labL, relativeLuminance_green, relativeLuminance_red]
  rw [labF, labF, if_pos (by norm_num), if_pos (by norm_num)]
  have h : (0.2126 : ℝ) ^ ((1 : ℝ) / 3) < (0.7152 : ℝ) ^ ((1 : ℝ) / 3) :=
    Real.rpow_lt_rpow (by norm_num) (by norm_num) (by norm_num)
  linarith

/-- C2 counterexample: on the two-pixel tree {green, red} with K = 2,
`reduce` returns `[green, red]` (ascending byte order), which is
strictly decreasing in Lab lightness — the output is not sorted
non-decreasing by Lab L. -/
theorem reduce_labL_counterexample :
    ((ColorTree.new.add_color (Pixel.mk 0 255 0 255)).add_color
        (Pixel.mk 255 0 0 255)).reduce 2
      = [Pixel.mk 0 255 0 255, Pixel.mk 255 0 0 255] ∧
    ¬ List.Pairwise (fun p q => labL p ≤ labL q)
      (((ColorTree.new.add_color (Pixel.mk 0 255 0 255)).add_color
          (Pixel.mk 255 0 0 255)).reduce 2) := by
  have heq : ((ColorTree.new.add_color (Pixel.mk 0 255 0 255)).add_color
      (Pixel.mk 255 0 0 255)).reduce 2
      = [Pixel.mk 0 255 0 255, Pixel.mk 255 0 0 255] := by decide
  refine ⟨heq, ?_⟩
  rw [heq]
  intro hpair
  have hle : labL (Pixel.mk 0 255 0 255) ≤ labL (Pixel.mk 255 0 0 255) :=
    List.rel_of_pairwise_cons hpair (by simp)
  have := labL_red_lt_green
  linarith

/-! ## C4: octree accumulator invariants

`walkGo` retraces the pure descent of `add_color` (the code's
`get_color_index` routing) without mutation; `descAccSum` is the sum of
the accumulators of all (transitive) descendants of a node, used to
state the claim's "internal node's accumulator equals the sum of its
descendants' accumulators". -/

/-- Follow a color's slot path from node `r` through the given levels. -/
def walkGo (a : NodeArena) (c : Pixel) : Nat → List Nat → Option Nat
  | r, [] => some r
  | r, level :: rest =>
      match childSlot a r (get_color_index c level) with
      | none => none
      | some j => walkGo a c j rest

/-- The depth-8 node a color's bits route to, when present. -/
def walkLeaf (a : NodeArena) (c : Pixel) : Option Nat :=
  walkGo a c 0 (List.range MAX_DEPTH)

/-- The accumulator at a color's depth-8 node (zero when absent). -/
def leafAcc (a : NodeArena) (c : Pixel) : ColorAccumulator :=
  match walkLeaf a c with
  | none => ColorAccumulator.new
  | some i => (getNode a i).accumulator

/-- Two colors route identically on all eight levels (same color bits). -/
def samePath (c p : Pixel) : Bool :=
  (List.range MAX_DEPTH).all fun level =>
    get_color_index p level == get_color_index c level

/-- Componentwise accumulator of a pixel list. -/
def pixelsAcc (ps : List Pixel) : ColorAccumulator :=
  ps.foldl ColorAccumulator.addPixel ColorAccumulator.new

/-- Sum of the accumulators of all strict descendants of node `i`
(fuel-bounded recursion through the child slots; fuel `a.length`
suffices on real trees, whose child links increase strictly). -/
def descAccSum (a : NodeArena) : Nat → Nat → ColorAccumulator
  | 0, _ => ColorAccumulator.new
  | fuel + 1, i =>
      (getNode a i).children.foldl
        (fun acc child =>
          match child with
          | none => acc
          | some c => (acc.add (getNode a c).accumulator).add (descAccSum a fuel c))
        ColorAccumulator.new

/-- C4 counterexample: after inserting the single pixel `[0,0,0,255]`,
the root is an internal node (one child) whose own accumulator is zero,
while the sum of its descendants' accumulators has `count = 1`: an
internal node's accumulator does not equal the sum of its descendants'
accumulators. -/
theorem octree_internal_sum_counterexample :
    0 < (getNode (ColorTree.new.add_color (Pixel.mk 0 0 0 255)).nodes 0).childCount ∧
    (getNode (ColorTree.new.add_color (Pixel.mk 0 0 0 255)).nodes 0).accumulator ≠
      descAccSum (ColorTree.new.add_color (Pixel.mk 0 0 0 255)).nodes 9 0 := by
  constructor
  · decide
  · decide

/-! Basic facts about color indices, child slots and walks. -/

theorem get_color_index_lt (c : Pixel) (level : Nat) : get_color_index c level < 8 := by
  simp only [get_color_index]
  split <;> split <;> split <;> decide

theorem replicate_slot (ci : Nat) :
    ((List.replicate 8 (none : Option Nat)).get? ci).getD none = none := by
  rw [List.get?_eq_getElem?, List.getElem?_replicate]
  split <;> rfl

/-- Out-of-range nodes have no children. -/
theorem childSlot_of_ge {a : NodeArena} {i : Nat} (h : a.length ≤ i) (ci : Nat) :
    childSlot a i ci = none := by
  rw [childSlot, getNode_of_ge h]
  exact replicate_slot ci

/-- Adding child slots preserves every successful walk. -/
theorem walkGo_mono {a a' : NodeArena}
    (h : ∀ i ci j, childSlot a i ci = some j → childSlot a' i ci = some j)
    (c : Pixel) : ∀ (ls : List Nat) (r t : Nat),
      walkGo a c r ls = some t → walkGo a' c r ls = some t := by
  intro ls
  induction ls with
  | nil => intro r t ht; exact ht
  | cons l rest ih =>
      intro r t ht
      simp only [walkGo] at ht ⊢
      cases hs : childSlot a r (get_color_index c l) with
      | none => rw [hs] at ht; exact absurd ht (by simp)
      | some m =>
          rw [hs] at ht
          rw [h r _ m hs]
          exact ih m t ht

/-- Walks only look at the color indices along the level list. -/
theorem walkGo_congr {a : NodeArena} {c p : Pixel} :
    ∀ (ls : List Nat), (∀ l ∈ ls, get_color_index c l = get_color_index p l) →
      ∀ r, walkGo a c r ls = walkGo a p r ls := by
  intro ls
  induction ls with
  | nil => intro _ _; rfl
  | cons l rest ih =>
      intro hls r
      simp only [walkGo, hls l (List.mem_cons_self l rest)]
      cases hs : childSlot a r (get_color_index p l) with
      | none => rfl
      | some m => exact ih (fun x hx => hls x (List.mem_cons_of_mem l hx)) m

theorem walkGo_append (a : NodeArena) (c : Pixel) :
    ∀ (ls1 ls2 : List Nat) (r : Nat),
      walkGo a c r (ls1 ++ ls2) =
        match walkGo a c r ls1 with
        | none => none
        | some m => walkGo a c m ls2 := by
  intro ls1
  induction ls1 with
  | nil => intro ls2 r; rfl
  | cons l rest ih =>
      intro ls2 r
      show walkGo a c r (l :: (rest ++ ls2)) = _
      simp only [walkGo]
      cases hs : childSlot a r (get_color_index c l) with
      | none => simp [hs]
      | some m => simp only [hs]; exact ih ls2 m

/-- A walk that starts out of range stays out of range. -/
theorem walkGo_of_ge {a : NodeArena} {c : Pixel} :
    ∀ {ls : List Nat} {r t : Nat}, a.length ≤ r → walkGo a c r ls = some t →
      a.length ≤ t := by
  intro ls
  induction ls with
  | nil =>
      intro r t hr ht
      simp only [walkGo] at ht
      cases ht
      exact hr
  | cons l rest ih =>
      intro r t hr ht
      simp only [walkGo, childSlot_of_ge hr] at ht
      exact absurd ht (by simp)

theorem walkGo_eq_of_slots {a a' : NodeArena}
    (h : ∀ i ci, childSlot a' i ci = childSlot a i ci) (c : Pixel) :
    ∀ (ls : List Nat) (r : Nat), walkGo a' c r ls = walkGo a c r ls := by
  intro ls
  induction ls with
  | nil => intro _; rfl
  | cons l rest ih =>
      intro r
      simp only [walkGo, h]
      cases childSlot a r (get_color_index c l) with
      | none => rfl
      | some m => exact ih m

/-- When every changed slot is fresh (added over an empty slot, pointing
past the old arena), a walk through fresh territory never comes back. -/
theorem walkGo_high {a a' : NodeArena}
    (hslots : ∀ i ci, childSlot a' i ci = childSlot a i ci ∨
      (childSlot a i ci = none ∧ ∃ j, childSlot a' i ci = some j ∧ a.length ≤ j))
    (c : Pixel) : ∀ (ls : List Nat) (r t : Nat), a.length ≤ r →
      walkGo a' c r ls = some t → a.length ≤ t := by
  intro ls
  induction ls with
  | nil =>
      intro r t hr ht
      simp only [walkGo] at ht
      cases ht
      exact hr
  | cons l rest ih =>
      intro r t hr ht
      simp only [walkGo] at ht
      cases hs : childSlot a' r (get_color_index c l) with
      | none => rw [hs] at ht; exact absurd ht (by simp)
      | some m =>
          rw [hs] at ht
          have hm : a.length ≤ m := by
            rcases hslots r (get_color_index c l) with he | ⟨_, j, hj, hjge⟩
            · rw [he, childSlot_of_ge hr] at hs
              exact absurd hs (by simp)
            · rw [hj] at hs
              cases hs
              exact hjge
          exact ih m t hm ht

/-- A walk in the extended arena either already succeeded in the old
arena with the same target, or ends at a fresh node. -/
theorem walkGo_new_or_old {a a' : NodeArena}
    (hslots : ∀ i ci, childSlot a' i ci = childSlot a i ci ∨
      (childSlot a i ci = none ∧ ∃ j, childSlot a' i ci = some j ∧ a.length ≤ j))
    (c : Pixel) : ∀ (ls : List Nat) (r t : Nat), walkGo a' c r ls = some t →
      walkGo a c r ls = some t ∨ a.length ≤ t := by
  intro ls
  induction ls with
  | nil => intro r t ht; exact Or.inl ht
  | cons l rest ih =>
      intro r t ht
      simp only [walkGo] at ht ⊢
      cases hs : childSlot a' r (get_color_index c l) with
      | none => rw [hs] at ht; exact absurd ht (by simp)
      | some m =>
          rw [hs] at ht
          rcases hslots r (get_color_index c l) with he | ⟨hnone, j, hj, hjge⟩
          · rw [he] at hs
            rw [hs]
            exact ih m t ht
          · rw [hj] at hs
            cases hs
            exact Or.inr (walkGo_high hslots c rest m t hjge ht)

theorem samePath_iff (c p : Pixel) :
    samePath c p = true ↔
      ∀ l ∈ List.range MAX_DEPTH, get_color_index c l = get_color_index p l := by
  simp only [samePath, List.all_eq_true, beq_iff_eq]
  constructor
  · intro h l hl; exact (h l hl).symm
  · intro h l hl; exact (h l hl).symm

/-- Well-formedness of the node arena as maintained by `add_color`:
child slots point strictly forward and in range and record their back
link, color index and level; parent links mirror a slot of the parent;
children lists have eight slots; levels are at most `7`; depth-8 nodes
(`level = 7`) are childless; and nodes of level `≤ 6` hold a zero
accumulator (pixels are only ever accumulated at depth 8). -/
structure BuildWF (a : NodeArena) : Prop where
  posLen : 1 ≤ a.length
  rootLevel : (getNode a 0).level = 0
  childLen : ∀ i, (getNode a i).children.length = 8
  slotInc : ∀ i ci j, childSlot a i ci = some j → i < j ∧ j < a.length
  slotData : ∀ i ci j, childSlot a i ci = some j →
    (getNode a j).parent = some i ∧ (getNode a j).colorIndex = ci
  slotLevel : ∀ i ci j, childSlot a i ci = some j →
    (getNode a j).level = if i = 0 then 0 else (getNode a i).level + 1
  parentSlot : ∀ j i, (getNode a j).parent = some i →
    childSlot a i (getNode a j).colorIndex = some j
  levelMax : ∀ i, (getNode a i).level ≤ 7
  level7cc : ∀ i, (getNode a i).level = 7 → (getNode a i).childCount = 0
  accLevel : ∀ i, (getNode a i).level ≤ 6 →
    (getNode a i).accumulator = ColorAccumulator.new

/-- Position of the `add_color` descent: at depth `0` the current node
is the root; at depth `level ≥ 1` it is a non-root node storing
`level - 1`. -/
def descInv (a : NodeArena) (r level : Nat) : Prop :=
  (level = 0 ∧ r = 0) ∨ (1 ≤ level ∧ r ≠ 0 ∧ (getNode a r).level + 1 = level)

/-- The arena mutation of one empty-slot `add_color` step: link a fresh
child at slot `ci` of node `r` and push it. -/
def freshChildArena (a : NodeArena) (r ci level : Nat) : NodeArena :=
  pushNode
    (modifyNode a r fun node =>
      { node with
        children := node.children.set ci (some a.length)
        childCount := node.childCount + 1 })
    (Node.with_parent a.length r ci level)

theorem addColorStep_none {a : NodeArena} {r : Nat} {p : Pixel} {level : Nat}
    (h : childSlot a r (get_color_index p level) = none) :
    addColorStep a r p level =
      (freshChildArena a r (get_color_index p level) level, a.length) := by
  simp only [addColorStep, h, freshChildArena]

theorem addColorStep_some {a : NodeArena} {r : Nat} {p : Pixel} {level : Nat}
    {c0 : Nat} (h : childSlot a r (get_color_index p level) = some c0) :
    addColorStep a r p level = (a, c0) := by
  simp only [addColorStep, h]

theorem freshChildArena_length (a : NodeArena) (r ci level : Nat) :
    (freshChildArena a r ci level).length = a.length + 1 := rfl

theorem getNode_fresh_new (a : NodeArena) (r ci level : Nat) :
    getNode (freshChildArena a r ci level) a.length =
      Node.with_parent a.length r ci level :=
  getNode_push_self
    (modifyNode a r fun node =>
      { node with
        children := node.children.set ci (some a.length)
        childCount := node.childCount + 1 })
    (Node.with_parent a.length r ci level)

theorem getNode_fresh_parent {a : NodeArena} {r : Nat} (hr : r < a.length)
    (ci level : Nat) :
    getNode (freshChildArena a r ci level) r =
      { getNode a r with
        children := (getNode a r).children.set ci (some a.length)
        childCount := (getNode a r).childCount + 1 } := by
  rw [freshChildArena,
    getNode_push_lt (a := modifyNode a r fun node =>
      { node with
        children := node.children.set ci (some a.length)
        childCount := node.childCount + 1 }) hr,
    getNode_modify_self hr]

theorem getNode_fresh_other {a : NodeArena} {r j : Nat} (ci level : Nat)
    (hjr : j ≠ r) (hjn : j ≠ a.length) :
    getNode (freshChildArena a r ci level) j = getNode a j := by
  rcases Nat.lt_or_ge j a.length with hj | hj
  · rw [freshChildArena,
      getNode_push_lt (a := modifyNode a r fun node =>
        { node with
          children := node.children.set ci (some a.length)
          childCount := node.childCount + 1 }) hj,
      getNode_modify_ne fun h => hjr h.symm]
  · have hj' : (freshChildArena a r ci level).length ≤ j := by
      rw [freshChildArena_length]; omega
    rw [getNode_of_ge hj', getNode_of_ge hj]

theorem childSlot_fresh_new {a : NodeArena} {r : Nat} (hr : r < a.length)
    (W : BuildWF a) {ci : Nat} (hci : ci < 8) (level : Nat) :
    childSlot (freshChildArena a r ci level) r ci = some a.length := by
  rw [childSlot, getNode_fresh_parent hr]
  show (((getNode a r).children.set ci (some a.length)).get? ci).getD none = _
  rw [List.get?_set_eq_of_lt _ (by rw [W.childLen r]; exact hci)]
  rfl

theorem childSlot_fresh_sameNode {a : NodeArena} {r : Nat} (hr : r < a.length)
    {ci ci' : Nat} (h : ci' ≠ ci) (level : Nat) :
    childSlot (freshChildArena a r ci level) r ci' = childSlot a r ci' := by
  rw [childSlot, childSlot, getNode_fresh_parent hr]
  show (((getNode a r).children.set ci (some a.length)).get? ci').getD none = _
  rw [List.get?_set_ne _ _ fun hc => h hc.symm]

theorem childSlot_fresh_newNode (a : NodeArena) (r ci level ci' : Nat) :
    childSlot (freshChildArena a r ci level) a.length ci' = none := by
  rw [childSlot, getNode_fresh_new]
  exact replicate_slot ci'

theorem childSlot_fresh_other {a : NodeArena} {r j : Nat} (ci level : Nat)
    (hjr : j ≠ r) (hjn : j ≠ a.length) (ci' : Nat) :
    childSlot (freshChildArena a r ci level) j ci' = childSlot a j ci' := by
  rw [childSlot, childSlot, getNode_fresh_other ci level hjr hjn]

/-- Everything one `addColorStep` guarantees, relating the old arena and
position `(a, r)` at `level` to the new ones `(a1, r1)`. -/
structure StepInv (a : NodeArena) (r : Nat) (p : Pixel) (level : Nat)
    (a1 : NodeArena) (r1 : Nat) : Prop where
  wf : BuildWF a1
  mono : a.length ≤ a1.length
  lt : r1 < a1.length
  dinv : descInv a1 r1 (level + 1)
  acc : ∀ j, (getNode a1 j).accumulator = (getNode a j).accumulator
  keep : ∀ i ci j, childSlot a i ci = some j → childSlot a1 i ci = some j
  slotNew : childSlot a1 r (get_color_index p level) = some r1
  slots : ∀ i ci, childSlot a1 i ci = childSlot a i ci ∨
    (childSlot a i ci = none ∧ ∃ j, childSlot a1 i ci = some j ∧ a.length ≤ j)
  split : (childSlot a r (get_color_index p level) = some r1 ∧ a1 = a) ∨
    (childSlot a r (get_color_index p level) = none ∧ a.length ≤ r1)
  ge : r < r1

/-- An empty-slot step preserves `BuildWF` and only adds a fresh slot. -/
theorem stepInv_fresh {a : NodeArena} {r : Nat} {ci : Nat} (level : Nat)
    (W : BuildWF a) (hr : r < a.length) (hd : descInv a r level) (hl : level ≤ 7)
    (hci : ci < 8) (hslot : childSlot a r ci = none) :
    BuildWF (freshChildArena a r ci level) ∧
    descInv (freshChildArena a r ci level) a.length (level + 1) ∧
    (∀ j, (getNode (freshChildArena a r ci level) j).accumulator =
      (getNode a j).accumulator) ∧
    (∀ i ci' j, childSlot a i ci' = some j →
      childSlot (freshChildArena a r ci level) i ci' = some j) ∧
    (∀ i ci', childSlot (freshChildArena a r ci level) i ci' = childSlot a i ci' ∨
      (childSlot a i ci' = none ∧
        ∃ j, childSlot (freshChildArena a r ci level) i ci' = some j ∧
          a.length ≤ j)) := by
  have hlen : (freshChildArena a r ci level).length = a.length + 1 := rfl
  have hnew : getNode (freshChildArena a r ci level) a.length =
      Node.with_parent a.length r ci level := getNode_fresh_new a r ci level
  have hpar : getNode (freshChildArena a r ci level) r =
      { getNode a r with
        children := (getNode a r).children.set ci (some a.length)
        childCount := (getNode a r).childCount + 1 } := getNode_fresh_parent hr ci level
  have hrn : r ≠ a.length := by omega
  have hfields : ∀ j, j ≠ a.length →
      (getNode (freshChildArena a r ci level) j).parent = (getNode a j).parent ∧
      (getNode (freshChildArena a r ci level) j).colorIndex =
        (getNode a j).colorIndex ∧
      (getNode (freshChildArena a r ci level) j).level = (getNode a j).level ∧
      (getNode (freshChildArena a r ci level) j).accumulator =
        (getNode a j).accumulator ∧
      (getNode (freshChildArena a r ci level) j).children.length =
        (getNode a j).children.length := by
    intro j hj
    by_cases hjr : j = r
    · subst hjr
      rw [hpar]
      exact ⟨rfl, rfl, rfl, rfl, by simp⟩
    · rw [getNode_fresh_other ci level hjr hj]
      exact ⟨rfl, rfl, rfl, rfl, rfl⟩
  have hcc : ∀ j, j ≠ a.length → j ≠ r →
      (getNode (freshChildArena a r ci level) j).childCount =
        (getNode a j).childCount := by
    intro j hj hjr
    rw [getNode_fresh_other ci level hjr hj]
  have hchar : ∀ i' ci' j, childSlot (freshChildArena a r ci level) i' ci' = some j →
      (i' = r ∧ ci' = ci ∧ j = a.length) ∨ childSlot a i' ci' = some j := by
    intro i' ci' j hj
    by_cases hir : i' = r
    · subst hir
      by_cases hcic : ci' = ci
      · subst hcic
        rw [childSlot_fresh_new hr W hci level] at hj
        cases hj
        exact Or.inl ⟨rfl, rfl, rfl⟩
      · rw [childSlot_fresh_sameNode hr hcic level] at hj
        exact Or.inr hj
    · by_cases hin : i' = a.length
      · subst hin
        rw [childSlot_fresh_newNode] at hj
        exact absurd hj (by simp)
      · rw [childSlot_fresh_other ci level hir hin] at hj
        exact Or.inr hj
  have hkeep : ∀ i' ci' j, childSlot a i' ci' = some j →
      childSlot (freshChildArena a r ci level) i' ci' = some j := by
    intro i' ci' j hj
    by_cases hir : i' = r
    · subst hir
      by_cases hcic : ci' = ci
      · subst hcic
        rw [hslot] at hj
        exact absurd hj (by simp)
      · rw [childSlot_fresh_sameNode hr hcic level]
        exact hj
    · have hin : i' ≠ a.length := by
        intro he
        rw [he, childSlot_of_ge (le_refl _)] at hj
        exact absurd hj (by simp)
      rw [childSlot_fresh_other ci level hir hin]
      exact hj
  have hrlev : (getNode a r).level ≤ 6 := by
    rcases hd with ⟨hl0, hr0⟩ | ⟨h1, hrne, hlv⟩
    · subst hr0
      rw [W.rootLevel]
      omega
    · omega
  refine ⟨⟨?_, ?_, ?_, ?_, ?_, ?_, ?_, ?_, ?_, ?_⟩, ?_, ?_, hkeep, ?_⟩
  · rw [hlen]
    omega
  · have h0 : (0 : Nat) ≠ a.length := by
      have := W.posLen
      omega
    rw [(hfields 0 h0).2.2.1, W.rootLevel]
  · intro i
    by_cases hin : i = a.length
    · subst hin
      rw [hnew]
      rfl
    · rw [(hfields i hin).2.2.2.2, W.childLen]
  · intro i' ci' j hj
    rcases hchar i' ci' j hj with ⟨hir, hcic, hjn⟩ | hold
    · subst hir
      subst hjn
      exact ⟨hr, by rw [hlen]; omega⟩
    · obtain ⟨h1, h2⟩ := W.slotInc i' ci' j hold
      exact ⟨h1, by rw [hlen]; omega⟩
  · intro i' ci' j hj
    rcases hchar i' ci' j hj with ⟨hir, hcic, hjn⟩ | hold
    · subst hir
      subst hcic
      subst hjn
      rw [hnew]
      exact ⟨rfl, rfl⟩
    · obtain ⟨h1, h2⟩ := W.slotData i' ci' j hold
      have hjn : j ≠ a.length := by
        have := (W.slotInc i' ci' j hold).2
        omega
      obtain ⟨hp, hcx, _, _, _⟩ := hfields j hjn
      rw [hp, hcx]
      exact ⟨h1, h2⟩
  · intro i' ci' j hj
    rcases hchar i' ci' j hj with ⟨hir, hcic, hjn⟩ | hold
    · subst hir
      subst hjn
      rw [hnew]
      simp only [Node.with_parent]
      rcases hd with ⟨hl0, hr0⟩ | ⟨h1, hrne, hlv⟩
      · rw [if_pos hr0]
        exact hl0
      · rw [if_neg hrne, (hfields i' hrn).2.2.1]
        omega
    · have hilt : i' < a.length := by
        by_contra hge
        rw [childSlot_of_ge (by omega) ci'] at hold
        exact absurd hold (by simp)
      have hjlt : j < a.length := (W.slotInc i' ci' j hold).2
      rw [(hfields j (by omega)).2.2.1, (hfields i' (by omega)).2.2.1]
      exact W.slotLevel i' ci' j hold
  · intro j i' hp
    by_cases hjn : j = a.length
    · subst hjn
      rw [hnew] at hp ⊢
      simp only [Node.with_parent] at hp ⊢
      cases hp
      exact childSlot_fresh_new hr W hci level
    · obtain ⟨hpj, hcj, _, _, _⟩ := hfields j hjn
      rw [hpj] at hp
      rw [hcj]
      exact hkeep i' _ j (W.parentSlot j i' hp)
  · intro i
    by_cases hin : i = a.length
    · subst hin
      rw [hnew]
      exact hl
    · rw [(hfields i hin).2.2.1]
      exact W.levelMax i
  · intro i h7
    by_cases hin : i = a.length
    · subst hin
      rw [hnew]
      rfl
    · by_cases hir : i = r
      · subst hir
        rw [(hfields i hrn).2.2.1] at h7
        omega
      · rw [hcc i hin hir]
        rw [(hfields i hin).2.2.1] at h7
        exact W.level7cc i h7
  · intro i hle
    by_cases hin : i = a.length
    · subst hin
      rw [hnew]
      rfl
    · rw [(hfields i hin).2.2.2.1]
      rw [(hfields i hin).2.2.1] at hle
      exact W.accLevel i hle
  · refine Or.inr ⟨by omega, ?_, ?_⟩
    · have := W.posLen
      omega
    · rw [hnew]
      rfl
  · intro j
    by_cases hin : j = a.length
    · subst hin
      rw [hnew, getNode_of_ge (le_refl a.length)]
      rfl
    · exact (hfields j hin).2.2.2.1
  · intro i' ci'
    by_cases hir : i' = r
    · subst hir
      by_cases hcic : ci' = ci
      · subst hcic
        exact Or.inr ⟨hslot, a.length, childSlot_fresh_new hr W hci level, le_refl _⟩
      · exact Or.inl (childSlot_fresh_sameNode hr hcic level)
    · by_cases hin : i' = a.length
      · subst hin
        refine Or.inl ?_
        rw [childSlot_fresh_newNode, childSlot_of_ge (le_refl _)]
      · exact Or.inl (childSlot_fresh_other ci level hir hin ci')

/-- One `addColorStep` establishes `StepInv`. -/
theorem addColorStep_inv {a : NodeArena} {r : Nat} (p : Pixel) {level : Nat}
    (W : BuildWF a) (hr : r < a.length) (hd : descInv a r level) (hl : level ≤ 7) :
    StepInv a r p level (addColorStep a r p level).1 (addColorStep a r p level).2 := by
  cases hslot : childSlot a r (get_color_index p level) with
  | some c0 =>
      rw [addColorStep_some hslot]
      obtain ⟨hrc, hcl⟩ := W.slotInc r _ c0 hslot
      have hlev := W.slotLevel r _ c0 hslot
      refine ⟨W, le_refl _, hcl, ?_, fun _ => rfl, fun _ _ _ h => h, hslot,
        fun _ _ => Or.inl rfl, Or.inl ⟨hslot, rfl⟩, hrc⟩
      rcases hd with ⟨hl0, hr0⟩ | ⟨h1, hrne, hlv⟩
      · rw [if_pos hr0] at hlev
        refine Or.inr ⟨by omega, by omega, ?_⟩
        rw [hlev]
        omega
      · rw [if_neg hrne] at hlev
        refine Or.inr ⟨by omega, by omega, ?_⟩
        rw [hlev]
        omega
  | none =>
      rw [addColorStep_none hslot]
      obtain ⟨hwf, hdinv, hacc, hkeep, hslots⟩ :=
        stepInv_fresh level W hr hd hl (get_color_index_lt p level) hslot
      exact ⟨hwf, by rw [freshChildArena_length]; omega,
        by rw [freshChildArena_length]; omega, hdinv, hacc, hkeep,
        childSlot_fresh_new hr W (get_color_index_lt p level) level,
        hslots, Or.inr ⟨hslot, le_refl _⟩, hr⟩

/-- Everything the `add_color` descent over the levels `[level, …,
level+k)` guarantees, relating start `(a, r)` to result `(a', t)` at
final depth `d`. -/
structure GoInv (a : NodeArena) (r : Nat) (p : Pixel) (ls : List Nat) (d : Nat)
    (a' : NodeArena) (t : Nat) : Prop where
  wf : BuildWF a'
  mono : a.length ≤ a'.length
  lt : t < a'.length
  dinv : descInv a' t d
  acc : ∀ j, (getNode a' j).accumulator = (getNode a j).accumulator
  keep : ∀ i ci j, childSlot a i ci = some j → childSlot a' i ci = some j
  walk : walkGo a' p r ls = some t
  slots : ∀ i ci, childSlot a' i ci = childSlot a i ci ∨
    (childSlot a i ci = none ∧ ∃ j, childSlot a' i ci = some j ∧ a.length ≤ j)
  oldWalk : ∀ t', walkGo a p r ls = some t' → t' = t
  oldNone : walkGo a p r ls = none → a.length ≤ t
  start : r ≤ t

/-- The descent of `add_color` establishes `GoInv`. -/
theorem addColorGo_inv (p : Pixel) :
    ∀ (k level : Nat) (a : NodeArena) (r : Nat),
      BuildWF a → r < a.length → descInv a r level → level + k ≤ 8 →
      GoInv a r p (List.range' level k) (level + k)
        (addColorGo a r p (List.range' level k)).1
        (addColorGo a r p (List.range' level k)).2 := by
  intro k
  induction k with
  | zero =>
      intro level a r W hr hd hk
      have hnil : List.range' level 0 = [] := rfl
      rw [hnil]
      exact ⟨W, le_refl _, hr, hd, fun _ => rfl, fun _ _ _ h => h, rfl,
        fun _ _ => Or.inl rfl,
        fun t' h => by
          simp only [walkGo] at h
          exact (Option.some.inj h).symm,
        fun h => by
          simp only [walkGo] at h
          exact Option.noConfusion h,
        le_refl _⟩
  | succ k ih =>
      intro level a r W hr hd hk
      have hstep := addColorStep_inv p W hr hd (by omega)
      have hrange : List.range' level (k + 1) = level :: List.range' (level + 1) k := rfl
      obtain ⟨Ws, hmono, hlt, hdinv, hacc, hkeep, hslotNew, hslots, hsplit, hge⟩ := hstep
      have hsub := ih (level + 1) (addColorStep a r p level).1 (addColorStep a r p level).2
        Ws hlt hdinv (by omega)
      have hgo : addColorGo a r p (List.range' level (k + 1)) =
          addColorGo (addColorStep a r p level).1 (addColorStep a r p level).2 p
            (List.range' (level + 1) k) := by
        rw [hrange]
        rfl
      rw [hgo]
      obtain ⟨Ws2, hmono2, hlt2, hdinv2, hacc2, hkeep2, hwalk2, hslots2, holdWalk2,
        holdNone2, hstart2⟩ := hsub
      refine ⟨Ws2, le_trans hmono hmono2, hlt2, ?_, ?_, ?_, ?_, ?_, ?_, ?_, ?_⟩
      · have he : level + 1 + k = level + (k + 1) := by omega
        rw [← he]
        exact hdinv2
      · intro j
        rw [hacc2 j, hacc j]
      · intro i ci j h
        exact hkeep2 _ _ _ (hkeep _ _ _ h)
      · rw [hrange]
        simp only [walkGo]
        rw [hkeep2 _ _ _ hslotNew]
        exact hwalk2
      · intro i ci
        rcases hslots2 i ci with he2 | ⟨hn2, j2, hj2, hj2ge⟩
        · rcases hslots i ci with he1 | ⟨hn1, j1, hj1, hj1ge⟩
          · exact Or.inl (he2.trans he1)
          · exact Or.inr ⟨hn1, j1, he2.trans hj1, hj1ge⟩
        · have hn0 : childSlot a i ci = none := by
            rcases hslots i ci with he1 | ⟨hn1, _, _, _⟩
            · rw [← he1]
              exact hn2
            · exact hn1
          exact Or.inr ⟨hn0, j2, hj2, le_trans hmono hj2ge⟩
      · intro t' h
        rw [hrange] at h
        simp only [walkGo] at h
        cases hs : childSlot a r (get_color_index p level) with
        | none =>
            rw [hs] at h
            exact absurd h (by simp)
        | some c0 =>
            rw [hs] at h
            rcases hsplit with ⟨hslot1, ha1⟩ | ⟨hnone1, _⟩
            · rw [hs] at hslot1
              have hc0 := Option.some.inj hslot1
              subst hc0
              exact holdWalk2 t' (by rw [ha1]; exact h)
            · rw [hnone1] at hs
              exact absurd hs (by simp)
      · intro h
        rw [hrange] at h
        simp only [walkGo] at h
        cases hs : childSlot a r (get_color_index p level) with
        | some c0 =>
            rw [hs] at h
            rcases hsplit with ⟨hslot1, ha1⟩ | ⟨hnone1, _⟩
            · rw [hs] at hslot1
              have hc0 := Option.some.inj hslot1
              subst hc0
              have h2 := holdNone2 (by rw [ha1]; exact h)
              exact le_trans hmono h2
            · rw [hnone1] at hs
              exact absurd hs (by simp)
        | none =>
            rcases hsplit with ⟨hslot1, _⟩ | ⟨_, hge1⟩
            · rw [hslot1] at hs
              exact absurd hs (by simp)
            · exact le_trans hge1 hstart2
      · exact le_trans (Nat.le_of_lt hge) hstart2

theorem walkGo_snoc (a : NodeArena) (c : Pixel) (ls : List Nat) (lvl r t : Nat) :
    walkGo a c r (ls ++ [lvl]) = some t ↔
      ∃ m, walkGo a c r ls = some m ∧
        childSlot a m (get_color_index c lvl) = some t := by
  rw [walkGo_append]
  cases hw : walkGo a c r ls with
  | none => simp
  | some m =>
      cases hs : childSlot a m (get_color_index c lvl) with
      | none => simp [walkGo, hs]
      | some j => simp [walkGo, hs]

/-- Backward determinism of walks: slots record parent and color index,
so two walks of equal depth ending at the same node agree on every color
index along the way. -/
theorem walkGo_inj {a : NodeArena} (W : BuildWF a) (c1 c2 : Pixel) :
    ∀ (ls : List Nat) (t : Nat), walkGo a c1 0 ls = some t →
      walkGo a c2 0 ls = some t →
      ∀ l ∈ ls, get_color_index c1 l = get_color_index c2 l := by
  intro ls
  induction ls using List.reverseRecOn with
  | nil =>
      intro t h1 h2 l hl
      exact absurd hl (List.not_mem_nil l)
  | append_singleton ls0 lvl ih =>
      intro t h1 h2 l hl
      obtain ⟨m1, hw1, hs1⟩ := (walkGo_snoc a c1 ls0 lvl 0 t).mp h1
      obtain ⟨m2, hw2, hs2⟩ := (walkGo_snoc a c2 ls0 lvl 0 t).mp h2
      obtain ⟨hp1, hc1⟩ := W.slotData m1 _ t hs1
      obtain ⟨hp2, hc2⟩ := W.slotData m2 _ t hs2
      have hm : m1 = m2 := by
        rw [hp1] at hp2
        exact Option.some.inj hp2
      have hidx : get_color_index c1 lvl = get_color_index c2 lvl := by
        rw [← hc1, ← hc2]
      rcases List.mem_append.mp hl with hl0 | hl1
      · rw [← hm] at hw2
        exact ih m1 hw1 hw2 l hl0
      · have hllvl : l = lvl := by simpa using hl1
        rw [hllvl]
        exact hidx

/-- In a well-formed arena, in-range walks stay in range. -/
theorem walkGo_lt {a : NodeArena} (W : BuildWF a) {c : Pixel} :
    ∀ (ls : List Nat) (r x : Nat), r < a.length → walkGo a c r ls = some x →
      x < a.length := by
  intro ls
  induction ls with
  | nil =>
      intro r x hr h
      simp only [walkGo] at h
      cases h
      exact hr
  | cons l rest ih =>
      intro r x hr h
      simp only [walkGo] at h
      cases hs : childSlot a r (get_color_index c l) with
      | none => rw [hs] at h; exact absurd h (by simp)
      | some m =>
          rw [hs] at h
          exact ih m x (W.slotInc r _ m hs).2 h

theorem getNode_accModify_fields (a : NodeArena) (i j : Nat) (p : Pixel) :
    (getNode (modifyNode a i fun node =>
      { node with accumulator := node.accumulator.addPixel p }) j).parent =
        (getNode a j).parent ∧
    (getNode (modifyNode a i fun node =>
      { node with accumulator := node.accumulator.addPixel p }) j).colorIndex =
        (getNode a j).colorIndex ∧
    (getNode (modifyNode a i fun node =>
      { node with accumulator := node.accumulator.addPixel p }) j).level =
        (getNode a j).level ∧
    (getNode (modifyNode a i fun node =>
      { node with accumulator := node.accumulator.addPixel p }) j).children =
        (getNode a j).children ∧
    (getNode (modifyNode a i fun node =>
      { node with accumulator := node.accumulator.addPixel p }) j).childCount =
        (getNode a j).childCount := by
  by_cases hij : i = j
  · subst hij
    by_cases hi : i < a.length
    · rw [getNode_modify_self hi]
      exact ⟨rfl, rfl, rfl, rfl, rfl⟩
    · rw [getNode_modify_of_ge (by omega) i]
      exact ⟨rfl, rfl, rfl, rfl, rfl⟩
  · rw [getNode_modify_ne hij]
    exact ⟨rfl, rfl, rfl, rfl, rfl⟩

theorem childSlot_accModify (a : NodeArena) (i : Nat) (p : Pixel) (i' ci : Nat) :
    childSlot (modifyNode a i fun node =>
      { node with accumulator := node.accumulator.addPixel p }) i' ci =
      childSlot a i' ci := by
  rw [childSlot, childSlot, (getNode_accModify_fields a i i' p).2.2.2.1]

/-- Accumulating a pixel at a depth-8 node preserves well-formedness. -/
theorem accModify_wf {a : NodeArena} {i : Nat} (W : BuildWF a)
    (p : Pixel) (h7 : (getNode a i).level = 7) :
    BuildWF (modifyNode a i fun node =>
      { node with accumulator := node.accumulator.addPixel p }) := by
  refine ⟨?_, ?_, ?_, ?_, ?_, ?_, ?_, ?_, ?_, ?_⟩
  · rw [length_modifyNode]
    exact W.posLen
  · rw [(getNode_accModify_fields a i 0 p).2.2.1]
    exact W.rootLevel
  · intro j
    rw [(getNode_accModify_fields a i j p).2.2.2.1]
    exact W.childLen j
  · intro i' ci j h
    rw [childSlot_accModify] at h
    obtain ⟨h1, h2⟩ := W.slotInc i' ci j h
    exact ⟨h1, by rw [length_modifyNode]; exact h2⟩
  · intro i' ci j h
    rw [childSlot_accModify] at h
    rw [(getNode_accModify_fields a i j p).1, (getNode_accModify_fields a i j p).2.1]
    exact W.slotData i' ci j h
  · intro i' ci j h
    rw [childSlot_accModify] at h
    rw [(getNode_accModify_fields a i j p).2.2.1,
      (getNode_accModify_fields a i i' p).2.2.1]
    exact W.slotLevel i' ci j h
  · intro j i' hp
    rw [(getNode_accModify_fields a i j p).1] at hp
    rw [(getNode_accModify_fields a i j p).2.1, childSlot_accModify]
    exact W.parentSlot j i' hp
  · intro j
    rw [(getNode_accModify_fields a i j p).2.2.1]
    exact W.levelMax j
  · intro j hj
    rw [(getNode_accModify_fields a i j p).2.2.1] at hj
    rw [(getNode_accModify_fields a i j p).2.2.2.2]
    exact W.level7cc j hj
  · intro j hle
    rw [(getNode_accModify_fields a i j p).2.2.1] at hle
    by_cases hji : j = i
    · subst hji
      rw [h7] at hle
      exact absurd hle (by omega)
    · rw [getNode_modify_ne fun he => hji he.symm]
      exact W.accLevel j hle

theorem add_color_nodes (t : ColorTree) (p : Pixel) :
    (t.add_color p).nodes =
      modifyNode (addColorGo t.nodes 0 p (List.range' 0 8)).1
        (addColorGo t.nodes 0 p (List.range' 0 8)).2
        (fun node => { node with accumulator := node.accumulator.addPixel p }) := by
  rw [← List.range_eq_range' 8]
  rfl

/-- `add_color` preserves well-formedness of the arena. -/
theorem add_color_wf {t : ColorTree} (W : BuildWF t.nodes) (p : Pixel) :
    BuildWF (t.add_color p).nodes := by
  have G := addColorGo_inv p 8 0 t.nodes 0 W W.posLen (Or.inl ⟨rfl, rfl⟩) (by omega)
  have hlev7 : (getNode (addColorGo t.nodes 0 p (List.range' 0 8)).1
      (addColorGo t.nodes 0 p (List.range' 0 8)).2).level = 7 := by
    rcases G.dinv with ⟨h8, _⟩ | ⟨_, _, hl⟩
    · omega
    · omega
  rw [add_color_nodes]
  exact accModify_wf G.wf p hlev7

set_option maxHeartbeats 1000000 in
/-- The key accounting step: one `add_color p` adds `p` to the depth-8
accumulator of exactly the colors sharing all eight color indices with
`p`, and leaves every other color's depth-8 accumulator unchanged. -/
theorem add_color_leafAcc {t : ColorTree} (W : BuildWF t.nodes) (p c : Pixel) :
    leafAcc (t.add_color p).nodes c =
      if samePath c p = true then (leafAcc t.nodes c).addPixel p
      else leafAcc t.nodes c := by
  have G := addColorGo_inv p 8 0 t.nodes 0 W W.posLen (Or.inl ⟨rfl, rfl⟩) (by omega)
  have hr8 : List.range MAX_DEPTH = List.range' 0 8 := List.range_eq_range' 8
  rw [add_color_nodes]
  set A := (addColorGo t.nodes 0 p (List.range' 0 8)).1 with hA
  set T := (addColorGo t.nodes 0 p (List.range' 0 8)).2 with hT
  have hwleaf : ∀ c' : Pixel, walkLeaf (modifyNode A T fun node =>
      { node with accumulator := node.accumulator.addPixel p }) c' =
      walkGo A c' 0 (List.range' 0 8) := by
    intro c'
    rw [walkLeaf, hr8]
    exact walkGo_eq_of_slots (fun i ci => childSlot_accModify A T p i ci) c'
      (List.range' 0 8) 0
  by_cases hsp : samePath c p = true
  · rw [if_pos hsp]
    have hcongr : ∀ l ∈ List.range' 0 8,
        get_color_index c l = get_color_index p l := by
      intro l hl
      exact (samePath_iff c p).mp hsp l (by rw [hr8]; exact hl)
    have hcw : walkGo A c 0 (List.range' 0 8) = walkGo A p 0 (List.range' 0 8) :=
      walkGo_congr (List.range' 0 8) hcongr 0
    rw [leafAcc, hwleaf c, hcw, G.walk]
    show (getNode (modifyNode A T fun node =>
      { node with accumulator := node.accumulator.addPixel p }) T).accumulator =
      (leafAcc t.nodes c).addPixel p
    rw [getNode_modify_self G.lt]
    show (getNode A T).accumulator.addPixel p = (leafAcc t.nodes c).addPixel p
    cases hop : walkGo t.nodes p 0 (List.range' 0 8) with
    | some t0 =>
        have ht0 : t0 = T := G.oldWalk t0 hop
        have hcw0 : walkGo t.nodes c 0 (List.range' 0 8) = some T := by
          rw [walkGo_congr (List.range' 0 8) hcongr 0, hop, ht0]
        rw [leafAcc, walkLeaf, hr8, hcw0]
        rw [G.acc T]
    | none =>
        have hTge : t.nodes.length ≤ T := G.oldNone hop
        have hcw0 : walkGo t.nodes c 0 (List.range' 0 8) = none := by
          rw [walkGo_congr (List.range' 0 8) hcongr 0]
          exact hop
        rw [leafAcc, walkLeaf, hr8, hcw0]
        rw [G.acc T, getNode_of_ge hTge]
        rfl
  · rw [if_neg hsp]
    cases hcw : walkGo A c 0 (List.range' 0 8) with
    | none =>
        have hold : walkGo t.nodes c 0 (List.range' 0 8) = none := by
          cases ho : walkGo t.nodes c 0 (List.range' 0 8) with
          | none => rfl
          | some x =>
              have hx := walkGo_mono G.keep c (List.range' 0 8) 0 x ho
              rw [hcw] at hx
              exact absurd hx (by simp)
        rw [leafAcc, hwleaf c, hcw, leafAcc, walkLeaf, hr8, hold]
    | some tc =>
        have htcne : tc ≠ T := by
          intro he
          rw [he] at hcw
          have hall := walkGo_inj G.wf c p (List.range' 0 8) T hcw G.walk
          apply hsp
          apply (samePath_iff c p).mpr
          intro l hl
          exact hall l (by rw [hr8] at hl; exact hl)
        rw [leafAcc, hwleaf c, hcw]
        show (getNode (modifyNode A T fun node =>
          { node with accumulator := node.accumulator.addPixel p }) tc).accumulator =
          leafAcc t.nodes c
        rw [getNode_modify_ne fun he => htcne he.symm]
        rcases walkGo_new_or_old G.slots c (List.range' 0 8) 0 tc hcw with hold | hge
        · rw [leafAcc, walkLeaf, hr8, hold]
          exact G.acc tc
        · rw [G.acc tc, getNode_of_ge hge]
          cases ho : walkGo t.nodes c 0 (List.range' 0 8) with
          | none =>
              rw [leafAcc, walkLeaf, hr8, ho]
              rfl
          | some x =>
              have hx := walkGo_mono G.keep c (List.range' 0 8) 0 x ho
              rw [hcw] at hx
              have hxtc : tc = x := Option.some.inj hx
              have hxlt := walkGo_lt W (List.range' 0 8) 0 x W.posLen ho
              exfalso
              omega

theorem getNode_newTree (i : Nat) : getNode ColorTree.new.nodes i = Node.root 0 := by
  match i with
  | 0 => rfl
  | i + 1 => exact getNode_of_ge (by show 1 ≤ i + 1; omega)

theorem new_wf : BuildWF ColorTree.new.nodes := by
  have hs : ∀ i ci, childSlot ColorTree.new.nodes i ci = none := by
    intro i ci
    rw [childSlot, getNode_newTree i]
    exact replicate_slot ci
  refine ⟨le_refl 1, by rw [getNode_newTree 0]; rfl,
    fun i => by rw [getNode_newTree i]; rfl,
    ?_, ?_, ?_, ?_, fun i => by rw [getNode_newTree i]; decide,
    fun i h => by rw [getNode_newTree i]; rfl,
    fun i _ => by rw [getNode_newTree i]; rfl⟩
  · intro i ci j h
    rw [hs i ci] at h
    exact absurd h (by simp)
  · intro i ci j h
    rw [hs i ci] at h
    exact absurd h (by simp)
  · intro i ci j h
    rw [hs i ci] at h
    exact absurd h (by simp)
  · intro j i hp
    rw [getNode_newTree j] at hp
    exact absurd hp (by simp [Node.root])

theorem buildTree_wf (ps : List Pixel) : BuildWF (buildTree ps).nodes := by
  rw [buildTree]
  induction ps using List.reverseRecOn with
  | nil => exact new_wf
  | append_singleton ps0 p ih =>
      rw [List.foldl_append]
      exact add_color_wf ih p

theorem pixelsAcc_append (l1 l2 : List Pixel) :
    pixelsAcc (l1 ++ l2) = l2.foldl ColorAccumulator.addPixel (pixelsAcc l1) := by
  rw [pixelsAcc, pixelsAcc, List.foldl_append]

/-- After building a tree from a pixel list, the depth-8 accumulator a
color routes to is exactly the componentwise accumulator of the inserted
pixels sharing its color-index path. -/
theorem buildTree_leafAcc (ps : List Pixel) (c : Pixel) :
    leafAcc (buildTree ps).nodes c =
      pixelsAcc (ps.filter fun p => samePath c p) := by
  induction ps using List.reverseRecOn with
  | nil =>
      have h0 : childSlot ColorTree.new.nodes 0 (get_color_index c 0) = none := by
        rw [childSlot, getNode_newTree 0]
        exact replicate_slot _
      have hw : walkLeaf (buildTree []).nodes c = none := by
        show walkGo ColorTree.new.nodes c 0 (List.range MAX_DEPTH) = none
        rw [List.range_eq_range' MAX_DEPTH,
          show List.range' 0 MAX_DEPTH = 0 :: List.range' 1 7 from rfl]
        simp only [walkGo, h0]
      rw [leafAcc, hw]
      rfl
  | append_singleton ps0 p ih =>
      have hW := buildTree_wf ps0
      have hstep := add_color_leafAcc hW p c
      have hbt : buildTree (ps0 ++ [p]) = (buildTree ps0).add_color p := by
        rw [buildTree, buildTree, List.foldl_append]
        rfl
      rw [hbt, hstep, List.filter_append]
      by_cases hsp : samePath c p = true
      · rw [if_pos hsp, ih,
          show List.filter (fun q => samePath c q) [p] = [p] from by
            simp [List.filter, hsp],
          pixelsAcc_append]
        rfl
      · rw [if_neg hsp, ih,
          show List.filter (fun q => samePath c q) [p] = [] from by
            simp [List.filter, hsp],
          List.append_nil]

/-- The invariant the merging loop needs: every parent link points at a
node of level at most `6` (so depth-8 accumulators are never fold-in
targets). -/
def ReduceWF (a : NodeArena) : Prop :=
  ∀ j i, (getNode a j).parent = some i → (getNode a i).level ≤ 6

theorem reduceWF_of_buildWF {a : NodeArena} (W : BuildWF a) : ReduceWF a := by
  intro j i hp
  have hs := W.parentSlot j i hp
  have hl := W.slotLevel i _ j hs
  by_cases hi : i = 0
  · subst hi
    rw [W.rootLevel]
    omega
  · rw [if_neg hi] at hl
    have := W.levelMax j
    omega

theorem reduceStep_none {a : NodeArena} {q : List Nat}
    (h : (getNode a ((q.getLast?).getD 0)).parent = none) :
    reduceStep a q = (a, q.dropLast) := by
  simp only [reduceStep, h]

theorem reduceStep_some {a : NodeArena} {q : List Nat} {pid : Nat}
    (h : (getNode a ((q.getLast?).getD 0)).parent = some pid) :
    (reduceStep a q).1 = foldIntoParent a ((q.getLast?).getD 0) pid := by
  simp only [reduceStep, h]

/-- The parent-side mutation of `foldIntoParent`. -/
def foldParentFn (node : Node) (p : Node) : Node :=
  { p with
    accumulator := p.accumulator.add node.accumulator
    childCount := p.childCount - 1
    children := p.children.set node.colorIndex none }

/-- The popped-node mutation of `foldIntoParent`. -/
def clearParentFn (n : Node) : Node := { n with parent := none }

theorem foldIntoParent_eq (a : NodeArena) (nid pid : Nat) :
    foldIntoParent a nid pid =
      modifyNode (modifyNode a pid (foldParentFn (getNode a nid))) nid
        clearParentFn := rfl

theorem getNode_modify_cases (a : NodeArena) (i : Nat) (f : Node → Node) (j : Nat) :
    getNode (modifyNode a i f) j = getNode a j ∨
      (j = i ∧ getNode (modifyNode a i f) j = f (getNode a j)) := by
  by_cases hij : i = j
  · subst hij
    by_cases hi : i < a.length
    · exact Or.inr ⟨rfl, getNode_modify_self hi⟩
    · exact Or.inl (getNode_modify_of_ge (by omega) i)
  · exact Or.inl (getNode_modify_ne hij)

theorem reduceStep_level (a : NodeArena) (q : List Nat) (i : Nat) :
    (getNode (reduceStep a q).1 i).level = (getNode a i).level := by
  cases hp : (getNode a ((q.getLast?).getD 0)).parent with
  | none => rw [reduceStep_none hp]
  | some pid =>
      rw [reduceStep_some hp, foldIntoParent_eq]
      rcases getNode_modify_cases
          (modifyNode a pid (foldParentFn (getNode a ((q.getLast?).getD 0))))
          ((q.getLast?).getD 0) clearParentFn i with h1 | ⟨_, h1⟩
      · rw [h1]
        rcases getNode_modify_cases a pid
            (foldParentFn (getNode a ((q.getLast?).getD 0))) i with h2 | ⟨_, h2⟩
        · rw [h2]
        · rw [h2]
          rfl
      · rw [h1]
        show (getNode (modifyNode a pid
          (foldParentFn (getNode a ((q.getLast?).getD 0)))) i).level =
          (getNode a i).level
        rcases getNode_modify_cases a pid
            (foldParentFn (getNode a ((q.getLast?).getD 0))) i with h2 | ⟨_, h2⟩
        · rw [h2]
        · rw [h2]
          rfl

theorem reduceStep_parent (a : NodeArena) (q : List Nat) (i : Nat) :
    (getNode (reduceStep a q).1 i).parent = (getNode a i).parent ∨
      (getNode (reduceStep a q).1 i).parent = none := by
  cases hp : (getNode a ((q.getLast?).getD 0)).parent with
  | none => rw [reduceStep_none hp]; exact Or.inl rfl
  | some pid =>
      rw [reduceStep_some hp, foldIntoParent_eq]
      rcases getNode_modify_cases
          (modifyNode a pid (foldParentFn (getNode a ((q.getLast?).getD 0))))
          ((q.getLast?).getD 0) clearParentFn i with h1 | ⟨_, h1⟩
      · rw [h1]
        rcases getNode_modify_cases a pid
            (foldParentFn (getNode a ((q.getLast?).getD 0))) i with h2 | ⟨_, h2⟩
        · rw [h2]
          exact Or.inl rfl
        · rw [h2]
          exact Or.inl rfl
      · rw [h1]
        exact Or.inr rfl

theorem reduceStep_acc {a : NodeArena} {q : List Nat} (R : ReduceWF a) (i : Nat)
    (h7 : (getNode a i).level = 7) :
    (getNode (reduceStep a q).1 i).accumulator = (getNode a i).accumulator := by
  cases hp : (getNode a ((q.getLast?).getD 0)).parent with
  | none => rw [reduceStep_none hp]
  | some pid =>
      have hpl : (getNode a pid).level ≤ 6 := R _ pid hp
      have hip : i ≠ pid := by
        intro he
        rw [he] at h7
        omega
      rw [reduceStep_some hp, foldIntoParent_eq]
      rcases getNode_modify_cases
          (modifyNode a pid (foldParentFn (getNode a ((q.getLast?).getD 0))))
          ((q.getLast?).getD 0) clearParentFn i with h1 | ⟨_, h1⟩
      · rw [h1]
        rcases getNode_modify_cases a pid
            (foldParentFn (getNode a ((q.getLast?).getD 0))) i with h2 | ⟨hieq2, h2⟩
        · rw [h2]
        · exact absurd hieq2 hip
      · rw [h1]
        show (getNode (modifyNode a pid
          (foldParentFn (getNode a ((q.getLast?).getD 0)))) i).accumulator =
          (getNode a i).accumulator
        rcases getNode_modify_cases a pid
            (foldParentFn (getNode a ((q.getLast?).getD 0))) i with h2 | ⟨hieq2, h2⟩
        · rw [h2]
        · exact absurd hieq2 hip

theorem reduceStep_reduceWF {a : NodeArena} {q : List Nat} (R : ReduceWF a) :
    ReduceWF (reduceStep a q).1 := by
  intro j i hp
  rcases reduceStep_parent a q j with h | h
  · rw [h] at hp
    rw [reduceStep_level a q i]
    exact R j i hp
  · rw [h] at hp
    exact absurd hp (by simp)

/-- Along the merging loop, levels never change and depth-8 (level-7)
accumulators are never touched. -/
theorem reduceLoopGo_acc (K : Nat) :
    ∀ (n : Nat) (st : NodeArena × List Nat), ReduceWF st.1 →
      ReduceWF (reduceLoopGo K n st).1 ∧
      (∀ i, (getNode (reduceLoopGo K n st).1 i).level = (getNode st.1 i).level) ∧
      (∀ i, (getNode st.1 i).level = 7 →
        (getNode (reduceLoopGo K n st).1 i).accumulator =
          (getNode st.1 i).accumulator) := by
  intro n
  induction n with
  | zero =>
      intro st hR
      exact ⟨hR, fun _ => rfl, fun _ _ => rfl⟩
  | succ n ih =>
      intro st hR
      rw [reduceLoopGo]
      by_cases hK : K < st.2.length
      · rw [if_pos hK]
        obtain ⟨hR2, hlev2, hacc2⟩ := ih (reduceStep st.1 st.2) (reduceStep_reduceWF hR)
        refine ⟨hR2, ?_, ?_⟩
        · intro i
          rw [hlev2 i, reduceStep_level]
        · intro i h7
          rw [hacc2 i (by rw [reduceStep_level]; exact h7), reduceStep_acc hR i h7]
      · rw [if_neg hK]
        exact ⟨hR, fun _ => rfl, fun _ _ => rfl⟩

/-- Internal (child-bearing) nodes carry a zero accumulator after any
number of insertions. -/
theorem buildTree_internal_acc (ps : List Pixel) (i : Nat)
    (hcc : 0 < (getNode (buildTree ps).nodes i).childCount) :
    (getNode (buildTree ps).nodes i).accumulator = ColorAccumulator.new := by
  have W := buildTree_wf ps
  have h7 : (getNode (buildTree ps).nodes i).level ≠ 7 := by
    intro h
    have := W.level7cc i h
    omega
  exact W.accLevel i (by have := W.levelMax i; omega)

theorem pixelsAcc_count_aux : ∀ (l : List Pixel) (acc : ColorAccumulator),
    (l.foldl ColorAccumulator.addPixel acc).pixelCount = acc.pixelCount + l.length := by
  intro l
  induction l with
  | nil =>
      intro acc
      simp
  | cons p rest ih =>
      intro acc
      rw [List.foldl_cons, ih]
      simp [ColorAccumulator.addPixel, List.length_cons]
      omega

theorem pixelsAcc_count (l : List Pixel) : (pixelsAcc l).pixelCount = l.length := by
  rw [pixelsAcc, pixelsAcc_count_aux]
  show 0 + l.length = l.length
  omega

/-- C4 (amended): after any number of `add_color` insertions, (a) every
internal node — one with children — carries a zero accumulator, not the
sum of its descendants (descendant totals are only materialized during
reduction, as the counterexample shows); (b) the accumulator at the
depth-8 node a color's bits route to equals the componentwise sum of the
inserted pixels routed there, and its `pixel_count` is their number; and
(c) after any number of iterations of the merging loop of `reduce`
(any partial reduction), the accumulators of all depth-8 (level-7)
nodes are unchanged, so leaf counts still equal the pixels routed
there. -/
theorem octree_accumulator_spec (ps : List Pixel) :
    (∀ i, 0 < (getNode (buildTree ps).nodes i).childCount →
      (getNode (buildTree ps).nodes i).accumulator = ColorAccumulator.new) ∧
    (∀ c, leafAcc (buildTree ps).nodes c =
        pixelsAcc (ps.filter fun p => samePath c p) ∧
      (leafAcc (buildTree ps).nodes c).pixelCount =
        (ps.filter fun p => samePath c p).length) ∧
    (∀ K n i,
      (getNode (buildTree ps).nodes i).level = 7 →
      (getNode (reduceLoopGo K n ((buildTree ps).nodes,
        initQueue (buildTree ps).nodes)).1 i).accumulator =
        (getNode (buildTree ps).nodes i).accumulator) := by
  refine ⟨buildTree_internal_acc ps, ?_, ?_⟩
  · intro c
    refine ⟨buildTree_leafAcc ps c, ?_⟩
    rw [buildTree_leafAcc ps c, pixelsAcc_count]
  · intro K n i h7
    exact (reduceLoopGo_acc K n ((buildTree ps).nodes,
      initQueue (buildTree ps).nodes)
      (reduceWF_of_buildWF (buildTree_wf ps))).2.2 i h7

/-- Witness for C4 at the one-pixel tree `[0,0,0,255]`: the root is
internal with zero accumulator, the single color's leaf accumulator is
the one-pixel sum, and one merging-loop iteration leaves the depth-8
node `8` untouched. -/
theorem octree_accumulator_spec_witness :
    (getNode (buildTree [Pixel.mk 0 0 0 255]).nodes 0).accumulator =
      ColorAccumulator.new ∧
    leafAcc (buildTree [Pixel.mk 0 0 0 255]).nodes (Pixel.mk 0 0 0 255) =
      pixelsAcc ([Pixel.mk 0 0 0 255].filter fun p =>
        samePath (Pixel.mk 0 0 0 255) p) ∧
    (getNode (reduceLoopGo 0 1 ((buildTree [Pixel.mk 0 0 0 255]).nodes,
      initQueue (buildTree [Pixel.mk 0 0 0 255]).nodes)).1 8).accumulator =
      (getNode (buildTree [Pixel.mk 0 0 0 255]).nodes 8).accumulator :=
  ⟨(octree_accumulator_spec [Pixel.mk 0 0 0 255]).1 0 (by decide),
    ((octree_accumulator_spec [Pixel.mk 0 0 0 255]).2.1 (Pixel.mk 0 0 0 255)).1,
    (octree_accumulator_spec [Pixel.mk 0 0 0 255]).2.2 0 1 8 (by decide)⟩

/-! ## C8: palette string parsing and serialization (`src/cli/src/main.rs`)

Strings are modelled as their ASCII byte lists (`List Nat`): that is what
`parse_colors` operates on (it slices the `str` at byte offsets). `','`
is byte `44`, `'#'` byte `35`. -/

/-- One byte is an ASCII hex digit (`0-9`, `a-f`, `A-F`). -/
def isHexDigit (b : Nat) : Bool :=
  decide ((48 ≤ b ∧ b ≤ 57) ∨ (97 ≤ b ∧ b ≤ 102) ∨ (65 ≤ b ∧ b ≤ 70))

/-- Value of an ASCII hex digit. -/
def hexVal (b : Nat) : Nat :=
  if 48 ≤ b ∧ b ≤ 57 then b - 48
  else if 97 ≤ b ∧ b ≤ 102 then b - 87
  else if 65 ≤ b ∧ b ≤ 70 then b - 55
  else 0

/-- `u8::from_str_radix(s, 16)` on a two-byte slice: two hex digits, or
Rust's accepted leading `'+'` (byte `43`) and one digit; anything else is
`Err`.  No overflow is possible below `0x100`. -/
def parseHexPair : List Nat → Option Nat
  | [c1, c2] =>
      if isHexDigit c1 && isHexDigit c2 then some (16 * hexVal c1 + hexVal c2)
      else if c1 == 43 && isHexDigit c2 then some (hexVal c2)
      else none
  | _ => none

/-- One entry of `parse_colors`: slice bytes `[1..3]`, `[3..5]`, `[5..7]`
and hex-parse each (a shorter entry makes the Rust slice panic, `none`
here); the leading byte is not inspected, alpha is forced to `255`. -/
def parseColorEntry (e : List Nat) : Option Pixel :=
  if e.length < 7 then none
  else
    match parseHexPair ((e.drop 1).take 2), parseHexPair ((e.drop 3).take 2),
        parseHexPair ((e.drop 5).take 2) with
    | some r, some g, some b => some (Pixel.mk r g b 255)
    | _, _, _ => none

/-- `str::split(',')` on the byte list. -/
def splitComma : List Nat → List (List Nat)
  | [] => [[]]
  | c :: rest =>
      let r := splitComma rest
      if c = 44 then [] :: r
      else
        match r with
        | [] => [[c]]
        | g :: gs => (c :: g) :: gs

/-- `collect::<Result<Vec<_>>>`: all entries or the first error. -/
def sequenceOpt : List (Option Pixel) → Option (List Pixel)
  | [] => some []
  | none :: _ => none
  | some p :: rest =>
      match sequenceOpt rest with
      | none => none
      | some ps => some (p :: ps)

/-- Embeds `parse_colors`. -/
def parse_colors (s : List Nat) : Option (List Pixel) :=
  sequenceOpt ((splitComma s).map parseColorEntry)

/-- One `{:02X}` digit: `0-9A-F` uppercase. -/
def hexDigitUpper (n : Nat) : Nat :=
  if n < 10 then 48 + n else 55 + n

/-- `format!("{:02X}", byte)`: exactly two digits for bytes. -/
def byteHex (n : Nat) : List Nat :=
  [hexDigitUpper (n / 16), hexDigitUpper (n % 16)]

/-- `format!("#{:02X}{:02X}{:02X}", color[0], color[1], color[2])`. -/
def serializeColor (p : Pixel) : List Nat :=
  35 :: (byteHex p.r ++ byteHex p.g ++ byteHex p.b)

/-- `Vec::join(",")`. -/
def joinComma : List (List Nat) → List Nat
  | [] => []
  | [e] => e
  | e :: es => e ++ 44 :: joinComma es

/-- The palette serialization of `palette_subcommand`. -/
def serialize_colors (ps : List Pixel) : List Nat :=
  joinComma (ps.map serializeColor)

/-- ASCII uppercasing of one byte. -/
def asciiUpper (b : Nat) : Nat :=
  if 97 ≤ b ∧ b ≤ 122 then b - 32 else b

/-- One entry of the `validate_palette` regex `#[0-9a-fA-F]{6}`. -/
def wellFormedEntry : List Nat → Bool
  | [c0, d1, d2, d3, d4, d5, d6] =>
      (c0 == 35) && isHexDigit d1 && isHexDigit d2 && isHexDigit d3 &&
        isHexDigit d4 && isHexDigit d5 && isHexDigit d6
  | _ => false

/-- The `validate_palette` regex `^#[0-9a-fA-F]{6}(?:,#[0-9a-fA-F]{6})*$`:
every comma-separated entry is `#` plus six hex digits. -/
def wellFormedPalette (s : List Nat) : Bool :=
  (splitComma s).all wellFormedEntry

theorem hexVal_lt {c : Nat} (h : isHexDigit c = true) : hexVal c < 16 := by
  simp only [isHexDigit, decide_eq_true_eq] at h
  simp only [hexVal]
  split_ifs <;> omega

theorem hexDigitUpper_eq {c : Nat} (h : isHexDigit c = true) :
    hexDigitUpper (hexVal c) = asciiUpper c := by
  simp only [isHexDigit, decide_eq_true_eq] at h
  simp only [hexVal, hexDigitUpper, asciiUpper]
  split_ifs <;> omega

theorem byteHex_pair {c1 c2 : Nat} (h1 : isHexDigit c1 = true)
    (h2 : isHexDigit c2 = true) :
    byteHex (16 * hexVal c1 + hexVal c2) = [asciiUpper c1, asciiUpper c2] := by
  have hv1 : hexVal c1 < 16 := hexVal_lt h1
  have hv2 : hexVal c2 < 16 := hexVal_lt h2
  rw [byteHex]
  have hdiv : (16 * hexVal c1 + hexVal c2) / 16 = hexVal c1 := by omega
  have hmod : (16 * hexVal c1 + hexVal c2) % 16 = hexVal c2 := by omega
  rw [hdiv, hmod, hexDigitUpper_eq h1, hexDigitUpper_eq h2]

theorem entry_parse (d1 d2 d3 d4 d5 d6 : Nat) (h1 : isHexDigit d1 = true)
    (h2 : isHexDigit d2 = true) (h3 : isHexDigit d3 = true)
    (h4 : isHexDigit d4 = true) (h5 : isHexDigit d5 = true)
    (h6 : isHexDigit d6 = true) :
    parseColorEntry [35, d1, d2, d3, d4, d5, d6] =
      some (Pixel.mk (16 * hexVal d1 + hexVal d2) (16 * hexVal d3 + hexVal d4)
        (16 * hexVal d5 + hexVal d6) 255) := by
  simp [parseColorEntry, parseHexPair, h1, h2, h3, h4, h5, h6]

theorem entry_serialize (d1 d2 d3 d4 d5 d6 : Nat) (h1 : isHexDigit d1 = true)
    (h2 : isHexDigit d2 = true) (h3 : isHexDigit d3 = true)
    (h4 : isHexDigit d4 = true) (h5 : isHexDigit d5 = true)
    (h6 : isHexDigit d6 = true) :
    serializeColor (Pixel.mk (16 * hexVal d1 + hexVal d2)
      (16 * hexVal d3 + hexVal d4) (16 * hexVal d5 + hexVal d6) 255) =
      [35, asciiUpper d1, asciiUpper d2, asciiUpper d3, asciiUpper d4,
        asciiUpper d5, asciiUpper d6] := by
  show 35 :: (byteHex (16 * hexVal d1 + hexVal d2) ++
    byteHex (16 * hexVal d3 + hexVal d4) ++ byteHex (16 * hexVal d5 + hexVal d6)) = _
  rw [byteHex_pair h1 h2, byteHex_pair h3 h4, byteHex_pair h5 h6]
  rfl

theorem wellFormedEntry_shape : ∀ (e : List Nat), wellFormedEntry e = true →
    ∃ d1 d2 d3 d4 d5 d6, e = [35, d1, d2, d3, d4, d5, d6] ∧
      isHexDigit d1 = true ∧ isHexDigit d2 = true ∧ isHexDigit d3 = true ∧
      isHexDigit d4 = true ∧ isHexDigit d5 = true ∧ isHexDigit d6 = true := by
  intro e h
  match e with
  | [c0, d1, d2, d3, d4, d5, d6] =>
      simp only [wellFormedEntry, Bool.and_eq_true, beq_iff_eq] at h
      obtain ⟨⟨⟨⟨⟨⟨hc0, h1⟩, h2⟩, h3⟩, h4⟩, h5⟩, h6⟩ := h
      subst hc0
      exact ⟨d1, d2, d3, d4, d5, d6, rfl, h1, h2, h3, h4, h5, h6⟩
  | [] => exact Bool.noConfusion h
  | [_] => exact Bool.noConfusion h
  | [_, _] => exact Bool.noConfusion h
  | [_, _, _] => exact Bool.noConfusion h
  | [_, _, _, _] => exact Bool.noConfusion h
  | [_, _, _, _, _] => exact Bool.noConfusion h
  | [_, _, _, _, _, _] => exact Bool.noConfusion h
  | _ :: _ :: _ :: _ :: _ :: _ :: _ :: _ :: _ => exact Bool.noConfusion h

theorem splitComma_ne_nil (s : List Nat) : splitComma s ≠ [] := by
  cases s with
  | nil => simp [splitComma]
  | cons c rest =>
      simp only [splitComma]
      by_cases hc : c = 44
      · simp [hc]
      · simp only [if_neg hc]
        cases splitComma rest <;> simp

theorem joinComma_split (s : List Nat) : joinComma (splitComma s) = s := by
  induction s with
  | nil => rfl
  | cons c rest ih =>
      by_cases hc : c = 44
      · subst hc
        rw [show splitComma (44 :: rest) = [] :: splitComma rest from by
          simp [splitComma]]
        cases hr : splitComma rest with
        | nil => exact absurd hr (splitComma_ne_nil rest)
        | cons g gs =>
            show [] ++ 44 :: joinComma (g :: gs) = 44 :: rest
            rw [List.nil_append, ← hr, ih]
      · rw [show splitComma (c :: rest) = (match splitComma rest with
          | [] => [[c]] | g :: gs => (c :: g) :: gs) from by
            simp [splitComma, hc]]
        cases hr : splitComma rest with
        | nil => exact absurd hr (splitComma_ne_nil rest)
        | cons g gs =>
            rw [hr] at ih
            cases gs with
            | nil =>
                show c :: g = c :: rest
                exact congrArg (c :: ·) ih
            | cons g2 gs2 =>
                show (c :: g) ++ 44 :: joinComma (g2 :: gs2) = c :: rest
                rw [← ih]
                rfl

theorem joinComma_map_upper : ∀ (es : List (List Nat)),
    joinComma (es.map (List.map asciiUpper)) = (joinComma es).map asciiUpper := by
  intro es
  induction es with
  | nil => rfl
  | cons e rest ih =>
      cases rest with
      | nil => rfl
      | cons e2 rest2 =>
          show (e.map asciiUpper) ++ 44 ::
            joinComma ((e2 :: rest2).map (List.map asciiUpper)) =
            (e ++ 44 :: joinComma (e2 :: rest2)).map asciiUpper
          rw [ih, List.map_append, List.map_cons]
          rfl

theorem entries_roundtrip : ∀ (es : List (List Nat)),
    (∀ e ∈ es, wellFormedEntry e = true) →
    ∃ ps, sequenceOpt (es.map parseColorEntry) = some ps ∧
      ps.map serializeColor = es.map (List.map asciiUpper) := by
  intro es
  induction es with
  | nil =>
      intro _
      exact ⟨[], rfl, rfl⟩
  | cons e rest ih =>
      intro h
      obtain ⟨d1, d2, d3, d4, d5, d6, he, h1, h2, h3, h4, h5, h6⟩ :=
        wellFormedEntry_shape e (h e (List.mem_cons_self e rest))
      obtain ⟨ps, hps, hser⟩ := ih fun x hx => h x (List.mem_cons_of_mem e hx)
      subst he
      refine ⟨Pixel.mk (16 * hexVal d1 + hexVal d2) (16 * hexVal d3 + hexVal d4)
        (16 * hexVal d5 + hexVal d6) 255 :: ps, ?_, ?_⟩
      · show sequenceOpt (parseColorEntry [35, d1, d2, d3, d4, d5, d6] ::
          rest.map parseColorEntry) = _
        rw [entry_parse d1 d2 d3 d4 d5 d6 h1 h2 h3 h4 h5 h6]
        simp only [sequenceOpt, hps]
      · show serializeColor (Pixel.mk (16 * hexVal d1 + hexVal d2)
          (16 * hexVal d3 + hexVal d4) (16 * hexVal d5 + hexVal d6) 255) ::
          ps.map serializeColor = _
        rw [hser, entry_serialize d1 d2 d3 d4 d5 d6 h1 h2 h3 h4 h5 h6]
        rfl

/-- Parsing a well-formed palette string succeeds, and re-serializing
gives back the input uppercased. -/
theorem parse_colors_wellFormed (s : List Nat) (h : wellFormedPalette s = true) :
    ∃ ps, parse_colors s = some ps ∧ serialize_colors ps = s.map asciiUpper := by
  rw [wellFormedPalette] at h
  obtain ⟨ps, hps, hser⟩ := entries_roundtrip (splitComma s) (List.all_eq_true.mp h)
  refine ⟨ps, hps, ?_⟩
  rw [serialize_colors, hser, joinComma_map_upper, joinComma_split]

/-- C8: for every well-formed palette string of comma-separated `#RRGGBB`
entries (the `validate_palette` regex), `parse_colors` succeeds and
serializing each color as `#{:02X}{:02X}{:02X}` joined by commas yields
the original string uppercased; and parsing `"#ffffff,#000000"` yields
`[255,255,255,255]` and `[0,0,0,255]`. -/
theorem parse_colors_roundtrip_spec :
    (∀ s : List Nat, wellFormedPalette s = true →
      ∃ ps, parse_colors s = some ps ∧ serialize_colors ps = s.map asciiUpper) ∧
    parse_colors [35, 102, 102, 102, 102, 102, 102, 44,
        35, 48, 48, 48, 48, 48, 48] =
      some [Pixel.mk 255 255 255 255, Pixel.mk 0 0 0 255] :=
  ⟨parse_colors_wellFormed, by decide⟩

/-- Witness for C8 at the string `"#FF00ab"`. -/
theorem parse_colors_roundtrip_spec_witness :
    wellFormedPalette [35, 70, 70, 48, 48, 97, 98] = true ∧
    ∃ ps, parse_colors [35, 70, 70, 48, 48, 97, 98] = some ps ∧
      serialize_colors ps = [35, 70, 70, 48, 48, 97, 98].map asciiUpper :=
  ⟨by decide,
    parse_colors_roundtrip_spec.1 [35, 70, 70, 48, 48, 97, 98] (by decide)⟩

/-! ## C1: the Lloyd iteration loop of `ChooseCentroidModule::compute`
(`src/core/src/modules.rs`)

The GPU work is abstracted to its dispatch structure: one record per
iteration of the `'iteration` loop, holding the iteration index, the
compute passes encoded into the iteration's single command buffer (the
inner `for k_start in (0..k).step_by(64)` opens one compute pass per
chunk, dispatching `main`+`pick` for each centroid of the chunk), and
whether the convergence readback ran.  The mapped convergence value
(slot `k` of the `(k+1)`-slot vector) and a map failure are an oracle
`reading : Nat → Option Nat` indexed by iteration. -/

structure IterationTrace where
  index : Nat
  passes : List (List Nat)
  checked : Bool
  deriving DecidableEq, Repr

/-- `(0..k).step_by(64)` chunking of a worklist (fuel-driven; fuel
`l.length` suffices since every step consumes at least one element). -/
def chunksGo : Nat → List Nat → List (List Nat)
  | 0, _ => []
  | _, [] => []
  | fuel + 1, l => l.take 64 :: chunksGo fuel (l.drop 64)

/-- The compute passes of one iteration: `main`+`pick` for each
`k ∈ 0..k`, one pass per chunk of `MAX_OBS_CHAIN = 64`. -/
def batches (k : Nat) : List (List Nat) :=
  chunksGo k (List.range k)

/-- The `for iteration in 0..128` loop: every iteration encodes all its
passes into one command buffer and submits it; at iterations `> 0`
divisible by `8` the convergence vector is copied, mapped and read,
breaking on a map error or a value `≥ k`. -/
def computeGo (k : Nat) (reading : Nat → Option Nat) :
    Nat → Nat → List IterationTrace
  | 0, _ => []
  | fuel + 1, i =>
      let rec0 : IterationTrace :=
        ⟨i, batches k, decide (0 < i ∧ i % 8 = 0)⟩
      if 0 < i ∧ i % 8 = 0 then
        match reading i with
        | none => [rec0]
        | some v =>
            if k ≤ v then [rec0]
            else rec0 :: computeGo k reading fuel (i + 1)
      else rec0 :: computeGo k reading fuel (i + 1)

/-- Embeds `ChooseCentroidModule::compute` (`MAX_ITERATION = 128`). -/
def choose_centroid_compute (k : Nat) (reading : Nat → Option Nat) :
    List IterationTrace :=
  computeGo k reading 128 0

/-- C1 counterexample: at `k = 65` the first iteration's command buffer
dispatches all `65` centroids (two compute passes of `64` and `1` in one
command buffer), so the claimed "command-buffer batches of at most 64
centroids" fails, while each compute pass does stay within `64`. -/
theorem choose_centroid_batch_counterexample :
    ((choose_centroid_compute 65 fun _ => none).head?.map
      fun tr => tr.passes.join.length) = some 65 ∧
    ∀ tr ∈ choose_centroid_compute 65 (fun _ => none),
      ∀ pass ∈ tr.passes, pass.length ≤ 64 := by
  constructor
  · decide
  · decide

theorem getLast?_cons_of_some {α : Type} (a : α) (l : List α) (x : α)
    (h : l.getLast? = some x) : (a :: l).getLast? = some x := by
  cases l with
  | nil => exact absurd h (by simp)
  | cons b l2 =>
      rw [List.getLast?_cons_cons]
      exact h

theorem chunksGo_join : ∀ (fuel : Nat) (l : List Nat), l.length ≤ fuel →
    (chunksGo fuel l).join = l := by
  intro fuel
  induction fuel with
  | zero =>
      intro l hl
      have hnil : l = [] := List.length_eq_zero.mp (by omega)
      subst hnil
      rfl
  | succ fuel ih =>
      intro l hl
      cases l with
      | nil => rfl
      | cons x xs =>
          show ((x :: xs).take 64 :: chunksGo fuel ((x :: xs).drop 64)).join = x :: xs
          rw [show ((x :: xs).take 64 :: chunksGo fuel ((x :: xs).drop 64)).join =
              (x :: xs).take 64 ++ (chunksGo fuel ((x :: xs).drop 64)).join from rfl,
            ih ((x :: xs).drop 64) (by rw [List.length_drop]; simp at hl ⊢; omega),
            List.take_append_drop]

theorem chunksGo_le : ∀ (fuel : Nat) (l : List Nat),
    ∀ c ∈ chunksGo fuel l, c.length ≤ 64 := by
  intro fuel
  induction fuel with
  | zero =>
      intro l c hc
      exact absurd hc (by simp [chunksGo])
  | succ fuel ih =>
      intro l c hc
      cases l with
      | nil => exact absurd hc (by simp [chunksGo])
      | cons x xs =>
          rw [show chunksGo (fuel + 1) (x :: xs) =
            (x :: xs).take 64 :: chunksGo fuel ((x :: xs).drop 64) from rfl,
            List.mem_cons] at hc
          rcases hc with hc | hc
          · rw [hc, List.length_take]
            omega
          · exact ih ((x :: xs).drop 64) c hc

theorem batches_join (k : Nat) : (batches k).join = List.range k :=
  chunksGo_join k (List.range k) (by rw [List.length_range])

theorem batches_le (k : Nat) : ∀ c ∈ batches k, c.length ≤ 64 :=
  chunksGo_le k (List.range k)

/-- The loop invariant of `computeGo`: at most `fuel` more iterations,
each record carries the full pass structure and the exact check
condition, indices are consecutive from the start index, and an early
exit happens only by a convergence break at the last record. -/
theorem computeGo_spec (k : Nat) (reading : Nat → Option Nat) :
    ∀ (fuel i : Nat),
      (computeGo k reading fuel i).length ≤ fuel ∧
      (∀ tr ∈ computeGo k reading fuel i, tr.passes = batches k ∧
        tr.checked = decide (0 < tr.index ∧ tr.index % 8 = 0)) ∧
      List.map (fun tr => tr.index) (computeGo k reading fuel i) =
        List.range' i (computeGo k reading fuel i).length ∧
      ((computeGo k reading fuel i).length < fuel →
        ∃ tr, (computeGo k reading fuel i).getLast? = some tr ∧
          tr.checked = true ∧
          (reading tr.index = none ∨ ∃ v, reading tr.index = some v ∧ k ≤ v)) := by
  intro fuel
  induction fuel with
  | zero =>
      intro i
      exact ⟨le_refl 0, by simp [computeGo], by simp [computeGo], by omega⟩
  | succ fuel ih =>
      intro i
      by_cases hchk : 0 < i ∧ i % 8 = 0
      · cases hr : reading i with
        | none =>
            have hgo : computeGo k reading (fuel + 1) i =
                [⟨i, batches k, decide (0 < i ∧ i % 8 = 0)⟩] := by
              simp only [computeGo, if_pos hchk, hr]
            rw [hgo]
            refine ⟨by simp, ?_, by simp, ?_⟩
            · intro tr htr
              rw [List.mem_singleton] at htr
              subst htr
              exact ⟨rfl, rfl⟩
            · intro _
              exact ⟨⟨i, batches k, decide (0 < i ∧ i % 8 = 0)⟩, by simp,
                by simp [hchk], Or.inl hr⟩
        | some v =>
            by_cases hv : k ≤ v
            · have hgo : computeGo k reading (fuel + 1) i =
                  [⟨i, batches k, decide (0 < i ∧ i % 8 = 0)⟩] := by
                simp only [computeGo, if_pos hchk, hr, if_pos hv]
              rw [hgo]
              refine ⟨by simp, ?_, by simp, ?_⟩
              · intro tr htr
                rw [List.mem_singleton] at htr
                subst htr
                exact ⟨rfl, rfl⟩
              · intro _
                exact ⟨⟨i, batches k, decide (0 < i ∧ i % 8 = 0)⟩, by simp,
                  by simp [hchk], Or.inr ⟨v, hr, hv⟩⟩
            · have hgo : computeGo k reading (fuel + 1) i =
                  ⟨i, batches k, decide (0 < i ∧ i % 8 = 0)⟩ ::
                    computeGo k reading fuel (i + 1) := by
                simp only [computeGo, if_pos hchk, hr, if_neg hv]
              obtain ⟨ihlen, ihmem, ihmap, ihlast⟩ := ih (i + 1)
              rw [hgo]
              refine ⟨by simp; omega, ?_, ?_, ?_⟩
              · intro tr htr
                rw [List.mem_cons] at htr
                rcases htr with htr | htr
                · subst htr
                  exact ⟨rfl, rfl⟩
                · exact ihmem tr htr
              · rw [List.map_cons, ihmap, List.length_cons]
                rfl
              · intro hlt
                rw [List.length_cons] at hlt
                obtain ⟨tr, hgl, hc, hb⟩ := ihlast (by omega)
                exact ⟨tr, getLast?_cons_of_some _ _ tr hgl, hc, hb⟩
      · have hgo : computeGo k reading (fuel + 1) i =
            ⟨i, batches k, decide (0 < i ∧ i % 8 = 0)⟩ ::
              computeGo k reading fuel (i + 1) := by
          simp only [computeGo, if_neg hchk]
        obtain ⟨ihlen, ihmem, ihmap, ihlast⟩ := ih (i + 1)
        rw [hgo]
        refine ⟨by simp; omega, ?_, ?_, ?_⟩
        · intro tr htr
          rw [List.mem_cons] at htr
          rcases htr with htr | htr
          · subst htr
            exact ⟨rfl, rfl⟩
          · exact ihmem tr htr
        · rw [List.map_cons, ihmap, List.length_cons]
          rfl
        · intro hlt
          rw [List.length_cons] at hlt
          obtain ⟨tr, hgl, hc, hb⟩ := ihlast (by omega)
          exact ⟨tr, getLast?_cons_of_some _ _ tr hgl, hc, hb⟩

/-- C1 (amended): for every `k` and convergence oracle, the loop runs at
most `128` iterations; in each iteration the compute passes of its
single command buffer partition the centroids `0..k` in order with at
most `64` per compute pass (not per command buffer); iteration indices
are consecutive from `0`; the convergence readback happens exactly at
iterations that are positive multiples of `8`; and an early exit occurs
only at a readback iteration whose mapping failed or whose slot-`k`
value is at least `k`. -/
theorem choose_centroid_compute_spec (k : Nat) (reading : Nat → Option Nat) :
    (choose_centroid_compute k reading).length ≤ 128 ∧
    (∀ tr ∈ choose_centroid_compute k reading,
      tr.passes.join = List.range k ∧
      (∀ pass ∈ tr.passes, pass.length ≤ 64) ∧
      tr.checked = decide (0 < tr.index ∧ tr.index % 8 = 0)) ∧
    List.map (fun tr => tr.index) (choose_centroid_compute k reading) =
      List.range (choose_centroid_compute k reading).length ∧
    ((choose_centroid_compute k reading).length < 128 →
      ∃ tr, (choose_centroid_compute k reading).getLast? = some tr ∧
        tr.checked = true ∧
        (reading tr.index = none ∨ ∃ v, reading tr.index = some v ∧ k ≤ v)) := by
  obtain ⟨hlen, hmem, hmap, hlast⟩ := computeGo_spec k reading 128 0
  refine ⟨hlen, ?_, ?_, hlast⟩
  · intro tr htr
    obtain ⟨hp, hc⟩ := hmem tr htr
    exact ⟨by rw [hp, batches_join], by rw [hp]; exact batches_le k, hc⟩
  · rw [List.range_eq_range']
    exact hmap

/-- Witness for C1 at `k = 2` with every readback returning `2`: the
loop breaks at the first checked iteration `8`, after `9` iterations. -/
theorem choose_centroid_compute_spec_witness :
    (choose_centroid_compute 2 (fun _ => some 2)).length ≤ 128 ∧
    (∃ tr, (choose_centroid_compute 2 (fun _ => some 2)).getLast? = some tr ∧
      tr.checked = true ∧
      ((fun _ => some 2) tr.index = none ∨
        ∃ v, (fun _ => some 2) tr.index = some v ∧ 2 ≤ v)) :=
  ⟨(choose_centroid_compute_spec 2 (fun _ => some 2)).1,
    (choose_centroid_compute_spec 2 (fun _ => some 2)).2.2.2 (by decide)⟩

/-! ## C10: sortedness of the merging queue of `ColorTree::reduce`

`cmpNode` on nodes with distinct `node_id`s is the strict lexicographic
comparison of the key `(child_count, pixel_count >> level, node_id)`;
the `node_id` component breaks every tie, so two nodes compare `Equal`
exactly when their ids coincide. -/

/-- Strict order on the comparator's key. -/
def keyLt (x y : Node) : Prop :=
  x.childCount < y.childCount ∨
    (x.childCount = y.childCount ∧
      (x.accumulator.pixelCount >>> x.level < y.accumulator.pixelCount >>> y.level ∨
        (x.accumulator.pixelCount >>> x.level = y.accumulator.pixelCount >>> y.level ∧
          x.nodeId < y.nodeId)))

theorem cmpNode_self (x : Node) : cmpNode x x = .eq := by
  rw [cmpNode, if_pos rfl]

theorem keyLt_asymm {x y : Node} (h1 : keyLt x y) (h2 : keyLt y x) : False := by
  simp only [keyLt] at h1 h2
  omega

theorem keyLt_trans {x y z : Node} (h1 : keyLt x y) (h2 : keyLt y z) : keyLt x z := by
  simp only [keyLt] at h1 h2 ⊢
  omega

/-- With distinct ids the comparator is the strict key order. -/
theorem cmpNode_cases {x y : Node} (h : x.nodeId ≠ y.nodeId) :
    (cmpNode x y = .gt ∧ keyLt y x) ∨ (cmpNode x y = .lt ∧ keyLt x y) := by
  rw [cmpNode, if_neg h]
  rcases Nat.lt_trichotomy x.childCount y.childCount with hc | hc | hc
  · rw [(Nat.compare_eq_lt).mpr hc]
    right
    exact ⟨rfl, by simp only [keyLt]; omega⟩
  · rw [(Nat.compare_eq_eq).mpr hc]
    rcases Nat.lt_trichotomy (x.accumulator.pixelCount >>> x.level)
        (y.accumulator.pixelCount >>> y.level) with hp | hp | hp
    · rw [(Nat.compare_eq_lt).mpr hp]
      right
      exact ⟨rfl, by simp only [keyLt]; omega⟩
    · rw [(Nat.compare_eq_eq).mpr hp]
      rcases Nat.lt_trichotomy x.nodeId y.nodeId with hn | hn | hn
      · rw [(Nat.compare_eq_lt).mpr hn]
        right
        exact ⟨rfl, by simp only [keyLt]; omega⟩
      · exact absurd hn h
      · rw [(Nat.compare_eq_gt).mpr hn]
        left
        exact ⟨rfl, by simp only [keyLt]; omega⟩
    · rw [(Nat.compare_eq_gt).mpr hp]
      left
      exact ⟨rfl, by simp only [keyLt]; omega⟩
  · rw [(Nat.compare_eq_gt).mpr hc]
    left
    exact ⟨rfl, by simp only [keyLt]; omega⟩

theorem cmpNode_gt_iff {x y : Node} (h : x.nodeId ≠ y.nodeId) :
    cmpNode x y = .gt ↔ keyLt y x := by
  rcases cmpNode_cases h with ⟨hc, hk⟩ | ⟨hc, hk⟩
  · exact ⟨fun _ => hk, fun _ => hc⟩
  · constructor
    · intro hx
      rw [hc] at hx
      exact Ordering.noConfusion hx
    · intro hk2
      exact (keyLt_asymm hk hk2).elim

theorem cmpNode_lt_iff {x y : Node} (h : x.nodeId ≠ y.nodeId) :
    cmpNode x y = .lt ↔ keyLt x y := by
  rcases cmpNode_cases h with ⟨hc, hk⟩ | ⟨hc, hk⟩
  · constructor
    · intro hx
      rw [hc] at hx
      exact Ordering.noConfusion hx
    · intro hk2
      exact (keyLt_asymm hk hk2).elim
  · exact ⟨fun _ => hk, fun _ => hc⟩

theorem cmpNode_ne_eq {x y : Node} (h : x.nodeId ≠ y.nodeId) :
    cmpNode x y ≠ .eq := by
  rcases cmpNode_cases h with ⟨hc, _⟩ | ⟨hc, _⟩ <;> rw [hc] <;>
    exact fun hx => Ordering.noConfusion hx

/-- The arena indexing invariant: node `i` stores `node_id = i` (nodes
are only ever created by `Node::root(0)` at index `0` and
`Node::with_parent(next_index, …)` pushed at `next_index`). -/
def NodeIds (a : NodeArena) : Prop :=
  ∀ i, i < a.length → (getNode a i).nodeId = i

theorem modify_preserves_nodeId {a : NodeArena} {i : Nat} {f : Node → Node}
    (hf : ∀ n, (f n).nodeId = n.nodeId) (j : Nat) :
    (getNode (modifyNode a i f) j).nodeId = (getNode a j).nodeId := by
  rcases getNode_modify_cases a i f j with h | ⟨_, h⟩
  · rw [h]
  · rw [h, hf]

theorem nodeIds_new : NodeIds ColorTree.new.nodes := by
  intro i hi
  have h1 : ColorTree.new.nodes.length = 1 := rfl
  have : i = 0 := by omega
  subst this
  rw [getNode_newTree 0]
  rfl

theorem addColorStep_ids {a : NodeArena} (r : Nat) (p : Pixel) (level : Nat)
    (h : NodeIds a) : NodeIds (addColorStep a r p level).1 := by
  cases hslot : childSlot a r (get_color_index p level) with
  | some c0 =>
      rw [addColorStep_some hslot]
      exact h
  | none =>
      rw [addColorStep_none hslot]
      intro i hi
      have hlen : (freshChildArena a r (get_color_index p level) level).length =
        a.length + 1 := rfl
      rw [hlen] at hi
      by_cases hin : i = a.length
      · subst hin
        rw [getNode_fresh_new]
        rfl
      · by_cases hir : i = r
        · subst hir
          have hrlt : i < a.length := by omega
          rw [getNode_fresh_parent hrlt]
          exact h i hrlt
        · rw [getNode_fresh_other _ _ hir hin]
          exact h i (by omega)

theorem addColorGo_ids (p : Pixel) : ∀ (ls : List Nat) (a : NodeArena) (r : Nat),
    NodeIds a → NodeIds (addColorGo a r p ls).1 := by
  intro ls
  induction ls with
  | nil =>
      intro a r h
      exact h
  | cons l rest ih =>
      intro a r h
      exact ih (addColorStep a r p l).1 (addColorStep a r p l).2
        (addColorStep_ids r p l h)

theorem accModify_ids {a : NodeArena} {i : Nat} (h : NodeIds a) (p : Pixel) :
    NodeIds (modifyNode a i fun node =>
      { node with accumulator := node.accumulator.addPixel p }) := by
  intro j hj
  rw [modify_preserves_nodeId (f := fun node =>
    { node with accumulator := node.accumulator.addPixel p }) (fun n => rfl) j]
  exact h j hj

theorem add_color_ids {t : ColorTree} (h : NodeIds t.nodes) (p : Pixel) :
    NodeIds (t.add_color p).nodes := by
  rw [add_color_nodes]
  exact accModify_ids (addColorGo_ids p (List.range' 0 8) t.nodes 0 h) p

theorem buildTree_ids (ps : List Pixel) : NodeIds (buildTree ps).nodes := by
  rw [buildTree]
  induction ps using List.reverseRecOn with
  | nil => exact nodeIds_new
  | append_singleton ps0 p ih =>
      rw [List.foldl_append]
      exact add_color_ids ih p

theorem reduceStep_length (a : NodeArena) (q : List Nat) :
    (reduceStep a q).1.length = a.length := by
  cases hp : (getNode a ((q.getLast?).getD 0)).parent with
  | none => rw [reduceStep_none hp]
  | some pid =>
      rw [reduceStep_some hp]
      rfl

theorem reduceStep_nodeId (a : NodeArena) (q : List Nat) (i : Nat) :
    (getNode (reduceStep a q).1 i).nodeId = (getNode a i).nodeId := by
  cases hp : (getNode a ((q.getLast?).getD 0)).parent with
  | none => rw [reduceStep_none hp]
  | some pid =>
      rw [reduceStep_some hp, foldIntoParent_eq,
        modify_preserves_nodeId (f := clearParentFn) (fun n => rfl) i,
        modify_preserves_nodeId
          (f := foldParentFn (getNode a ((q.getLast?).getD 0))) (fun n => rfl) i]

theorem reduceStep_ids {a : NodeArena} {q : List Nat} (h : NodeIds a) :
    NodeIds (reduceStep a q).1 := by
  intro i hi
  rw [reduceStep_nodeId]
  exact h i (by rw [reduceStep_length] at hi; exact hi)

theorem bsGo_zero (q : List Nat) (f : Nat → Ordering) (left right : Nat) :
    bsGo q f 0 left right = .notFound left := rfl

theorem bsGo_succ (q : List Nat) (f : Nat → Ordering) (fuel left right : Nat) :
    bsGo q f (fuel + 1) left right =
      if left < right then
        match f ((q.get? (left + (right - left) / 2)).getD 0) with
        | .lt => bsGo q f fuel (left + (right - left) / 2 + 1) right
        | .gt => bsGo q f fuel left (left + (right - left) / 2)
        | .eq => .found (left + (right - left) / 2)
      else .notFound left := rfl

/-- Correctness of the bisection loop on a list where the probe function
ascends (`≠ lt` at one index forces `gt` at every later index — the case
for a comparator against a descending-sorted queue): `Ok` lands on an
`eq` index, `Err` yields the exact cut position between the `lt` prefix
and the `gt` suffix. -/
theorem bsGo_spec (q : List Nat) (f : Nat → Ordering)
    (Hf : ∀ u v, u < v → v < q.length →
      f ((q.get? u).getD 0) ≠ .lt → f ((q.get? v).getD 0) = .gt) :
    ∀ (fuel left right : Nat), right ≤ q.length → left ≤ right →
      right - left ≤ fuel →
      (∀ u, u < left → f ((q.get? u).getD 0) = .lt) →
      (∀ v, right ≤ v → v < q.length → f ((q.get? v).getD 0) = .gt) →
      (match bsGo q f fuel left right with
       | .found m => m < q.length ∧ f ((q.get? m).getD 0) = .eq
       | .notFound pos =>
          pos ≤ q.length ∧
          (∀ u, u < pos → f ((q.get? u).getD 0) = .lt) ∧
          (∀ v, pos ≤ v → v < q.length → f ((q.get? v).getD 0) = .gt)) := by
  intro fuel
  induction fuel with
  | zero =>
      intro left right hr hlr hfuel hL hR
      rw [bsGo_zero]
      exact ⟨by omega, hL, fun v hv hvlen => hR v (by omega) hvlen⟩
  | succ fuel ih =>
      intro left right hr hlr hfuel hL hR
      rw [bsGo_succ]
      by_cases hlt : left < right
      · rw [if_pos hlt]
        have hmidlt : left + (right - left) / 2 < right := by
          have := Nat.div_lt_self (show 0 < right - left by omega) (show 1 < 2 by omega)
          omega
        cases hm : f ((q.get? (left + (right - left) / 2)).getD 0) with
        | eq => exact ⟨by omega, hm⟩
        | lt =>
            refine ih (left + (right - left) / 2 + 1) right hr (by omega) (by omega)
              ?_ hR
            intro u hu
            rcases Nat.lt_or_ge u (left + (right - left) / 2) with humid | humid
            · by_contra hne
              have hg := Hf u (left + (right - left) / 2) humid (by omega) hne
              rw [hg] at hm
              exact Ordering.noConfusion hm
            · have hue : u = left + (right - left) / 2 := by omega
              rw [hue]
              exact hm
        | gt =>
            refine ih left (left + (right - left) / 2) (by omega) (by omega) (by omega)
              hL ?_
            intro v hv hvlen
            rcases Nat.lt_or_ge (left + (right - left) / 2) v with hvm | hvm
            · exact Hf (left + (right - left) / 2) v hvm hvlen
                (by rw [hm]; exact fun hx => Ordering.noConfusion hx)
            · have hve : v = left + (right - left) / 2 := by omega
              rw [hve]
              exact hm
      · rw [if_neg hlt]
        exact ⟨by omega, hL, fun v hv hvlen => hR v (by omega) hvlen⟩

theorem binarySearchBy_spec (q : List Nat) (f : Nat → Ordering)
    (Hf : ∀ u v, u < v → v < q.length →
      f ((q.get? u).getD 0) ≠ .lt → f ((q.get? v).getD 0) = .gt) :
    match binarySearchBy q f with
    | .found m => m < q.length ∧ f ((q.get? m).getD 0) = .eq
    | .notFound pos =>
        pos ≤ q.length ∧
        (∀ u, u < pos → f ((q.get? u).getD 0) = .lt) ∧
        (∀ v, pos ≤ v → v < q.length → f ((q.get? v).getD 0) = .gt) :=
  bsGo_spec q f Hf q.length 0 q.length (le_refl _) (by omega) (by omega)
    (fun u hu => absurd hu (by omega)) (fun v hv hvlen => absurd hvlen (by omega))

/-- The comparator relation a sorted queue maintains, through the arena. -/
def gtR (a : NodeArena) : Nat → Nat → Prop :=
  fun i j => cmpNode (getNode a i) (getNode a j) = .gt

theorem get?_mem {q : List Nat} {u : Nat} (hu : u < q.length) :
    (q.get? u).getD 0 ∈ q := by
  rw [List.get?_eq_get hu]
  exact List.get_mem q u hu

theorem pairwise_get?_of {R : Nat → Nat → Prop} {q : List Nat}
    (h : q.Pairwise R) {u v : Nat} (huv : u < v) (hv : v < q.length) :
    R ((q.get? u).getD 0) ((q.get? v).getD 0) := by
  have hu : u < q.length := by omega
  rw [List.get?_eq_get hu, List.get?_eq_get hv]
  exact List.pairwise_iff_get.mp h ⟨u, hu⟩ ⟨v, hv⟩ ((Fin.mk_lt_mk).mpr huv)

theorem insertIdx_eq_take_drop (x : Nat) : ∀ (l : List Nat) (n : Nat),
    n ≤ l.length → l.insertIdx n x = l.take n ++ x :: l.drop n := by
  intro l
  induction l with
  | nil =>
      intro n hn
      have : n = 0 := by simpa using hn
      subst this
      rfl
  | cons a rest ih =>
      intro n hn
      cases n with
      | zero => rfl
      | succ n =>
          rw [List.insertIdx_succ_cons, ih n (by simpa using hn)]
          rfl

theorem cmpNode_flip {x y : Node} (h : x.nodeId ≠ y.nodeId) :
    cmpNode x y = .lt → cmpNode y x = .gt := by
  intro hl
  exact (cmpNode_gt_iff fun he => h he.symm).mpr ((cmpNode_lt_iff h).mp hl)

/-- The step of the bisection monotonicity: a probe at least as large as
`X` under the comparator dominates everything below `X`. -/
theorem cmp_trans_gt {P X Y : Node}
    (hPX : cmpNode P X ≠ .lt) (hXY : cmpNode X Y = .gt)
    (hPXid : P.nodeId = X.nodeId → P = X)
    (hXYid : X.nodeId ≠ Y.nodeId) (hPYid : P.nodeId ≠ Y.nodeId) :
    cmpNode P Y = .gt := by
  by_cases hid : P.nodeId = X.nodeId
  · rw [hPXid hid]
    exact hXY
  · have hk1 : keyLt X P := by
      rcases cmpNode_cases hid with ⟨hc, hk⟩ | ⟨hc, hk⟩
      · exact hk
      · exact absurd hc hPX
    have hk2 : keyLt Y X := (cmpNode_gt_iff hXYid).mp hXY
    exact (cmpNode_gt_iff hPYid).mpr (keyLt_trans hk2 hk1)

/-- On a descending-sorted queue of in-range ids, the comparator closure
`fun probe => cmpNode (node pid) (node probe)` satisfies the bisection
hypothesis: once it stops returning `lt` it returns `gt` ever after. -/
theorem search_Hf {a : NodeArena} {q : List Nat} {pid : Nat}
    (ids : NodeIds a) (hpid : pid < a.length) (hq : ∀ x ∈ q, x < a.length)
    (hs : q.Pairwise (gtR a)) :
    ∀ u v, u < v → v < q.length →
      cmpNode (getNode a pid) (getNode a ((q.get? u).getD 0)) ≠ .lt →
      cmpNode (getNode a pid) (getNode a ((q.get? v).getD 0)) = .gt := by
  intro u v huv hv hne
  have hu : u < q.length := by omega
  have hqul := hq _ (get?_mem hu)
  have hqvl := hq _ (get?_mem hv)
  have hguv : cmpNode (getNode a ((q.get? u).getD 0))
      (getNode a ((q.get? v).getD 0)) = .gt := pairwise_get?_of hs huv hv
  have hne_uv : (q.get? u).getD 0 ≠ (q.get? v).getD 0 := by
    intro he
    rw [he, cmpNode_self] at hguv
    exact Ordering.noConfusion hguv
  have hids_uv : (getNode a ((q.get? u).getD 0)).nodeId ≠
      (getNode a ((q.get? v).getD 0)).nodeId := by
    rw [ids _ hqul, ids _ hqvl]
    exact hne_uv
  refine cmp_trans_gt hne hguv ?_ hids_uv ?_
  · intro hid
    have hpu : pid = (q.get? u).getD 0 := by
      rw [← ids pid hpid, ← ids _ hqul]
      exact hid
    rw [hpu]
  · intro hid
    have hpv : pid = (q.get? v).getD 0 := by
      rw [← ids pid hpid, ← ids _ hqvl]
      exact hid
    apply hne
    rw [hpv]
    rcases cmpNode_cases (fun he => hids_uv he.symm :
        (getNode a ((q.get? v).getD 0)).nodeId ≠
          (getNode a ((q.get? u).getD 0)).nodeId) with ⟨hc, hk⟩ | ⟨hc, hk⟩
    · have hk2 := (cmpNode_gt_iff hids_uv).mp hguv
      exact (keyLt_asymm hk hk2).elim
    · exact hc

theorem pairwise_gtR_congr {a a2 : NodeArena} {q : List Nat}
    (h : ∀ x ∈ q, getNode a2 x = getNode a x) (hp : q.Pairwise (gtR a)) :
    q.Pairwise (gtR a2) := by
  refine List.Pairwise.imp_of_mem ?_ hp
  intro x y hx hy hr
  show cmpNode (getNode a2 x) (getNode a2 y) = .gt
  rw [h x hx, h y hy]
  exact hr

/-- Binary-search insertion at the bracket's `Err` position keeps the
queue sorted. -/
theorem insertIdx_sorted {a : NodeArena} {q : List Nat} {pid pos : Nat}
    (hq : q.Pairwise (gtR a)) (hpos : pos ≤ q.length)
    (hL : ∀ u, u < pos → gtR a ((q.get? u).getD 0) pid)
    (hG : ∀ v, pos ≤ v → v < q.length → gtR a pid ((q.get? v).getD 0)) :
    (q.insertIdx pos pid).Pairwise (gtR a) := by
  rw [insertIdx_eq_take_drop pid q pos hpos, List.pairwise_append]
  refine ⟨hq.sublist (List.take_sublist pos q), ?_, ?_⟩
  · rw [List.pairwise_cons]
    refine ⟨?_, hq.sublist (List.drop_sublist pos q)⟩
    intro b hb
    obtain ⟨w, hw⟩ := List.mem_iff_get?.mp hb
    rw [List.get?_drop] at hw
    have hwlen : pos + w < q.length := by
      by_contra hge
      rw [List.get?_eq_none.mpr (by omega)] at hw
      exact Option.noConfusion hw
    have hgw := hG (pos + w) (by omega) hwlen
    rw [hw] at hgw
    exact hgw
  · intro x hx y hy
    obtain ⟨w, hw⟩ := List.mem_iff_get?.mp hx
    have hwpos : w < pos := by
      by_contra hge
      rw [List.get?_eq_none.mpr (by rw [List.length_take]; omega)] at hw
      exact Option.noConfusion hw
    have hwlen : w < q.length := by
      have := List.length_take_le pos q
      by_contra hge
      rw [List.get?_eq_none.mpr (by rw [List.length_take]; omega)] at hw
      exact Option.noConfusion hw
    have hxq : q.get? w = some x := by
      rw [← List.get?_take hwpos]
      exact hw
    rw [List.mem_cons] at hy
    rcases hy with hy | hy
    · subst hy
      have hlw := hL w hwpos
      rw [hxq] at hlw
      exact hlw
    · obtain ⟨w2, hw2⟩ := List.mem_iff_get?.mp hy
      rw [List.get?_drop] at hw2
      have hw2len : pos + w2 < q.length := by
        by_contra hge
        rw [List.get?_eq_none.mpr (by omega)] at hw2
        exact Option.noConfusion hw2
      have hrel := pairwise_get?_of hq (show w < pos + w2 by omega) hw2len
      rw [hxq, hw2] at hrel
      exact hrel

theorem getNode_fold_other {a : NodeArena} {nid pid x : Nat}
    (hx1 : x ≠ nid) (hx2 : x ≠ pid) :
    getNode (foldIntoParent a nid pid) x = getNode a x := by
  rw [foldIntoParent_eq, getNode_modify_ne (fun he => hx1 he.symm),
    getNode_modify_ne (fun he => hx2 he.symm)]

theorem insertDesc_mem {a : NodeArena} (i : Nat) : ∀ (l : List Nat) (x : Nat),
    x ∈ insertDesc a i l ↔ x = i ∨ x ∈ l := by
  intro l
  induction l with
  | nil =>
      intro x
      simp [insertDesc]
  | cons j js ih =>
      intro x
      rw [insertDesc]
      by_cases hc : cmpNode (getNode a i) (getNode a j) = .gt
      · rw [if_pos hc]
        simp [List.mem_cons]
      · rw [if_neg hc]
        simp only [List.mem_cons, ih]
        tauto

theorem insertDesc_sorted {a : NodeArena} (ids : NodeIds a) {i : Nat}
    (hi : i < a.length) :
    ∀ (l : List Nat), (∀ x ∈ l, x < a.length) → i ∉ l → l.Pairwise (gtR a) →
      (insertDesc a i l).Pairwise (gtR a) := by
  intro l
  induction l with
  | nil =>
      intro _ _ _
      simp [insertDesc]
  | cons j js ih =>
      intro hb hnm hp
      rw [insertDesc]
      by_cases hc : cmpNode (getNode a i) (getNode a j) = .gt
      · rw [if_pos hc]
        rw [List.pairwise_cons]
        refine ⟨?_, hp⟩
        intro b hb2
        rw [List.mem_cons] at hb2
        rcases hb2 with hb2 | hb2
        · rw [hb2]
          exact hc
        · have hjb : gtR a j b := (List.pairwise_cons.mp hp).1 b hb2
          have hjl : j < a.length := hb j (List.mem_cons_self _ _)
          have hbl : b < a.length := hb b (List.mem_cons_of_mem _ hb2)
          have hij : i ≠ j := fun he => hnm (he ▸ List.mem_cons_self j js)
          have hjbne : j ≠ b := by
            intro he
            have hx := hjb
            rw [gtR] at hx
            rw [he, cmpNode_self] at hx
            exact Ordering.noConfusion hx
          have hib : i ≠ b := fun he => hnm (he ▸ List.mem_cons_of_mem _ hb2)
          have hidsij : (getNode a i).nodeId ≠ (getNode a j).nodeId := by
            rw [ids i hi, ids j hjl]
            exact hij
          have hidsjb : (getNode a j).nodeId ≠ (getNode a b).nodeId := by
            rw [ids j hjl, ids b hbl]
            exact hjbne
          have hidsib : (getNode a i).nodeId ≠ (getNode a b).nodeId := by
            rw [ids i hi, ids b hbl]
            exact hib
          show cmpNode (getNode a i) (getNode a b) = .gt
          exact (cmpNode_gt_iff hidsib).mpr
            (keyLt_trans ((cmpNode_gt_iff hidsjb).mp hjb)
              ((cmpNode_gt_iff hidsij).mp hc))
      · rw [if_neg hc]
        rw [List.pairwise_cons]
        have hpj := List.pairwise_cons.mp hp
        refine ⟨?_, ih (fun x hx => hb x (List.mem_cons_of_mem _ hx))
          (fun hm => hnm (List.mem_cons_of_mem _ hm)) hpj.2⟩
        intro b hb2
        rw [insertDesc_mem] at hb2
        rcases hb2 with hb2 | hb2
        · rw [hb2]
          have hjl : j < a.length := hb j (List.mem_cons_self _ _)
          have hidsij : (getNode a i).nodeId ≠ (getNode a j).nodeId := by
            rw [ids i hi, ids j hjl]
            exact fun he => hnm (he ▸ List.mem_cons_self j js)
          rcases cmpNode_cases hidsij with ⟨hcg, _⟩ | ⟨hcl, hk⟩
          · exact absurd hcg hc
          · show cmpNode (getNode a j) (getNode a i) = .gt
            exact (cmpNode_gt_iff fun he => hidsij he.symm).mpr hk
        · exact hpj.1 b hb2

theorem sortDesc_sorted {a : NodeArena} (ids : NodeIds a) :
    ∀ (l : List Nat), (∀ x ∈ l, x < a.length) → l.Nodup →
      (sortDesc a l).Pairwise (gtR a) ∧ (∀ x, x ∈ sortDesc a l ↔ x ∈ l) := by
  intro l
  induction l with
  | nil =>
      intro _ _
      exact ⟨List.Pairwise.nil, fun x => Iff.rfl⟩
  | cons i is ih =>
      intro hb hnd
      have hnd2 := List.nodup_cons.mp hnd
      obtain ⟨hs, hm⟩ := ih (fun x hx => hb x (List.mem_cons_of_mem _ hx)) hnd2.2
      constructor
      · refine insertDesc_sorted ids (hb i (List.mem_cons_self _ _)) (sortDesc a is)
          (fun x hx => hb x (List.mem_cons_of_mem _ ((hm x).mp hx))) ?_ hs
        intro hmem
        exact hnd2.1 ((hm i).mp hmem)
      · intro x
        rw [show sortDesc a (i :: is) = insertDesc a i (sortDesc a is) from rfl,
          insertDesc_mem, hm x, List.mem_cons]

/-- The initial queue of `reduce` is sorted descending and in range. -/
theorem initQueue_sorted {a : NodeArena} (ids : NodeIds a) :
    (initQueue a).Pairwise (gtR a) ∧ ∀ x ∈ initQueue a, x < a.length := by
  have hb : ∀ x ∈ (List.range a.length).filter
      (fun i => decide (0 < (getNode a i).accumulator.pixelCount)), x < a.length := by
    intro x hx
    rw [List.mem_filter] at hx
    exact List.mem_range.mp hx.1
  have hnd : ((List.range a.length).filter
      (fun i => decide (0 < (getNode a i).accumulator.pixelCount))).Nodup :=
    (List.nodup_range a.length).filter _
  obtain ⟨hs, hm⟩ := sortDesc_sorted ids _ hb hnd
  rw [initQueue]
  exact ⟨hs, fun x hx => hb x ((hm x).mp hx)⟩

theorem found_brackets {q : List Nat} {f : Nat → Ordering}
    (Hf : ∀ u v, u < v → v < q.length →
      f ((q.get? u).getD 0) ≠ .lt → f ((q.get? v).getD 0) = .gt)
    {m : Nat} (hm : m < q.length) (heq : f ((q.get? m).getD 0) = .eq) :
    (∀ u, u < m → f ((q.get? u).getD 0) = .lt) ∧
    (∀ v, m < v → v < q.length → f ((q.get? v).getD 0) = .gt) := by
  constructor
  · intro u hu
    by_contra hne
    have hg := Hf u m hu hm hne
    rw [hg] at heq
    exact Ordering.noConfusion heq
  · intro v hv hvlen
    exact Hf m v hv hvlen (by rw [heq]; exact fun hx => Ordering.noConfusion hx)

theorem not_mem_of_brackets {a : NodeArena} {q : List Nat} {pid m : Nat}
    (hL : ∀ u, u < m →
      cmpNode (getNode a pid) (getNode a ((q.get? u).getD 0)) = .lt)
    (hG : ∀ v, m < v → v < q.length →
      cmpNode (getNode a pid) (getNode a ((q.get? v).getD 0)) = .gt) :
    pid ∉ q.eraseIdx m := by
  intro hmem
  rw [List.eraseIdx_eq_take_drop_succ, List.mem_append] at hmem
  rcases hmem with hmem | hmem
  · obtain ⟨w, hw⟩ := List.mem_iff_get?.mp hmem
    have hwm : w < m := by
      by_contra hge
      rw [List.get?_eq_none.mpr (by rw [List.length_take]; omega)] at hw
      exact Option.noConfusion hw
    have hq : q.get? w = some pid := by
      rw [← List.get?_take hwm]
      exact hw
    have hlw := hL w hwm
    rw [hq] at hlw
    simp only [Option.getD_some] at hlw
    rw [cmpNode_self] at hlw
    exact Ordering.noConfusion hlw
  · obtain ⟨w, hw⟩ := List.mem_iff_get?.mp hmem
    rw [List.get?_drop] at hw
    have hwlen : m + 1 + w < q.length := by
      by_contra hge
      rw [List.get?_eq_none.mpr (by omega)] at hw
      exact Option.noConfusion hw
    have hgw := hG (m + 1 + w) (by omega) hwlen
    rw [hw] at hgw
    simp only [Option.getD_some] at hgw
    rw [cmpNode_self] at hgw
    exact Ordering.noConfusion hgw

theorem not_mem_of_brackets2 {a : NodeArena} {q : List Nat} {pid pos : Nat}
    (hL : ∀ u, u < pos →
      cmpNode (getNode a pid) (getNode a ((q.get? u).getD 0)) = .lt)
    (hG : ∀ v, pos ≤ v → v < q.length →
      cmpNode (getNode a pid) (getNode a ((q.get? v).getD 0)) = .gt) :
    pid ∉ q := by
  intro hmem
  obtain ⟨w, hw⟩ := List.mem_iff_get?.mp hmem
  have hwlen : w < q.length := by
    by_contra hge
    rw [List.get?_eq_none.mpr (by omega)] at hw
    exact Option.noConfusion hw
  rcases Nat.lt_or_ge w pos with hwp | hwp
  · have hlw := hL w hwp
    rw [hw] at hlw
    simp only [Option.getD_some] at hlw
    rw [cmpNode_self] at hlw
    exact Ordering.noConfusion hlw
  · have hgw := hG w hwp hwlen
    rw [hw] at hgw
    simp only [Option.getD_some] at hgw
    rw [cmpNode_self] at hgw
    exact Ordering.noConfusion hgw

/-- The first binary search of a merge step: erasing its result keeps a
subset of the queue, stays sorted, and removes every occurrence of the
parent. -/
theorem step_erase_facts {a : NodeArena} {q1 : List Nat} {pid : Nat}
    (ids : NodeIds a) (hpid : pid < a.length)
    (hb1 : ∀ x ∈ q1, x < a.length) (hs1 : q1.Pairwise (gtR a)) :
    (∀ x ∈ eraseFound q1 (binarySearchBy q1 fun probe =>
      cmpNode (getNode a pid) (getNode a probe)), x ∈ q1) ∧
    (eraseFound q1 (binarySearchBy q1 fun probe =>
      cmpNode (getNode a pid) (getNode a probe))).Pairwise (gtR a) ∧
    pid ∉ eraseFound q1 (binarySearchBy q1 fun probe =>
      cmpNode (getNode a pid) (getNode a probe)) := by
  have hHf1 := search_Hf ids hpid hb1 hs1
  have hsp1 := binarySearchBy_spec q1 (fun probe =>
    cmpNode (getNode a pid) (getNode a probe)) hHf1
  cases hres : binarySearchBy q1 (fun probe =>
      cmpNode (getNode a pid) (getNode a probe)) with
  | found m =>
      rw [hres] at hsp1
      obtain ⟨hm1, hm2⟩ := hsp1
      obtain ⟨hLm, hGm⟩ := found_brackets (f := fun probe =>
        cmpNode (getNode a pid) (getNode a probe)) hHf1 hm1 hm2
      exact ⟨fun x hx => (List.eraseIdx_sublist q1 m).subset hx,
        hs1.sublist (List.eraseIdx_sublist q1 m),
        not_mem_of_brackets hLm hGm⟩
  | notFound pos =>
      rw [hres] at hsp1
      obtain ⟨hpos, hL, hG⟩ := hsp1
      exact ⟨fun x hx => hx, hs1, not_mem_of_brackets2 hL hG⟩

/-- The second binary search of a merge step: re-inserting the parent at
the search's `Err` position keeps the queue sorted and in range. -/
theorem step_insert_sorted {a2 : NodeArena} {q2 : List Nat} {pid : Nat}
    (ids2 : NodeIds a2) (hpid : pid < a2.length)
    (hb2 : ∀ x ∈ q2, x < a2.length) (hs2 : q2.Pairwise (gtR a2))
    (hpid2 : pid ∉ q2) :
    (∀ x ∈ insertNotFound q2 (binarySearchBy q2 fun probe =>
      cmpNode (getNode a2 pid) (getNode a2 probe)) pid, x < a2.length) ∧
    (insertNotFound q2 (binarySearchBy q2 fun probe =>
      cmpNode (getNode a2 pid) (getNode a2 probe)) pid).Pairwise (gtR a2) := by
  have hHf2 := search_Hf ids2 hpid hb2 hs2
  have hsp2 := binarySearchBy_spec q2 (fun probe =>
    cmpNode (getNode a2 pid) (getNode a2 probe)) hHf2
  cases hres : binarySearchBy q2 (fun probe =>
      cmpNode (getNode a2 pid) (getNode a2 probe)) with
  | found m => exact ⟨hb2, hs2⟩
  | notFound pos =>
      rw [hres] at hsp2
      obtain ⟨hpos, hL, hG⟩ := hsp2
      constructor
      · intro x hx
        rw [show insertNotFound q2 (SearchResult.notFound pos) pid =
            q2.insertIdx pos pid from rfl,
          insertIdx_eq_take_drop pid q2 pos hpos, List.mem_append,
          List.mem_cons] at hx
        rcases hx with hx | hx | hx
        · exact hb2 x ((List.take_sublist pos q2).subset hx)
        · rw [hx]
          exact hpid
        · exact hb2 x ((List.drop_sublist pos q2).subset hx)
      · rw [show insertNotFound q2 (SearchResult.notFound pos) pid =
            q2.insertIdx pos pid from rfl]
        refine insertIdx_sorted hs2 hpos ?_ ?_
        · intro u hu
          have huq : u < q2.length := by omega
          have hmem := get?_mem huq
          have hxl := hb2 _ hmem
          have hne2 : (q2.get? u).getD 0 ≠ pid := fun he => hpid2 (he ▸ hmem)
          have hids : (getNode a2 pid).nodeId ≠
              (getNode a2 ((q2.get? u).getD 0)).nodeId := by
            rw [ids2 pid hpid, ids2 _ hxl]
            exact fun he => hne2 he.symm
          show cmpNode (getNode a2 ((q2.get? u).getD 0)) (getNode a2 pid) = .gt
          exact cmpNode_flip hids (hL u hu)
        · intro v hv hvlen
          exact hG v hv hvlen

theorem reduceStep_some_pair {a : NodeArena} {q : List Nat} {pid : Nat}
    (h : (getNode a ((q.getLast?).getD 0)).parent = some pid) :
    reduceStep a q =
      (foldIntoParent a ((q.getLast?).getD 0) pid,
        insertNotFound
          (eraseFound q.dropLast (binarySearchBy q.dropLast fun probe =>
            cmpNode (getNode a pid) (getNode a probe)))
          (binarySearchBy
            (eraseFound q.dropLast (binarySearchBy q.dropLast fun probe =>
              cmpNode (getNode a pid) (getNode a probe)))
            fun probe =>
              cmpNode (getNode (foldIntoParent a ((q.getLast?).getD 0) pid) pid)
                (getNode (foldIntoParent a ((q.getLast?).getD 0) pid) probe))
          pid) := by
  simp only [reduceStep, h]

/-- Parent links stay inside the arena (true of built trees via the
slot invariants, and merge steps only clear parent links). -/
def ParentBound (a : NodeArena) : Prop :=
  ∀ j i, (getNode a j).parent = some i → i < a.length

theorem parentBound_of_buildWF {a : NodeArena} (W : BuildWF a) : ParentBound a := by
  intro j i hp
  have h1 := W.parentSlot j i hp
  have h2 := W.slotInc i _ j h1
  omega

theorem reduceStep_pbound {a : NodeArena} {q : List Nat} (h : ParentBound a) :
    ParentBound (reduceStep a q).1 := by
  intro j i hp
  rcases reduceStep_parent a q j with he | he
  · rw [he] at hp
    rw [reduceStep_length]
    exact h j i hp
  · rw [he] at hp
    exact absurd hp (by simp)

/-- One merge step of `reduce` keeps the queue in range and sorted, and
the list handed to its second binary search is sorted under the
comparator that search uses (the post-fold arena). -/
theorem reduceStep_analysis {a : NodeArena} {q : List Nat}
    (ids : NodeIds a) (pb : ParentBound a)
    (hb : ∀ x ∈ q, x < a.length) (hs : q.Pairwise (gtR a))
    (hne : q ≠ []) :
    (∀ x ∈ (reduceStep a q).2, x < (reduceStep a q).1.length) ∧
    (reduceStep a q).2.Pairwise (gtR (reduceStep a q).1) ∧
    (match (getNode a ((q.getLast?).getD 0)).parent with
     | none => True
     | some pid =>
        (eraseFound q.dropLast (binarySearchBy q.dropLast fun probe =>
          cmpNode (getNode a pid) (getNode a probe))).Pairwise
          (gtR (foldIntoParent a ((q.getLast?).getD 0) pid))) := by
  have hb1 : ∀ x ∈ q.dropLast, x < a.length :=
    fun x hx => hb x ((List.dropLast_sublist q).subset hx)
  have hs1 : q.dropLast.Pairwise (gtR a) := hs.sublist (List.dropLast_sublist q)
  have hnid_not1 : (q.getLast?).getD 0 ∉ q.dropLast := by
    intro hmem
    have hnid_eq : (q.getLast?).getD 0 = q.getLast hne := by
      rw [List.getLast?_eq_getLast q hne]
      rfl
    rw [hnid_eq] at hmem
    have hs' : (q.dropLast ++ [q.getLast hne]).Pairwise (gtR a) := by
      rw [List.dropLast_append_getLast hne]
      exact hs
    have hself : cmpNode (getNode a (q.getLast hne))
        (getNode a (q.getLast hne)) = .gt :=
      (List.pairwise_append.mp hs').2.2 _ hmem _ (List.mem_singleton_self _)
    rw [cmpNode_self] at hself
    exact Ordering.noConfusion hself
  cases hp : (getNode a ((q.getLast?).getD 0)).parent with
  | none =>
      rw [reduceStep_none hp]
      exact ⟨hb1, hs1, trivial⟩
  | some pid =>
      have hpid_lt : pid < a.length := pb _ pid hp
      obtain ⟨hsub2, hs2, hpid2⟩ := step_erase_facts ids hpid_lt hb1 hs1
      have hnid2 : (q.getLast?).getD 0 ∉ eraseFound q.dropLast
          (binarySearchBy q.dropLast fun probe =>
            cmpNode (getNode a pid) (getNode a probe)) :=
        fun hmem => hnid_not1 (hsub2 _ hmem)
      have hnodes2 : ∀ x ∈ eraseFound q.dropLast
          (binarySearchBy q.dropLast fun probe =>
            cmpNode (getNode a pid) (getNode a probe)),
          getNode (foldIntoParent a ((q.getLast?).getD 0) pid) x = getNode a x :=
        fun x hx => getNode_fold_other (fun he => hnid2 (he ▸ hx))
          (fun he => hpid2 (he ▸ hx))
      have hs2' := pairwise_gtR_congr hnodes2 hs2
      have ids2 : NodeIds (foldIntoParent a ((q.getLast?).getD 0) pid) := by
        intro x hx
        rw [foldIntoParent_eq,
          modify_preserves_nodeId (f := clearParentFn) (fun n => rfl) x,
          modify_preserves_nodeId
            (f := foldParentFn (getNode a ((q.getLast?).getD 0))) (fun n => rfl) x]
        exact ids x hx
      have hb2' : ∀ x ∈ eraseFound q.dropLast
          (binarySearchBy q.dropLast fun probe =>
            cmpNode (getNode a pid) (getNode a probe)),
          x < (foldIntoParent a ((q.getLast?).getD 0) pid).length :=
        fun x hx => hb1 x (hsub2 x hx)
      have hmain := step_insert_sorted ids2
        (show pid < (foldIntoParent a ((q.getLast?).getD 0) pid).length from hpid_lt)
        hb2' hs2' hpid2
      rw [reduceStep_some_pair hp]
      exact ⟨hmain.1, hmain.2, hs2'⟩

/-- The merging loop keeps node ids, in-range queues and sortedness. -/
theorem reduceLoopGo_QInv (K : Nat) : ∀ (n : Nat) (st : NodeArena × List Nat),
    NodeIds st.1 → ParentBound st.1 →
    (∀ x ∈ st.2, x < st.1.length) → st.2.Pairwise (gtR st.1) →
    NodeIds (reduceLoopGo K n st).1 ∧ ParentBound (reduceLoopGo K n st).1 ∧
    (∀ x ∈ (reduceLoopGo K n st).2, x < (reduceLoopGo K n st).1.length) ∧
    (reduceLoopGo K n st).2.Pairwise (gtR (reduceLoopGo K n st).1) := by
  intro n
  induction n with
  | zero =>
      intro st h1 hpb h2 h3
      exact ⟨h1, hpb, h2, h3⟩
  | succ n ih =>
      intro st h1 hpb h2 h3
      rw [reduceLoopGo]
      by_cases hK : K < st.2.length
      · rw [if_pos hK]
        have hne : st.2 ≠ [] := by
          intro he
          rw [he] at hK
          simp at hK
        obtain ⟨hb', hs', _⟩ := reduceStep_analysis h1 hpb h2 h3 hne
        exact ih (reduceStep st.1 st.2) (reduceStep_ids h1)
          (reduceStep_pbound hpb) hb' hs'
      · rw [if_neg hK]
        exact ⟨h1, hpb, h2, h3⟩

/-- C10: at every state of the merging loop of `reduce` on a built tree,
the working queue is sorted strictly descending under the node
comparator; consequently the list handed to the first binary search of
the next step (the queue minus its popped tail) is sorted, and the list
handed to the second binary search (after erasing the found parent) is
sorted under the comparator over the post-merge arena it uses.  Every
binary search during reduction therefore runs on a correctly sorted
sequence. -/
theorem reduce_queue_sorted_spec (ps : List Pixel) (K n : Nat) :
    ∀ a' q',
      reduceLoopGo K n ((buildTree ps).nodes, initQueue (buildTree ps).nodes) =
        (a', q') →
      q'.Pairwise (gtR a') ∧
      q'.dropLast.Pairwise (gtR a') ∧
      (match (getNode a' ((q'.getLast?).getD 0)).parent with
       | none => True
       | some pid =>
          (eraseFound q'.dropLast (binarySearchBy q'.dropLast fun probe =>
            cmpNode (getNode a' pid) (getNode a' probe))).Pairwise
            (gtR (foldIntoParent a' ((q'.getLast?).getD 0) pid))) := by
  intro a' q' heq
  obtain ⟨hinitS, hinitB⟩ := initQueue_sorted (buildTree_ids ps)
  obtain ⟨ids', pb', hb', hs'⟩ := reduceLoopGo_QInv K n
    ((buildTree ps).nodes, initQueue (buildTree ps).nodes)
    (buildTree_ids ps) (parentBound_of_buildWF (buildTree_wf ps)) hinitB hinitS
  rw [heq] at ids' pb' hb' hs'
  refine ⟨hs', hs'.sublist (List.dropLast_sublist q'), ?_⟩
  by_cases hne : q' = []
  · subst hne
    cases hp : (getNode a' (([] : List Nat).getLast?.getD 0)).parent with
    | none => trivial
    | some pid => exact List.Pairwise.nil
  · have hb1 : ∀ x ∈ q'.dropLast, x < a'.length :=
      fun x hx => hb' x ((List.dropLast_sublist q').subset hx)
    have hs1 : q'.dropLast.Pairwise (gtR a') :=
      hs'.sublist (List.dropLast_sublist q')
    have hnid_not1 : (q'.getLast?).getD 0 ∉ q'.dropLast := by
      intro hmem
      have hnid_eq : (q'.getLast?).getD 0 = q'.getLast hne := by
        rw [List.getLast?_eq_getLast q' hne]
        rfl
      rw [hnid_eq] at hmem
      have hsx : (q'.dropLast ++ [q'.getLast hne]).Pairwise (gtR a') := by
        rw [List.dropLast_append_getLast hne]
        exact hs'
      have hself : cmpNode (getNode a' (q'.getLast hne))
          (getNode a' (q'.getLast hne)) = .gt :=
        (List.pairwise_append.mp hsx).2.2 _ hmem _ (List.mem_singleton_self _)
      rw [cmpNode_self] at hself
      exact Ordering.noConfusion hself
    cases hp : (getNode a' ((q'.getLast?).getD 0)).parent with
    | none => trivial
    | some pid =>
        have hpid_lt : pid < a'.length := pb' _ pid hp
        obtain ⟨hsub2, hs2, hpid2⟩ := step_erase_facts ids' hpid_lt hb1 hs1
        have hnid2 : (q'.getLast?).getD 0 ∉ eraseFound q'.dropLast
            (binarySearchBy q'.dropLast fun probe =>
              cmpNode (getNode a' pid) (getNode a' probe)) :=
          fun hmem => hnid_not1 (hsub2 _ hmem)
        have hnodes2 : ∀ x ∈ eraseFound q'.dropLast
            (binarySearchBy q'.dropLast fun probe =>
              cmpNode (getNode a' pid) (getNode a' probe)),
            getNode (foldIntoParent a' ((q'.getLast?).getD 0) pid) x =
              getNode a' x :=
          fun x hx => getNode_fold_other (fun he => hnid2 (he ▸ hx))
            (fun he => hpid2 (he ▸ hx))
        exact pairwise_gtR_congr hnodes2 hs2

/-- Witness for C10: one merge step on the one-pixel tree. -/
theorem reduce_queue_sorted_spec_witness :
    (reduceLoopGo 0 1 ((buildTree [Pixel.mk 0 0 0 255]).nodes,
      initQueue (buildTree [Pixel.mk 0 0 0 255]).nodes)).2.Pairwise
      (gtR (reduceLoopGo 0 1 ((buildTree [Pixel.mk 0 0 0 255]).nodes,
        initQueue (buildTree [Pixel.mk 0 0 0 255]).nodes)).1) :=
  (reduce_queue_sorted_spec [Pixel.mk 0 0 0 255] 0 1 _ _ rfl).1

/-! ## Theorems for C7, C9, C5, C6 -/

/-- C7: For every width `W ≥ 1`, `padded_bytes_per_row (W*4)` is a
multiple of 256, is `≥ W*4`, and is `< W*4 + 256`; in particular
`padded_bytes_per_row 520 = 768`. -/
theorem padded_bytes_per_row_spec (W : Nat) (hW : 1 ≤ W) :
    256 ∣ padded_bytes_per_row (W * 4) ∧
    W * 4 ≤ padded_bytes_per_row (W * 4) ∧
    padded_bytes_per_row (W * 4) < W * 4 + 256 ∧
    padded_bytes_per_row 520 = 768 := by
  have heq : padded_bytes_per_row (W * 4) = W * 4 + (256 - W * 4 % 256) % 256 := rfl
  refine ⟨?_, ?_, ?_, by decide⟩ <;> rw [heq] <;> omega

/-- Closed witness for `padded_bytes_per_row_spec` at `W = 130`. -/
theorem padded_bytes_per_row_spec_witness :
    256 ∣ padded_bytes_per_row (130 * 4) ∧
    130 * 4 ≤ padded_bytes_per_row (130 * 4) ∧
    padded_bytes_per_row (130 * 4) < 130 * 4 + 256 ∧
    padded_bytes_per_row 520 = 768 :=
  padded_bytes_per_row_spec 130 (by decide)

/-- C9 as stated: whenever the pixel sequence is shorter than `W*H` there
are in-bounds coordinates whose lookup goes out of range.  This fails for
the claim's full generality because the `u32` index `x + y*W` wraps: a
`2^17 × 2^17` image backed by `2^32` pixels (fewer than `W*H = 2^34`)
never produces an out-of-range index, every wrapped index being below the
length.  The counterexample below proves the claimed existential false at
that input (the in-bounds half of the claim is kept in `get_pixel_spec`). -/
theorem get_pixel_wraps_counterexample :
    (List.replicate (2 ^ 32) (Pixel.mk 0 0 0 255)).length < 2 ^ 17 * 2 ^ 17 ∧
    ¬ ∃ x, x < 2 ^ 17 ∧ ∃ y, y < 2 ^ 17 ∧
      get_pixel (2 ^ 17) (List.replicate (2 ^ 32) (Pixel.mk 0 0 0 255)) x y = none := by
  constructor
  · rw [List.length_replicate]
    norm_num
  · rintro ⟨x, -, y, -, hnone⟩
    rw [get_pixel, List.get?_eq_none] at hnone
    rw [List.length_replicate] at hnone
    exact absurd hnone (by
      have := Nat.mod_lt (x + y * 2 ^ 17) (y := 2 ^ 32) (by norm_num)
      omega)

/-- C9 amended: `Image::new` performs no length check and `get_pixel`
reads index `(x + y*W) mod 2^32`.  Provided `W*H ≤ 2^32` (so the index
arithmetic cannot wrap), a pixel sequence shorter than `W*H` has
in-bounds coordinates `x < W`, `y < H` whose lookup is out of range (a
panic); and whenever the length equals `W*H`, every access with `x < W`,
`y < H` is in bounds. -/
theorem get_pixel_spec (W H : Nat) (rgba : List Pixel) :
    (rgba.length < W * H → W * H ≤ 2 ^ 32 →
      ∃ x, x < W ∧ ∃ y, y < H ∧ get_pixel W rgba x y = none) ∧
    (rgba.length = W * H → ∀ x, x < W → ∀ y, y < H →
      ∃ p, get_pixel W rgba x y = some p) := by
  constructor
  · intro hlt hle
    have hW : 1 ≤ W := by
      rcases Nat.eq_zero_or_pos W with h | h
      · subst h; simp at hlt
      · exact h
    have hH : 1 ≤ H := by
      rcases Nat.eq_zero_or_pos H with h | h
      · subst h; simp at hlt
      · exact h
    have e1 : (H - 1) * W = H * W - W := by
      rw [Nat.sub_mul, Nat.one_mul]
    have e2 : H * W = W * H := Nat.mul_comm H W
    have hWle : W ≤ W * H := Nat.le_mul_of_pos_right W (by omega)
    refine ⟨W - 1, by omega, H - 1, by omega, ?_⟩
    rw [get_pixel, List.get?_eq_none]
    have hmod : ((W - 1) + (H - 1) * W) % 2 ^ 32 = (W - 1) + (H - 1) * W :=
      Nat.mod_eq_of_lt (by omega)
    omega
  · intro hlen x hx y hy
    have e1 : (H - 1) * W = H * W - W := by
      rw [Nat.sub_mul, Nat.one_mul]
    have e2 : H * W = W * H := Nat.mul_comm H W
    have h1 : y * W ≤ (H - 1) * W := Nat.mul_le_mul_right W (show y ≤ H - 1 by omega)
    have hWle : W ≤ W * H := Nat.le_mul_of_pos_right W (by omega)
    have hidx : x + y * W < W * H := by omega
    have hmod : (x + y * W) % 2 ^ 32 < W * H := by
      rcases Nat.lt_or_ge (x + y * W) (2 ^ 32) with h | h
      · rw [Nat.mod_eq_of_lt h]; omega
      · have := Nat.mod_lt (x + y * W) (y := 2 ^ 32) (by norm_num)
        omega
    rw [get_pixel]
    have : (x + y * W) % 2 ^ 32 < rgba.length := by rw [hlen]; exact hmod
    exact ⟨rgba.get ⟨_, this⟩, List.get?_eq_get this⟩

/-- Closed witness for `get_pixel_spec`: a 2×2 image with only 3 pixels
has an out-of-range access, and with 4 pixels every access is in bounds. -/
theorem get_pixel_spec_witness :
    (∃ x, x < 2 ∧ ∃ y, y < 2 ∧
      get_pixel 2 (List.replicate 3 (Pixel.mk 0 0 0 255)) x y = none) ∧
    (∀ x, x < 2 → ∀ y, y < 2 →
      ∃ p, get_pixel 2 (List.replicate 4 (Pixel.mk 0 0 0 255)) x y = some p) :=
  ⟨(get_pixel_spec 2 2 (List.replicate 3 (Pixel.mk 0 0 0 255))).1
      (by decide) (by norm_num),
   (get_pixel_spec 2 2 (List.replicate 4 (Pixel.mk 0 0 0 255))).2 (by decide)⟩

/-- Bounds on the proportionally scaled minor side
`max (small * m / large) 1` computed by `resizedDims`. -/
theorem resize_side_bounds (m small large : Nat) (hm : 1 ≤ m) (hs : 1 ≤ small)
    (hl : small ≤ large) :
    max (small * m / large) 1 ≤ m ∧ 1 ≤ max (small * m / large) 1 ∧
    m * small ≤ max (small * m / large) 1 * large + large ∧
    max (small * m / large) 1 * large ≤ m * small + large := by
  have hlarge : 1 ≤ large := le_trans hs hl
  have h1 : small * m / large * large ≤ small * m := Nat.div_mul_le_self _ _
  have h2 : small * m < (small * m / large + 1) * large := by
    have hq := Nat.div_add_mod (small * m) large
    have hr := Nat.mod_lt (small * m) (y := large) (by omega)
    calc small * m = large * (small * m / large) + small * m % large := hq.symm
      _ < large * (small * m / large) + large := by omega
      _ = (small * m / large + 1) * large := by ring
  have h3 : small * m / large ≤ m := by
    have ha : small * m ≤ large * m := Nat.mul_le_mul_right m hl
    have hb : small * m / large ≤ large * m / large := Nat.div_le_div_right ha
    rwa [Nat.mul_div_cancel_left m (by omega)] at hb
  have hcomm : m * small = small * m := Nat.mul_comm m small
  rcases Nat.eq_zero_or_pos (small * m / large) with h0 | hpos
  · have hmax : max (small * m / large) 1 = 1 := by omega
    rw [hmax]
    rw [h0] at h2
    refine ⟨by omega, by omega, ?_, by omega⟩
    calc m * small = small * m := hcomm
      _ ≤ (0 + 1) * large := le_of_lt h2
      _ ≤ 1 * large + large := by omega
  · have hmax : max (small * m / large) 1 = small * m / large := by omega
    rw [hmax]
    refine ⟨h3, by omega, ?_, by omega⟩
    have : m * small < small * m / large * large + large :=
      calc m * small = small * m := hcomm
        _ < (small * m / large + 1) * large := h2
        _ = small * m / large * large + large := by ring
    omega

/-- Properties of both sides of `resizedDims m w h`: result within
`[1, m]`, larger side exactly `m`, and aspect ratio preserved up to one
rounding unit. -/
theorem resizedDims_bounds (m w h : Nat) (hm : 1 ≤ m) (hw : 1 ≤ w) (hh : 1 ≤ h) :
    ∃ nw nh, resizedDims m w h = (nw, nh) ∧
      max nw nh = m ∧ 1 ≤ nw ∧ 1 ≤ nh ∧
      nw * h ≤ nh * w + max w h ∧ nh * w ≤ nw * h + max w h := by
  rw [resizedDims]
  by_cases hgt : w > h
  · rw [if_pos hgt]
    obtain ⟨b1, b2, b3, b4⟩ := resize_side_bounds m h w hm hh (by omega)
    refine ⟨m, max (h * m / w) 1, rfl, by omega, by omega, by omega, ?_, ?_⟩
    · have hmx : max w h = w := by omega
      rw [hmx]
      exact b3
    · have hmx : max w h = w := by omega
      rw [hmx]
      omega
  · rw [if_neg hgt]
    obtain ⟨b1, b2, b3, b4⟩ := resize_side_bounds m w h hm hw (by omega)
    refine ⟨max (w * m / h) 1, m, rfl, by omega, by omega, by omega, ?_, ?_⟩
    · have hmx : max w h = h := by omega
      rw [hmx]
      omega
    · have hmx : max w h = h := by omega
      rw [hmx]
      exact b3

/-- C5: inputs with a side beyond 256 are shrunk so that the larger side
becomes exactly 256, both resulting sides are at least 1, and the aspect
ratio is preserved up to one rounding unit (the cross products `nw*h`
and `nh*w` differ by at most `max w h`); inputs within 256 are left
unchanged.  On the octree path the input is brought to at most 128 per
side before ingest (spec-modelled, see `octreeIngestDims`). -/
theorem shrunk_spec (w h : Nat) (hw : 1 ≤ w) (hh : 1 ≤ h) :
    (w ≤ 256 ∧ h ≤ 256 → shrunkDims w h = none) ∧
    (256 < w ∨ 256 < h →
      ∃ nw nh, shrunkDims w h = some (nw, nh) ∧
        max nw nh = 256 ∧ 1 ≤ nw ∧ 1 ≤ nh ∧
        nw * h ≤ nh * w + max w h ∧ nh * w ≤ nw * h + max w h) ∧
    ((octreeIngestDims w h).1 ≤ 128 ∧ (octreeIngestDims w h).2 ≤ 128 ∧
      1 ≤ (octreeIngestDims w h).1 ∧ 1 ≤ (octreeIngestDims w h).2) := by
  refine ⟨?_, ?_, ?_⟩
  · intro ⟨h1, h2⟩
    rw [shrunkDims, if_neg]
    rw [MAX_IMAGE_DIMENSION]
    omega
  · intro hbeyond
    obtain ⟨nw, nh, heq, hrest⟩ := resizedDims_bounds 256 w h (by omega) hw hh
    refine ⟨nw, nh, ?_, hrest⟩
    rw [shrunkDims, if_pos]
    · rw [MAX_IMAGE_DIMENSION, heq]
    · rw [MAX_IMAGE_DIMENSION]; omega
  · rw [octreeIngestDims]
    by_cases hcond : w > 128 ∨ h > 128
    · obtain ⟨nw, nh, heq, h1, h2, h3, -⟩ := resizedDims_bounds 128 w h (by omega) hw hh
      rw [if_pos hcond, heq]
      simp only []
      omega
    · rw [if_neg hcond]
      simp only []
      omega

/-- Closed witness for `shrunk_spec` at a 512×100 input. -/
theorem shrunk_spec_witness :
    (512 ≤ 256 ∧ 100 ≤ 256 → shrunkDims 512 100 = none) ∧
    (256 < 512 ∨ 256 < 100 →
      ∃ nw nh, shrunkDims 512 100 = some (nw, nh) ∧
        max nw nh = 256 ∧ 1 ≤ nw ∧ 1 ≤ nh ∧
        nw * 100 ≤ nh * 512 + max 512 100 ∧ nh * 512 ≤ nw * 100 + max 512 100) ∧
    ((octreeIngestDims 512 100).1 ≤ 128 ∧ (octreeIngestDims 512 100).2 ≤ 128 ∧
      1 ≤ (octreeIngestDims 512 100).1 ∧ 1 ≤ (octreeIngestDims 512 100).2) :=
  shrunk_spec 512 100 (by decide) (by decide)

/-- `true` iff the validation rejected its input. -/
def isError : Except String Nat → Bool
  | .error _ => true
  | .ok _ => false

/-- C6: `validate_k` rejects exactly `K < 1`, and the reduce validation
(`validate_k` plus the spec-modelled Dither/Meld requirement) rejects
exactly when `K < 1`, or `K < 2` in Dither or Meld mode; for `K ≥ 2`
both validations succeed. -/
theorem validate_k_spec (k : Nat) (mode : ReduceMode) :
    (isError (validate_k k) = true ↔ k < 1) ∧
    (isError (reduceValidateK k mode) = true ↔
      (k < 1 ∨ (k < 2 ∧ (mode = .dither ∨ mode = .meld)))) := by
  constructor
  · rw [validate_k]
    by_cases h : k ≥ 1
    · rw [if_pos h]
      simp [isError]
      omega
    · rw [if_neg h]
      simp [isError]
      omega
  · rw [reduceValidateK, validate_k]
    by_cases h : k ≥ 1
    · rw [if_pos h]
      cases mode <;> simp only [isError] <;>
        first
          | (constructor
             · intro hfalse; cases hfalse
             · rintro (h1 | ⟨h1, h2 | h2⟩) <;> first | omega | cases h2)
          | (by_cases h2 : k ≥ 2
             · rw [if_pos h2]; simp [isError]; omega
             · rw [if_neg h2]; simp [isError]; omega)
    · rw [if_neg h]
      simp [isError]
      omega

end KmeansGpu
